import Mathlib

/-!
# Jet selection pipeline of CORE (run 1): a shallow embedding

The development follows `jetSelections.cc`, the `samesign` / `samesign2011`
jet queries, the MC-flavour match, the lepton identification, the
additional-lepton selection and the extra-Z vetoes, the dilepton trigger, the
resolution smearing and the MET rescaling of `ssSelections.cc`,
`isGoodEMObject` of `photonSelections.cc` and the fake-rate lookups,
denominators and MC categories of `fakerates.cc`.

Conventions of the embedding.

* `float` and `double` values are rationals, and arithmetic on them is exact.
  The rounding of `float` is taken into account where it decides a result: in
  the quantities that `photonSelections.cc` computes and compares with a cut
  (`CFloat`), in the smeared momenta of `samesign::smearJETScaleJets` whose
  `pt()` is not a finite number, and in the worked examples that scale a
  momentum in single precision (`P4.float32Ops`).
* ROOT's `LorentzVector` is an arbitrary type `V` with the operations the
  selections use, gathered in `LorentzOps`.
* The ntuple (`cms2`) is a record of parallel lists, `Event`.
* `std::vector::at`, `assert` and invalid memory accesses are results in
  `Except Fault`.
* Code that the sources call but do not contain is a field of `Collab`.
* Library code (`<cmath>`, ROOT's `TRandom3`, `TH2F` and `Polar2D`) is an
  argument of the functions that use it: `Libm`, `TRandom3`, `TH2F`,
  `Polar2DOps`.
-/

namespace CORE

/-! ## Failure, vectors, enumerations -/

/-- How a call can end without returning a value. -/
inductive Fault where
  /-- The accessor `std::vector::at` with an index outside the vector (`std::out_of_range`). -/
  | out_of_range
  /-- A failed `assert`. -/
  | assertion
  /-- A null dereference or an unchecked `operator[]` outside the vector. -/
  | bad_access
  /-- A thrown `std::domain_error`. -/
  | domain_error
  /-- A thrown `std::runtime_error`. -/
  | runtime_error
  deriving DecidableEq, Repr

/-- Outcome of a call: a value or a fault. -/
abbrev Result (α : Type) := Except Fault α

/-- The checked accessor `v.at(i)`. -/
def vat {α : Type} (v : List α) (i : Nat) : Result α :=
  match v[i]? with
  | some x => .ok x
  | none => .error .out_of_range

/-- The unchecked accessor `v[i]`; outside the vector the behaviour is undefined
and the model faults. -/
def vidx {α : Type} (v : List α) (i : Nat) : Result α :=
  match v[i]? with
  | some x => .ok x
  | none => .error .bad_access

/-- The accessor `v.at(i)` with an `int` index: a negative index converts to an
unsigned value beyond any vector. -/
def vatInt {α : Type} (v : List α) (i : Int) : Result α :=
  if i < 0 then .error .out_of_range else vat v i.toNat

/-- The accessor `v[i]` with an `int` index. -/
def vidxInt {α : Type} (v : List α) (i : Int) : Result α :=
  if i < 0 then .error .bad_access else vidx v i.toNat

/-- The `assert(c)` statement. -/
def cassert (c : Bool) : Result Unit :=
  if c then .ok () else .error .assertion

/-- The operations of ROOT's `LorentzVector` and `VectorUtil` used by the
selections: `pt()`, `eta()`, multiplication by a scalar and `DeltaR`. -/
structure LorentzOps (V : Type) where
  pt : V → ℚ
  eta : V → ℚ
  scale : V → ℚ → V
  DeltaR : V → V → ℚ

/-- The algebra of exact four-vectors that the selections rely on: scaling twice
is scaling by the product, `pt` is non-negative and scales with the magnitude
of the factor, and a positive factor leaves `eta` alone. -/
structure LorentzOps.Lawful {V : Type} (K : LorentzOps V) : Prop where
  scale_scale : ∀ (v : V) (a b : ℚ), K.scale (K.scale v a) b = K.scale v (a * b)
  pt_nonneg : ∀ v : V, 0 ≤ K.pt v
  pt_scale : ∀ (v : V) (a : ℚ), K.pt (K.scale v a) = |a| * K.pt v
  eta_scale : ∀ (v : V) (a : ℚ), 0 < a → K.eta (K.scale v a) = K.eta v

/-- The jet collections named in the sources (`enum JetType`). -/
inductive JetType where
  | JETS_TYPE_JPT
  | JETS_TYPE_CALO_CORR
  | JETS_TYPE_CALO_UNCORR
  | JETS_TYPE_PF_CORR
  | JETS_TYPE_PF_UNCORR
  | JETS_TYPE_PF_FAST_CORR
  | JETS_TYPE_PF_FAST_CORR_RESIDUAL
  | JETS_TYPE_GEN
  deriving DecidableEq, Repr

/-- The cleaning modes named in the sources (`enum CleaningType`);
`JETS_CLEAN_UNHANDLED` stands for any enumerator the switch of `getJets_fast`
has no case for. -/
inductive CleaningType where
  | JETS_CLEAN_NONE
  | JETS_CLEAN_HYP_E_MU
  | JETS_CLEAN_HYP_E
  | JETS_CLEAN_SINGLE_E
  | JETS_CLEAN_UNHANDLED
  deriving DecidableEq, Repr

/-- The event record `cms2`, restricted to the branches the modelled functions
read. `haveGEN` is the build switch of the same name. The bit words
`els_fiduciality`, `els_type` and `mus_type` are natural numbers. -/
structure Event (V : Type) where
  jets_p4 : List V := []
  jpts_p4 : List V := []
  pfjets_p4 : List V := []
  genjets_p4 : List V := []
  jets_cor : List ℚ := []
  jpts_cor : List ℚ := []
  pfjets_cor : List ℚ := []
  pfjets_corL1FastL2L3 : List ℚ := []
  pfjets_corL1FastL2L3residual : List ℚ := []
  pfjets_area : List ℚ := []
  jets_emFrac : List ℚ := []
  jets_fHPD : List ℚ := []
  jets_n90Hits : List Int := []
  hyp_lt_p4 : List V := []
  hyp_ll_p4 : List V := []
  hyp_lt_id : List Int := []
  hyp_ll_id : List Int := []
  els_p4 : List V := []
  mus_p4 : List V := []
  evt_ww_rho_vor : ℚ := 0
  evt_isRealData : Bool := false
  haveGEN : Bool := false
  pfjets_mcflavorAlgo : List Int := []
  pfjets_mcflavorPhys : List Int := []
  pfjets_neutralEmE : List ℚ := []
  hyp_lt_index : List Int := []
  hyp_ll_index : List Int := []
  els_charge : List Int := []
  mus_charge : List Int := []
  els_etaSC : List ℚ := []
  els_gsftrkidx : List Int := []
  mus_trkidx : List Int := []
  els_iso03_pf2012ext_ch : List ℚ := []
  els_iso03_pf2012ext_em : List ℚ := []
  els_iso03_pf2012ext_nh : List ℚ := []
  evt_kt6pf_foregiso_rho : ℚ := 0
  photons_p4 : List V := []
  photons_hOverE : List ℚ := []
  photons_scindex : List Int := []
  scs_e1x3 : List ℚ := []
  scs_e3x1 : List ℚ := []
  scs_eMax : List ℚ := []
  els_hOverE : List ℚ := []
  els_fiduciality : List Nat := []
  els_type : List Nat := []
  els_mc_id : List Int := []
  els_mc_motherid : List Int := []
  mus_mc_id : List Int := []
  mus_mc_motherid : List Int := []
  mus_pid_PFMuon : List Int := []
  mus_type : List Nat := []

/-- A `for (i = 0; i < v.size(); ++i)` loop whose body may fault: the bodies are
run in index order, the first fault ends the loop. -/
def forIndexed {α β : Type} (body : Nat → α → Result β) :
    Nat → List α → Result (List β)
  | _, [] => .ok []
  | i, x :: xs =>
    match body i x with
    | .error e => .error e
    | .ok r =>
      match forIndexed body (i + 1) xs with
      | .error e => .error e
      | .ok rs => .ok (r :: rs)

/-- The call `std::sort(first, last, comp)`. The standard leaves the order of
equivalent elements open; the model inserts each element in front of the first
one that does not come strictly before it. -/
def sortInsert {α : Type} (comp : α → α → Bool) (x : α) : List α → List α
  | [] => [x]
  | y :: ys => if comp y x then y :: sortInsert comp x ys else x :: y :: ys

/-- See `sortInsert`. -/
def sort {α : Type} (comp : α → α → Bool) : List α → List α
  | [] => []
  | x :: xs => sortInsert comp x (sort comp xs)

/-! ## jetSelections.cc -/

section jetSelections

variable {V : Type} (K : LorentzOps V) (ev : Event V)

/-- The loop of `passesCaloJetID`: index and distance of the calorimeter jet
nearest to `jetp4`, starting from `jet_idx = -1`, `minDR = 999`. -/
def nearestCaloJet (jetp4 : V) : Nat → List V → Int × ℚ → Int × ℚ
  | _, [], best => best
  | i, c :: cs, best =>
    if K.DeltaR jetp4 c < best.2 then nearestCaloJet jetp4 (i + 1) cs ((i : Int), K.DeltaR jetp4 c)
    else nearestCaloJet jetp4 (i + 1) cs best

/-- The function `passesCaloJetID(jetp4)`. -/
def passesCaloJetID (jetp4 : V) : Result Bool :=
  let jet_idx := (nearestCaloJet K jetp4 0 ev.jets_p4 (-1, 999)).1
  if jet_idx < 0 then .ok false
  else
    (vidx ev.jets_emFrac jet_idx.toNat).bind fun emFrac =>
      if emFrac < 1 / 100 then .ok false
      else
        (vidx ev.jets_fHPD jet_idx.toNat).bind fun fHPD =>
          if fHPD > 98 / 100 then .ok false
          else
            (vidx ev.jets_n90Hits jet_idx.toNat).bind fun n90Hits =>
              if n90Hits < 2 then .ok false else .ok true

/-- The first switch of `getJets_fast`: the collection `jets` points to. A type
without a case leaves the pointer null, and the loop header dereferences it. -/
def jetCollection : JetType → Result (List V)
  | .JETS_TYPE_JPT => .ok ev.jpts_p4
  | .JETS_TYPE_CALO_CORR => .ok ev.jets_p4
  | .JETS_TYPE_CALO_UNCORR => .ok ev.jets_p4
  | .JETS_TYPE_PF_CORR => .ok ev.pfjets_p4
  | .JETS_TYPE_PF_UNCORR => .ok ev.pfjets_p4
  | .JETS_TYPE_GEN => if ev.haveGEN then .ok ev.genjets_p4 else .error .bad_access
  | .JETS_TYPE_PF_FAST_CORR => .error .bad_access
  | .JETS_TYPE_PF_FAST_CORR_RESIDUAL => .error .bad_access

/-- The second switch of `getJets_fast`: the factor `corr` of jet `i`. -/
def jetCorr (type : JetType) (i : Nat) : Result ℚ :=
  match type with
  | .JETS_TYPE_CALO_CORR => vat ev.jets_cor i
  | .JETS_TYPE_PF_CORR => vat ev.pfjets_cor i
  | .JETS_TYPE_JPT => vat ev.jpts_cor i
  | _ => .ok 1

/-- The kinematic stage of `getJets_fast`: neither `pt < min_pt` nor
`fabs(eta) > max_eta` sends the jet to `conti`. -/
def passesKinematics (jet : V) (corr min_pt max_eta : ℚ) : Bool :=
  !decide (K.pt jet * corr < min_pt) && !decide (|K.eta jet| > max_eta)

/-- The third switch of `getJets_fast`: `true` when lepton cleaning sends the
jet to `conti`. -/
def cleaningVeto (i_hyp : Nat) (cleaning : CleaningType) (deltaR : ℚ) (jet : V) : Result Bool :=
  match cleaning with
  | .JETS_CLEAN_NONE => .ok false
  | .JETS_CLEAN_HYP_E_MU =>
    (vat ev.hyp_lt_p4 i_hyp).bind fun lt =>
      if K.DeltaR jet lt < deltaR then .ok true
      else
        (vat ev.hyp_ll_p4 i_hyp).bind fun ll =>
          if K.DeltaR jet ll < deltaR then .ok true else .ok false
  | .JETS_CLEAN_HYP_E =>
    (vat ev.hyp_lt_p4 i_hyp).bind fun lt =>
      (vat ev.hyp_lt_id i_hyp).bind fun lt_id =>
        if lt_id.natAbs = 11 ∧ K.DeltaR jet lt < deltaR then .ok true
        else
          (vat ev.hyp_ll_p4 i_hyp).bind fun ll =>
            (vat ev.hyp_ll_id i_hyp).bind fun ll_id =>
              if ll_id.natAbs = 11 ∧ K.DeltaR jet ll < deltaR then .ok true else .ok false
  | .JETS_CLEAN_SINGLE_E =>
    (vat ev.els_p4 i_hyp).bind fun e =>
      if K.DeltaR jet e < deltaR then .ok true else .ok false
  | .JETS_CLEAN_UNHANDLED => .error .assertion

/-- One turn of the loop of `getJets_fast`: the pair pushed for jet `i`, whose
first component is the jet when it passed and `none` (the null pointer) when it
went to `conti`. -/
def getJets_fast_body (i_hyp : Nat) (type : JetType) (cleaning : CleaningType)
    (deltaR min_pt max_eta : ℚ) (i : Nat) (jet : V) : Result (Option V × ℚ) :=
  (jetCorr ev type i).bind fun corr =>
    if passesKinematics K jet corr min_pt max_eta then
      (cleaningVeto K ev i_hyp cleaning deltaR jet).bind fun veto =>
        if veto then .ok (none, corr)
        else
          (passesCaloJetID K ev jet).bind fun good =>
            if good then .ok (some jet, corr) else .ok (none, corr)
    else .ok (none, corr)

/-- The function `getJets_fast`: one pair per jet of the requested collection. -/
def getJets_fast (i_hyp : Nat) (type : JetType) (cleaning : CleaningType)
    (deltaR min_pt max_eta : ℚ) : Result (List (Option V × ℚ)) :=
  (jetCollection ev type).bind fun jets =>
    forIndexed (getJets_fast_body K ev i_hyp type cleaning deltaR min_pt max_eta) 0 jets

/-- The comparator `jets_pt_gt`. -/
def jets_pt_gt (v1 v2 : V) : Bool := decide (K.pt v1 > K.pt v2)

/-- The loop of `getJets`: the corrected momentum of every pair holding a jet. -/
def correctedJets : List (Option V × ℚ) → List V
  | [] => []
  | (some jet, corr) :: rest => K.scale jet corr :: correctedJets rest
  | (none, _) :: rest => correctedJets rest

/-- The function `getJets` of jetSelections. -/
def getJets (i_hyp : Nat) (sort_ : Bool) (type : JetType) (cleaning : CleaningType)
    (deltaR min_pt max_eta : ℚ) : Result (List V) :=
  (getJets_fast K ev i_hyp type cleaning deltaR min_pt max_eta).bind fun jets =>
    let ret := correctedJets K jets
    if sort_ then .ok (sort (jets_pt_gt K) ret) else .ok ret

/-- The function `getJetFlags` of jetSelections. -/
def getJetFlags (i_hyp : Nat) (type : JetType) (cleaning : CleaningType)
    (deltaR min_pt max_eta : ℚ) : Result (List Bool) :=
  (getJets_fast K ev i_hyp type cleaning deltaR min_pt max_eta).bind fun jets =>
    .ok (jets.map fun p => p.1.isSome)

/-- The loop of `nJets`. -/
def countJets : List (Option V × ℚ) → Int
  | [] => 0
  | (some _, _) :: rest => countJets rest + 1
  | (none, _) :: rest => countJets rest

/-- The function `nJets` of jetSelections. -/
def nJets (i_hyp : Nat) (type : JetType) (cleaning : CleaningType)
    (deltaR min_pt max_eta : ℚ) : Result Int :=
  (getJets_fast K ev i_hyp type cleaning deltaR min_pt max_eta).bind fun jets =>
    .ok (countJets jets)

/-- The loop of `sumPt`, with the running sum `ret`. -/
def sumPtLoop : List (Option V × ℚ) → ℚ → ℚ
  | [], ret => ret
  | (some jet, corr) :: rest, ret => sumPtLoop rest (ret + K.pt jet * corr)
  | (none, _) :: rest, ret => sumPtLoop rest ret

/-- The function `sumPt` of jetSelections. -/
def sumPt (i_hyp : Nat) (type : JetType) (cleaning : CleaningType)
    (deltaR min_pt max_eta : ℚ) : Result ℚ :=
  (getJets_fast K ev i_hyp type cleaning deltaR min_pt max_eta).bind fun jets =>
    .ok (sumPtLoop K jets 0)

end jetSelections

/-! ## Collaborators of ssSelections.cc -/

/-- The isolation working points of the 2011 selections (`enum IsolationType`). -/
inductive IsolationType where
  | DET_ISO
  | COR_DET_ISO
  | TIGHT_DET_ISO
  deriving DecidableEq, Repr

/-- The b-tag operating point (`enum BtagType`), by the value of its enumerator. -/
abbrev BtagType := Int

/-- A `FactorizedJetCorrector`: the four registers written by the setters and
the parameterisation that `getCorrection` evaluates on them. The queries take
the object as they find it and their models return results only, not the
object they leave behind: within one query a register that is read was
either written just before the read or is written nowhere in the query. The
definitions named `_run` return the object as well. -/
structure FactorizedJetCorrector where
  rho : ℚ
  jetA : ℚ
  jetPt : ℚ
  jetEta : ℚ
  correction : ℚ → ℚ → ℚ → ℚ → ℚ

/-- The method `setRho`. -/
def FactorizedJetCorrector.setRho (jc : FactorizedJetCorrector) (x : ℚ) :
    FactorizedJetCorrector :=
  { jc with rho := x }

/-- The method `setJetA`. -/
def FactorizedJetCorrector.setJetA (jc : FactorizedJetCorrector) (x : ℚ) :
    FactorizedJetCorrector :=
  { jc with jetA := x }

/-- The method `setJetPt`. -/
def FactorizedJetCorrector.setJetPt (jc : FactorizedJetCorrector) (x : ℚ) :
    FactorizedJetCorrector :=
  { jc with jetPt := x }

/-- The method `setJetEta`. -/
def FactorizedJetCorrector.setJetEta (jc : FactorizedJetCorrector) (x : ℚ) :
    FactorizedJetCorrector :=
  { jc with jetEta := x }

/-- The method `getCorrection`. -/
def FactorizedJetCorrector.getCorrection (jc : FactorizedJetCorrector) : ℚ :=
  jc.correction jc.rho jc.jetA jc.jetPt jc.jetEta

/-- A `JetCorrectionUncertainty`: the two registers written by the setters and
the table that `getUncertainty(true)` evaluates on them; both registers are
written before every read. -/
structure JetCorrectionUncertainty where
  jetPt : ℚ
  jetEta : ℚ
  uncertainty : ℚ → ℚ → ℚ

/-- The method `setJetPt`. -/
def JetCorrectionUncertainty.setJetPt (ju : JetCorrectionUncertainty) (x : ℚ) :
    JetCorrectionUncertainty :=
  { ju with jetPt := x }

/-- The method `setJetEta`. -/
def JetCorrectionUncertainty.setJetEta (ju : JetCorrectionUncertainty) (x : ℚ) :
    JetCorrectionUncertainty :=
  { ju with jetEta := x }

/-- The method `getUncertainty(true)`. -/
def JetCorrectionUncertainty.getUncertainty (ju : JetCorrectionUncertainty) : ℚ :=
  ju.uncertainty ju.jetPt ju.jetEta

/-- Code that `ssSelections.cc` calls and the sources do not contain, evaluated
on the current event.

* `base_getJets`, `base_getJetFlags`: the `getJets` and `getJetFlags` of the
  jetSelections header that take a rescale and a systematic flag after
  `max_eta`; the flag is `none` where the call site omits it.
* `getJetMetSyst`: the energy-scale shift factor for a flag, a pt and an eta.
* `isGoodLepton`, `isIsolatedLepton`: the identification and isolation
  predicates `samesign::isGoodLepton(id, idx, use_el_eta)` and
  `samesign::isIsolatedLepton(id, idx)`, whose cuts are outside the sources;
  `isGoodLepton2011`, `isIsolatedLepton2011`: the same for
  `samesign2011::isGoodLepton(id, idx)` and
  `samesign2011::isIsolatedLepton(id, idx, iso_type)`.
* `btagDiscriminators`: `getJetBtagDiscriminators(btag_type, type)`, the
  per-jet discriminator table.
* `default_rescale`, `default_systFlag`, `default_use_el_eta`: the values the
  samesign header gives to `rescale`, `systFlag` and `use_el_eta` when a call
  omits them; `default_rescale2011`: the same for `rescale` in namespace
  samesign2011; `default_sort_by_pt`: the same for the `sort_by_pt` of
  `samesign::getJets`. -/
structure Collab (V : Type) where
  base_getJets :
    Nat → Bool → JetType → CleaningType → ℚ → ℚ → ℚ → ℚ → Option Int → Result (List V)
  base_getJetFlags :
    Nat → JetType → CleaningType → ℚ → ℚ → ℚ → ℚ → Option Int → Result (List Bool)
  getJetMetSyst : Int → ℚ → ℚ → ℚ
  isGoodLepton : Int → Nat → Bool → Bool
  isIsolatedLepton : Int → Nat → Bool
  isGoodLepton2011 : Int → Nat → Bool
  isIsolatedLepton2011 : Int → Nat → IsolationType → Bool
  btagDiscriminators : BtagType → JetType → List ℚ
  default_rescale : ℚ
  default_systFlag : Int
  default_use_el_eta : Bool
  default_rescale2011 : ℚ
  default_sort_by_pt : Bool := false

/-- The conversion of an `int` argument to `unsigned int`. -/
def toUnsigned (i : Int) : Nat := (i % 4294967296).toNat

/-! ## ssSelections.cc, namespace samesign -/

namespace samesign

section

variable {V : Type} (K : LorentzOps V) (ev : Event V) (X : Collab V)

/-- The function `samesign::isNumeratorLepton`: identification and isolation. -/
def isNumeratorLepton (id : Int) (idx : Nat) (use_el_eta : Bool) : Bool :=
  X.isGoodLepton id idx use_el_eta && X.isIsolatedLepton id idx

/-- The comparator `SortByPt` on momenta. -/
def SortByPt (lhs rhs : V) : Bool := decide (K.pt lhs > K.pt rhs)

/-- The comparator `SortByPt` on pairs of a momentum and a payload. -/
def SortByPt_pair {β : Type} (lhs rhs : V × β) : Bool := decide (K.pt lhs.1 > K.pt rhs.1)

/-- An overlap loop of the samesign queries, over the leptons of one flavour
from index `i` on: the value `jetIsLep` has when the loop ends. -/
def leptonLoop (isNumerator : Nat → Bool) (vjet : V) (deltaR minpt : ℚ) :
    Nat → List V → Bool
  | _, [] => false
  | i, l :: ls =>
    if K.pt l < minpt then leptonLoop isNumerator vjet deltaR minpt (i + 1) ls
    else if !isNumerator i then leptonLoop isNumerator vjet deltaR minpt (i + 1) ls
    else if K.DeltaR vjet l > deltaR then leptonLoop isNumerator vjet deltaR minpt (i + 1) ls
    else true

/-- The two overlap loops in sequence: `true` when the electron loop or, after
it, the muon loop sets `jetIsLep`. -/
def jetIsLep (vjet : V) (deltaR mu_minpt ele_minpt : ℚ) : Bool :=
  if leptonLoop K (fun eidx => isNumeratorLepton X 11 eidx X.default_use_el_eta) vjet deltaR
      ele_minpt 0 ev.els_p4 then true
  else leptonLoop K (fun midx => isNumeratorLepton X 13 midx X.default_use_el_eta) vjet deltaR
    mu_minpt 0 ev.mus_p4

/-- The stored correction `jet_cor` of particle-flow jet `jidx`: the residual
chain on real data, L1FastL2L3 otherwise. -/
def storedJEC (jidx : Nat) : Result ℚ :=
  if ev.evt_isRealData then vat ev.pfjets_corL1FastL2L3residual jidx
  else vat ev.pfjets_corL1FastL2L3 jidx

/-- The four setters followed by `getCorrection` for particle-flow jet `jidx`. -/
def otfJEC (jet_corrector : FactorizedJetCorrector) (jidx : Nat) : Result ℚ :=
  (vat ev.pfjets_area jidx).bind fun area =>
    (vat ev.pfjets_p4 jidx).bind fun p4 =>
      .ok ((((jet_corrector.setRho ev.evt_ww_rho_vor).setJetA area).setJetPt
        (K.pt p4)).setJetEta (K.eta p4)).getCorrection

/-- The statement `if (systFlag != 0) vjet *= getJetMetSyst(systFlag, pt, eta)`. -/
def applySyst (systFlag : Int) (vjet : V) : V :=
  if systFlag ≠ 0 then K.scale vjet (X.getJetMetSyst systFlag (K.pt vjet) (K.eta vjet)) else vjet

/-- The uncertainty shift of the flag and jet queries: both setters on the
momentum as it is, then `vjet *= 1 + unc * scale_type`. -/
def applyUnc (jet_unc : JetCorrectionUncertainty) (scale_type : Int) (vjet : V) : V :=
  K.scale vjet
    (1 + ((jet_unc.setJetPt (K.pt vjet)).setJetEta (K.eta vjet)).getUncertainty
      * (scale_type : ℚ))

/-- The uncertainty shift of `getAllCorrectedJets`: eta is cut back to
`5.1999` above and `-5.1999` below before it is set. -/
def applyUncClamped (jet_unc : JetCorrectionUncertainty) (scale_type : Int) (vjet : V) : V :=
  K.scale vjet
    (1 + ((jet_unc.setJetPt (K.pt vjet)).setJetEta
      (if K.eta vjet > 0 then min (K.eta vjet) (51999 / 10000)
       else max (K.eta vjet) (-(51999 / 10000)))).getUncertainty * (scale_type : ℚ))

/-! ### getJetFlags -/

/-- Loop body of `getJetFlags` (JEC from the ntuple). -/
def getJetFlags_body (deltaR min_pt mu_minpt ele_minpt rescale : ℚ) (systFlag : Int)
    (jidx : Nat) (flag : Bool) : Result Bool :=
  if !flag then .ok flag
  else
    (storedJEC ev jidx).bind fun jet_cor =>
      (vat ev.pfjets_p4 jidx).bind fun p4 =>
        let vjet := applySyst K X systFlag (K.scale (K.scale p4 jet_cor) rescale)
        if K.pt vjet < min_pt then .ok false
        else if jetIsLep K ev X vjet deltaR mu_minpt ele_minpt then .ok false
        else .ok true

/-- The function `samesign::getJetFlags`, JEC taken from the ntuple. -/
def getJetFlags (idx : Int) (type : JetType) (deltaR min_pt max_eta mu_minpt ele_minpt rescale : ℚ)
    (systFlag : Int) : Result (List Bool) :=
  (X.base_getJetFlags (toUnsigned idx) type .JETS_CLEAN_HYP_E_MU deltaR 0 max_eta rescale
      (some systFlag)).bind fun tmp_jet_flags =>
    forIndexed (getJetFlags_body K ev X deltaR min_pt mu_minpt ele_minpt rescale systFlag) 0
      tmp_jet_flags

/-- Loop body of `getJetFlags` (JEC applied on the fly). -/
def getJetFlags_otf_body (jet_corrector : FactorizedJetCorrector) (min_pt rescale : ℚ)
    (systFlag : Int) (jidx : Nat) (flag : Bool) : Result Bool :=
  if !flag then .ok flag
  else
    (otfJEC K ev jet_corrector jidx).bind fun jet_cor =>
      (vat ev.pfjets_p4 jidx).bind fun p4 =>
        let vjet := applySyst K X systFlag (K.scale (K.scale p4 jet_cor) rescale)
        if K.pt vjet < min_pt then .ok false else .ok true

/-- The function `samesign::getJetFlags`, JEC applied on the fly. -/
def getJetFlags_otf (idx : Int) (jet_corrector : FactorizedJetCorrector) (type : JetType)
    (deltaR min_pt max_eta mu_minpt ele_minpt rescale : ℚ) (systFlag : Int) :
    Result (List Bool) :=
  (getJetFlags K ev X idx type deltaR 0 max_eta mu_minpt ele_minpt rescale systFlag).bind
    fun tmp_jet_flags =>
      (cassert (tmp_jet_flags.length == ev.pfjets_p4.length)).bind fun _ =>
        forIndexed (getJetFlags_otf_body K ev X jet_corrector min_pt rescale systFlag) 0
          tmp_jet_flags

/-- Loop body of `getJetFlags` (JEC uncertainty applied on the fly). -/
def getJetFlags_unc_body (jet_unc : JetCorrectionUncertainty) (scale_type : Int) (min_pt : ℚ)
    (jidx : Nat) (flag : Bool) : Result Bool :=
  if !flag then .ok flag
  else
    (storedJEC ev jidx).bind fun jet_cor =>
      (vat ev.pfjets_p4 jidx).bind fun p4 =>
        let vjet := applyUnc K jet_unc scale_type (K.scale p4 jet_cor)
        if K.pt vjet < min_pt then .ok false else .ok true

/-- The function `samesign::getJetFlags`, JEC uncertainty applied on the fly. -/
def getJetFlags_unc (idx : Int) (jet_unc : JetCorrectionUncertainty) (scale_type : Int)
    (type : JetType) (deltaR min_pt max_eta mu_minpt ele_minpt : ℚ) : Result (List Bool) :=
  (getJetFlags K ev X idx type deltaR 0 max_eta mu_minpt ele_minpt X.default_rescale
      X.default_systFlag).bind fun tmp_jet_flags =>
    (cassert (tmp_jet_flags.length == ev.pfjets_p4.length)).bind fun _ =>
      forIndexed (getJetFlags_unc_body K ev jet_unc scale_type min_pt) 0 tmp_jet_flags

/-- Loop body of `getJetFlags` (JEC and JEC uncertainty applied on the fly). -/
def getJetFlags_otf_unc_body (jet_corrector : FactorizedJetCorrector)
    (jet_unc : JetCorrectionUncertainty) (scale_type : Int) (min_pt : ℚ)
    (jidx : Nat) (flag : Bool) : Result Bool :=
  if !flag then .ok flag
  else
    (otfJEC K ev jet_corrector jidx).bind fun jet_cor =>
      (vat ev.pfjets_p4 jidx).bind fun p4 =>
        let vjet := applyUnc K jet_unc scale_type (K.scale p4 jet_cor)
        if K.pt vjet < min_pt then .ok false else .ok true

/-- The function `samesign::getJetFlags`, JEC and JEC uncertainty applied on the fly. -/
def getJetFlags_otf_unc (idx : Int) (jet_corrector : FactorizedJetCorrector)
    (jet_unc : JetCorrectionUncertainty) (scale_type : Int) (type : JetType)
    (deltaR min_pt max_eta mu_minpt ele_minpt : ℚ) : Result (List Bool) :=
  (getJetFlags K ev X idx type deltaR 0 max_eta mu_minpt ele_minpt X.default_rescale
      X.default_systFlag).bind fun tmp_jet_flags =>
    (cassert (tmp_jet_flags.length == ev.pfjets_p4.length)).bind fun _ =>
      forIndexed (getJetFlags_otf_unc_body K ev jet_corrector jet_unc scale_type min_pt) 0
        tmp_jet_flags

/-! ### getJets -/

/-- The function `samesign::getJets`, JEC taken from the ntuple. -/
def getJets (idx : Int) (type : JetType) (deltaR min_pt max_eta mu_minpt ele_minpt rescale : ℚ)
    (systFlag : Int) (sort_by_pt : Bool) : Result (List V) :=
  (X.base_getJets (toUnsigned idx) sort_by_pt type .JETS_CLEAN_HYP_E_MU deltaR 0 max_eta rescale
      (some systFlag)).bind fun tmp_jets =>
    let final_jets := tmp_jets.filter fun vjet =>
      !decide (K.pt vjet < min_pt) && !jetIsLep K ev X vjet deltaR mu_minpt ele_minpt
    if sort_by_pt then .ok (sort (SortByPt K) final_jets) else .ok final_jets

/-- The guard of `getJets` with a corrector: the four particle-flow types. -/
def isParticleFlow (type : JetType) : Bool :=
  !(type != .JETS_TYPE_PF_FAST_CORR_RESIDUAL && type != .JETS_TYPE_PF_FAST_CORR
    && type != .JETS_TYPE_PF_CORR && type != .JETS_TYPE_PF_UNCORR)

/-- Loop body of `getJets` (JEC applied on the fly): the momentum pushed for
jet `jidx`, `none` when the turn ends in `continue`. -/
def getJets_otf_body (jet_corrector : FactorizedJetCorrector) (min_pt rescale : ℚ)
    (systFlag : Int) (jidx : Nat) (flag : Bool) : Result (Option V) :=
  if !flag then .ok none
  else
    (vat ev.pfjets_p4 jidx).bind fun p4 =>
      (otfJEC K ev jet_corrector jidx).bind fun jet_cor =>
        let vjet := applySyst K X systFlag (K.scale p4 (jet_cor * rescale))
        if K.pt vjet < min_pt then .ok none else .ok (some vjet)

/-- The function `samesign::getJets`, JEC applied on the fly. -/
def getJets_otf (idx : Int) (jet_corrector : FactorizedJetCorrector) (type : JetType)
    (deltaR min_pt max_eta mu_minpt ele_minpt rescale : ℚ) (systFlag : Int) (sort_by_pt : Bool) :
    Result (List V) :=
  if !isParticleFlow type then .ok []
  else
    (getJetFlags K ev X idx type deltaR 0 max_eta mu_minpt ele_minpt rescale systFlag).bind
      fun tmp_jet_flags =>
        (forIndexed (getJets_otf_body K ev X jet_corrector min_pt rescale systFlag) 0
          tmp_jet_flags).bind fun pushed =>
          let final_jets := pushed.reduceOption
          if sort_by_pt then .ok (sort (SortByPt K) final_jets) else .ok final_jets

/-- Loop body of `getJets` (JEC uncertainty applied on the fly). -/
def getJets_unc_body (jet_unc : JetCorrectionUncertainty) (scale_type : Int) (min_pt : ℚ)
    (jidx : Nat) (flag : Bool) : Result (Option V) :=
  if !flag then .ok none
  else
    (storedJEC ev jidx).bind fun jet_cor =>
      (vat ev.pfjets_p4 jidx).bind fun p4 =>
        let vjet := applyUnc K jet_unc scale_type (K.scale p4 jet_cor)
        if K.pt vjet < min_pt then .ok none else .ok (some vjet)

/-- The function `samesign::getJets`, JEC uncertainty applied on the fly. -/
def getJets_unc (idx : Int) (jet_unc : JetCorrectionUncertainty) (scale_type : Int)
    (type : JetType) (deltaR min_pt max_eta mu_minpt ele_minpt : ℚ) (sort_by_pt : Bool) :
    Result (List V) :=
  (getJetFlags K ev X idx type deltaR 0 max_eta mu_minpt ele_minpt X.default_rescale
      X.default_systFlag).bind fun tmp_jet_flags =>
    (forIndexed (getJets_unc_body K ev jet_unc scale_type min_pt) 0 tmp_jet_flags).bind
      fun pushed =>
        let final_jets := pushed.reduceOption
        if sort_by_pt then .ok (sort (SortByPt K) final_jets) else .ok final_jets

/-- Loop body of `getJets` (JEC and JEC uncertainty applied on the fly). -/
def getJets_otf_unc_body (jet_corrector : FactorizedJetCorrector)
    (jet_unc : JetCorrectionUncertainty) (scale_type : Int) (min_pt : ℚ)
    (jidx : Nat) (flag : Bool) : Result (Option V) :=
  if !flag then .ok none
  else
    (otfJEC K ev jet_corrector jidx).bind fun jet_cor =>
      (vat ev.pfjets_p4 jidx).bind fun p4 =>
        let vjet := applyUnc K jet_unc scale_type (K.scale p4 jet_cor)
        if K.pt vjet < min_pt then .ok none else .ok (some vjet)

/-- The function `samesign::getJets`, JEC and JEC uncertainty applied on the fly. -/
def getJets_otf_unc (idx : Int) (jet_corrector : FactorizedJetCorrector)
    (jet_unc : JetCorrectionUncertainty) (scale_type : Int) (type : JetType)
    (deltaR min_pt max_eta mu_minpt ele_minpt : ℚ) (sort_by_pt : Bool) : Result (List V) :=
  (getJetFlags K ev X idx type deltaR 0 max_eta mu_minpt ele_minpt X.default_rescale
      X.default_systFlag).bind fun tmp_jet_flags =>
    (forIndexed (getJets_otf_unc_body K ev jet_corrector jet_unc scale_type min_pt) 0
      tmp_jet_flags).bind fun pushed =>
        let final_jets := pushed.reduceOption
        if sort_by_pt then .ok (sort (SortByPt K) final_jets) else .ok final_jets

/-! ### getAllCorrectedJets

The arguments `type` and `sort_by_pt` are accepted and never read. -/

/-- Loop body of `getAllCorrectedJets` (JEC from the ntuple). -/
def getAllCorrectedJets_body (systFlag : Int) (jidx : Nat) (p4 : V) : Result V :=
  (storedJEC ev jidx).bind fun jet_cor =>
    .ok (applySyst K X systFlag (K.scale p4 jet_cor))

/-- The function `samesign::getAllCorrectedJets`, JEC taken from the ntuple. -/
def getAllCorrectedJets (_type : JetType) (systFlag : Int) (_sort_by_pt : Bool) :
    Result (List V) :=
  forIndexed (getAllCorrectedJets_body K ev X systFlag) 0 ev.pfjets_p4

/-- Loop body of `getAllCorrectedJets` (JEC applied on the fly). -/
def getAllCorrectedJets_otf_body (jet_corrector : FactorizedJetCorrector) (systFlag : Int)
    (jidx : Nat) (p4 : V) : Result V :=
  (otfJEC K ev jet_corrector jidx).bind fun jet_cor =>
    .ok (applySyst K X systFlag (K.scale p4 jet_cor))

/-- The function `samesign::getAllCorrectedJets`, JEC applied on the fly. -/
def getAllCorrectedJets_otf (_type : JetType) (jet_corrector : FactorizedJetCorrector)
    (systFlag : Int) (_sort_by_pt : Bool) : Result (List V) :=
  forIndexed (getAllCorrectedJets_otf_body K ev X jet_corrector systFlag) 0 ev.pfjets_p4

/-- Loop body of `getAllCorrectedJets` (JEC uncertainty applied on the fly). -/
def getAllCorrectedJets_unc_body (jet_unc : JetCorrectionUncertainty) (scale_type : Int)
    (jidx : Nat) (p4 : V) : Result V :=
  (storedJEC ev jidx).bind fun jet_cor =>
    .ok (applyUncClamped K jet_unc scale_type (K.scale p4 jet_cor))

/-- The function `samesign::getAllCorrectedJets`, JEC uncertainty applied on the fly. -/
def getAllCorrectedJets_unc (_type : JetType) (jet_unc : JetCorrectionUncertainty)
    (scale_type : Int) (_sort_by_pt : Bool) : Result (List V) :=
  forIndexed (getAllCorrectedJets_unc_body K ev jet_unc scale_type) 0 ev.pfjets_p4

/-- Loop body of `getAllCorrectedJets` (JEC and JEC uncertainty on the fly). -/
def getAllCorrectedJets_otf_unc_body (jet_corrector : FactorizedJetCorrector)
    (jet_unc : JetCorrectionUncertainty) (scale_type : Int) (jidx : Nat) (p4 : V) : Result V :=
  (otfJEC K ev jet_corrector jidx).bind fun jet_cor =>
    .ok (applyUncClamped K jet_unc scale_type (K.scale p4 jet_cor))

/-- The function `samesign::getAllCorrectedJets`, JEC and JEC uncertainty applied on the fly. -/
def getAllCorrectedJets_otf_unc (_type : JetType) (jet_corrector : FactorizedJetCorrector)
    (jet_unc : JetCorrectionUncertainty) (scale_type : Int) (_sort_by_pt : Bool) :
    Result (List V) :=
  forIndexed (getAllCorrectedJets_otf_unc_body K ev jet_corrector jet_unc scale_type) 0
    ev.pfjets_p4

/-! ### getJetBtagDiscriminators -/

/-- Loop body of the sorted branch: the pair pushed for jet `jidx`, `none` when
its flag is false. -/
def pairBody (tmp_jet_p4s : List V) (tmp_btag_disc : List ℚ) (jidx : Nat) (flag : Bool) :
    Result (Option (V × ℚ)) :=
  if !flag then .ok none
  else
    (vat tmp_jet_p4s jidx).bind fun p4 =>
      (vat tmp_btag_disc jidx).bind fun d => .ok (some (p4, d))

/-- Loop body of the unsorted branch: the discriminator pushed for jet `jidx`. -/
def discBody (tmp_btag_disc : List ℚ) (jidx : Nat) (flag : Bool) : Result (Option ℚ) :=
  if !flag then .ok none
  else (vat tmp_btag_disc jidx).bind fun d => .ok (some d)

/-- The part of `getJetBtagDiscriminators` that its four variants share, from
the first `assert` on. -/
def discriminatorsOf (tmp_jet_p4s : List V) (tmp_jet_flags : List Bool) (tmp_btag_disc : List ℚ)
    (sort_by_pt : Bool) : Result (List ℚ) :=
  (cassert (tmp_jet_p4s.length == tmp_jet_flags.length)).bind fun _ =>
    (cassert (tmp_jet_flags.length == tmp_btag_disc.length)).bind fun _ =>
      if sort_by_pt then
        (forIndexed (pairBody tmp_jet_p4s tmp_btag_disc) 0 tmp_jet_flags).bind fun pushed =>
          .ok ((sort (SortByPt_pair K) pushed.reduceOption).map Prod.snd)
      else
        (forIndexed (discBody tmp_btag_disc) 0 tmp_jet_flags).bind fun pushed =>
          .ok pushed.reduceOption

/-- The function `samesign::getJetBtagDiscriminators`, JEC taken from the ntuple. -/
def getJetBtagDiscriminators (idx : Int) (type : JetType) (btag_type : BtagType)
    (deltaR min_pt max_eta mu_minpt ele_minpt rescale : ℚ) (systFlag : Int) (sort_by_pt : Bool) :
    Result (List ℚ) :=
  (getAllCorrectedJets K ev X type systFlag false).bind fun tmp_jet_p4s =>
    (getJetFlags K ev X idx type deltaR min_pt max_eta mu_minpt ele_minpt rescale systFlag).bind
      fun tmp_jet_flags =>
        discriminatorsOf K tmp_jet_p4s tmp_jet_flags (X.btagDiscriminators btag_type type)
          sort_by_pt

/-- The function `samesign::getJetBtagDiscriminators`, JEC applied on the fly. -/
def getJetBtagDiscriminators_otf (idx : Int) (jet_corrector : FactorizedJetCorrector)
    (type : JetType) (btag_type : BtagType)
    (deltaR min_pt max_eta mu_minpt ele_minpt rescale : ℚ) (systFlag : Int) (sort_by_pt : Bool) :
    Result (List ℚ) :=
  (getAllCorrectedJets_otf K ev X type jet_corrector systFlag false).bind fun tmp_jet_p4s =>
    (getJetFlags_otf K ev X idx jet_corrector type deltaR min_pt max_eta mu_minpt ele_minpt
        rescale systFlag).bind fun tmp_jet_flags =>
      discriminatorsOf K tmp_jet_p4s tmp_jet_flags (X.btagDiscriminators btag_type type)
        sort_by_pt

/-- The function `samesign::getJetBtagDiscriminators`, JEC uncertainty applied on the fly. -/
def getJetBtagDiscriminators_unc (idx : Int) (jet_unc : JetCorrectionUncertainty)
    (scale_type : Int) (type : JetType) (btag_type : BtagType)
    (deltaR min_pt max_eta mu_minpt ele_minpt : ℚ) (sort_by_pt : Bool) : Result (List ℚ) :=
  (getAllCorrectedJets_unc K ev type jet_unc scale_type false).bind fun tmp_jet_p4s =>
    (getJetFlags_unc K ev X idx jet_unc scale_type type deltaR min_pt max_eta mu_minpt
        ele_minpt).bind fun tmp_jet_flags =>
      discriminatorsOf K tmp_jet_p4s tmp_jet_flags (X.btagDiscriminators btag_type type)
        sort_by_pt

/-- The function `samesign::getJetBtagDiscriminators`, JEC and JEC uncertainty on the fly. -/
def getJetBtagDiscriminators_otf_unc (idx : Int) (jet_corrector : FactorizedJetCorrector)
    (jet_unc : JetCorrectionUncertainty) (scale_type : Int) (type : JetType)
    (btag_type : BtagType) (deltaR min_pt max_eta mu_minpt ele_minpt : ℚ) (sort_by_pt : Bool) :
    Result (List ℚ) :=
  (getAllCorrectedJets_otf_unc K ev type jet_corrector jet_unc scale_type false).bind
    fun tmp_jet_p4s =>
      (getJetFlags_otf_unc K ev X idx jet_corrector jet_unc scale_type type deltaR min_pt
          max_eta mu_minpt ele_minpt).bind fun tmp_jet_flags =>
        discriminatorsOf K tmp_jet_p4s tmp_jet_flags (X.btagDiscriminators btag_type type)
          sort_by_pt

end

end samesign

/-! ## ssSelections.cc, namespace samesign2011 -/

/-- The function `jetCorrection(jet, jetCorrector)` of jetSelections: only pt and eta are set
before the correction is read. -/
def jetCorrection {V : Type} (K : LorentzOps V) (jet : V) (jetCorrector : FactorizedJetCorrector) :
    ℚ :=
  ((jetCorrector.setJetPt (K.pt jet)).setJetEta (K.eta jet)).getCorrection

namespace samesign2011

section

variable {V : Type} (K : LorentzOps V) (ev : Event V) (X : Collab V)

/-- The function `samesign2011::isNumeratorLepton`: identification and
isolation. -/
def isNumeratorLepton (id : Int) (idx : Nat) (iso_type : IsolationType) : Bool :=
  X.isGoodLepton2011 id idx && X.isIsolatedLepton2011 id idx iso_type

/-- The two overlap loops of the 2011 queries in sequence. -/
def jetIsLep (iso_type : IsolationType) (vjet : V) (deltaR mu_minpt ele_minpt : ℚ) : Bool :=
  if samesign.leptonLoop K (fun eidx => isNumeratorLepton X 11 eidx iso_type) vjet deltaR
      ele_minpt 0 ev.els_p4 then true
  else samesign.leptonLoop K (fun midx => isNumeratorLepton X 13 midx iso_type) vjet deltaR
    mu_minpt 0 ev.mus_p4

/-- The function `samesign2011::getJets`, JEC taken from the ntuple. -/
def getJets (idx : Int) (type : JetType) (deltaR min_pt max_eta mu_minpt ele_minpt : ℚ)
    (iso_type : IsolationType) (rescale : ℚ) : Result (List V) :=
  (X.base_getJets (toUnsigned idx) true type .JETS_CLEAN_HYP_E_MU deltaR 0 max_eta rescale
      none).bind fun tmp_jets =>
    .ok (sort (samesign.SortByPt K) (tmp_jets.filter fun vjet =>
      !decide (K.pt vjet < min_pt) && !jetIsLep K ev X iso_type vjet deltaR mu_minpt ele_minpt))

/-- Loop body of `samesign2011::getJetFlags` (JEC from the ntuple). -/
def getJetFlags_body (deltaR min_pt mu_minpt ele_minpt : ℚ) (iso_type : IsolationType)
    (rescale : ℚ) (jidx : Nat) (flag : Bool) : Result Bool :=
  if !flag then .ok flag
  else
    (vat ev.pfjets_p4 jidx).bind fun p4 =>
      (vat ev.pfjets_corL1FastL2L3 jidx).bind fun cor =>
        let vjet := K.scale (K.scale p4 cor) rescale
        if K.pt vjet < min_pt then .ok false
        else if jetIsLep K ev X iso_type vjet deltaR mu_minpt ele_minpt then .ok false
        else .ok true

/-- The function `samesign2011::getJetFlags`, JEC taken from the ntuple. -/
def getJetFlags (idx : Int) (type : JetType) (deltaR min_pt max_eta mu_minpt ele_minpt : ℚ)
    (iso_type : IsolationType) (rescale : ℚ) : Result (List Bool) :=
  (X.base_getJetFlags (toUnsigned idx) type .JETS_CLEAN_HYP_E_MU deltaR 0 max_eta rescale
      none).bind fun tmp_jet_flags =>
    forIndexed (getJetFlags_body K ev X deltaR min_pt mu_minpt ele_minpt iso_type rescale) 0
      tmp_jet_flags

/-- Loop body of `samesign2011::getJetFlags` with a corrector: the momentum is
read from `tmp_jets` at the position of the flag. -/
def getJetFlags_otf_body (jet_corrector : FactorizedJetCorrector) (tmp_jets : List V)
    (min_pt rescale : ℚ) (jidx : Nat) (flag : Bool) : Result Bool :=
  if !flag then .ok flag
  else
    (vat tmp_jets jidx).bind fun vjet0 =>
      let vjet := K.scale vjet0 (jetCorrection K vjet0 jet_corrector * rescale)
      if K.pt vjet < min_pt then .ok false else .ok true

/-- The function `samesign2011::getJetFlags` with an on-the-fly corrector. -/
def getJetFlags_otf (idx : Int) (jet_corrector : FactorizedJetCorrector) (type : JetType)
    (deltaR min_pt max_eta mu_minpt ele_minpt : ℚ) (iso_type : IsolationType) (rescale : ℚ) :
    Result (List Bool) :=
  (getJetFlags K ev X idx type deltaR 0 max_eta mu_minpt ele_minpt iso_type
      X.default_rescale2011).bind fun tmp_jet_flags =>
    (getJets K ev X idx type deltaR 0 max_eta mu_minpt ele_minpt iso_type
        X.default_rescale2011).bind fun tmp_jets =>
      forIndexed (getJetFlags_otf_body K jet_corrector tmp_jets min_pt rescale) 0 tmp_jet_flags

end

end samesign2011

/-! ## ssSelections.cc: MC flavour of the selected jets -/

/-- The pairing loop of `getJetMcAlgoMatch` and `getJetMcPhysMatch`, from flag
`jidx` on with `good_jidx` momenta already paired: a true flag pairs
`jets_p4.at(good_jidx)` with entry `jidx` of the flavour table. -/
def mcMatchLoop {V : Type} (jets_p4 : List V) (table : List Int) :
    Nat → Nat → List Bool → Result (List (V × Int))
  | _, _, [] => .ok []
  | jidx, good_jidx, flag :: flags =>
    if !flag then mcMatchLoop jets_p4 table (jidx + 1) good_jidx flags
    else
      (vat jets_p4 good_jidx).bind fun p4 =>
        (vat table jidx).bind fun m =>
          (mcMatchLoop jets_p4 table (jidx + 1) (good_jidx + 1) flags).bind fun rest =>
            .ok ((p4, m) :: rest)

/-- The body that `getJetMcAlgoMatch` and `getJetMcPhysMatch` share, for the
flavour table each of them reads: the size test, the pairing loop, the optional
sort and the projection on the labels. -/
def mcMatchOf {V : Type} (K : LorentzOps V) (table : List Int) (jets_p4 : List V)
    (jets_flag : List Bool) (sort_by_pt : Bool) : Result (List Int) :=
  if jets_flag.length ≠ table.length then .error .runtime_error
  else
    (mcMatchLoop jets_p4 table 0 0 jets_flag).bind fun tmp_p4_match =>
      if sort_by_pt then .ok ((sort (samesign.SortByPt_pair K) tmp_p4_match).map Prod.snd)
      else .ok (tmp_p4_match.map Prod.snd)

/-- The function `getJetMcAlgoMatch(jets_p4, jets_flag, sort_by_pt)`. -/
def getJetMcAlgoMatch {V : Type} (K : LorentzOps V) (ev : Event V) (jets_p4 : List V)
    (jets_flag : List Bool) (sort_by_pt : Bool) : Result (List Int) :=
  mcMatchOf K ev.pfjets_mcflavorAlgo jets_p4 jets_flag sort_by_pt

/-- The function `getJetMcPhysMatch(jets_p4, jets_flag, sort_by_pt)`. -/
def getJetMcPhysMatch {V : Type} (K : LorentzOps V) (ev : Event V) (jets_p4 : List V)
    (jets_flag : List Bool) (sort_by_pt : Bool) : Result (List Int) :=
  mcMatchOf K ev.pfjets_mcflavorPhys jets_p4 jets_flag sort_by_pt

/-- The function `samesign::getJetMcAlgoMatch`, JEC taken from the ntuple. -/
def samesign.getJetMcAlgoMatch {V : Type} (K : LorentzOps V) (ev : Event V) (X : Collab V)
    (idx : Int) (type : JetType) (deltaR min_pt max_eta mu_minpt ele_minpt rescale : ℚ)
    (systFlag : Int) (sort_by_pt : Bool) : Result (List Int) :=
  (samesign.getJets K ev X idx type deltaR min_pt max_eta mu_minpt ele_minpt rescale systFlag
      false).bind fun tmp_jets_p4 =>
    (samesign.getJetFlags K ev X idx type deltaR min_pt max_eta mu_minpt ele_minpt rescale
        systFlag).bind fun tmp_jets_flag =>
      CORE.getJetMcAlgoMatch K ev tmp_jets_p4 tmp_jets_flag sort_by_pt

/-! ## ssSelections.cc: additional leptons -/

/-- Code of the lepton identification that `ssSelections.cc` calls and the
sources do not contain, evaluated on the current event; each is taken to return
a value for every index.

* `passes_muid_wp2012`: the muon identification at `mu2012_tightness::TIGHT`.
* `muonIsoValuePF2012_deltaBeta`: the muon isolation value.
* `firstGoodVertex`: the index of the first good vertex, negative when there is
  none.
* `trks_d0_pv`, `gsftrks_d0_pv`: the first component of the impact parameter of
  a track and of a GSF track with respect to a vertex.
* `fastJetEffArea03_v2`: the effective area for a supercluster `|eta|`.
* `electronId_WP2012_noIso_useElEtaForIsEB`, `electronId_WP2012_v3`: the
  identification bits at working point `LOOSE`;
  `PassWP2012CutsNoIso`: the mask they are compared with. -/
structure LeptonCollab where
  passes_muid_wp2012 : Int → Bool
  muonIsoValuePF2012_deltaBeta : Int → ℚ
  firstGoodVertex : Int
  trks_d0_pv : Int → Int → ℚ
  gsftrks_d0_pv : Int → Int → ℚ
  fastJetEffArea03_v2 : ℚ → ℚ
  electronId_WP2012_noIso_useElEtaForIsEB : Int → Nat
  electronId_WP2012_v3 : Int → Nat
  PassWP2012CutsNoIso : Nat

section leptons

variable {V : Type} (K : LorentzOps V) (ev : Event V) (L : LeptonCollab)

/-- The function `samesign::leptonD0`. -/
def samesign.leptonD0 (id idx : Int) : Result ℚ :=
  let vtxidx := L.firstGoodVertex
  if vtxidx < 0 then .ok 999999
  else if id.natAbs = 13 then
    (vatInt ev.mus_trkidx idx).bind fun trkidx =>
      if trkidx ≥ 0 then .ok (L.trks_d0_pv trkidx vtxidx) else .ok (-999999)
  else if id.natAbs = 11 then
    (vatInt ev.els_gsftrkidx idx).bind fun gsfidx =>
      if gsfidx ≥ 0 then .ok (L.gsftrks_d0_pv gsfidx vtxidx) else .ok (-999999)
  else .ok (-999999)

/-- The function `samesign::EffectiveArea03`. -/
def samesign.EffectiveArea03 (id idx : Int) : Result ℚ :=
  if id.natAbs ≠ 11 then .ok (-999990)
  else (vatInt ev.els_etaSC idx).bind fun etaSC => .ok (L.fastJetEffArea03_v2 |etaSC|)

/-- The function `samesign::electronIsolationPF2012_cone03`, which
`samesign::electronIsolationPF2012` returns, built without `SS_USE_OLD_ISO`. -/
def samesign.electronIsolationPF2012 (idx : Int) : Result ℚ :=
  (vatInt ev.els_p4 idx).bind fun p4 =>
    (samesign.EffectiveArea03 ev L 11 idx).bind fun AEff =>
      (vatInt ev.els_iso03_pf2012ext_ch idx).bind fun pfiso_ch =>
        (vatInt ev.els_iso03_pf2012ext_em idx).bind fun pfiso_em =>
          (vatInt ev.els_iso03_pf2012ext_nh idx).bind fun pfiso_nh =>
            let rhoPrime := max ev.evt_kt6pf_foregiso_rho 0
            let pfiso_n := max (pfiso_em + pfiso_nh - rhoPrime * AEff) 0
            .ok ((pfiso_ch + pfiso_n) / K.pt p4)

/-- The function `samesign::leptonIsolation`. -/
def samesign.leptonIsolation (id idx : Int) : Result ℚ :=
  if id.natAbs = 11 then samesign.electronIsolationPF2012 K ev L idx
  else if id.natAbs = 13 then .ok (L.muonIsoValuePF2012_deltaBeta idx)
  else .ok (-999999)

/-- The function `passes3rdMuonSelection`. -/
def passes3rdMuonSelection (mu_idx : Int) (min_lep_pt : ℚ) : Result Bool :=
  if mu_idx < 0 then .error .domain_error
  else
    (vatInt ev.mus_p4 mu_idx).bind fun p4 =>
      if |K.eta p4| > 12 / 5 then .ok false
      else if |K.pt p4| < min_lep_pt then .ok false
      else if !L.passes_muid_wp2012 mu_idx then .ok false
      else
        (samesign.leptonIsolation K ev L 13 mu_idx).bind fun iso =>
          if iso > 3 / 20 then .ok false
          else
            (samesign.leptonD0 ev L 13 mu_idx).bind fun d0 =>
              if |d0| > 1 / 50 then .ok false else .ok true

/-- The function `passes3rdElectronSelectionNoOverlapRemoval`. -/
def passes3rdElectronSelectionNoOverlapRemoval (el_idx : Int) (min_lep_pt : ℚ)
    (use_el_eta : Bool) : Result Bool :=
  if el_idx < 0 then .error .domain_error
  else
    let wp2012_loose_bits :=
      if use_el_eta then L.electronId_WP2012_noIso_useElEtaForIsEB el_idx
      else L.electronId_WP2012_v3 el_idx
    if wp2012_loose_bits &&& L.PassWP2012CutsNoIso ≠ L.PassWP2012CutsNoIso then .ok false
    else
      (vatInt ev.els_p4 el_idx).bind fun p4 =>
        if |K.eta p4| > 12 / 5 then .ok false
        else if |K.pt p4| < min_lep_pt then .ok false
        else
          (vatInt ev.els_etaSC el_idx).bind fun etaSC =>
            if 7221 / 5000 < |etaSC| ∧ |etaSC| < 783 / 500 then .ok false
            else
              (samesign.leptonIsolation K ev L 11 el_idx).bind fun iso =>
                if iso > 3 / 20 then .ok false else .ok true

/-- The loop of `electronOverlapsMuon` from muon `midx` on: `true` as soon as a
muon outside `mu_indices` passes the 3rd muon selection at `min_pt = 10` within
`DeltaR < 0.1` of the electron. -/
def electronOverlapsMuonLoop (el_p4 : V) (mu_indices : List Nat) : Nat → List V → Result Bool
  | _, [] => .ok false
  | midx, mu_p4 :: rest =>
    if midx ∈ mu_indices then electronOverlapsMuonLoop el_p4 mu_indices (midx + 1) rest
    else
      (passes3rdMuonSelection K ev L (midx : Int) 10).bind fun pass =>
        if !pass then electronOverlapsMuonLoop el_p4 mu_indices (midx + 1) rest
        else if K.DeltaR el_p4 mu_p4 < 1 / 10 then .ok true
        else electronOverlapsMuonLoop el_p4 mu_indices (midx + 1) rest

/-- The function `electronOverlapsMuon`. -/
def electronOverlapsMuon (el_p4 : V) (mu_indices : List Nat) : Result Bool :=
  electronOverlapsMuonLoop K ev L el_p4 mu_indices 0 ev.mus_p4

/-- The function `passes3rdLeptonSelection`. -/
def passes3rdLeptonSelection (lep_id lep_idx : Int) (min_lep_pt : ℚ) (mu_indices : List Nat) :
    Result Bool :=
  if lep_idx < 0 then .error .domain_error
  else
    let muonPart : Result Bool :=
      if lep_id.natAbs = 13 then
        (passes3rdMuonSelection K ev L lep_idx min_lep_pt).bind fun pass =>
          if !pass then .ok false else .ok true
      else .ok true
    if lep_id.natAbs = 11 then
      (passes3rdElectronSelectionNoOverlapRemoval K ev L lep_idx min_lep_pt false).bind fun pass =>
        if !pass then .ok false
        else
          (vatInt ev.els_p4 lep_idx).bind fun el_p4 =>
            (electronOverlapsMuon K ev L el_p4 mu_indices).bind fun overlaps =>
              if overlaps then .ok false else muonPart
    else muonPart

/-- Loop body of the electron loop of `samesign::additionalLeptons`: the pair
pushed for electron `eidx`, `none` when the electron is skipped. -/
def samesign.additionalElectron (min_lep_pt : ℚ) (el_indices mu_indices : List Nat)
    (eidx : Nat) (_p4 : V) : Result (Option (Int × Int)) :=
  if eidx ∈ el_indices then .ok none
  else
    (passes3rdLeptonSelection K ev L 11 (eidx : Int) min_lep_pt mu_indices).bind fun pass =>
      if pass then (vat ev.els_charge eidx).bind fun q => .ok (some (-11 * q, (eidx : Int)))
      else .ok none

/-- Loop body of the muon loop of `samesign::additionalLeptons`. -/
def samesign.additionalMuon (min_lep_pt : ℚ) (mu_indices : List Nat)
    (midx : Nat) (_p4 : V) : Result (Option (Int × Int)) :=
  if midx ∈ mu_indices then .ok none
  else
    (passes3rdLeptonSelection K ev L 13 (midx : Int) min_lep_pt mu_indices).bind fun pass =>
      if pass then (vat ev.mus_charge midx).bind fun q => .ok (some (-13 * q, (midx : Int)))
      else .ok none

/-- The momentum that `SortByPt` reads for a pair of lepton id and index. -/
def leptonP4 (lep : Int × Int) : Result V :=
  if lep.1.natAbs = 11 then vatInt ev.els_p4 lep.2 else vatInt ev.mus_p4 lep.2

/-- A pair of lepton id and index together with the momentum the comparator
reads for it. -/
def keyLepton (lep : Int × Int) : Result (V × (Int × Int)) :=
  (leptonP4 ev lep).bind fun p4 => .ok (p4, lep)

/-- The call `std::sort(selected_leps.begin(), selected_leps.end(), SortByPt())`
on pairs of lepton id and index. A range of fewer than two elements is returned
without a comparison; otherwise every element is compared at least once, so the
call throws when the momentum of one of them cannot be read. -/
def sortLeptons (leps : List (Int × Int)) : Result (List (Int × Int)) :=
  if leps.length < 2 then .ok leps
  else
    (forIndexed (fun _ lep => keyLepton ev lep) 0 leps).bind fun keyed =>
      .ok ((sort (samesign.SortByPt_pair K) keyed).map Prod.snd)

/-- The list `el_indices` after the two conditional `push_back` calls on the
hypothesis leptons. -/
def samesign.hypElectrons (lt_id ll_id : Int) (lt_idx ll_idx : Nat) : List Nat :=
  (if lt_id.natAbs = 11 then [lt_idx] else []) ++ (if ll_id.natAbs = 11 then [ll_idx] else [])

/-- The list `mu_indices` after the two conditional `push_back` calls on the
hypothesis leptons. -/
def samesign.hypMuons (lt_id ll_id : Int) (lt_idx ll_idx : Nat) : List Nat :=
  (if lt_id.natAbs = 11 then [] else [lt_idx]) ++ (if ll_id.natAbs = 11 then [] else [ll_idx])

/-- The two selection loops of `samesign::additionalLeptons` and the sort that
follows them, for the index lists of the hypothesis leptons. -/
def samesign.selectedLeptons (min_lep_pt : ℚ) (el_indices mu_indices : List Nat) :
    Result (List (Int × Int)) :=
  (forIndexed (samesign.additionalElectron K ev L min_lep_pt el_indices mu_indices) 0
    ev.els_p4).bind fun els =>
    (forIndexed (samesign.additionalMuon K ev L min_lep_pt mu_indices) 0 ev.mus_p4).bind
      fun mus => sortLeptons K ev (els.reduceOption ++ mus.reduceOption)

/-- The function `samesign::additionalLeptons`. -/
def samesign.additionalLeptons (hyp_idx : Int) (min_lep_pt : ℚ) : Result (List (Int × Int)) :=
  (vatInt ev.hyp_lt_id hyp_idx).bind fun lt_id =>
    (vatInt ev.hyp_ll_id hyp_idx).bind fun ll_id =>
      (vatInt ev.hyp_lt_index hyp_idx).bind fun lt_index =>
        (vatInt ev.hyp_ll_index hyp_idx).bind fun ll_index =>
          let el_indices :=
            samesign.hypElectrons lt_id ll_id (toUnsigned lt_index) (toUnsigned ll_index)
          let mu_indices :=
            samesign.hypMuons lt_id ll_id (toUnsigned lt_index) (toUnsigned ll_index)
          if el_indices.length + mu_indices.length ≠ 2 then .error .runtime_error
          else samesign.selectedLeptons K ev L min_lep_pt el_indices mu_indices

/-- The function `samesign::highestPtAdditionalLepton`. -/
def samesign.highestPtAdditionalLepton (idx : Int) (min_lep_pt : ℚ) : Result (Int × Int) :=
  (samesign.additionalLeptons K ev L idx min_lep_pt).bind fun leps =>
    match leps with
    | lep :: _ => .ok lep
    | [] => .ok (-999999, -999999)

/-- The function `samesign::has3rdLepton`. -/
def samesign.has3rdLepton (idx : Int) (min_lep_pt : ℚ) : Result Bool :=
  (samesign.additionalLeptons K ev L idx min_lep_pt).bind fun leps => .ok (!leps.isEmpty)

end leptons

/-! ## Single-precision arithmetic

The ntuple and the local variables declared `float` hold single-precision
numbers. Where a selection compares the result of an arithmetic operation on
them with a cut, the operation is taken with its rounding and with the
infinities and the not-a-number of IEEE 754. A zero is the positive zero. -/

/-- The integer nearest to `q`, the even one of the two when `q` lies half way
between them. -/
def roundHalfEven (q : ℚ) : Int :=
  if q - (⌊q⌋ : Int) < 1 / 2 then ⌊q⌋
  else if 1 / 2 < q - (⌊q⌋ : Int) then ⌊q⌋ + 1
  else if ⌊q⌋ % 2 = 0 then ⌊q⌋ else ⌊q⌋ + 1

/-- The largest of the powers of two `p`, `2 p`, ..., `2 ^ fuel p` that is at
most `q`, and `p` when none is. -/
def binadeFrom (q : ℚ) : Nat → ℚ → ℚ
  | 0, p => p
  | fuel + 1, p => if 2 * p ≤ q then binadeFrom q fuel (2 * p) else p

/-- The spacing of the single-precision numbers around `q`: `2 ^ -23` times the
power of two at or below `|q|`, from `2 ^ -126` (below it lie the subnormal
numbers) to `2 ^ 127`. -/
def ulp32 (q : ℚ) : ℚ := binadeFrom |q| 253 ((1 / 2) ^ 126) / 2 ^ 23

/-- The number with a significand of 24 bits nearest to `q`, to even on a tie:
the single-precision value of `q` when it is below `2 ^ 128` in magnitude. -/
def float32 (q : ℚ) : ℚ := roundHalfEven (q / ulp32 q) * ulp32 q

/-- A value of the C++ type `float`: a number, an infinity or not a number. -/
inductive CFloat where
  | finite (q : ℚ)
  | inf (negative : Bool)
  | nan
  deriving DecidableEq, Repr

/-- The conversion of an exact result to `float`: rounded to nearest, to an
infinity from `2 ^ 128` on. -/
def CFloat.round (q : ℚ) : CFloat :=
  if 2 ^ 128 ≤ |float32 q| then .inf (decide (q < 0)) else .finite (float32 q)

/-- The unary minus of `float`. -/
def CFloat.neg : CFloat → CFloat
  | .finite q => .finite (-q)
  | .inf s => .inf (!s)
  | .nan => .nan

/-- The operator `+` of `float`. -/
def CFloat.add : CFloat → CFloat → CFloat
  | .finite a, .finite b => CFloat.round (a + b)
  | .finite _, .inf t => .inf t
  | .inf s, .finite _ => .inf s
  | .inf s, .inf t => if s = t then .inf s else .nan
  | .nan, _ => .nan
  | _, .nan => .nan

/-- The operator `-` of `float`. -/
def CFloat.sub (a b : CFloat) : CFloat := a.add b.neg

/-- The operator `*` of `float`. -/
def CFloat.mul : CFloat → CFloat → CFloat
  | .finite a, .finite b => CFloat.round (a * b)
  | .finite a, .inf t => if a = 0 then .nan else .inf (xor (decide (a < 0)) t)
  | .inf s, .finite b => if b = 0 then .nan else .inf (xor s (decide (b < 0)))
  | .inf s, .inf t => .inf (xor s t)
  | .nan, _ => .nan
  | _, .nan => .nan

/-- The operator `/` of `float`: a quotient by zero is an infinity, and not a
number when the dividend is zero as well. -/
def CFloat.div : CFloat → CFloat → CFloat
  | .finite a, .finite b =>
    if b = 0 then (if a = 0 then .nan else .inf (decide (a < 0))) else CFloat.round (a / b)
  | .finite _, .inf _ => .finite 0
  | .inf s, .finite b => .inf (xor s (decide (b < 0)))
  | .inf _, .inf _ => .nan
  | .nan, _ => .nan
  | _, .nan => .nan

/-- The operator `<` of `float`, also after promotion to `double`: false when
an operand is not a number. -/
def CFloat.lt : CFloat → CFloat → Bool
  | .finite a, .finite b => decide (a < b)
  | .finite _, .inf t => !t
  | .inf s, .finite _ => s
  | .inf s, .inf t => s && !t
  | .nan, _ => false
  | _, .nan => false

/-! ## photonSelections.cc -/

section photons

variable {V : Type} (K : LorentzOps V) (ev : Event V)

/-- The function `isSpikePhoton`. The quantity `r4` is a `float` computed from
`float` operands; the literal `0.05` it is compared with is a `double`,
`3602879701896397 / 2 ^ 56`. -/
def isSpikePhoton (index : Nat) : Result Bool :=
  (vidx ev.photons_scindex index).bind fun scidx =>
    if scidx ≠ -1 then
      (vidxInt ev.scs_e1x3 scidx).bind fun e1x3 =>
        (vidxInt ev.scs_e3x1 scidx).bind fun e3x1 =>
          (vidxInt ev.scs_eMax scidx).bind fun eMax =>
            let r4 := (((CFloat.finite e1x3).add (.finite e3x1)).sub
              ((CFloat.finite 2).mul (.finite eMax))).div (.finite eMax)
            .ok (r4.lt (.finite (3602879701896397 / 72057594037927936)))
    else .ok false

/-- The jet loop of `isGoodEMObject` from jet `ijet` on, with the running pair
of `iMatchedJet` and `drmin`. -/
def matchedJetLoop (vg : V) : Nat → List V → Int × ℚ → Int × ℚ
  | _, [], best => best
  | ijet, vjet :: rest, best =>
    if K.pt vjet < 10 then matchedJetLoop vg (ijet + 1) rest best
    else if |K.eta vjet| > 3 then matchedJetLoop vg (ijet + 1) rest best
    else if K.DeltaR vjet vg < best.2 then
      matchedJetLoop vg (ijet + 1) rest ((ijet : Int), K.DeltaR vjet vg)
    else matchedJetLoop vg (ijet + 1) rest best

/-- The constant `neutralemfcut` of `isGoodEMObject`: the literal `0.7` held in
a `const float`. -/
def neutralemfcut : ℚ := float32 (7 / 10)

/-- The function `isGoodEMObject`; `energy` is the accessor `energy()` of a
momentum. The quotient `emfrac` is a `float` computed from `float` operands and
compared with the `float` `neutralemfcut`. The literals `0.1` and `0.3` are
doubles; no single-precision number lies between them and 1/10 and 3/10, so
that a `float` exceeds the one when it exceeds the other. -/
def isGoodEMObject (energy : V → ℚ) (index : Nat) : Result Int :=
  (vat ev.photons_p4 index).bind fun vg =>
    if K.pt vg < 22 then .ok (-1)
    else
      (vat ev.photons_hOverE index).bind fun hOverE =>
        if hOverE > 1 / 10 then .ok (-1)
        else
          (isSpikePhoton ev index).bind fun spike =>
            if spike then .ok (-1)
            else
              let found := matchedJetLoop K vg 0 ev.pfjets_p4 (-1, 100)
              if found.1 < 0 then .ok (-2)
              else if found.2 > 3 / 10 then .ok (-3)
              else
                (vatInt ev.pfjets_neutralEmE found.1).bind fun neutralEmE =>
                  (vatInt ev.pfjets_p4 found.1).bind fun pj =>
                    let emfrac := (CFloat.finite neutralEmE).div (.finite (energy pj))
                    if emfrac.lt (.finite neutralemfcut) then .ok (-4) else .ok found.1

end photons

/-! ## ssSelections.cc: the dilepton trigger -/

section trigger

variable {V : Type} (ev : Event V) (passUnprescaledHLTTriggerPattern : String → Bool)

/-- The function `samesign::passesTriggerHighPt`. The trigger lookup
`passUnprescaledHLTTriggerPattern` is outside the sources and is an argument. -/
def samesign.passesTriggerHighPt (hyp_type : Int) : Bool :=
  if !ev.evt_isRealData then true
  else if hyp_type = 0 then
    passUnprescaledHLTTriggerPattern ("HLT_Mu17_Mu8_v")
  else if hyp_type = 1 ∨ hyp_type = 2 then
    passUnprescaledHLTTriggerPattern ("HLT_Mu17_Ele8_CaloIdT_CaloIsoVL_TrkIdVL_TrkIsoVL_v") ||
      passUnprescaledHLTTriggerPattern ("HLT_Mu8_Ele17_CaloIdT_CaloIsoVL_TrkIdVL_TrkIsoVL_v")
  else if hyp_type = 3 then
    passUnprescaledHLTTriggerPattern
      ("HLT_Ele17_CaloIdT_CaloIsoVL_TrkIdVL_TrkIsoVL_Ele8_CaloIdT_CaloIsoVL_TrkIdVL_TrkIsoVL_v")
  else false

/-- The function `samesign::passesTriggerLowPt`. -/
def samesign.passesTriggerLowPt (hyp_type : Int) : Bool :=
  if !ev.evt_isRealData then true
  else if hyp_type = 0 then
    passUnprescaledHLTTriggerPattern ("HLT_DoubleMu8_Mass8_PFNoPUHT175_v") ||
      passUnprescaledHLTTriggerPattern ("HLT_DoubleMu8_Mass8_PFHT175_v")
  else if hyp_type = 1 ∨ hyp_type = 2 then
    passUnprescaledHLTTriggerPattern ("HLT_Mu8_Ele8_CaloIdT_TrkIdVL_Mass8_PFNoPUHT175_v") ||
      passUnprescaledHLTTriggerPattern ("HLT_Mu8_Ele8_CaloIdT_TrkIdVL_Mass8_PFHT175_v")
  else if hyp_type = 3 then
    passUnprescaledHLTTriggerPattern ("HLT_DoubleEle8_CaloIdT_TrkIdVL_Mass8_PFNoPUHT175_v") ||
      passUnprescaledHLTTriggerPattern ("HLT_DoubleEle8_CaloIdT_TrkIdVL_Mass8_PFHT175_v")
  else false

/-- The function `samesign::passesTriggerVeryLowPt`. -/
def samesign.passesTriggerVeryLowPt (hyp_type : Int) : Bool :=
  if !ev.evt_isRealData then true
  else if hyp_type = 0 then
    passUnprescaledHLTTriggerPattern ("HLT_DoubleRelIso1p0Mu5_Mass8_PFNoPUHT175_v") ||
      passUnprescaledHLTTriggerPattern ("HLT_DoubleRelIso1p0Mu5_Mass8_PFHT175_v")
  else if hyp_type = 1 ∨ hyp_type = 2 then
    passUnprescaledHLTTriggerPattern
        ("HLT_RelIso1p0Mu5_Ele8_CaloIdT_TrkIdVL_Mass8_PFNoPUHT175_v") ||
      passUnprescaledHLTTriggerPattern ("HLT_RelIso1p0Mu5_Ele8_CaloIdT_TrkIdVL_Mass8_PFHT175_v")
  else if hyp_type = 3 then
    passUnprescaledHLTTriggerPattern ("HLT_DoubleEle8_CaloIdT_TrkIdVL_Mass8_PFNoPUHT175_v") ||
      passUnprescaledHLTTriggerPattern ("HLT_DoubleEle8_CaloIdT_TrkIdVL_Mass8_PFHT175_v")
  else false

/-- The function `samesign::passesTrigger`: simulated events pass; on data the
switch on `analysis_type` picks one of the three trigger sets, `default`
returns `false`. -/
def samesign.passesTrigger (hyp_type analysis_type : Int) : Bool :=
  if !ev.evt_isRealData then true
  else if analysis_type = 0 then
    samesign.passesTriggerHighPt ev passUnprescaledHLTTriggerPattern hyp_type
  else if analysis_type = 1 then
    samesign.passesTriggerLowPt ev passUnprescaledHLTTriggerPattern hyp_type
  else if analysis_type = 2 then
    samesign.passesTriggerVeryLowPt ev passUnprescaledHLTTriggerPattern hyp_type
  else false

end trigger

/-! ## ssSelections.cc: jet energy resolution -/

/-- The functions of the C math library that the sources call, on rationals.
They are arguments of the model; what a statement needs of them is said
there. -/
structure Libm where
  sqrt : ℚ → ℚ
  pow : ℚ → ℚ → ℚ
  cos : ℚ → ℚ
  sin : ℚ → ℚ
  atan2 : ℚ → ℚ → ℚ

/-- The parameters `(N, S, C, m)` that `getErrPt` selects by `fabs(eta)`; all
four keep their initial value 0 from 5.0 on. -/
def getErrPt_parameters (eta : ℚ) : ℚ × ℚ × ℚ × ℚ :=
  if |eta| < 1 / 2 then (396859 / 100000, 18348 / 100000, 0, 62627 / 100000)
  else if |eta| < 1 then (355226 / 100000, 24026 / 100000, 0, 52571 / 100000)
  else if |eta| < 3 / 2 then (454826 / 100000, 22652 / 100000, 0, 58963 / 100000)
  else if |eta| < 2 then (462622 / 100000, 23664 / 100000, 0, 48738 / 100000)
  else if |eta| < 5 / 2 then (253324 / 100000, 34306 / 100000, 0, 28662 / 100000)
  else if |eta| < 3 then (-(333814 / 100000), 73360 / 100000, 0, 8264 / 100000)
  else if |eta| < 5 then (295397 / 100000, 11619 / 100000, 0, 96086 / 100000)
  else (0, 0, 0, 0)

/-- The function `getErrPt`: the absolute resolution `sigma(pt) * pt` of a
simulated jet. -/
def getErrPt (M : Libm) (pt eta : ℚ) : ℚ :=
  let N := (getErrPt_parameters eta).1
  let S := (getErrPt_parameters eta).2.1
  let C := (getErrPt_parameters eta).2.2.1
  let m := (getErrPt_parameters eta).2.2.2
  let InvPerr2 := (N * |N|) + (S * S) * M.pow pt (m + 1) + (C * C) * pt * pt
  M.sqrt InvPerr2

/-- The value of the variable `InvPerr2` of `getErrPt`. -/
def getErrPt_InvPerr2 (M : Libm) (pt eta : ℚ) : ℚ :=
  let N := (getErrPt_parameters eta).1
  let S := (getErrPt_parameters eta).2.1
  let C := (getErrPt_parameters eta).2.2.1
  let m := (getErrPt_parameters eta).2.2.2
  (N * |N|) + (S * S) * M.pow pt (m + 1) + (C * C) * pt * pt

/-- The function `getJERScale`: the resolution scale factor by `fabs(jet_eta)`. -/
def getJERScale (jet_eta : ℚ) : ℚ :=
  let aeta := |jet_eta|
  if aeta < 1 / 2 then 1052 / 1000
  else if aeta < 11 / 10 then 1057 / 1000
  else if aeta < 17 / 10 then 1096 / 1000
  else if aeta < 23 / 10 then 1134 / 1000
  else 1288 / 1000

/-- The components of a `LorentzVector` in the transverse plane that the
smearing and the MET rescaling read: `px()`, `py()` and `phi()`. -/
structure TransverseOps (V : Type) where
  px : V → ℚ
  py : V → ℚ
  phi : V → ℚ

/-- ROOT's `XYVector`, a displacement in the plane by its Cartesian
components. -/
structure XYVector where
  x : ℚ
  y : ℚ
  deriving DecidableEq, Repr

/-- The sum of two `XYVector`s. -/
def XYVector.add (a b : XYVector) : XYVector := ⟨a.x + b.x, a.y + b.y⟩

/-- The difference of two `XYVector`s. -/
def XYVector.sub (a b : XYVector) : XYVector := ⟨a.x - b.x, a.y - b.y⟩

/-- The method `r()`: the length of the vector. -/
def XYVector.r (M : Libm) (a : XYVector) : ℚ := M.sqrt (a.x * a.x + a.y * a.y)

/-- The method `phi()`: the azimuth of the vector. -/
def XYVector.phi (M : Libm) (a : XYVector) : ℚ := M.atan2 a.y a.x

/-- ROOT's `TRandom3` as the smearing uses it, on a generator state `G`:
`SetSeed(seed)` and `Gaus(mean, sigma)`, which returns the draw and moves the
state on. -/
structure TRandom3 (G : Type) where
  SetSeed : G → Nat → G
  Gaus : G → ℚ → ℚ → ℚ × G

/-! ## ssSelections.cc: smearing of the jet energy resolution

The three functions keep their generator in a `static` local: `random` is
built from `seed` by the first call and found as the last call left it
afterwards. The models take the generator as they find it and return it. -/

section smearing

variable {V G : Type} (K : LorentzOps V) (T : TransverseOps V) (M : Libm) (R : TRandom3 G)

/-- The head of every turn of the three smearing loops: the generator is
re-seeded with `seed * (jidx + 1)` (a product in `size_t`), the factor is drawn
and the jet is multiplied by it. The result is `new_jet_p4` with the
generator. -/
def smearJet (seed : Nat) (random : G) (jidx : Nat) (jet_p4 : V) : V × G :=
  let random := R.SetSeed random (seed * (jidx + 1) % 2 ^ 64)
  let jer_scale := getJERScale (K.eta jet_p4)
  let sigma_mc := getErrPt M (K.pt jet_p4) (K.eta jet_p4) / K.pt jet_p4
  let jet_rescaled := R.Gaus random 1 (M.sqrt (jer_scale * jer_scale - 1) * sigma_mc)
  (K.scale jet_p4 jet_rescaled.1, jet_rescaled.2)

/-- The smeared momentum of a jet has a `pt()` that is not a finite number. In
`getErrPt` the square root of a negative `InvPerr2` is not a number, and for a
`pt()` of zero the quotient `getErrPt(pt, eta) / pt` is an infinity or not a
number; the width of the draw, the factor drawn and the `pt()` of the product
of the jet with it are then no finite numbers either. -/
def smearedIsNaN (jet_p4 : V) : Bool :=
  decide (K.pt jet_p4 = 0) || decide (getErrPt_InvPerr2 M (K.pt jet_p4) (K.eta jet_p4) < 0)

/-- The head of a turn of the loop of `samesign::smearJETScaleJets`:
`new_jet_p4`, which is `none` when its `pt()` is not a finite number, with the
generator. The generator is re-seeded and draws once in either case. -/
def smearJetOrNaN (seed : Nat) (random : G) (jidx : Nat) (jet_p4 : V) : Option V × G :=
  if smearedIsNaN K M jet_p4 then (none, (smearJet K M R seed random jidx jet_p4).2)
  else (some (smearJet K M R seed random jidx jet_p4).1,
    (smearJet K M R seed random jidx jet_p4).2)

/-- The test `new_jet_p4.pt() < min_pt`: false for a `pt()` that is not a
finite number. -/
def ptBelow (new_jet_p4 : Option V) (min_pt : ℚ) : Bool :=
  match new_jet_p4 with
  | none => false
  | some v => decide (K.pt v < min_pt)

/-- The loop of `samesign::smearJETScaleJets` from jet `jidx` on, with
`new_vjets_p4` as filled so far. -/
def samesign.smearJETScaleJets_loop (seed : Nat) (min_pt : ℚ) :
    Nat → List V → G → List (Option V) → List (Option V) × G
  | _, [], random, new_vjets_p4 => (new_vjets_p4, random)
  | jidx, jet_p4 :: rest, random, new_vjets_p4 =>
    if ptBelow K (smearJetOrNaN K M R seed random jidx jet_p4).1 min_pt then
      samesign.smearJETScaleJets_loop seed min_pt (jidx + 1) rest
        (smearJetOrNaN K M R seed random jidx jet_p4).2 new_vjets_p4
    else
      samesign.smearJETScaleJets_loop seed min_pt (jidx + 1) rest
        (smearJetOrNaN K M R seed random jidx jet_p4).2
        (new_vjets_p4 ++ [(smearJetOrNaN K M R seed random jidx jet_p4).1])

/-- The function `samesign::smearJETScaleJets`: the new content of `vjets_p4`,
with the generator. An entry `none` is a momentum whose `pt()` is not a finite
number. -/
def samesign.smearJETScaleJets (vjets_p4 : List V) (seed : Nat) (min_pt : ℚ) (random : G) :
    List (Option V) × G :=
  samesign.smearJETScaleJets_loop K M R seed min_pt 0 vjets_p4 random []

/-- The variables that a loop of `smearJETScaleJetsMetHt` updates. -/
structure SmearState (V G : Type) where
  cmet : XYVector
  new_ht : ℚ
  new_vjets_p4 : List V
  random : G

/-- What `smearJETScaleJetsMetHt` leaves in its reference arguments, with the
generator. -/
structure Smeared (V G : Type) where
  vjets_p4 : List V
  met : ℚ
  met_phi : ℚ
  ht : ℚ
  random : G

/-- The loop of the two `samesign::smearJETScaleJetsMetHt`, from jet `jidx` on.
The two functions differ in the condition under which the turn ends in
`continue`, here `dropped`. -/
def samesign.smearJETScaleJetsMetHt_loop (dropped : V → Bool) (seed : Nat) :
    Nat → List V → SmearState V G → SmearState V G
  | _, [], st => st
  | jidx, jet_p4 :: rest, st =>
    let new_jet_p4 := (smearJet K M R seed st.random jidx jet_p4).1
    let random := (smearJet K M R seed st.random jidx jet_p4).2
    let old_jet : XYVector := ⟨T.px jet_p4, T.py jet_p4⟩
    let new_jet : XYVector := ⟨T.px new_jet_p4, T.py new_jet_p4⟩
    let cmet := (st.cmet.sub new_jet).add old_jet
    if dropped new_jet_p4 then
      samesign.smearJETScaleJetsMetHt_loop dropped seed (jidx + 1) rest
        { st with cmet := cmet, random := random }
    else
      samesign.smearJETScaleJetsMetHt_loop dropped seed (jidx + 1) rest
        { cmet := cmet
          new_ht := st.new_ht + K.pt new_jet_p4
          new_vjets_p4 := st.new_vjets_p4 ++ [new_jet_p4]
          random := random }

/-- The statements of `smearJETScaleJetsMetHt` around the loop: `cmet` starts
from `met` and `met_phi`, `new_ht` from 0; after the loop the references are
assigned. -/
def samesign.smearMetHt (dropped : V → Bool) (jets : List V) (met met_phi : ℚ) (seed : Nat)
    (random : G) : Smeared V G :=
  let st := samesign.smearJETScaleJetsMetHt_loop K T M R dropped seed 0 jets
    { cmet := ⟨met * M.cos met_phi, met * M.sin met_phi⟩
      new_ht := 0
      new_vjets_p4 := []
      random := random }
  { vjets_p4 := st.new_vjets_p4
    met := st.cmet.r M
    met_phi := st.cmet.phi M
    ht := st.new_ht
    random := st.random }

/-- The function `samesign::smearJETScaleJetsMetHt(vjets_p4, met, met_phi, ht,
seed)`: a smeared jet is dropped below a pt of 40. -/
def samesign.smearJETScaleJetsMetHt (vjets_p4 : List V) (met met_phi _ht : ℚ) (seed : Nat)
    (random : G) : Smeared V G :=
  samesign.smearMetHt K T M R (fun new_jet_p4 => decide (K.pt new_jet_p4 < 40)) vjets_p4 met
    met_phi seed random

/-- The function `samesign::smearJETScaleJetsMetHt(vjets_p4, met, met_phi, ht,
idx, type, seed, deltaR, min_pt, max_eta, mu_minpt, ele_minpt)`: the jets are
those of `samesign::getJets` with a minimum pt of 15 and a maximum eta of 2.4;
what `vjets_p4` and `ht` held is not read. -/
def samesign.smearJETScaleJetsMetHt_event (ev : Event V) (X : Collab V) (_vjets_p4 : List V)
    (met met_phi _ht : ℚ) (idx : Int) (type : JetType) (seed : Nat)
    (deltaR min_pt max_eta mu_minpt ele_minpt : ℚ) (random : G) : Result (Smeared V G) :=
  (samesign.getJets K ev X idx type deltaR 15 (24 / 10) mu_minpt ele_minpt X.default_rescale
      X.default_systFlag X.default_sort_by_pt).bind fun tmp_vjets_p4 =>
    .ok (samesign.smearMetHt K T M R
      (fun new_jet_p4 =>
        !(decide (K.pt new_jet_p4 > min_pt) && decide (|K.eta new_jet_p4| < max_eta)))
      tmp_vjets_p4 met met_phi seed random)

end smearing

/-! ## ssSelections.cc: rescaling of the unclustered energy -/

/-- ROOT's `Polar2DVectorF` as `scaleMET` uses it, on a type `P` of vectors:
`init` is the default-constructed vector, `polar r phi` the vector built from a
length and an azimuth, `add` and `sub` the operators `+` (also `+=`) and `-`,
`r` and `SetR` the methods of the same names. -/
structure Polar2DOps (P : Type) where
  init : P
  polar : ℚ → ℚ → P
  add : P → P → P
  sub : P → P → P
  r : P → ℚ
  SetR : P → ℚ → P

section scaleMET

variable {V P : Type} (K : LorentzOps V) (T : TransverseOps V) (D : Polar2DOps P)
  (ev : Event V) (X : Collab V)

/-- The loop of `scaleMET` over the jets: each adds `Polar2D(pt, phi)` to
`jets`. -/
def samesign.scaleMET_jets : List V → P → P
  | [], jets => jets
  | vjet :: rest, jets =>
    samesign.scaleMET_jets rest (D.add jets (D.polar (K.pt vjet) (T.phi vjet)))

/-- A loop of `scaleMET` over the leptons of one flavour, from index `i` on: a
lepton below `minpt` or one that is not a numerator lepton is skipped, the
others add `Polar2D(pt, phi)` to `leps`. -/
def samesign.scaleMET_leptons (isNumerator : Nat → Bool) (minpt : ℚ) : Nat → List V → P → P
  | _, [], leps => leps
  | i, l :: ls, leps =>
    if K.pt l < minpt then samesign.scaleMET_leptons isNumerator minpt (i + 1) ls leps
    else if !isNumerator i then samesign.scaleMET_leptons isNumerator minpt (i + 1) ls leps
    else
      samesign.scaleMET_leptons isNumerator minpt (i + 1) ls
        (D.add leps (D.polar (K.pt l) (T.phi l)))

/-- The function `samesign::scaleMET`. The sums `jets` and `leps` start from
default-constructed vectors. -/
def samesign.scaleMET (met met_phi : ℚ) (idx : Int) (type : JetType)
    (deltaR min_pt max_eta mu_minpt ele_minpt : ℚ) (scale_type : Int) (scale : ℚ) : Result ℚ :=
  (samesign.getJets K ev X idx type deltaR min_pt max_eta mu_minpt ele_minpt X.default_rescale
      X.default_systFlag X.default_sort_by_pt).bind fun vjets_p4 =>
    let jets := samesign.scaleMET_jets K T D vjets_p4 D.init
    let leps := samesign.scaleMET_leptons K T D
      (fun eidx => samesign.isNumeratorLepton X 11 eidx X.default_use_el_eta) ele_minpt 0
      ev.els_p4 D.init
    let leps := samesign.scaleMET_leptons K T D
      (fun midx => samesign.isNumeratorLepton X 13 midx X.default_use_el_eta) mu_minpt 0
      ev.mus_p4 leps
    let umet := D.add (D.add (D.polar met met_phi) leps) jets
    let umet := D.SetR umet (D.r umet * (1 + (scale_type : ℚ) * scale))
    let new_met := D.sub (D.sub umet jets) leps
    .ok (D.r new_met)

end scaleMET

/-! ## fakerates.cc -/

/-- A two-dimensional ROOT histogram (`TH2F`) as the fake-rate lookups use it:
the number of bins of the y axis, the lower edge and the width of a y bin, the
global bin of a point `(x, y)` and the content of a global bin. -/
structure TH2F where
  yaxis_GetNbins : Int
  yaxis_GetBinLowEdge : Int → ℚ
  yaxis_GetBinWidth : Int → ℚ
  FindBin : ℚ → ℚ → Int
  GetBinContent : Int → ℚ

section fakerates

variable {V : Type} (K : LorentzOps V) (ev : Event V)

/-- The body shared by `muFakeProb_v1` and `elFakeProb_v1`, `_v2`, `_v3` once
the lepton momentum is read: pt is cut back to `upperEdge`, both histograms are
looked up, and `prob` is returned; the tests on `prob` only print. -/
def fakeProb (theFakeRate theFakeRateErr : TH2F) (p4 : V) : ℚ :=
  let pt := K.pt p4
  let eta := |K.eta p4|
  let upperEdge := theFakeRate.yaxis_GetBinLowEdge theFakeRate.yaxis_GetNbins
    + theFakeRate.yaxis_GetBinWidth theFakeRate.yaxis_GetNbins - 1 / 1000
  let pt := if pt > upperEdge then upperEdge else pt
  let prob := theFakeRate.GetBinContent (theFakeRate.FindBin eta pt)
  let _prob_error := theFakeRateErr.GetBinContent (theFakeRateErr.FindBin eta pt)
  prob

/-- The function `muFakeProb_v1`. The histograms `fakeRateMuon(mu_v1)` and
`fakeRateErrorMuon(mu_v1)` are read from a file outside the sources and are
arguments. -/
def muFakeProb_v1 (theFakeRate theFakeRateErr : TH2F) (i_mu : Int) : Result ℚ :=
  (vidxInt ev.mus_p4 i_mu).bind fun p4 => .ok (fakeProb K theFakeRate theFakeRateErr p4)

/-- The function `elFakeProb_v1`, with the histograms `fakeRateEl(el_v1)` and
`fakeRateErrorEl(el_v1)`. -/
def elFakeProb_v1 (theFakeRate theFakeRateErr : TH2F) (i_el : Int) : Result ℚ :=
  (vidxInt ev.els_p4 i_el).bind fun p4 => .ok (fakeProb K theFakeRate theFakeRateErr p4)

/-- The function `elFakeProb_v2`, with the histograms `fakeRateEl(el_v2)` and
`fakeRateErrorEl(el_v2)`. -/
def elFakeProb_v2 (theFakeRate theFakeRateErr : TH2F) (i_el : Int) : Result ℚ :=
  (vidxInt ev.els_p4 i_el).bind fun p4 => .ok (fakeProb K theFakeRate theFakeRateErr p4)

/-- The function `elFakeProb_v3`, with the histograms `fakeRateEl(el_v3)` and
`fakeRateErrorEl(el_v3)`. -/
def elFakeProb_v3 (theFakeRate theFakeRateErr : TH2F) (i_el : Int) : Result ℚ :=
  (vidxInt ev.els_p4 i_el).bind fun p4 => .ok (fakeProb K theFakeRate theFakeRateErr p4)

end fakerates

/-! ## The corrector object across the turns of a loop

The queries receive the corrector by pointer and write its registers in place.
The definitions of this section return, with the result of a query, the
corrector as the query leaves it. -/

/-- A `for (i = 0; i < v.size(); ++i)` loop whose body may fault and updates an
object of type `σ`. -/
def forIndexedState {α β σ : Type} (body : Nat → α → σ → Result (β × σ)) :
    Nat → List α → σ → Result (List β × σ)
  | _, [], s => .ok ([], s)
  | i, x :: xs, s =>
    match body i x s with
    | .error e => .error e
    | .ok (r, s1) =>
      match forIndexedState body (i + 1) xs s1 with
      | .error e => .error e
      | .ok (rs, s2) => .ok (r :: rs, s2)

/-- The function `jetCorrection(jet, jetCorrector)` with the corrector it
leaves. -/
def jetCorrection_run {V : Type} (K : LorentzOps V) (jet : V)
    (jetCorrector : FactorizedJetCorrector) : ℚ × FactorizedJetCorrector :=
  (((jetCorrector.setJetPt (K.pt jet)).setJetEta (K.eta jet)).getCorrection,
    (jetCorrector.setJetPt (K.pt jet)).setJetEta (K.eta jet))

namespace samesign

section

variable {V : Type} (K : LorentzOps V) (ev : Event V) (X : Collab V)

/-- The four setters of an on-the-fly turn for particle-flow jet `jidx`: the
corrector they leave. -/
def otfSet (jet_corrector : FactorizedJetCorrector) (jidx : Nat) :
    Result FactorizedJetCorrector :=
  (vat ev.pfjets_area jidx).bind fun area =>
    (vat ev.pfjets_p4 jidx).bind fun p4 =>
      .ok ((((jet_corrector.setRho ev.evt_ww_rho_vor).setJetA area).setJetPt
        (K.pt p4)).setJetEta (K.eta p4))

/-- One turn of the loop of `getJetFlags` (JEC applied on the fly): the flag
pushed and the corrector after the turn. -/
def getJetFlags_otf_turn (min_pt rescale : ℚ) (systFlag : Int) (jidx : Nat) (flag : Bool)
    (jet_corrector : FactorizedJetCorrector) : Result (Bool × FactorizedJetCorrector) :=
  if !flag then .ok (flag, jet_corrector)
  else
    (otfSet K ev jet_corrector jidx).bind fun jc =>
      (vat ev.pfjets_p4 jidx).bind fun p4 =>
        let vjet := applySyst K X systFlag (K.scale (K.scale p4 jc.getCorrection) rescale)
        if K.pt vjet < min_pt then .ok (false, jc) else .ok (true, jc)

/-- The function `samesign::getJetFlags`, JEC applied on the fly, with the
corrector it leaves. -/
def getJetFlags_otf_run (idx : Int) (jet_corrector : FactorizedJetCorrector) (type : JetType)
    (deltaR min_pt max_eta mu_minpt ele_minpt rescale : ℚ) (systFlag : Int) :
    Result (List Bool × FactorizedJetCorrector) :=
  (getJetFlags K ev X idx type deltaR 0 max_eta mu_minpt ele_minpt rescale systFlag).bind
    fun tmp_jet_flags =>
      (cassert (tmp_jet_flags.length == ev.pfjets_p4.length)).bind fun _ =>
        forIndexedState (getJetFlags_otf_turn K ev X min_pt rescale systFlag) 0 tmp_jet_flags
          jet_corrector

/-- One turn of the loop of `getJets` (JEC applied on the fly): the momentum
pushed, if any, and the corrector after the turn. -/
def getJets_otf_turn (min_pt rescale : ℚ) (systFlag : Int) (jidx : Nat) (flag : Bool)
    (jet_corrector : FactorizedJetCorrector) : Result (Option V × FactorizedJetCorrector) :=
  if !flag then .ok (none, jet_corrector)
  else
    (vat ev.pfjets_p4 jidx).bind fun p4 =>
      (otfSet K ev jet_corrector jidx).bind fun jc =>
        let vjet := applySyst K X systFlag (K.scale p4 (jc.getCorrection * rescale))
        if K.pt vjet < min_pt then .ok (none, jc) else .ok (some vjet, jc)

/-- The function `samesign::getJets`, JEC applied on the fly, with the
corrector it leaves. -/
def getJets_otf_run (idx : Int) (jet_corrector : FactorizedJetCorrector) (type : JetType)
    (deltaR min_pt max_eta mu_minpt ele_minpt rescale : ℚ) (systFlag : Int) (sort_by_pt : Bool) :
    Result (List V × FactorizedJetCorrector) :=
  if !isParticleFlow type then .ok ([], jet_corrector)
  else
    (getJetFlags K ev X idx type deltaR 0 max_eta mu_minpt ele_minpt rescale systFlag).bind
      fun tmp_jet_flags =>
        (forIndexedState (getJets_otf_turn K ev X min_pt rescale systFlag) 0 tmp_jet_flags
          jet_corrector).bind fun pushed =>
          let final_jets := pushed.1.reduceOption
          if sort_by_pt then .ok (sort (SortByPt K) final_jets, pushed.2)
          else .ok (final_jets, pushed.2)

/-- One turn of the loop of `getAllCorrectedJets` (JEC applied on the fly): the
momentum pushed and the corrector after the turn. -/
def getAllCorrectedJets_otf_turn (systFlag : Int) (jidx : Nat) (p4 : V)
    (jet_corrector : FactorizedJetCorrector) : Result (V × FactorizedJetCorrector) :=
  (otfSet K ev jet_corrector jidx).bind fun jc =>
    .ok (applySyst K X systFlag (K.scale p4 jc.getCorrection), jc)

/-- The function `samesign::getAllCorrectedJets`, JEC applied on the fly, with
the corrector it leaves. -/
def getAllCorrectedJets_otf_run (_type : JetType) (jet_corrector : FactorizedJetCorrector)
    (systFlag : Int) (_sort_by_pt : Bool) : Result (List V × FactorizedJetCorrector) :=
  forIndexedState (getAllCorrectedJets_otf_turn K ev X systFlag) 0 ev.pfjets_p4 jet_corrector

end

end samesign

/-! ## ssSelections.cc: the good-lepton selection -/

/-- Code of the lepton identification that `samesign::isGoodLepton` calls and
the sources do not contain, evaluated on the current event; each is taken to
return a value for every index.

* `electronSelection`: the cuts passed, a bit word, from
  `electronSelection(idx, false, false, true)`.
* `electronId_WP2012_noIso_useElEtaForIsEB_MEDIUM`: the identification bits at
  working point `MEDIUM`.
* `ELEID_WP2012_MEDIUM_NOISO`: the position of the bit of that name;
  `electronSelection_ssV7_noIso`: the mask of that name; `ISEB`: the position
  of the barrel bit of `els_fiduciality`.
* `pass_electronSelection`: the call
  `pass_electronSelection(idx, selectionType, false, false)`.
* `muonIdNotIsolated`: the muon identification at `NominalSSv5`. -/
structure GoodLeptonCollab where
  electronSelection : Int → Nat
  electronId_WP2012_noIso_useElEtaForIsEB_MEDIUM : Int → Nat
  ELEID_WP2012_MEDIUM_NOISO : Nat
  electronSelection_ssV7_noIso : Nat
  ISEB : Nat
  pass_electronSelection : Int → Nat → Bool
  muonIdNotIsolated : Int → Bool

section goodLepton

variable {V : Type} (K : LorentzOps V) (ev : Event V) (L : LeptonCollab) (I : GoodLeptonCollab)

/-- The function `samesign::isGoodLepton`. The jet queries above take its answer
for a lepton as the field `isGoodLepton` of `Collab`. -/
def samesign.isGoodLepton (id idx : Int) (use_el_eta : Bool) : Result Bool :=
  (samesign.leptonD0 ev L id idx).bind fun d0 =>
    if id.natAbs = 11 then
      if |d0| > 1 / 100 then .ok false
      else if use_el_eta then
        let cuts_passed := I.electronSelection idx
        let answer_med_2012 := I.electronId_WP2012_noIso_useElEtaForIsEB_MEDIUM idx
        let cuts_passed :=
          if answer_med_2012 &&& L.PassWP2012CutsNoIso = L.PassWP2012CutsNoIso then
            cuts_passed ||| (1 <<< I.ELEID_WP2012_MEDIUM_NOISO)
          else cuts_passed
        if cuts_passed &&& I.electronSelection_ssV7_noIso ≠ I.electronSelection_ssV7_noIso then
          .ok false
        else
          (vatInt ev.els_p4 idx).bind fun p4 =>
            if |K.eta p4| < 14442 / 10000 then
              (vatInt ev.els_hOverE idx).bind fun hOverE => .ok (decide (hOverE < 10 / 100))
            else
              (vatInt ev.els_hOverE idx).bind fun hOverE => .ok (decide (hOverE < 75 / 1000))
      else
        if !I.pass_electronSelection idx I.electronSelection_ssV7_noIso then .ok false
        else
          (vatInt ev.els_fiduciality idx).bind fun fiduciality =>
            if fiduciality &&& (1 <<< I.ISEB) = 1 <<< I.ISEB then
              (vatInt ev.els_hOverE idx).bind fun hOverE => .ok (decide (hOverE < 10 / 100))
            else
              (vatInt ev.els_hOverE idx).bind fun hOverE => .ok (decide (hOverE < 75 / 1000))
    else if id.natAbs = 13 then
      if |d0| > 5 / 1000 then .ok false else .ok (I.muonIdNotIsolated idx)
    else .ok false

end goodLepton

/-! ## ssSelections.cc: the extra-Z and gamma* vetoes -/

/-- The sum of two `LorentzVector`s and the accessor `mass2()`. -/
structure MassOps (V : Type) where
  add : V → V → V
  mass2 : V → ℚ

/-- Code of the lepton identification and isolation that the vetoes call and
the sources do not contain, evaluated on the current event; each is taken to
return a value for every index.

* `electronId_WP2012`: the identification bits at working point `VETO`;
  `passAllVetoCuts`: the mask `DETAIN | DPHIIN | SIGMAIETAIETA | HOE | D0VTX |
  DZVTX`.
* `electronIsolation_rel_v1`, `electronIsolation_cor_rel_v1`: the 2011
  electron isolation values, called with `true`; `electronId_VBTF`: the 2011
  electron identification at `VBTF_95_NOHOEEND`.
* `muonIsoValue`, `muonCorIsoValue`: the 2011 muon isolation values, called
  with `false`; `muonIdNotIsolated`: the muon identification at
  `OSGeneric_v4`. -/
structure VetoCollab where
  electronId_WP2012 : Int → Nat
  passAllVetoCuts : Nat
  electronIsolation_rel_v1 : Int → ℚ
  electronIsolation_cor_rel_v1 : Int → ℚ
  electronId_VBTF : Int → Bool
  muonIsoValue : Int → ℚ
  muonCorIsoValue : Int → ℚ
  muonIdNotIsolated : Int → Bool

section vetoes

variable {V : Type} (K : LorentzOps V) (A : MassOps V) (M : Libm) (ev : Event V)
  (L : LeptonCollab) (W : VetoCollab)

/-- The inner loop of the vetoes, over the hypothesis leptons of one flavour:
lepton `i` is paired with each of them in turn; a pair of charges whose product
is positive is skipped, and the loop answers `true` at the first pair whose
mass `sqrt(fabs(mass2()))` is in the window. -/
def extraPairInner (charge : List Int) (p4 : List V) (inWindow : ℚ → Bool) (i : Nat) :
    List Nat → Result Bool
  | [] => .ok false
  | h :: hs =>
    (vat charge i).bind fun qi =>
      (vat charge h).bind fun qh =>
        if qi * qh > 0 then extraPairInner charge p4 inWindow i hs
        else
          (vat p4 i).bind fun a =>
            (vat p4 h).bind fun b =>
              if inWindow (M.sqrt |A.mass2 (A.add a b)|) then .ok true
              else extraPairInner charge p4 inWindow i hs

/-- A lepton loop of the vetoes from lepton `i` on: a hypothesis lepton, a
lepton beyond `max_eta`, one below `min_pt` and one that fails `passesIdIso`
are skipped; the loop answers `true` (the function returns) when the inner loop
does. -/
def extraPairLoop (hyp_idx : List Nat) (max_eta min_pt : ℚ) (passesIdIso : Nat → Result Bool)
    (charge : List Int) (p4 : List V) (inWindow : ℚ → Bool) : Nat → List V → Result Bool
  | _, [] => .ok false
  | i, l :: ls =>
    if i ∈ hyp_idx then
      extraPairLoop hyp_idx max_eta min_pt passesIdIso charge p4 inWindow (i + 1) ls
    else if |K.eta l| > max_eta then
      extraPairLoop hyp_idx max_eta min_pt passesIdIso charge p4 inWindow (i + 1) ls
    else if K.pt l < min_pt then
      extraPairLoop hyp_idx max_eta min_pt passesIdIso charge p4 inWindow (i + 1) ls
    else
      (passesIdIso i).bind fun pass =>
        if !pass then
          extraPairLoop hyp_idx max_eta min_pt passesIdIso charge p4 inWindow (i + 1) ls
        else
          (extraPairInner A M charge p4 inWindow i hyp_idx).bind fun found =>
            if found then .ok true
            else extraPairLoop hyp_idx max_eta min_pt passesIdIso charge p4 inWindow (i + 1) ls

/-- The electron block and the muon block of a veto in sequence, each run when
its index list is not empty. -/
def extraPairBlocks (ele_idx mu_idx : List Nat) (max_eta min_pt : ℚ)
    (electronIdIso muonIdIso : Nat → Result Bool) (inWindow : ℚ → Bool) : Result Bool :=
  (if ele_idx.length > 0 then
      extraPairLoop K A M ele_idx max_eta min_pt electronIdIso ev.els_charge ev.els_p4 inWindow 0
        ev.els_p4
    else .ok false).bind fun found =>
    if found then .ok true
    else if mu_idx.length > 0 then
      extraPairLoop K A M mu_idx max_eta min_pt muonIdIso ev.mus_charge ev.mus_p4 inWindow 0
        ev.mus_p4
    else .ok false

/-- The block `if (apply_id_iso) ...` of the electron loop of
`samesign::makesExtraZ` and `samesign::makesExtraGammaStar`: `false` when the
electron is skipped. -/
def samesign.vetoElectronIdIso (apply_id_iso : Bool) (eidx : Nat) : Result Bool :=
  if apply_id_iso then
    (samesign.electronIsolationPF2012 K ev L (eidx : Int)).bind fun iso_val =>
      if iso_val > 2 / 10 then .ok false
      else if W.passAllVetoCuts &&& W.electronId_WP2012 (eidx : Int) ≠ W.passAllVetoCuts then
        .ok false
      else .ok true
  else .ok true

/-- The block `if (apply_id_iso) ...` of the muon loop of
`samesign::makesExtraZ` and `samesign::makesExtraGammaStar`. -/
def samesign.vetoMuonIdIso (apply_id_iso : Bool) (midx : Nat) : Result Bool :=
  if apply_id_iso then
    if L.muonIsoValuePF2012_deltaBeta (midx : Int) > 2 / 10 then .ok false
    else
      (vat ev.mus_pid_PFMuon midx).bind fun pid_PFMuon =>
        if pid_PFMuon = 0 then .ok false
        else
          (vat ev.mus_type midx).bind fun type =>
            let is_global := decide (type &&& (1 <<< 1) = 1 <<< 1)
            let is_tracker := decide (type &&& (1 <<< 2) = 1 <<< 2)
            if !is_global && !is_tracker then .ok false else .ok true
  else .ok true

/-- The part of `samesign::makesExtraZ` after the test on the sizes of the
index lists: leptons within `|eta| <= 2.4` and of `pt >= 10`, a pair mass
within 15 of 91. -/
def samesign.makesExtraZ_loops (apply_id_iso : Bool) (ele_idx mu_idx : List Nat) : Result Bool :=
  extraPairBlocks K A M ev ele_idx mu_idx (24 / 10) 10
    (samesign.vetoElectronIdIso K ev L W apply_id_iso) (samesign.vetoMuonIdIso ev L apply_id_iso)
    (fun zcandmass => decide (|zcandmass - 91| < 15))

/-- The function `samesign::makesExtraZ`. -/
def samesign.makesExtraZ (idx : Int) (apply_id_iso : Bool) : Result Bool :=
  (vatInt ev.hyp_lt_id idx).bind fun lt_id =>
    (vatInt ev.hyp_ll_id idx).bind fun ll_id =>
      (vatInt ev.hyp_lt_index idx).bind fun lt_idx =>
        (vatInt ev.hyp_ll_index idx).bind fun ll_idx =>
          let ele_idx := samesign.hypElectrons lt_id ll_id (toUnsigned lt_idx) (toUnsigned ll_idx)
          let mu_idx := samesign.hypMuons lt_id ll_id (toUnsigned lt_idx) (toUnsigned ll_idx)
          if ele_idx.length + mu_idx.length ≠ 2 then .ok false
          else samesign.makesExtraZ_loops K A M ev L W apply_id_iso ele_idx mu_idx

/-- The part of `samesign::makesExtraGammaStar` after the test on the sizes of
the index lists: leptons within `|eta| <= 2.4` and of `pt >= 5`, a pair mass
below 12. -/
def samesign.makesExtraGammaStar_loops (apply_id_iso : Bool) (ele_idx mu_idx : List Nat) :
    Result Bool :=
  extraPairBlocks K A M ev ele_idx mu_idx (24 / 10) 5
    (samesign.vetoElectronIdIso K ev L W apply_id_iso) (samesign.vetoMuonIdIso ev L apply_id_iso)
    (fun gammacandmass => decide (gammacandmass < 12))

/-- The function `samesign::makesExtraGammaStar`. -/
def samesign.makesExtraGammaStar (idx : Int) (apply_id_iso : Bool) : Result Bool :=
  (vatInt ev.hyp_lt_id idx).bind fun lt_id =>
    (vatInt ev.hyp_ll_id idx).bind fun ll_id =>
      (vatInt ev.hyp_lt_index idx).bind fun lt_idx =>
        (vatInt ev.hyp_ll_index idx).bind fun ll_idx =>
          let ele_idx := samesign.hypElectrons lt_id ll_id (toUnsigned lt_idx) (toUnsigned ll_idx)
          let mu_idx := samesign.hypMuons lt_id ll_id (toUnsigned lt_idx) (toUnsigned ll_idx)
          if ele_idx.length + mu_idx.length ≠ 2 then .ok false
          else samesign.makesExtraGammaStar_loops K A M ev L W apply_id_iso ele_idx mu_idx

/-- The block `if (apply_id_iso) ...` of the electron loop of
`samesign2011::makesExtraZ`. -/
def samesign2011.vetoElectronIdIso (iso_type : IsolationType) (apply_id_iso : Bool)
    (eidx : Nat) : Result Bool :=
  if apply_id_iso then
    let iso_val :=
      if iso_type = .DET_ISO ∨ iso_type = .TIGHT_DET_ISO then
        W.electronIsolation_rel_v1 (eidx : Int)
      else W.electronIsolation_cor_rel_v1 (eidx : Int)
    if iso_val > 2 / 10 then .ok false
    else if !W.electronId_VBTF (eidx : Int) then .ok false
    else .ok true
  else .ok true

/-- The block `if (apply_id_iso) ...` of the muon loop of
`samesign2011::makesExtraZ`. -/
def samesign2011.vetoMuonIdIso (iso_type : IsolationType) (apply_id_iso : Bool)
    (midx : Nat) : Result Bool :=
  if apply_id_iso then
    let iso_val :=
      if iso_type = .DET_ISO ∨ iso_type = .TIGHT_DET_ISO then W.muonIsoValue (midx : Int)
      else W.muonCorIsoValue (midx : Int)
    if iso_val > 2 / 10 then .ok false
    else if !W.muonIdNotIsolated (midx : Int) then .ok false
    else .ok true
  else .ok true

/-- The part of `samesign2011::makesExtraZ` after the test on the sizes of the
index lists: leptons within `|eta| <= 2.5` and of `pt >= 10`, a pair mass
within 15 of 91. -/
def samesign2011.makesExtraZ_loops (iso_type : IsolationType) (apply_id_iso : Bool)
    (ele_idx mu_idx : List Nat) : Result Bool :=
  extraPairBlocks K A M ev ele_idx mu_idx (25 / 10) 10
    (samesign2011.vetoElectronIdIso W iso_type apply_id_iso)
    (samesign2011.vetoMuonIdIso W iso_type apply_id_iso)
    (fun zcandmass => decide (|zcandmass - 91| < 15))

/-- The function `samesign2011::makesExtraZ`. -/
def samesign2011.makesExtraZ (idx : Int) (iso_type : IsolationType) (apply_id_iso : Bool) :
    Result Bool :=
  (vatInt ev.hyp_lt_id idx).bind fun lt_id =>
    (vatInt ev.hyp_ll_id idx).bind fun ll_id =>
      (vatInt ev.hyp_lt_index idx).bind fun lt_idx =>
        (vatInt ev.hyp_ll_index idx).bind fun ll_idx =>
          let ele_idx := samesign.hypElectrons lt_id ll_id (toUnsigned lt_idx) (toUnsigned ll_idx)
          let mu_idx := samesign.hypMuons lt_id ll_id (toUnsigned lt_idx) (toUnsigned ll_idx)
          if ele_idx.length + mu_idx.length ≠ 2 then .ok false
          else samesign2011.makesExtraZ_loops K A M ev W iso_type apply_id_iso ele_idx mu_idx

end vetoes

/-! ## ssSelections.cc: the b-tag flags of the selected jets, by pt -/

section sortedBtags

variable {V : Type} (K : LorentzOps V) (ev : Event V) (X : Collab V)

/-- One turn of the first loop of `sortBtaggedFlags`: the pair pushed for index
`idx`, `none` when the jet flag is false. -/
def sortBtaggedFlags_body (all_jet_p4s : List V) (all_bjet_flags : List Bool) (idx : Nat)
    (flag : Bool) : Result (Option (V × Bool)) :=
  if !flag then .ok none
  else
    (vat all_jet_p4s idx).bind fun p4 =>
      (vat all_bjet_flags idx).bind fun bflag => .ok (some (p4, bflag))

/-- The function `sortBtaggedFlags`. -/
def sortBtaggedFlags (all_jet_p4s : List V) (all_jet_flags all_bjet_flags : List Bool) :
    Result (List Bool) :=
  (cassert (all_jet_p4s.length == all_jet_flags.length)).bind fun _ =>
    (cassert (all_jet_flags.length == all_bjet_flags.length)).bind fun _ =>
      (forIndexed (sortBtaggedFlags_body all_jet_p4s all_bjet_flags) 0 all_jet_flags).bind
        fun pushed =>
          let tmp_p4_flags := sort (samesign.SortByPt_pair K) pushed.reduceOption
          .ok (tmp_p4_flags.map Prod.snd)

/-- The function `samesign::getBtaggedJetFlags`, JEC taken from the ntuple. The
`getBtaggedJetFlags` of the jetSelections header that it starts from is outside
the sources and is the argument `base_getBtaggedJetFlags`. -/
def samesign.getBtaggedJetFlags
    (base_getBtaggedJetFlags :
      Nat → JetType → CleaningType → BtagType → ℚ → ℚ → ℚ → ℚ → Option Int → Result (List Bool))
    (idx : Int) (type : JetType) (btag_type : BtagType)
    (deltaR min_pt max_eta mu_minpt ele_minpt rescale : ℚ) (systFlag : Int) :
    Result (List Bool) :=
  (base_getBtaggedJetFlags (toUnsigned idx) type .JETS_CLEAN_HYP_E_MU btag_type deltaR 0 max_eta
      rescale (some systFlag)).bind fun tmp_jet_flags =>
    forIndexed (samesign.getJetFlags_body K ev X deltaR min_pt mu_minpt ele_minpt rescale systFlag)
      0 tmp_jet_flags

/-- The function `samesign::getSortedBtaggedFlags`, JEC taken from the ntuple. -/
def samesign.getSortedBtaggedFlags
    (base_getBtaggedJetFlags :
      Nat → JetType → CleaningType → BtagType → ℚ → ℚ → ℚ → ℚ → Option Int → Result (List Bool))
    (idx : Int) (type : JetType) (btag_type : BtagType)
    (deltaR min_pt max_eta mu_minpt ele_minpt rescale : ℚ) (systFlag : Int) :
    Result (List Bool) :=
  (samesign.getAllCorrectedJets K ev X type systFlag false).bind fun tmp_jets_p4 =>
    (samesign.getJetFlags K ev X idx type deltaR min_pt max_eta mu_minpt ele_minpt rescale
        systFlag).bind fun tmp_jets_flag =>
      (samesign.getBtaggedJetFlags K ev X base_getBtaggedJetFlags idx type btag_type deltaR min_pt
          max_eta mu_minpt ele_minpt rescale systFlag).bind fun tmp_jets_btag_flag =>
        sortBtaggedFlags K tmp_jets_p4 tmp_jets_flag tmp_jets_btag_flag

end sortedBtags

/-! ## fakerates.cc: denominators and MC categories -/

/-- Code of the electron identification that the fake-rate denominators call
and the sources do not contain, evaluated on the current event; each is taken
to return a value for every index. `ISECALDRIVEN` is the position of the bit of
that name in `els_type`. -/
structure DenominatorCollab where
  ISECALDRIVEN : Nat
  electronId_noMuon : Int → Bool
  electronId_cand01 : Int → Bool
  electronIsolation_relsusy_cand1 : Int → Bool → ℚ
  isFromConversionPartnerTrack : Int → Bool

/-- The operator `!` on an integer: 1 for zero, 0 otherwise. -/
def logicalNot (x : Nat) : Nat := if x = 0 then 1 else 0

/-- The operator `&&` on operands that can fault: the right operand is
evaluated when the left one is true. -/
def andAlso (a b : Result Bool) : Result Bool := a.bind fun x => if x then b else .ok false

/-- The operator `||` on operands that can fault: the right operand is
evaluated when the left one is false. -/
def orElse (a b : Result Bool) : Result Bool := a.bind fun x => if x then .ok true else b

/-- A comparison on a value whose read can fault. -/
def test (a : Result Nat) (p : Nat → Bool) : Result Bool := a.bind fun x => .ok (p x)

section fakeDenominators

variable {V : Type} (K : LorentzOps V) (ev : Event V) (F : DenominatorCollab)

/-- The function `isFakeDenominatorElectron_v1`. In its first test `!` applies
to the type word and `&` to the result. -/
def isFakeDenominatorElectron_v1 (index : Int) : Result Bool :=
  (vidxInt ev.els_type index).bind fun type =>
    if (logicalNot type) &&& (1 <<< F.ISECALDRIVEN) ≠ 0 then .ok false
    else
      (vidxInt ev.els_p4 index).bind fun p4 =>
        if |K.eta p4| > 25 / 10 then .ok false
        else if !F.electronId_noMuon index then .ok false
        else if F.electronIsolation_relsusy_cand1 index true > 40 / 100 then .ok false
        else if F.isFromConversionPartnerTrack index then .ok false
        else .ok true

/-- The function `isFakeDenominatorElectron_v2`. -/
def isFakeDenominatorElectron_v2 (index : Int) : Result Bool :=
  (vidxInt ev.els_type index).bind fun type =>
    if (logicalNot type) &&& (1 <<< F.ISECALDRIVEN) ≠ 0 then .ok false
    else
      (vidxInt ev.els_p4 index).bind fun p4 =>
        if |K.eta p4| > 25 / 10 then .ok false
        else if !F.electronId_noMuon index then .ok false
        else if F.electronIsolation_relsusy_cand1 index true > 10 / 100 then .ok false
        else if F.isFromConversionPartnerTrack index then .ok false
        else .ok true

/-- The function `isFakeDenominatorElectron_v3`. -/
def isFakeDenominatorElectron_v3 (index : Int) : Result Bool :=
  (vidxInt ev.els_type index).bind fun type =>
    if (logicalNot type) &&& (1 <<< F.ISECALDRIVEN) ≠ 0 then .ok false
    else
      (vidxInt ev.els_p4 index).bind fun p4 =>
        if |K.eta p4| > 25 / 10 then .ok false
        else if !F.electronId_noMuon index then .ok false
        else if !F.electronId_cand01 index then .ok false
        else if F.electronIsolation_relsusy_cand1 index true > 40 / 100 then .ok false
        else if F.isFromConversionPartnerTrack index then .ok false
        else .ok true

/-- The function `elFakeMCCategory`; `id` and `mother` are the expressions
`abs(cms2.els_mc_id()[i_el])` and `abs(cms2.els_mc_motherid()[i_el])`. -/
def elFakeMCCategory (i_el : Int) : Result Int :=
  let id := (vidxInt ev.els_mc_id i_el).map Int.natAbs
  let mother := (vidxInt ev.els_mc_motherid i_el).map Int.natAbs
  (orElse (orElse (orElse
      (andAlso (test id fun x => decide (x = 11)) (test mother fun x => decide (x = 22)))
      (test id fun x => decide (x = 22)))
      (andAlso (test id fun x => decide (x > 100)) (test id fun x => decide (x < 200))))
      (andAlso (test id fun x => decide (x = 11)) (test mother fun x => decide (x = 111)))).bind
    fun conversion =>
      if conversion then .ok 1
      else
        (orElse (orElse (orElse
            (andAlso (test id fun x => decide (x > 200)) (test id fun x => decide (x < 400)))
            (andAlso (test id fun x => decide (x > 2000)) (test id fun x => decide (x < 4000))))
            (andAlso (andAlso (test id fun x => decide (x = 11))
              (test mother fun x => decide (x > 200))) (test mother fun x => decide (x < 400))))
            (andAlso (andAlso (test id fun x => decide (x = 11))
              (test mother fun x => decide (x > 2000)))
              (test mother fun x => decide (x < 4000)))).bind
          fun light =>
            if light then .ok 2
            else
              (orElse
                (andAlso (andAlso (test id fun x => decide (x = 11))
                  (test mother fun x => decide (x ≥ 400))) (test mother fun x => decide (x ≤ 600)))
                (andAlso (andAlso (test id fun x => decide (x = 11))
                  (test mother fun x => decide (x ≥ 4000)))
                  (test mother fun x => decide (x ≤ 6000)))).bind
                fun heavy => if heavy then .ok 3 else .ok 4

/-- The function `muFakeMCCategory`; `id` and `mother` are the expressions
`abs(cms2.mus_mc_id()[i_mu])` and `abs(cms2.mus_mc_motherid()[i_mu])`. -/
def muFakeMCCategory (i_mu : Int) : Result Int :=
  let id := (vidxInt ev.mus_mc_id i_mu).map Int.natAbs
  let mother := (vidxInt ev.mus_mc_motherid i_mu).map Int.natAbs
  (test id fun x => decide (x ≠ 13)).bind fun punchthrough =>
    if punchthrough then .ok 1
    else
      (andAlso (test id fun x => decide (x = 13)) (test mother fun x => decide (x < 400))).bind
        fun light =>
          if light then .ok 2
          else
            (orElse
              (andAlso (andAlso (test id fun x => decide (x = 13))
                (test mother fun x => decide (x ≥ 400))) (test mother fun x => decide (x ≤ 600)))
              (andAlso (andAlso (test id fun x => decide (x = 13))
                (test mother fun x => decide (x ≥ 4000)))
                (test mother fun x => decide (x ≤ 6000)))).bind
              fun heavy => if heavy then .ok 3 else .ok 4

end fakeDenominators

/-! ## A concrete vector type for worked examples -/

/-- A four-vector by transverse length, pseudorapidity and azimuth. The vector
with a negative `pt` field is the opposite of the one with the positive field,
so that multiplying the field by a scalar is exact scaling; `pt()` is the
magnitude of the field. -/
structure P4 where
  pt : ℚ
  eta : ℚ
  phi : ℚ
  deriving DecidableEq, Repr

/-- The pseudorapidity of a `P4`, with the sign convention of the structure. -/
def P4.etaOf (v : P4) : ℚ := if v.pt < 0 then -v.eta else if v.pt = 0 then 0 else v.eta

/-- Operations on `P4`. The distance is the sum of the separations in eta and
in phi, which for vectors with a positive `pt` field is `DeltaR` whenever one
of the two separations vanishes. -/
def P4.ops : LorentzOps P4 where
  pt v := |v.pt|
  eta v := v.etaOf
  scale v a := ⟨v.pt * a, v.eta, v.phi⟩
  DeltaR a b := |a.etaOf - b.etaOf| + |a.phi - b.phi|

/-- Operations on `P4` in single precision, for a vector along the x axis
(`eta = 0`, `phi = 0`), whose `pt()` is the magnitude of its `px()`: the scalar
is converted to `float` and the product is rounded to `float`. The other
operations are those of `P4.ops`. -/
def P4.float32Ops : LorentzOps P4 where
  pt v := |v.pt|
  eta v := v.etaOf
  scale v a := ⟨float32 (v.pt * float32 a), v.eta, v.phi⟩
  DeltaR a b := |a.etaOf - b.etaOf| + |a.phi - b.phi|

/-- The jetSelections of the sources in the place of the overloads that
`ssSelections.cc` calls: the trailing rescale and systematic flag are not
used. The remaining collaborators are passed through. -/
def legacyCollab {V : Type} (K : LorentzOps V) (ev : Event V) (X : Collab V) : Collab V :=
  { X with
    base_getJets := fun i_hyp sort_ type cleaning deltaR min_pt max_eta _ _ =>
      getJets K ev i_hyp sort_ type cleaning deltaR min_pt max_eta
    base_getJetFlags := fun i_hyp type cleaning deltaR min_pt max_eta _ _ =>
      getJetFlags K ev i_hyp type cleaning deltaR min_pt max_eta }

/-- Collaborators of an event in which no lepton passes identification or
isolation: no shift factor, an empty discriminator table, rescale 1 and flag 0
as defaults. -/
def plainCollab {V : Type} (K : LorentzOps V) (ev : Event V) : Collab V :=
  legacyCollab K ev
    { base_getJets := fun _ _ _ _ _ _ _ _ _ => .ok []
      base_getJetFlags := fun _ _ _ _ _ _ _ _ => .ok []
      getJetMetSyst := fun _ _ _ => 1
      isGoodLepton := fun _ _ _ => false
      isIsolatedLepton := fun _ _ => false
      isGoodLepton2011 := fun _ _ => false
      isIsolatedLepton2011 := fun _ _ _ => false
      btagDiscriminators := fun _ _ => []
      default_rescale := 1
      default_systFlag := 0
      default_use_el_eta := false
      default_rescale2011 := 1 }

/-! ## Events for worked examples -/

/-- Two particle-flow jets of raw pt 20 and 50 with unit correction factors, one
calorimeter jet with good jet-ID quantities, and two hypothesis leptons far
from both jets. -/
def dijetEvent : Event P4 :=
  { pfjets_p4 := [⟨20, 0, 0⟩, ⟨50, 1, 1⟩]
    pfjets_cor := [1, 1]
    pfjets_corL1FastL2L3 := [1, 1]
    pfjets_corL1FastL2L3residual := [1, 1]
    pfjets_area := [1 / 2, 1 / 2]
    jets_p4 := [⟨40, 0, 0⟩]
    jets_emFrac := [1 / 2]
    jets_fHPD := [1 / 2]
    jets_n90Hits := [5]
    hyp_lt_p4 := [⟨30, 3, 3⟩]
    hyp_ll_p4 := [⟨30, -3, 3⟩] }

/-- One particle-flow jet of raw pt 10 whose stored correction factor is -1, and
one calorimeter jet with good jet-ID quantities. -/
def negativeFactorEvent : Event P4 :=
  { pfjets_p4 := [⟨10, 0, 0⟩]
    pfjets_cor := [-1]
    jets_p4 := [⟨10, 0, 0⟩]
    jets_emFrac := [1 / 2]
    jets_fHPD := [1 / 2]
    jets_n90Hits := [5] }

/-- One particle-flow jet of raw pt 20 along the x axis with unit stored
factors, one calorimeter jet with good jet-ID quantities and two hypothesis
leptons far from the jet. -/
def roundingEvent : Event P4 :=
  { pfjets_p4 := [⟨20, 0, 0⟩]
    pfjets_cor := [1]
    pfjets_corL1FastL2L3 := [1]
    pfjets_corL1FastL2L3residual := [1]
    pfjets_area := [1 / 2]
    jets_p4 := [⟨40, 0, 0⟩]
    jets_emFrac := [1 / 2]
    jets_fHPD := [1 / 2]
    jets_n90Hits := [5]
    hyp_lt_p4 := [⟨30, 3, 3⟩]
    hyp_ll_p4 := [⟨30, -3, 3⟩] }

/-- A corrector that scales every jet by `0.9f`, the single-precision number
nearest to 9/10: `7549747 / 2 ^ 23`. -/
def singleCorrector : FactorizedJetCorrector :=
  { rho := 0, jetA := 0, jetPt := 0, jetEta := 0
    correction := fun _ _ _ _ => 7549747 / 8388608 }

/-- Two particle-flow jets along the x axis, of raw pt 30 with the stored
factor `0.9f` and of raw pt 50 with the stored factor 3/2; one calorimeter jet
with good jet-ID quantities and two hypothesis leptons far from both jets. -/
def storedFactorEvent : Event P4 :=
  { pfjets_p4 := [⟨30, 0, 0⟩, ⟨50, 0, 0⟩]
    pfjets_cor := [7549747 / 8388608, 3 / 2]
    jets_p4 := [⟨40, 0, 0⟩]
    jets_emFrac := [1 / 2]
    jets_fHPD := [1 / 2]
    jets_n90Hits := [5]
    hyp_lt_p4 := [⟨30, 3, 3⟩]
    hyp_ll_p4 := [⟨30, -3, 3⟩] }

/-- A corrector that scales every jet by 11/10. -/
def flatCorrector : FactorizedJetCorrector :=
  { rho := 0, jetA := 0, jetPt := 0, jetEta := 0, correction := fun _ _ _ _ => 11 / 10 }

/-- An uncertainty of 5 percent for every jet. -/
def flatUncertainty : JetCorrectionUncertainty :=
  { jetPt := 0, jetEta := 0, uncertainty := fun _ _ => 1 / 20 }

/-- One particle-flow jet at eta 1, phi 0 with raw pt 50, one electron of pt 25
at eta 1, phi 2/5, and two muons far from the jet that form the hypothesis. -/
def boundaryEvent : Event P4 :=
  { pfjets_p4 := [⟨50, 1, 0⟩]
    pfjets_cor := [1]
    pfjets_corL1FastL2L3 := [1]
    pfjets_corL1FastL2L3residual := [1]
    pfjets_area := [1 / 2]
    jets_p4 := [⟨50, 1, 0⟩]
    jets_emFrac := [1 / 2]
    jets_fHPD := [1 / 2]
    jets_n90Hits := [5]
    hyp_lt_p4 := [⟨30, 3, 3⟩]
    hyp_ll_p4 := [⟨30, -3, 3⟩]
    els_p4 := [⟨25, 1, 2 / 5⟩]
    mus_p4 := [⟨30, 3, 3⟩, ⟨30, -3, 3⟩] }

/-- The collaborators of `plainCollab` with every lepton passing identification
and isolation. -/
def numeratorCollab {V : Type} (K : LorentzOps V) (ev : Event V) : Collab V :=
  { plainCollab K ev with
    isGoodLepton := fun _ _ _ => true
    isIsolatedLepton := fun _ _ => true
    isGoodLepton2011 := fun _ _ => true
    isIsolatedLepton2011 := fun _ _ _ => true }

/-- Two particle-flow jets: the first, at eta 1 and phi 0 with raw pt 50, has an
electron of pt 25 at DeltaR 1/20; the second, of raw pt 60, has no lepton
nearby. The hypothesis leptons are two muons far from both jets. -/
def overlapEvent : Event P4 :=
  { pfjets_p4 := [⟨50, 1, 0⟩, ⟨60, -1, 2⟩]
    pfjets_cor := [1, 1]
    pfjets_corL1FastL2L3 := [1, 1]
    pfjets_corL1FastL2L3residual := [1, 1]
    pfjets_area := [1 / 2, 1 / 2]
    jets_p4 := [⟨50, 1, 0⟩]
    jets_emFrac := [1 / 2]
    jets_fHPD := [1 / 2]
    jets_n90Hits := [5]
    hyp_lt_p4 := [⟨30, 3, 3⟩]
    hyp_ll_p4 := [⟨30, -3, 3⟩]
    els_p4 := [⟨25, 1, 1 / 20⟩]
    mus_p4 := [⟨30, 3, 3⟩, ⟨30, -3, 3⟩] }

/-- The collaborators of `numeratorCollab` on `overlapEvent`, with the
discriminator table 3/10, 9/10. -/
def overlapCollab : Collab P4 :=
  { numeratorCollab P4.ops overlapEvent with
    btagDiscriminators := fun _ _ => [3 / 10, 9 / 10] }

/-- Two particle-flow jets of raw pt 50, the first at eta 3, outside a `max_eta`
of 5/2, the second at eta 1; one calorimeter jet with good jet-ID quantities
and two hypothesis leptons far from both jets. -/
def forwardEvent : Event P4 :=
  { pfjets_p4 := [⟨50, 3, 0⟩, ⟨50, 1, 1⟩]
    pfjets_cor := [1, 1]
    pfjets_corL1FastL2L3 := [1, 1]
    pfjets_corL1FastL2L3residual := [1, 1]
    pfjets_area := [1 / 2, 1 / 2]
    jets_p4 := [⟨40, 0, 0⟩]
    jets_emFrac := [1 / 2]
    jets_fHPD := [1 / 2]
    jets_n90Hits := [5]
    hyp_lt_p4 := [⟨30, 3, 3⟩]
    hyp_ll_p4 := [⟨30, -3, 3⟩] }

/-- Two particle-flow jets: raw pt 52 at eta 0 and raw pt 48 at eta 2, with unit
stored factors; one calorimeter jet with good jet-ID quantities and two
hypothesis leptons far from both jets. -/
def shiftEvent : Event P4 :=
  { pfjets_p4 := [⟨52, 0, 0⟩, ⟨48, 2, 1⟩]
    pfjets_cor := [1, 1]
    pfjets_corL1FastL2L3 := [1, 1]
    pfjets_corL1FastL2L3residual := [1, 1]
    pfjets_area := [1 / 2, 1 / 2]
    jets_p4 := [⟨40, 0, 0⟩]
    jets_emFrac := [1 / 2]
    jets_fHPD := [1 / 2]
    jets_n90Hits := [5]
    hyp_lt_p4 := [⟨30, -3, 3⟩]
    hyp_ll_p4 := [⟨30, -3, -3⟩] }

/-- A binned energy-scale shift: no shift for `|eta| < 1`; beyond, a factor
11/10 below pt 50 and no shift from pt 50 on. -/
def binnedShift (_systFlag : Int) (pt eta : ℚ) : ℚ :=
  if |eta| < 1 then 1 else if pt < 50 then 11 / 10 else 1

/-- The collaborators of `plainCollab` on `shiftEvent`, with the shift
`binnedShift` and the discriminator table 3/10, 9/10. -/
def shiftCollab : Collab P4 :=
  { plainCollab P4.ops shiftEvent with
    getJetMetSyst := binnedShift
    btagDiscriminators := fun _ _ => [3 / 10, 9 / 10] }

/-- A corrector of scale 1 for every jet. -/
def unitCorrector : FactorizedJetCorrector :=
  { rho := 0, jetA := 0, jetPt := 0, jetEta := 0, correction := fun _ _ _ _ => 1 }

/-- One particle-flow jet of raw pt 50 at eta 11/2, beyond 5.1999, with unit
stored factors; one calorimeter jet with good jet-ID quantities and two
hypothesis leptons far from the jet. -/
def edgeEvent : Event P4 :=
  { pfjets_p4 := [⟨50, 11 / 2, 0⟩]
    pfjets_cor := [1]
    pfjets_corL1FastL2L3 := [1]
    pfjets_corL1FastL2L3residual := [1]
    pfjets_area := [1 / 2]
    jets_p4 := [⟨40, 0, 0⟩]
    jets_emFrac := [1 / 2]
    jets_fHPD := [1 / 2]
    jets_n90Hits := [5]
    hyp_lt_p4 := [⟨30, -3, 3⟩]
    hyp_ll_p4 := [⟨30, -3, -3⟩] }

/-- An uncertainty table of 5 percent for `|eta| <= 5.1999` that answers 1/2
beyond. -/
def edgeUncertainty : JetCorrectionUncertainty :=
  { jetPt := 0, jetEta := 0
    uncertainty := fun _ eta => if |eta| ≤ 51999 / 10000 then 1 / 20 else 1 / 2 }

/-- Three particle-flow jets with the flavour labels 5, 21, 1 (algorithmic) and
5, 0, 2 (physics). -/
def flavourEvent : Event P4 :=
  { pfjets_p4 := [⟨30, 0, 0⟩, ⟨40, 1, 1⟩, ⟨60, 2, 2⟩]
    pfjets_mcflavorAlgo := [5, 21, 1]
    pfjets_mcflavorPhys := [5, 0, 2] }

/-- Two electrons and two muons; the hypothesis is electron 0 with muon 0. The
other electron (pt 25) and the other muon (pt 40) are far from each other and
have small isolation values. -/
def trileptonEvent : Event P4 :=
  { els_p4 := [⟨30, 0, 0⟩, ⟨25, 1, 1⟩]
    els_charge := [-1, 1]
    els_etaSC := [0, 1]
    els_gsftrkidx := [0, 1]
    els_iso03_pf2012ext_ch := [1, 1]
    els_iso03_pf2012ext_em := [0, 0]
    els_iso03_pf2012ext_nh := [0, 0]
    mus_p4 := [⟨35, 0, 2⟩, ⟨40, -1, -2⟩]
    mus_charge := [1, -1]
    mus_trkidx := [0, 1]
    hyp_lt_id := [11]
    hyp_ll_id := [-13]
    hyp_lt_index := [0]
    hyp_ll_index := [0] }

/-- Identification helpers under which every lepton is identified, with a muon
isolation of 1/10, one good vertex and vanishing impact parameters. -/
def looseLeptons : LeptonCollab :=
  { passes_muid_wp2012 := fun _ => true
    muonIsoValuePF2012_deltaBeta := fun _ => 1 / 10
    firstGoodVertex := 0
    trks_d0_pv := fun _ _ => 0
    gsftrks_d0_pv := fun _ _ => 0
    fastJetEffArea03_v2 := fun _ => 1 / 10
    electronId_WP2012_noIso_useElEtaForIsEB := fun _ => 7
    electronId_WP2012_v3 := fun _ => 7
    PassWP2012CutsNoIso := 7 }

/-- A stand-in for the energy of a `P4`: `pt * (1 + eta^2 / 2)`, a lower bound
of `pt * cosh(eta)`. -/
def P4.energyOf (v : P4) : ℚ := |v.pt| * (1 + v.eta ^ 2 / 2)

/-- One photon of pt 40 at eta 0, phi 0 with H/E 1/20 and no supercluster, and
three particle-flow jets: pt 5 next to the photon, pt 50 at DeltaR 1/5 with a
neutral EM energy of 45, and pt 60 far away. -/
def photonEvent : Event P4 :=
  { photons_p4 := [⟨40, 0, 0⟩]
    photons_hOverE := [1 / 20]
    photons_scindex := [-1]
    pfjets_p4 := [⟨5, 0, 0⟩, ⟨50, 0, 1 / 5⟩, ⟨60, 2, 2⟩]
    pfjets_neutralEmE := [1, 45, 2] }

/-- One photon of pt 40 at eta 0, phi 0 with H/E 1/20 and no supercluster, and
three particle-flow jets: pt 5 next to the photon, pt 16 at DeltaR 1/5 with an
energy of 16 and a neutral EM energy of `11744051 / 2 ^ 20` (11.2000007629...),
and pt 60 far away. The neutral EM energy fraction of the second jet is
`11744051 / 2 ^ 24`, the single-precision number nearest to 0.7. -/
def cutFractionEvent : Event P4 :=
  { photons_p4 := [⟨40, 0, 0⟩]
    photons_hOverE := [1 / 20]
    photons_scindex := [-1]
    pfjets_p4 := [⟨5, 0, 0⟩, ⟨16, 0, 1 / 5⟩, ⟨60, 2, 2⟩]
    pfjets_neutralEmE := [1, 11744051 / 1048576, 2] }

/-- One photon whose supercluster has the energies `e1x3 = 1`, `e3x1 = 1` and
`eMax = 0`. -/
def zeroMaxEvent : Event P4 :=
  { photons_p4 := [⟨40, 0, 0⟩]
    photons_hOverE := [1 / 20]
    photons_scindex := [0]
    scs_e1x3 := [1]
    scs_e3x1 := [1]
    scs_eMax := [0] }

/-- Library functions for worked examples: `Rat.sqrt`, which is exact on the
squares of rationals; `pow` with the exponent rounded down to a natural number;
first-order `cos`, `sin` and `atan2`, exact along the positive x axis. -/
def axisMath : Libm where
  sqrt := Rat.sqrt
  pow x y := x ^ (Rat.floor y).toNat
  cos x := 1 - x ^ 2 / 2
  sin x := x
  atan2 y x :=
    if 0 < x then y / x
    else if x < 0 then (if 0 ≤ y then 22 / 7 + y / x else -(22 / 7) + y / x)
    else if 0 < y then 11 / 7 else if y < 0 then -(11 / 7) else 0

/-- The transverse components of a `P4`: the signed `pt` field along the
direction of `phi`. -/
def P4.transverse (M : Libm) : TransverseOps P4 where
  px v := v.pt * M.cos v.phi
  py v := v.pt * M.sin v.phi
  phi v := v.phi

/-- A generator for worked examples. Its state is the seed last set, moved on
by one at every draw; a draw is the mean displaced by -2/10, -1/10, 0, 1/10 or
2/10 according to the state modulo 5. -/
def seedGenerator : TRandom3 Nat where
  SetSeed _ seed := seed
  Gaus random mean _ := (mean + (((random % 5 : Nat) : ℚ) - 2) / 10, random + 1)

/-- A generator for worked examples that seeds itself when the seed is 0, as
`TRandom3::SetSeed` does from a UUID: the seed it then takes is one more than
its state, which stands for a value that no argument of the call fixes. Any
other seed, an `unsigned int`, becomes the state. It draws as
`seedGenerator`. -/
def uuidGenerator : TRandom3 Nat where
  SetSeed random seed := if seed % 2 ^ 32 = 0 then random + 1 else seed % 2 ^ 32
  Gaus random mean _ := (mean + (((random % 5 : Nat) : ℚ) - 2) / 10, random + 1)

/-- The coordinates of ROOT's `Polar2D`. -/
structure Polar2D where
  fR : ℚ
  fPhi : ℚ
  deriving DecidableEq, Repr

/-- The polar coordinates of the point `(x, y)`. -/
def Polar2D.ofXY (M : Libm) (x y : ℚ) : Polar2D := ⟨M.sqrt (x * x + y * y), M.atan2 y x⟩

/-- The operations of ROOT's `Polar2D` vectors for a given default-constructed
vector: a sum or a difference is formed on the Cartesian components and turned
back into polar coordinates; `SetR` replaces the length. -/
def Polar2D.opsFrom (M : Libm) (init : Polar2D) : Polar2DOps Polar2D where
  init := init
  polar r phi := ⟨r, phi⟩
  add a b :=
    Polar2D.ofXY M (a.fR * M.cos a.fPhi + b.fR * M.cos b.fPhi)
      (a.fR * M.sin a.fPhi + b.fR * M.sin b.fPhi)
  sub a b :=
    Polar2D.ofXY M (a.fR * M.cos a.fPhi - b.fR * M.cos b.fPhi)
      (a.fR * M.sin a.fPhi - b.fR * M.sin b.fPhi)
  r a := a.fR
  SetR a r := ⟨r, a.fPhi⟩

/-- ROOT's `Polar2D` vectors: the default constructor sets `r = 1` and
`phi = 0`. -/
def Polar2D.ops (M : Libm) : Polar2DOps Polar2D := Polar2D.opsFrom M ⟨1, 0⟩

/-- The `Polar2D` vectors with a default constructor that gives the vector of
length 0. -/
def Polar2D.opsFromZero (M : Libm) : Polar2DOps Polar2D := Polar2D.opsFrom M ⟨0, 0⟩

/-- A fake-rate histogram for worked examples: two bins in `|eta|`, `[0, 1)`
and `[1, 5/2)`, and three bins in pt, `[0, 50)`, `[50, 100)` and `[100, 150)`;
the global bin of the bins `(bx, by)` is `bx + 4 * by`, and the contents are
1/10, 2/10, 3/10 in the first eta bin and 12/100, 22/100, 32/100 in the
second, 0 in the underflow and overflow bins. -/
def stepHistogram : TH2F where
  yaxis_GetNbins := 3
  yaxis_GetBinLowEdge b := 50 * ((b : ℚ) - 1)
  yaxis_GetBinWidth _ := 50
  FindBin x y :=
    (if x < 0 then 0 else if x < 1 then 1 else if x < 5 / 2 then 2 else 3) +
      4 * (if y < 0 then 0 else if y < 50 then 1 else if y < 100 then 2
        else if y < 150 then 3 else 4)
  GetBinContent b :=
    if b = 5 then 1 / 10 else if b = 9 then 2 / 10 else if b = 13 then 3 / 10
    else if b = 6 then 12 / 100 else if b = 10 then 22 / 100 else if b = 14 then 32 / 100
    else 0

/-- Two muons and one electron above the last pt edge of `stepHistogram`: pt
200 and 300 at `|eta|` 1/2, and pt 200 at eta 3/2. -/
def highPtLeptons : Event P4 :=
  { mus_p4 := [⟨200, 1 / 2, 0⟩, ⟨300, -(1 / 2), 1⟩]
    els_p4 := [⟨200, 3 / 2, 0⟩] }

/-- Two particle-flow jets with unit stored factors: raw pt 50 at eta 11/5 and
raw pt 60 at eta 0; one calorimeter jet with good jet-ID quantities and two
hypothesis leptons far from both jets. -/
def smearEvent : Event P4 :=
  { pfjets_p4 := [⟨50, 11 / 5, 0⟩, ⟨60, 0, 1⟩]
    pfjets_cor := [1, 1]
    pfjets_corL1FastL2L3 := [1, 1]
    pfjets_corL1FastL2L3residual := [1, 1]
    pfjets_area := [1 / 2, 1 / 2]
    jets_p4 := [⟨40, 0, 0⟩]
    jets_emFrac := [1 / 2]
    jets_fHPD := [1 / 2]
    jets_n90Hits := [5]
    hyp_lt_p4 := [⟨30, -3, 3⟩]
    hyp_ll_p4 := [⟨30, -3, -3⟩] }

/-- A corrector whose scale is `1 + rho / 100`, with `rho` as it was last
set. -/
def pileupCorrector (rho : ℚ) : FactorizedJetCorrector :=
  { rho := rho, jetA := 0, jetPt := 0, jetEta := 0
    correction := fun rho _ _ _ => 1 + rho / 100 }

/-- Identification helpers of `samesign::isGoodLepton` under which every lepton
passes every identification cut. -/
def lenientId : GoodLeptonCollab :=
  { electronSelection := fun _ => 1
    electronId_WP2012_noIso_useElEtaForIsEB_MEDIUM := fun _ => 7
    ELEID_WP2012_MEDIUM_NOISO := 1
    electronSelection_ssV7_noIso := 3
    ISEB := 0
    pass_electronSelection := fun _ _ => true
    muonIdNotIsolated := fun _ => true }

/-- The helpers of `looseLeptons` for an event without a good vertex. -/
def vertexlessLeptons : LeptonCollab :=
  { passes_muid_wp2012 := fun _ => true
    muonIsoValuePF2012_deltaBeta := fun _ => 1 / 10
    firstGoodVertex := -1
    trks_d0_pv := fun _ _ => 0
    gsftrks_d0_pv := fun _ _ => 0
    fastJetEffArea03_v2 := fun _ => 1 / 10
    electronId_WP2012_noIso_useElEtaForIsEB := fun _ => 7
    electronId_WP2012_v3 := fun _ => 7
    PassWP2012CutsNoIso := 7 }

/-- One electron and two muons; the electron and muon 0 have no matched track,
muon 1 has track 0. -/
def untrackedEvent : Event P4 :=
  { els_p4 := [⟨30, 0, 0⟩]
    els_gsftrkidx := [-1]
    els_hOverE := [1 / 100]
    els_fiduciality := [1]
    mus_p4 := [⟨35, 0, 2⟩, ⟨40, 1, -2⟩]
    mus_trkidx := [-1, 0] }

/-- Four muons and four electrons with their matched generator particles: the
muons are matched to a muon from a pion, a pion, a muon from a B meson and a
muon from a Lambda; the electrons to an electron from a photon, a photon, an
electron from a D meson and an electron from a W. -/
def mcTruthEvent : Event P4 :=
  { mus_mc_id := [13, 211, -13, 13]
    mus_mc_motherid := [211, 0, 521, 3122]
    els_mc_id := [11, 22, -11, 11]
    els_mc_motherid := [22, 0, -411, 24] }

/-- Identification helpers of the fake-rate denominators under which every
electron is identified, isolated and not from a conversion; the ECAL-driven bit
is bit `k` of the type word. -/
def lenientDenominator (k : Nat) : DenominatorCollab :=
  { ISECALDRIVEN := k
    electronId_noMuon := fun _ => true
    electronId_cand01 := fun _ => true
    electronIsolation_relsusy_cand1 := fun _ _ => 0
    isFromConversionPartnerTrack := fun _ => false }

/-- One central electron whose type word is `type`. -/
def typedElectron (type : Nat) : Event P4 :=
  { els_p4 := [⟨30, 1, 0⟩]
    els_type := [type] }

/-- Two particle-flow jets with unit stored factors and no calorimeter jet. -/
def pfOnlyEvent : Event P4 :=
  { pfjets_p4 := [⟨50, 0, 0⟩, ⟨60, 1, 1⟩]
    pfjets_cor := [1, 1] }

/-- Two particle-flow jets with unit stored factors and one calorimeter jet
with good jet-ID quantities; the hypothesis is a muon at DeltaR 1/10 of the
first jet with a muon far from both jets. -/
def muonOverlapEvent : Event P4 :=
  { pfjets_p4 := [⟨50, 1, 0⟩, ⟨60, -1, 2⟩]
    pfjets_cor := [1, 1]
    jets_p4 := [⟨50, 1, 0⟩]
    jets_emFrac := [1 / 2]
    jets_fHPD := [1 / 2]
    jets_n90Hits := [5]
    hyp_lt_p4 := [⟨30, 1, 1 / 10⟩]
    hyp_ll_p4 := [⟨30, -3, 3⟩]
    hyp_lt_id := [13]
    hyp_ll_id := [-13] }

/-! ## Notions used to state the claims -/

/-- The per-jet tables read by the samesign queries have one entry per
particle-flow jet. -/
def Event.pfAligned {V : Type} (ev : Event V) : Prop :=
  ev.pfjets_corL1FastL2L3.length = ev.pfjets_p4.length ∧
  ev.pfjets_corL1FastL2L3residual.length = ev.pfjets_p4.length ∧
  ev.pfjets_area.length = ev.pfjets_p4.length

/-- The positions of the true entries of a flag list, in increasing order,
counted from `k`. -/
def trueIndices : Nat → List Bool → List Nat
  | _, [] => []
  | k, true :: fs => k :: trueIndices (k + 1) fs
  | k, false :: fs => trueIndices (k + 1) fs

/-- Positional agreement of a momenta list and a discriminator list: some list
of raw jet indices yields both, entry by entry, the momenta through `momentum`
and the discriminators through `table`. -/
def sameJets {V : Type} (momentum : Nat → Result V) (table : List ℚ) (jets : List V)
    (discs : List ℚ) : Prop :=
  ∃ idxs : List Nat,
    List.Forall₂ (fun v i => momentum i = .ok v) jets idxs ∧
    List.Forall₂ (fun d i => table[i]? = some d) discs idxs

/-- The flags of the 2011 corrector query as index-aligned with the raw jets:
one flag per raw jet, flag `i` true exactly when flag `i` of the first stage is
true and raw jet `i`, scaled by the corrector scale for that jet and by
rescale, has `pt >= min_pt`. -/
def rawAlignedFlags {V : Type} (K : LorentzOps V) (ev : Event V)
    (jet_corrector : FactorizedJetCorrector) (min_pt rescale : ℚ) (first flags : List Bool) :
    Prop :=
  flags.length = ev.pfjets_p4.length ∧
  ∀ (i : Nat) (p4 : V), ev.pfjets_p4[i]? = some p4 →
    (flags[i]? = some true ↔
      (first[i]? = some true ∧
        K.pt (K.scale p4 (jetCorrection K p4 jet_corrector * rescale)) ≥ min_pt))

/-- The corrected momentum of raw jet `i` under the on-the-fly strategy: the raw
momentum times corrector scale and rescale, then times the systematic factor. -/
def samesign.otfMomentum {V : Type} (K : LorentzOps V) (ev : Event V) (X : Collab V)
    (jet_corrector : FactorizedJetCorrector) (rescale : ℚ) (systFlag : Int) (i : Nat) :
    Result V :=
  (vat ev.pfjets_p4 i).bind fun p4 =>
    (samesign.otfJEC K ev jet_corrector i).bind fun s =>
      .ok (samesign.applySyst K X systFlag (K.scale p4 (s * rescale)))

/-- The value of `eta` cut back into the interval from -5.1999 to 5.1999. -/
def clampEta (eta : ℚ) : ℚ := max (-(51999 / 10000)) (min eta (51999 / 10000))

/-- The uncertainty-shifted momentum of raw jet `i` in the words of the
uncertainty-shifted strategy: the nominal momentum, raw times stored factor,
multiplied by `1 + direction * u`, with `u` read at the nominal pt and at the
nominal eta clamped into the interval of `clampEta`. -/
def samesign.shiftedMomentum {V : Type} (K : LorentzOps V) (ev : Event V)
    (jet_unc : JetCorrectionUncertainty) (direction : Int) (i : Nat) : Result V :=
  (samesign.storedJEC ev i).bind fun c =>
    (vat ev.pfjets_p4 i).bind fun raw =>
      .ok (K.scale (K.scale raw c)
        (1 + (direction : ℚ) *
          jet_unc.uncertainty (K.pt (K.scale raw c)) (clampEta (K.eta (K.scale raw c)))))

/-- The combined momentum of raw jet `i` with the uncertainty read at the pt and
at the eta of the corrected momentum `raw * s`, eta as it is:
`raw * s * (1 + direction * u)`. -/
def samesign.combinedMomentum {V : Type} (K : LorentzOps V) (ev : Event V)
    (jet_corrector : FactorizedJetCorrector) (jet_unc : JetCorrectionUncertainty)
    (direction : Int) (i : Nat) : Result V :=
  (vat ev.pfjets_area i).bind fun area =>
    (vat ev.pfjets_p4 i).bind fun raw =>
      let s := jet_corrector.correction ev.evt_ww_rho_vor area (K.pt raw) (K.eta raw)
      .ok (K.scale (K.scale raw s)
        (1 + (direction : ℚ) *
          jet_unc.uncertainty (K.pt (K.scale raw s)) (K.eta (K.scale raw s))))

/-- The momentum compared with `min_pt` when the rescale comes after the
correction and after the systematic shift: `raw * correction * c * rescale`,
the factor `c` read at the pt and eta of `raw * correction`. -/
def samesign.shiftThenRescale {V : Type} (K : LorentzOps V) (X : Collab V) (systFlag : Int)
    (rescale : ℚ) (raw : V) (correction : ℚ) : V :=
  K.scale (samesign.applySyst K X systFlag (K.scale raw correction)) rescale

/-- A call that, when it does not return, ends in `std::out_of_range`. -/
def failsOnlyOutOfRange {α : Type} (r : Result α) : Prop :=
  ∀ e : Fault, r = .error e → e = .out_of_range

/-- A pair of the selected list names an electron or a muon of the event: its
id is -11 or -13 times the charge, its index the position of the lepton. -/
def namesLepton {V : Type} (ev : Event V) (lep : Int × Int) : Prop :=
  (∃ (eidx : Nat) (q : Int), ev.els_charge[eidx]? = some q ∧ lep = (-11 * q, (eidx : Int)) ∧
    (q.natAbs = 1 → leptonP4 ev lep = vat ev.els_p4 eidx)) ∨
  (∃ (midx : Nat) (q : Int), ev.mus_charge[midx]? = some q ∧ lep = (-13 * q, (midx : Int)) ∧
    leptonP4 ev lep = vat ev.mus_p4 midx)

/-- A jet that the matching loop of `isGoodEMObject` considers: `pt >= 10` and
`|eta| <= 3`. -/
def emCandidate {V : Type} (K : LorentzOps V) (vjet : V) : Prop :=
  10 ≤ K.pt vjet ∧ |K.eta vjet| ≤ 3

/-- Jet `j` of `jets` is the candidate nearest to `vg`, at distance `d`: no
candidate is nearer and the candidates before it are farther. -/
def nearestCandidate {V : Type} (K : LorentzOps V) (jets : List V) (vg : V) (j : Nat) (d : ℚ) :
    Prop :=
  ∃ vjet, jets[j]? = some vjet ∧ emCandidate K vjet ∧ d = K.DeltaR vjet vg ∧
    (∀ (k : Nat) (vk : V), jets[k]? = some vk → emCandidate K vk → d ≤ K.DeltaR vk vg) ∧
    (∀ (k : Nat) (vk : V), k < j → jets[k]? = some vk → emCandidate K vk → d < K.DeltaR vk vg)

/-- The neutral EM energy fraction that `isGoodEMObject` computes from a
neutral EM energy and an energy, a single-precision quotient, is below
`neutralemfcut`. -/
def emfracBelowCut (neutralEmE energy : ℚ) : Prop :=
  ((CFloat.finite neutralEmE).div (.finite energy)).lt (.finite neutralemfcut) = true

/-- The photon quality cuts of `isGoodEMObject` reject photon `index` at
momentum `vg`: `pt < 22`, `H/E > 0.1`, or a spike. -/
def photonRejected {V : Type} (K : LorentzOps V) (ev : Event V) (index : Nat) (vg : V) : Prop :=
  K.pt vg < 22 ∨ (∃ hOverE, ev.photons_hOverE[index]? = some hOverE ∧ hOverE > 1 / 10) ∨
    isSpikePhoton ev index = .ok true

/-- Photon `index`, at momentum `vg`, passes `isGoodEMObject` with jet `j`: the
quality cuts do not reject it, jet `j` is the nearest candidate, within DeltaR
0.3, and its neutral EM energy fraction is not below the cut. -/
def emObjectSelected {V : Type} (K : LorentzOps V) (ev : Event V) (energy : V → ℚ) (index : Nat)
    (vg : V) (j : Nat) : Prop :=
  ¬ photonRejected K ev index vg ∧
  ∃ (d : ℚ) (vjet : V) (neutralEmE : ℚ), nearestCandidate K ev.pfjets_p4 vg j d ∧ d ≤ 3 / 10 ∧
    ev.pfjets_p4[j]? = some vjet ∧ ev.pfjets_neutralEmE[j]? = some neutralEmE ∧
    ¬ emfracBelowCut neutralEmE (energy vjet)

/-- The formula of the resolution for given parameters:
`sqrt(N * |N| + S^2 * pt^(m + 1) + C^2 * pt^2)`. -/
def resolutionFormula (M : Libm) (N S C m pt : ℚ) : ℚ :=
  M.sqrt (N * |N| + S ^ 2 * M.pow pt (m + 1) + C ^ 2 * pt ^ 2)

/-- The pt at which a fake-rate histogram is read at most: the upper edge of
the last bin of its pt axis less 0.001. -/
def TH2F.lastPt (h : TH2F) : ℚ :=
  h.yaxis_GetBinLowEdge h.yaxis_GetNbins + h.yaxis_GetBinWidth h.yaxis_GetNbins - 1 / 1000

/-- The content of a fake-rate histogram at `(|eta|, min(pt, E))`, with `E` the
upper edge of the last pt bin less 0.001. -/
def TH2F.cappedContent (h : TH2F) (eta pt : ℚ) : ℚ :=
  h.GetBinContent (h.FindBin |eta| (min pt h.lastPt))

/-- The smeared momenta of a jet collection, one per input jet and in input
order: the value of `new_jet_p4` in each turn of a smearing loop that starts
at index `jidx` with the generator `random`. -/
def smearedJets {V G : Type} (K : LorentzOps V) (M : Libm) (R : TRandom3 G) (seed : Nat) :
    Nat → List V → G → List V
  | _, [], _ => []
  | jidx, jet_p4 :: rest, random =>
    (smearJet K M R seed random jidx jet_p4).1 ::
      smearedJets K M R seed (jidx + 1) rest (smearJet K M R seed random jidx jet_p4).2

/-- The momenta of a jet collection after the head of each turn of the loop of
`samesign::smearJETScaleJets`, one per input jet and in input order; `none` is a
momentum whose `pt()` is not a finite number. -/
def smearedOrNaN {V G : Type} (K : LorentzOps V) (M : Libm) (R : TRandom3 G) (seed : Nat) :
    Nat → List V → G → List (Option V)
  | _, [], _ => []
  | jidx, jet_p4 :: rest, random =>
    (smearJetOrNaN K M R seed random jidx jet_p4).1 ::
      smearedOrNaN K M R seed (jidx + 1) rest (smearJetOrNaN K M R seed random jidx jet_p4).2

/-- The momentum of jet `k` perturbed with the seed `seed`: the jet scaled by a
draw of mean 1 and width `sqrt(jer(eta)^2 - 1) * getErrPt(pt, eta) / pt` from a
generator that was seeded with `seed * (k + 1)`, a product in `size_t`; `g` is
the generator on which the seed is set. -/
def perturbedJet {V G : Type} (K : LorentzOps V) (M : Libm) (R : TRandom3 G) (g : G)
    (seed k : Nat) (jet : V) : V :=
  K.scale jet
    (R.Gaus (R.SetSeed g (seed * (k + 1) % 2 ^ 64)) 1
      (M.sqrt (getJERScale (K.eta jet) ^ 2 - 1) *
        (getErrPt M (K.pt jet) (K.eta jet) / K.pt jet))).1

/-- The list of `f k x` for the entries `x` of a list, `k` counting from `i`. -/
def indexedFrom {α β : Type} (f : Nat → α → β) : Nat → List α → List β
  | _, [] => []
  | i, x :: xs => f i x :: indexedFrom f (i + 1) xs

/-- The transverse momentum of a `LorentzVector` as an `XYVector`. -/
def TransverseOps.xy {V : Type} (T : TransverseOps V) (v : V) : XYVector := ⟨T.px v, T.py v⟩

/-- The vector sum of a list of `XYVector`s. -/
def XYVector.sum (l : List XYVector) : XYVector :=
  ⟨(l.map XYVector.x).sum, (l.map XYVector.y).sum⟩

/-- The vector of length `met` and azimuth `met_phi`, by its components. -/
def XYVector.ofPolar (M : Libm) (met met_phi : ℚ) : XYVector :=
  ⟨met * M.cos met_phi, met * M.sin met_phi⟩

/-- The MET vector after smearing: the input vector, less the transverse
momentum of every smeared jet, plus that of every original jet. -/
def recoilAfterSmearing {V : Type} (T : TransverseOps V) (met : XYVector)
    (original smeared : List V) : XYVector :=
  (met.sub (XYVector.sum (smeared.map T.xy))).add (XYVector.sum (original.map T.xy))

/-- The MET vector after smearing in the words of the specification: the input
vector, less the transverse momentum of every original jet, plus that of every
retained smeared jet. -/
def recoilAfterSmearing_spec {V : Type} (T : TransverseOps V) (met : XYVector)
    (original retained : List V) : XYVector :=
  (met.sub (XYVector.sum (original.map T.xy))).add (XYVector.sum (retained.map T.xy))

/-- The value of `scaleMET` in the words of the specification: the length of
`(1 + scale_type * scale) * U - J - L`, with `J` and `L` the vector sums of the
selected jets and leptons and `U = MET + J + L`. -/
def samesign.scaleMET_spec {V : Type} (T : TransverseOps V) (M : Libm) (met met_phi : ℚ)
    (jets leptons : List V) (scale_type : Int) (scale : ℚ) : ℚ :=
  let J := XYVector.sum (jets.map T.xy)
  let L := XYVector.sum (leptons.map T.xy)
  let U := ((XYVector.ofPolar M met met_phi).add J).add L
  XYVector.r M
    ((XYVector.sub ⟨(1 + (scale_type : ℚ) * scale) * U.x, (1 + (scale_type : ℚ) * scale) * U.y⟩
      J).sub L)

/-- A result `a` that comes with the corrector left behind agrees with the
result `p`: both are the same fault, or `a` holds the value of `p` with a
corrector of parameterisation `law`. -/
def tracks {β : Type} (a : Result (β × FactorizedJetCorrector)) (p : Result β)
    (law : ℚ → ℚ → ℚ → ℚ → ℚ) : Prop :=
  (∃ r jc1, a = .ok (r, jc1) ∧ p = .ok r ∧ jc1.correction = law) ∨
  (∃ e, a = .error e ∧ p = .error e)

/-- The pairs of momentum and b-tag flag of the passing jets, in input order:
position `i` contributes `(p4s[i], bflags[i])` when `flags[i]` is true. -/
def passingPairs {V : Type} : List V → List Bool → List Bool → List (V × Bool)
  | p :: ps, f :: fs, b :: bs =>
    if f then (p, b) :: passingPairs ps fs bs else passingPairs ps fs bs
  | _, _, _ => []

/-- The number of indices at which both flag lists are true. -/
def bothTrue (flags bflags : List Bool) : Nat :=
  ((flags.zip bflags).filter fun x => x.1 && x.2).length

/-- Calorimeter jet `j` of `jets` is the one nearest to `jetp4`, at distance
`d`, the first one in case of ties: no calorimeter jet is nearer and those
before it are farther. -/
def nearestCalo {V : Type} (K : LorentzOps V) (jets : List V) (jetp4 : V) (j : Nat) (d : ℚ) :
    Prop :=
  ∃ c, jets[j]? = some c ∧ d = K.DeltaR jetp4 c ∧
    (∀ (k : Nat) (vk : V), jets[k]? = some vk → d ≤ K.DeltaR jetp4 vk) ∧
    (∀ (k : Nat) (vk : V), k < j → jets[k]? = some vk → d < K.DeltaR jetp4 vk)

/-- Calorimeter jet `j` has `emFrac >= 0.01`, `fHPD <= 0.98` and
`n90Hits >= 2`. -/
def goodCaloJetID {V : Type} (ev : Event V) (j : Nat) : Prop :=
  ∃ (emFrac fHPD : ℚ) (n90Hits : Int), ev.jets_emFrac[j]? = some emFrac ∧
    ev.jets_fHPD[j]? = some fHPD ∧ ev.jets_n90Hits[j]? = some n90Hits ∧
    emFrac ≥ 1 / 100 ∧ fHPD ≤ 98 / 100 ∧ n90Hits ≥ 2

/-! ## Loops and sorting: general facts -/

section loops

variable {α β γ : Type}

theorem forIndexed_length {body : Nat → α → Result β} :
    ∀ (xs : List α) (k : Nat) (rs : List β), forIndexed body k xs = .ok rs →
      rs.length = xs.length
  | [], _, rs, h => by
    simp only [forIndexed, Except.ok.injEq] at h
    subst h; rfl
  | x :: xs, k, rs, h => by
    simp only [forIndexed] at h
    cases hb : body k x with
    | error e => rw [hb] at h; cases h
    | ok r =>
      rw [hb] at h
      cases hr : forIndexed body (k + 1) xs with
      | error e => rw [hr] at h; cases h
      | ok rs1 =>
        rw [hr] at h
        simp only [Except.ok.injEq] at h
        subst h
        simp [forIndexed_length xs (k + 1) rs1 hr]

theorem forIndexed_getElem? {body : Nat → α → Result β} :
    ∀ (xs : List α) (k : Nat) (rs : List β), forIndexed body k xs = .ok rs →
      ∀ (i : Nat) (x : α), xs[i]? = some x → ∃ r, rs[i]? = some r ∧ body (k + i) x = .ok r
  | [], _, _, _, i, x, hx => by simp at hx
  | y :: xs, k, rs, h, i, x, hx => by
    simp only [forIndexed] at h
    cases hb : body k y with
    | error e => rw [hb] at h; cases h
    | ok r =>
      rw [hb] at h
      cases hr : forIndexed body (k + 1) xs with
      | error e => rw [hr] at h; cases h
      | ok rs1 =>
        rw [hr] at h
        simp only [Except.ok.injEq] at h
        subst h
        cases i with
        | zero =>
          simp only [List.getElem?_cons_zero, Option.some.injEq] at hx
          subst hx
          exact ⟨r, by simp, by simpa using hb⟩
        | succ j =>
          simp only [List.getElem?_cons_succ] at hx
          obtain ⟨r1, h1, h2⟩ := forIndexed_getElem? xs (k + 1) rs1 hr j x hx
          refine ⟨r1, by simpa using h1, ?_⟩
          have : k + (j + 1) = k + 1 + j := by omega
          rw [this]; exact h2

theorem forIndexed_total {body : Nat → α → Result β} :
    ∀ (xs : List α) (k : Nat),
      (∀ (i : Nat) (x : α), xs[i]? = some x → ∃ r, body (k + i) x = .ok r) →
      ∃ rs, forIndexed body k xs = .ok rs
  | [], _, _ => ⟨[], rfl⟩
  | y :: xs, k, h => by
    obtain ⟨r, hr⟩ := h 0 y (by simp)
    have h1 : ∀ (i : Nat) (x : α), xs[i]? = some x → ∃ r, body (k + 1 + i) x = .ok r := by
      intro i x hx
      have := h (i + 1) x (by simpa using hx)
      have e : k + (i + 1) = k + 1 + i := by omega
      rwa [e] at this
    obtain ⟨rs, hrs⟩ := forIndexed_total xs (k + 1) h1
    refine ⟨r :: rs, ?_⟩
    simp only [forIndexed]
    simp only [Nat.add_zero] at hr
    rw [hr, hrs]

theorem forIndexed_map {body : Nat → α → Result β} {body2 : Nat → α → Result γ} (f : β → γ) :
    ∀ (xs : List α) (k : Nat),
      (∀ (i : Nat) (x : α), xs[i]? = some x → body2 (k + i) x = (body (k + i) x).map f) →
      forIndexed body2 k xs = (forIndexed body k xs).map (List.map f)
  | [], _, _ => rfl
  | y :: xs, k, h => by
    have h0 := h 0 y (by simp)
    simp only [Nat.add_zero] at h0
    have h1 : ∀ (i : Nat) (x : α), xs[i]? = some x →
        body2 (k + 1 + i) x = (body (k + 1 + i) x).map f := by
      intro i x hx
      have := h (i + 1) x (by simpa using hx)
      have e : k + (i + 1) = k + 1 + i := by omega
      rwa [e] at this
    have ih := forIndexed_map f xs (k + 1) h1
    simp only [forIndexed]
    rw [h0, ih]
    cases body k y with
    | error e => rfl
    | ok r =>
      cases forIndexed body (k + 1) xs with
      | error e => rfl
      | ok rs => rfl

end loops

section sorting

variable {α β : Type}

theorem sortInsert_perm (comp : α → α → Bool) (x : α) :
    ∀ l : List α, (sortInsert comp x l).Perm (x :: l)
  | [] => List.Perm.refl _
  | y :: ys => by
    simp only [sortInsert]
    split
    · exact ((sortInsert_perm comp x ys).cons y).trans (List.Perm.swap x y ys)
    · exact List.Perm.refl _

theorem sort_perm (comp : α → α → Bool) : ∀ l : List α, (sort comp l).Perm l
  | [] => List.Perm.refl _
  | x :: xs => by
    simp only [sort]
    exact (sortInsert_perm comp x (sort comp xs)).trans ((sort_perm comp xs).cons x)

theorem sort_length (comp : α → α → Bool) (l : List α) : (sort comp l).length = l.length :=
  (sort_perm comp l).length_eq

theorem sortInsert_sorted (key : α → ℚ) (x : α) :
    ∀ l : List α, l.Pairwise (fun a b => key b ≤ key a) →
      (sortInsert (fun a b => decide (key a > key b)) x l).Pairwise (fun a b => key b ≤ key a)
  | [], _ => by simp [sortInsert]
  | y :: ys, h => by
    simp only [sortInsert]
    split
    · rename_i hc
      have hc1 : key x < key y := by simpa using hc
      rw [List.pairwise_cons] at h ⊢
      refine ⟨?_, sortInsert_sorted key x ys h.2⟩
      intro b hb
      rcases List.mem_cons.mp ((sortInsert_perm _ x ys).mem_iff.mp hb) with hb1 | hb1
      · rw [hb1]; exact le_of_lt hc1
      · exact h.1 b hb1
    · rename_i hc
      have hc1 : key y ≤ key x := by simpa using hc
      rw [List.pairwise_cons]
      refine ⟨?_, h⟩
      intro b hb
      rcases List.mem_cons.mp hb with hb1 | hb1
      · rw [hb1]; exact hc1
      · exact le_trans ((List.pairwise_cons.mp h).1 b hb1) hc1

theorem sort_sorted (key : α → ℚ) :
    ∀ l : List α, (sort (fun a b => decide (key a > key b)) l).Pairwise (fun a b => key b ≤ key a)
  | [] => by simp [sort]
  | x :: xs => by
    simp only [sort]
    exact sortInsert_sorted key x _ (sort_sorted key xs)

theorem sortInsert_map (f : α → β) (c1 : α → α → Bool) (c2 : β → β → Bool)
    (h : ∀ a b, c2 (f a) (f b) = c1 a b) (x : α) :
    ∀ l : List α, sortInsert c2 (f x) (l.map f) = (sortInsert c1 x l).map f
  | [] => rfl
  | y :: ys => by
    simp only [sortInsert, List.map_cons, h]
    split
    · simp [sortInsert_map f c1 c2 h x ys]
    · simp

theorem sort_map (f : α → β) (c1 : α → α → Bool) (c2 : β → β → Bool)
    (h : ∀ a b, c2 (f a) (f b) = c1 a b) :
    ∀ l : List α, sort c2 (l.map f) = (sort c1 l).map f
  | [] => rfl
  | x :: xs => by
    simp only [sort, List.map_cons]
    rw [sort_map f c1 c2 h xs, sortInsert_map f c1 c2 h]

end sorting

/-! ## jetSelections.cc: facts about the loops -/

section jetSelectionsFacts

variable {V : Type} (K : LorentzOps V)

theorem countJets_eq_count (l : List (Option V × ℚ)) :
    countJets l = (((l.map fun p => p.1.isSome).count true : Nat) : Int) := by
  induction l with
  | nil => rfl
  | cons p rest ih =>
    obtain ⟨o, c⟩ := p
    cases o with
    | none => simp [countJets, ih]
    | some j => simp [countJets, ih]

theorem countJets_eq_length (l : List (Option V × ℚ)) :
    countJets l = (((correctedJets K l).length : Nat) : Int) := by
  induction l with
  | nil => rfl
  | cons p rest ih =>
    obtain ⟨o, c⟩ := p
    cases o with
    | none => simp [countJets, correctedJets, ih]
    | some j => simp [countJets, correctedJets, ih]

theorem sumPtLoop_eq (l : List (Option V × ℚ)) :
    ∀ ret : ℚ, (∀ jet corr, (some jet, corr) ∈ l → K.pt (K.scale jet corr) = K.pt jet * corr) →
      sumPtLoop K l ret = ret + ((correctedJets K l).map K.pt).sum := by
  induction l with
  | nil => intro ret _; simp [sumPtLoop, correctedJets]
  | cons p rest ih =>
    intro ret h
    obtain ⟨o, c⟩ := p
    have hrest : ∀ jet corr, (some jet, corr) ∈ rest →
        K.pt (K.scale jet corr) = K.pt jet * corr :=
      fun jet corr hm => h jet corr (List.mem_cons_of_mem _ hm)
    cases o with
    | none => simp [sumPtLoop, correctedJets, ih _ hrest]
    | some j =>
      have hj := h j c (List.mem_cons_self _ _)
      simp [sumPtLoop, correctedJets, ih _ hrest, hj, add_assoc]

theorem passesKinematics_iff (jet : V) (corr min_pt max_eta : ℚ) :
    passesKinematics K jet corr min_pt max_eta = true ↔
      (min_pt ≤ K.pt jet * corr ∧ |K.eta jet| ≤ max_eta) := by
  simp [passesKinematics]

theorem getJets_fast_body_some (ev : Event V) (i_hyp : Nat) (type : JetType)
    (cleaning : CleaningType) (deltaR min_pt max_eta : ℚ) (i : Nat) (jet j : V) (c : ℚ)
    (h : getJets_fast_body K ev i_hyp type cleaning deltaR min_pt max_eta i jet = .ok (some j, c)) :
    j = jet ∧ jetCorr ev type i = .ok c ∧ passesKinematics K jet c min_pt max_eta = true ∧
      cleaningVeto K ev i_hyp cleaning deltaR jet = .ok false ∧
      passesCaloJetID K ev jet = .ok true := by
  unfold getJets_fast_body at h
  cases hc : jetCorr ev type i with
  | error e => rw [hc] at h; cases h
  | ok corr =>
    rw [hc] at h
    simp only [Except.bind] at h
    by_cases hk : passesKinematics K jet corr min_pt max_eta = true
    · rw [if_pos hk] at h
      cases hv : cleaningVeto K ev i_hyp cleaning deltaR jet with
      | error e => rw [hv] at h; cases h
      | ok veto =>
        rw [hv] at h
        simp only at h
        cases veto with
        | true => simp at h
        | false =>
          simp only [Bool.false_eq_true, if_false] at h
          cases hg : passesCaloJetID K ev jet with
          | error e => rw [hg] at h; cases h
          | ok good =>
            rw [hg] at h
            simp only at h
            cases good with
            | false => simp at h
            | true =>
              simp only [if_true, Except.ok.injEq, Prod.mk.injEq, Option.some.injEq] at h
              obtain ⟨h1, h2⟩ := h
              subst h1; subst h2
              exact ⟨rfl, rfl, hk, rfl, rfl⟩
    · rw [if_neg hk] at h
      simp at h

theorem getJets_fast_mem (ev : Event V) (i_hyp : Nat) (type : JetType)
    (cleaning : CleaningType) (deltaR min_pt max_eta : ℚ) (l : List (Option V × ℚ))
    (h : getJets_fast K ev i_hyp type cleaning deltaR min_pt max_eta = .ok l)
    (j : V) (c : ℚ) (hm : (some j, c) ∈ l) : min_pt ≤ K.pt j * c := by
  unfold getJets_fast at h
  cases hj : jetCollection ev type with
  | error e => rw [hj] at h; cases h
  | ok jets =>
    rw [hj] at h
    simp only [Except.bind] at h
    obtain ⟨i, hi⟩ := List.getElem?_of_mem hm
    have hlen := forIndexed_length _ _ _ h
    have hi2 : i < jets.length := by
      rw [← hlen]
      exact (List.getElem?_eq_some_iff.mp hi).1
    obtain ⟨r, hr1, hr2⟩ := forIndexed_getElem? _ _ _ h i jets[i] (List.getElem?_eq_getElem hi2)
    rw [hi] at hr1
    simp only [Option.some.injEq] at hr1
    subst hr1
    simp only [Nat.zero_add] at hr2
    obtain ⟨h1, _, h3, _⟩ := getJets_fast_body_some K ev _ _ _ _ _ _ _ _ _ _ hr2
    subst h1
    exact ((passesKinematics_iff K _ _ _ _).mp h3).1

/-- A true entry of `getJetFlags` belongs to a jet of the requested collection
that was pushed with a non-null pointer. -/
theorem getJetFlags_true (ev : Event V) (i_hyp : Nat) (type : JetType)
    (cleaning : CleaningType) (deltaR min_pt max_eta : ℚ) (fl : List Bool)
    (h : getJetFlags K ev i_hyp type cleaning deltaR min_pt max_eta = .ok fl)
    (i : Nat) (hi : fl[i]? = some true) :
    ∃ (jets : List V) (jet : V) (corr : ℚ), jetCollection ev type = .ok jets ∧
      jets[i]? = some jet ∧
      getJets_fast_body K ev i_hyp type cleaning deltaR min_pt max_eta i jet
        = .ok (some jet, corr) := by
  unfold getJetFlags getJets_fast at h
  cases hj : jetCollection ev type with
  | error e => rw [hj] at h; cases h
  | ok jets =>
    rw [hj] at h
    simp only [Except.bind] at h
    cases hl : forIndexed (getJets_fast_body K ev i_hyp type cleaning deltaR min_pt max_eta) 0
        jets with
    | error e => rw [hl] at h; cases h
    | ok l =>
      rw [hl] at h
      simp only [Except.ok.injEq] at h
      subst h
      have hlen := forIndexed_length jets 0 l hl
      have hi1 : i < l.length := by
        have := (List.getElem?_eq_some_iff.mp hi).1
        simpa using this
      have hi2 : i < jets.length := hlen ▸ hi1
      obtain ⟨r, hr1, hr2⟩ := forIndexed_getElem? jets 0 l hl i jets[i]
        (List.getElem?_eq_getElem hi2)
      simp only [Nat.zero_add] at hr2
      rw [List.getElem?_map, hr1] at hi
      simp only [Option.map_some', Option.some.injEq] at hi
      obtain ⟨o, c⟩ := r
      cases o with
      | none => simp at hi
      | some j =>
        obtain ⟨hjj, _⟩ := getJets_fast_body_some K ev _ _ _ _ _ _ _ _ _ _ hr2
        subst hjj
        exact ⟨jets, jets[i], c, rfl, List.getElem?_eq_getElem hi2, hr2⟩

end jetSelectionsFacts

/-! ## Claims on jetSelections.cc -/

/-- C3. In `getJets_fast` a jet passes the kinematic stage exactly when
`raw_pt * corr >= min_pt` and `|eta| <= max_eta`; `corr` is the stored factor of
the jet for the corrected types (calorimeter, particle flow, JPT) and 1 for the
uncorrected ones; a jet that ends up selected has passed the stage, a jet that
fails it is pushed as rejected, and without lepton cleaning the stage and the
jet ID decide alone; every true entry of `getJetFlags` is a jet that satisfies
both inequalities. A jet exactly at `min_pt` or at `max_eta` passes; raw pt
29.9 passes `min_pt = 30` with factor 1.02 and fails with factor 0.99. -/
theorem C3_kinematic_stage :
    (∀ (V : Type) (K : LorentzOps V) (jet : V) (corr min_pt max_eta : ℚ),
      passesKinematics K jet corr min_pt max_eta = true ↔
        (K.pt jet * corr ≥ min_pt ∧ |K.eta jet| ≤ max_eta)) ∧
    (∀ (V : Type) (ev : Event V) (i : Nat),
      jetCorr ev .JETS_TYPE_CALO_CORR i = vat ev.jets_cor i ∧
      jetCorr ev .JETS_TYPE_PF_CORR i = vat ev.pfjets_cor i ∧
      jetCorr ev .JETS_TYPE_JPT i = vat ev.jpts_cor i ∧
      jetCorr ev .JETS_TYPE_CALO_UNCORR i = .ok 1 ∧
      jetCorr ev .JETS_TYPE_PF_UNCORR i = .ok 1) ∧
    (∀ (V : Type) (K : LorentzOps V) (ev : Event V) (i_hyp : Nat) (type : JetType)
        (cleaning : CleaningType) (deltaR min_pt max_eta : ℚ) (i : Nat) (jet : V) (corr : ℚ),
      jetCorr ev type i = .ok corr →
        ((∀ j c, getJets_fast_body K ev i_hyp type cleaning deltaR min_pt max_eta i jet
            = .ok (some j, c) →
          K.pt jet * corr ≥ min_pt ∧ |K.eta jet| ≤ max_eta) ∧
         (¬ (K.pt jet * corr ≥ min_pt ∧ |K.eta jet| ≤ max_eta) →
          getJets_fast_body K ev i_hyp type cleaning deltaR min_pt max_eta i jet
            = .ok (none, corr)) ∧
         (passesCaloJetID K ev jet = .ok true →
          (getJets_fast_body K ev i_hyp type .JETS_CLEAN_NONE deltaR min_pt max_eta i jet
              = .ok (some jet, corr) ↔
            (K.pt jet * corr ≥ min_pt ∧ |K.eta jet| ≤ max_eta))))) ∧
    (∀ (V : Type) (K : LorentzOps V) (ev : Event V) (i_hyp : Nat) (type : JetType)
        (cleaning : CleaningType) (deltaR min_pt max_eta : ℚ) (fl : List Bool) (i : Nat),
      getJetFlags K ev i_hyp type cleaning deltaR min_pt max_eta = .ok fl →
      fl[i]? = some true →
      ∃ (jets : List V) (jet : V) (corr : ℚ), jetCollection ev type = .ok jets ∧
        jets[i]? = some jet ∧ jetCorr ev type i = .ok corr ∧
        K.pt jet * corr ≥ min_pt ∧ |K.eta jet| ≤ max_eta) ∧
    (∀ (V : Type) (K : LorentzOps V) (jet : V) (corr : ℚ),
      passesKinematics K jet corr (K.pt jet * corr) |K.eta jet| = true) ∧
    passesKinematics P4.ops ⟨299 / 10, 1, 0⟩ (102 / 100) 30 (5 / 2) = true ∧
    passesKinematics P4.ops ⟨299 / 10, 1, 0⟩ (99 / 100) 30 (5 / 2) = false := by
  refine ⟨?_, ?_, ?_, ?_, ?_, ?_, ?_⟩
  · intro V K jet corr min_pt max_eta
    exact passesKinematics_iff K jet corr min_pt max_eta
  · intro V ev i
    exact ⟨rfl, rfl, rfl, rfl, rfl⟩
  · intro V K ev i_hyp type cleaning deltaR min_pt max_eta i jet corr hc
    refine ⟨?_, ?_, ?_⟩
    · intro j c h
      obtain ⟨_, h2, h3, _⟩ := getJets_fast_body_some K ev _ _ _ _ _ _ _ _ _ _ h
      rw [hc] at h2
      simp only [Except.ok.injEq] at h2
      subst h2
      exact (passesKinematics_iff K _ _ _ _).mp h3
    · intro hk
      have hk1 : ¬ passesKinematics K jet corr min_pt max_eta = true :=
        fun h => hk ((passesKinematics_iff K _ _ _ _).mp h)
      simp [getJets_fast_body, hc, Except.bind, hk1]
    · intro hid
      rw [← passesKinematics_iff]
      by_cases hk : passesKinematics K jet corr min_pt max_eta = true
      · simp [getJets_fast_body, hc, Except.bind, hk, cleaningVeto, hid]
      · simp [getJets_fast_body, hc, Except.bind, hk]
  · intro V K ev i_hyp type cleaning deltaR min_pt max_eta fl i h hi
    obtain ⟨jets, jet, corr, h1, h2, h3⟩ := getJetFlags_true K ev i_hyp type cleaning deltaR
      min_pt max_eta fl h i hi
    obtain ⟨_, h4, h5, _⟩ := getJets_fast_body_some K ev _ _ _ _ _ _ _ _ _ _ h3
    exact ⟨jets, jet, corr, h1, h2, h4, (passesKinematics_iff K _ _ _ _).mp h5⟩
  · intro V K jet corr
    simp [passesKinematics]
  · simp only [passesKinematics, P4.ops, P4.etaOf]
    norm_num [abs_of_pos]
  · simp only [passesKinematics, P4.ops, P4.etaOf]
    norm_num [abs_of_pos]

/-- C9. `nJets` returns the number of true entries of `getJetFlags` and the
length of the list of `getJets` (sorted or not) for the same arguments, and
faults exactly when they do. -/
theorem C9_nJets_counts_selection {V : Type} (K : LorentzOps V) (ev : Event V) (i_hyp : Nat)
    (sort_ : Bool) (type : JetType) (cleaning : CleaningType) (deltaR min_pt max_eta : ℚ) :
    nJets K ev i_hyp type cleaning deltaR min_pt max_eta =
        (getJetFlags K ev i_hyp type cleaning deltaR min_pt max_eta).map
          (fun flags => ((flags.count true : Nat) : Int)) ∧
    nJets K ev i_hyp type cleaning deltaR min_pt max_eta =
        (getJets K ev i_hyp sort_ type cleaning deltaR min_pt max_eta).map
          (fun jets => ((jets.length : Nat) : Int)) := by
  unfold nJets getJetFlags getJets
  cases getJets_fast K ev i_hyp type cleaning deltaR min_pt max_eta with
  | error e => exact ⟨rfl, rfl⟩
  | ok l =>
    refine ⟨?_, ?_⟩
    · simp only [Except.bind, Except.map]
      rw [countJets_eq_count]
    · cases sort_ with
      | false =>
        simp only [Except.bind, Except.map, Bool.false_eq_true, if_false]
        rw [countJets_eq_length K]
      | true =>
        simp only [Except.bind, Except.map, if_true]
        rw [countJets_eq_length K, sort_length]

/-- A pair of `getJets_fast` that holds a jet holds a jet of the requested
collection with the factor the second switch gives it. -/
theorem getJets_fast_mem_corr {V : Type} (K : LorentzOps V) (ev : Event V) (i_hyp : Nat) (type : JetType)
    (cleaning : CleaningType) (deltaR min_pt max_eta : ℚ) (l : List (Option V × ℚ))
    (h : getJets_fast K ev i_hyp type cleaning deltaR min_pt max_eta = .ok l)
    (j : V) (c : ℚ) (hm : (some j, c) ∈ l) :
    ∃ (jets : List V) (i : Nat), jetCollection ev type = .ok jets ∧ jets[i]? = some j ∧
      jetCorr ev type i = .ok c := by
  unfold getJets_fast at h
  cases hj : jetCollection ev type with
  | error e => rw [hj] at h; cases h
  | ok jets =>
    rw [hj] at h
    simp only [Except.bind] at h
    obtain ⟨i, hi⟩ := List.getElem?_of_mem hm
    have hlen := forIndexed_length _ _ _ h
    have hi2 : i < jets.length := by
      rw [← hlen]
      exact (List.getElem?_eq_some_iff.mp hi).1
    obtain ⟨r, hr1, hr2⟩ := forIndexed_getElem? _ _ _ h i jets[i] (List.getElem?_eq_getElem hi2)
    rw [hi] at hr1
    simp only [Option.some.injEq] at hr1
    subst hr1
    simp only [Nat.zero_add] at hr2
    obtain ⟨h1, h2, _⟩ := getJets_fast_body_some K ev _ _ _ _ _ _ _ _ _ _ hr2
    subst h1
    exact ⟨jets, i, rfl, List.getElem?_eq_getElem hi2, h2⟩

theorem sumPt_eq_of_exact {V : Type} (K : LorentzOps V) (ev : Event V) (i_hyp : Nat) (sort_ : Bool) (type : JetType)
    (cleaning : CleaningType) (deltaR min_pt max_eta : ℚ)
    (hexact : ∀ l, getJets_fast K ev i_hyp type cleaning deltaR min_pt max_eta = .ok l →
      ∀ jet corr, (some jet, corr) ∈ l → K.pt (K.scale jet corr) = K.pt jet * corr) :
    sumPt K ev i_hyp type cleaning deltaR min_pt max_eta =
      (getJets K ev i_hyp sort_ type cleaning deltaR min_pt max_eta).map
        (fun jets => (jets.map K.pt).sum) := by
  unfold sumPt getJets
  cases hl : getJets_fast K ev i_hyp type cleaning deltaR min_pt max_eta with
  | error e => rfl
  | ok l =>
    have hsum := sumPtLoop_eq K l 0 (hexact l hl)
    cases sort_ with
    | false =>
      simp only [Except.bind, Except.map, Bool.false_eq_true, if_false]
      rw [hsum, zero_add]
    | true =>
      simp only [Except.bind, Except.map, if_true]
      rw [hsum, zero_add]
      exact congrArg _ (((sort_perm (jets_pt_gt K) (correctedJets K l)).map K.pt).sum_eq).symm

theorem sumPtLoop_eq_raw {V : Type} (K : LorentzOps V) (l : List (Option V × ℚ)) :
    ∀ ret : ℚ, sumPtLoop K l ret =
      ret + (l.filterMap (fun p => p.1.map (fun jet => K.pt jet * p.2))).sum := by
  induction l with
  | nil => intro ret; simp [sumPtLoop]
  | cons p rest ih =>
    intro ret
    obtain ⟨o, c⟩ := p
    cases o with
    | none => simp [sumPtLoop, ih]
    | some j => simp [sumPtLoop, ih, add_assoc]

theorem sumPt_eq_raw {V : Type} (K : LorentzOps V) (ev : Event V) (i_hyp : Nat) (type : JetType)
    (cleaning : CleaningType) (deltaR min_pt max_eta : ℚ) :
    sumPt K ev i_hyp type cleaning deltaR min_pt max_eta =
      (getJets_fast K ev i_hyp type cleaning deltaR min_pt max_eta).map
        (fun l => (l.filterMap (fun p => p.1.map (fun jet => K.pt jet * p.2))).sum) := by
  unfold sumPt
  cases getJets_fast K ev i_hyp type cleaning deltaR min_pt max_eta with
  | error e => rfl
  | ok l =>
    simp only [Except.bind, Except.map]
    rw [sumPtLoop_eq_raw, zero_add]

/-- C10, as amended. The function `sumPt` returns the sum of `pt() * corr`, the
raw `pt()` times the factor, over the selected jets. When the stored momentum
`p4 * corr` of every selected jet has a `pt()` equal to `pt() * corr`, that is
the sum of `pt()` over the momenta that `getJets` returns (sorted or not) for
the same arguments, and `sumPt` faults exactly when `getJets` does. This is so
for the jet types that are not corrected (`corr = 1`, every type but
`JETS_TYPE_CALO_CORR`, `JETS_TYPE_PF_CORR` and `JETS_TYPE_JPT`) when
multiplying a jet of the collection by 1 leaves its `pt()` as it is. -/
theorem C10_sumPt_is_sum_of_pt {V : Type} (K : LorentzOps V) (ev : Event V) (i_hyp : Nat)
    (sort_ : Bool) (type : JetType) (cleaning : CleaningType) (deltaR min_pt max_eta : ℚ) :
    sumPt K ev i_hyp type cleaning deltaR min_pt max_eta =
      (getJets_fast K ev i_hyp type cleaning deltaR min_pt max_eta).map
        (fun l => (l.filterMap (fun p => p.1.map (fun jet => K.pt jet * p.2))).sum) ∧
    ((∀ l, getJets_fast K ev i_hyp type cleaning deltaR min_pt max_eta = .ok l →
        ∀ jet corr, (some jet, corr) ∈ l → K.pt (K.scale jet corr) = K.pt jet * corr) →
      sumPt K ev i_hyp type cleaning deltaR min_pt max_eta =
        (getJets K ev i_hyp sort_ type cleaning deltaR min_pt max_eta).map
          (fun jets => (jets.map K.pt).sum)) ∧
    (type ≠ .JETS_TYPE_CALO_CORR → type ≠ .JETS_TYPE_PF_CORR → type ≠ .JETS_TYPE_JPT →
      (∀ jets, jetCollection ev type = .ok jets →
        ∀ jet ∈ jets, K.pt (K.scale jet 1) = K.pt jet) →
      sumPt K ev i_hyp type cleaning deltaR min_pt max_eta =
        (getJets K ev i_hyp sort_ type cleaning deltaR min_pt max_eta).map
          (fun jets => (jets.map K.pt).sum)) := by
  refine ⟨sumPt_eq_raw K ev i_hyp type cleaning deltaR min_pt max_eta,
    sumPt_eq_of_exact K ev i_hyp sort_ type cleaning deltaR min_pt max_eta, ?_⟩
  intro hcalo hpf hjpt hone
  apply sumPt_eq_of_exact
  intro l hl jet corr hm
  obtain ⟨jets, i, hj, hi, hc⟩ := getJets_fast_mem_corr K ev _ _ _ _ _ _ l hl jet corr hm
  have hcorr : corr = 1 := by
    cases type <;> simp_all [jetCorr]
  rw [hcorr, hone jets hj jet (List.getElem?_mem hi), mul_one]

theorem P4.ops_lawful : P4.ops.Lawful where
  scale_scale v a b := by simp [P4.ops, mul_assoc]
  pt_nonneg v := by simp [P4.ops]
  pt_scale v a := by simp [P4.ops, abs_mul, mul_comm]
  eta_scale v a ha := by
    simp only [P4.ops, P4.etaOf]
    have h1 : v.pt * a < 0 ↔ v.pt < 0 := by
      constructor
      · intro h; by_contra hc; push_neg at hc; nlinarith
      · intro h; nlinarith
    have h2 : v.pt * a = 0 ↔ v.pt = 0 := by
      constructor
      · intro h
        rcases mul_eq_zero.mp h with h | h
        · exact h
        · linarith
      · intro h; simp [h]
    simp [h1, h2]

theorem storedFactorEvent_getJets_fast (min_pt : ℚ) (h2 : min_pt ≤ 27) :
    getJets_fast P4.float32Ops storedFactorEvent 0 .JETS_TYPE_PF_CORR .JETS_CLEAN_HYP_E_MU
      (2 / 5) min_pt (5 / 2) =
      .ok [(if 30 * (7549747 / 8388608) < min_pt then none else some ⟨30, 0, 0⟩,
        7549747 / 8388608), (some ⟨50, 0, 0⟩, 3 / 2)] := by
  have h50 : ¬ ((50 : ℚ) * (3 / 2) < min_pt) := by
    norm_num
    linarith
  by_cases h : (30 : ℚ) * (7549747 / 8388608) < min_pt
  · simp [getJets_fast, jetCollection, forIndexed, getJets_fast_body, jetCorr, vat,
      storedFactorEvent, passesKinematics, cleaningVeto, passesCaloJetID, nearestCaloJet, vidx,
      P4.float32Ops, P4.etaOf, Except.bind, h, h50]
    norm_num [abs_of_pos]
  · simp [getJets_fast, jetCollection, forIndexed, getJets_fast_body, jetCorr, vat,
      storedFactorEvent, passesKinematics, cleaningVeto, passesCaloJetID, nearestCaloJet, vidx,
      P4.float32Ops, P4.etaOf, Except.bind, h, h50]
    norm_num [abs_of_pos]

theorem storedFactorEvent_scale_second :
    P4.float32Ops.scale ⟨50, 0, 0⟩ (3 / 2) = ⟨75, 0, 0⟩ := by decide!

theorem storedFactorEvent_scale_first :
    P4.float32Ops.scale ⟨30, 0, 0⟩ (7549747 / 8388608) = ⟨27, 0, 0⟩ := by decide!

/-- C10, witness: `storedFactorEvent` in single precision with `min_pt = 27`.
The jet of raw pt 50 and factor 3/2 is selected, and its stored momentum has
pt 75, which is 50 times 3/2; `sumPt` and the sum over the momenta are 75. -/
theorem C10_sumPt_is_sum_of_pt_witness :
    sumPt P4.float32Ops storedFactorEvent 0 .JETS_TYPE_PF_CORR .JETS_CLEAN_HYP_E_MU (2 / 5) 27
        (5 / 2) =
      (getJets P4.float32Ops storedFactorEvent 0 true .JETS_TYPE_PF_CORR .JETS_CLEAN_HYP_E_MU
        (2 / 5) 27 (5 / 2)).map (fun jets => (jets.map P4.float32Ops.pt).sum) ∧
    sumPt P4.float32Ops storedFactorEvent 0 .JETS_TYPE_PF_CORR .JETS_CLEAN_HYP_E_MU (2 / 5) 27
        (5 / 2) = .ok 75 := by
  have hl := storedFactorEvent_getJets_fast 27 (by norm_num)
  rw [if_pos (by norm_num)] at hl
  refine ⟨(C10_sumPt_is_sum_of_pt P4.float32Ops storedFactorEvent 0 true .JETS_TYPE_PF_CORR
    .JETS_CLEAN_HYP_E_MU (2 / 5) 27 (5 / 2)).2.1 ?_, ?_⟩
  · intro l hl2 jet corr hm
    rw [hl] at hl2
    simp only [Except.ok.injEq] at hl2
    subst hl2
    simp only [List.mem_cons, Prod.mk.injEq, List.mem_singleton, List.not_mem_nil, or_false,
      Option.some.injEq, false_and, false_or] at hm
    rcases hm with ⟨hj, _⟩ | ⟨hj, hc⟩
    · cases hj
    subst hj hc
    rw [storedFactorEvent_scale_second]
    norm_num [P4.float32Ops]
  · unfold sumPt
    rw [hl]
    simp [Except.bind, sumPtLoop, P4.float32Ops]
    norm_num

/-- The rounding of a stored momentum: `storedFactorEvent` in single precision
with `min_pt = 20`. Both jets are selected; `sumPt` adds `30 * 0.9f`, which is
26.99999928..., and 75, while the momenta of `getJets` have pt 75 and 27, the
product `30 * 0.9f` rounded to `float`. -/
theorem storedFactorEvent_sumPt_rounding :
    sumPt P4.float32Ops storedFactorEvent 0 .JETS_TYPE_PF_CORR .JETS_CLEAN_HYP_E_MU (2 / 5) 20
        (5 / 2) = .ok (30 * (7549747 / 8388608) + 75) ∧
    getJets P4.float32Ops storedFactorEvent 0 true .JETS_TYPE_PF_CORR .JETS_CLEAN_HYP_E_MU
        (2 / 5) 20 (5 / 2) = .ok [⟨75, 0, 0⟩, ⟨27, 0, 0⟩] ∧
    (30 : ℚ) * (7549747 / 8388608) + 75 ≠
      (([⟨75, 0, 0⟩, ⟨27, 0, 0⟩] : List P4).map P4.float32Ops.pt).sum := by
  have hl := storedFactorEvent_getJets_fast 20 (by norm_num)
  rw [if_neg (by norm_num)] at hl
  refine ⟨?_, ?_, ?_⟩
  · unfold sumPt
    rw [hl]
    simp [Except.bind, sumPtLoop, P4.float32Ops]
    norm_num
  · unfold getJets
    rw [hl]
    simp only [Except.bind, correctedJets, storedFactorEvent_scale_first,
      storedFactorEvent_scale_second, if_true]
    simp [sort, sortInsert, jets_pt_gt, P4.float32Ops]
    norm_num
  · simp [P4.float32Ops]
    norm_num

/-- C10, counterexample: with `min_pt = -20` the jet of raw pt 10 and stored
factor -1 passes; `sumPt` returns -10, while `getJets` returns one momentum
whose `pt()` is 10. -/
theorem C10_sumPt_negative_factor :
    sumPt P4.ops negativeFactorEvent 0 .JETS_TYPE_PF_CORR .JETS_CLEAN_NONE (2 / 5) (-20) (5 / 2)
      = .ok (-10) ∧
    getJets P4.ops negativeFactorEvent 0 false .JETS_TYPE_PF_CORR .JETS_CLEAN_NONE (2 / 5) (-20)
      (5 / 2) = .ok [⟨-10, 0, 0⟩] ∧
    (([⟨-10, 0, 0⟩] : List P4).map P4.ops.pt).sum = 10 ∧
    sumPt P4.ops negativeFactorEvent 0 .JETS_TYPE_PF_CORR .JETS_CLEAN_NONE (2 / 5) (-20) (5 / 2) ≠
      (getJets P4.ops negativeFactorEvent 0 false .JETS_TYPE_PF_CORR .JETS_CLEAN_NONE (2 / 5)
        (-20) (5 / 2)).map (fun jets => (jets.map P4.ops.pt).sum) := by
  have h1 : getJets_fast P4.ops negativeFactorEvent 0 .JETS_TYPE_PF_CORR .JETS_CLEAN_NONE (2 / 5)
      (-20) (5 / 2) = .ok [(some ⟨10, 0, 0⟩, -1)] := by
    simp [getJets_fast, jetCollection, forIndexed, getJets_fast_body, jetCorr, vat,
      negativeFactorEvent, passesKinematics, cleaningVeto, passesCaloJetID, nearestCaloJet, vidx,
      P4.ops, P4.etaOf, Except.bind]
    norm_num
  have h2 : sumPt P4.ops negativeFactorEvent 0 .JETS_TYPE_PF_CORR .JETS_CLEAN_NONE (2 / 5) (-20)
      (5 / 2) = .ok (-10) := by
    unfold sumPt
    rw [h1]
    simp only [Except.bind, sumPtLoop, P4.ops]
    norm_num
  have h3 : getJets P4.ops negativeFactorEvent 0 false .JETS_TYPE_PF_CORR .JETS_CLEAN_NONE (2 / 5)
      (-20) (5 / 2) = .ok [⟨-10, 0, 0⟩] := by
    unfold getJets
    rw [h1]
    simp only [Except.bind, correctedJets, P4.ops]
    norm_num
  refine ⟨h2, h3, ?_, ?_⟩
  · simp [P4.ops]
  · rw [h2, h3]
    simp [Except.map, P4.ops]
    norm_num

/-- C6. With the sort requested, `getJets` of jetSelections and the four
`samesign::getJets` return a list whose pt is non-increasing from front to back
and which is a permutation of what the same query returns without the sort
(for the ntuple strategy: provided the base selection, which receives the sort
flag too, returns permutations of one list). Jets of pt 50 and 100 come out as
100, 50. -/
theorem C6_sorted_permutation {V : Type} (K : LorentzOps V) (ev : Event V) (X : Collab V) :
    (∀ (i_hyp : Nat) (type : JetType) (cleaning : CleaningType) (deltaR min_pt max_eta : ℚ)
        (js : List V),
      CORE.getJets K ev i_hyp false type cleaning deltaR min_pt max_eta = .ok js →
      ∃ s, CORE.getJets K ev i_hyp true type cleaning deltaR min_pt max_eta = .ok s ∧
        s.Perm js ∧ s.Pairwise (fun a b => K.pt b ≤ K.pt a)) ∧
    (∀ (idx : Int) (type : JetType) (deltaR min_pt max_eta mu_minpt ele_minpt rescale : ℚ)
        (systFlag : Int) (b0 b1 js : List V),
      X.base_getJets (toUnsigned idx) false type .JETS_CLEAN_HYP_E_MU deltaR 0 max_eta rescale
        (some systFlag) = .ok b0 →
      X.base_getJets (toUnsigned idx) true type .JETS_CLEAN_HYP_E_MU deltaR 0 max_eta rescale
        (some systFlag) = .ok b1 →
      b1.Perm b0 →
      samesign.getJets K ev X idx type deltaR min_pt max_eta mu_minpt ele_minpt rescale systFlag
        false = .ok js →
      ∃ s, samesign.getJets K ev X idx type deltaR min_pt max_eta mu_minpt ele_minpt rescale
          systFlag true = .ok s ∧
        s.Perm js ∧ s.Pairwise (fun a b => K.pt b ≤ K.pt a)) ∧
    (∀ (idx : Int) (jc : FactorizedJetCorrector) (type : JetType)
        (deltaR min_pt max_eta mu_minpt ele_minpt rescale : ℚ) (systFlag : Int) (js : List V),
      samesign.getJets_otf K ev X idx jc type deltaR min_pt max_eta mu_minpt ele_minpt rescale
        systFlag false = .ok js →
      ∃ s, samesign.getJets_otf K ev X idx jc type deltaR min_pt max_eta mu_minpt ele_minpt
          rescale systFlag true = .ok s ∧
        s.Perm js ∧ s.Pairwise (fun a b => K.pt b ≤ K.pt a)) ∧
    (∀ (idx : Int) (ju : JetCorrectionUncertainty) (scale_type : Int) (type : JetType)
        (deltaR min_pt max_eta mu_minpt ele_minpt : ℚ) (js : List V),
      samesign.getJets_unc K ev X idx ju scale_type type deltaR min_pt max_eta mu_minpt ele_minpt
        false = .ok js →
      ∃ s, samesign.getJets_unc K ev X idx ju scale_type type deltaR min_pt max_eta mu_minpt
          ele_minpt true = .ok s ∧
        s.Perm js ∧ s.Pairwise (fun a b => K.pt b ≤ K.pt a)) ∧
    (∀ (idx : Int) (jc : FactorizedJetCorrector) (ju : JetCorrectionUncertainty)
        (scale_type : Int) (type : JetType) (deltaR min_pt max_eta mu_minpt ele_minpt : ℚ)
        (js : List V),
      samesign.getJets_otf_unc K ev X idx jc ju scale_type type deltaR min_pt max_eta mu_minpt
        ele_minpt false = .ok js →
      ∃ s, samesign.getJets_otf_unc K ev X idx jc ju scale_type type deltaR min_pt max_eta
          mu_minpt ele_minpt true = .ok s ∧
        s.Perm js ∧ s.Pairwise (fun a b => K.pt b ≤ K.pt a)) ∧
    sort (jets_pt_gt P4.ops) [⟨50, 0, 0⟩, ⟨100, 1, 1⟩] = [⟨100, 1, 1⟩, ⟨50, 0, 0⟩] ∧
    sort (samesign.SortByPt P4.ops) [⟨50, 0, 0⟩, ⟨100, 1, 1⟩] = [⟨100, 1, 1⟩, ⟨50, 0, 0⟩] := by
  refine ⟨?_, ?_, ?_, ?_, ?_, ?_, ?_⟩
  · intro i_hyp type cleaning deltaR min_pt max_eta js h
    unfold CORE.getJets at h ⊢
    cases hl : getJets_fast K ev i_hyp type cleaning deltaR min_pt max_eta with
    | error e => rw [hl] at h; cases h
    | ok l =>
      rw [hl] at h
      simp only [Except.bind, Bool.false_eq_true, if_false, Except.ok.injEq] at h
      subst h
      exact ⟨sort (jets_pt_gt K) (correctedJets K l), by simp [Except.bind], sort_perm _ _,
        sort_sorted K.pt _⟩
  · intro idx type deltaR min_pt max_eta mu_minpt ele_minpt rescale systFlag b0 b1 js h0 h1 hp h
    unfold samesign.getJets at h ⊢
    rw [h0] at h
    rw [h1]
    simp only [Except.bind, Bool.false_eq_true, if_false, Except.ok.injEq] at h
    subst h
    exact ⟨sort (samesign.SortByPt K) _, by simp [Except.bind],
      (sort_perm _ _).trans (hp.filter _), sort_sorted K.pt _⟩
  · intro idx jc type deltaR min_pt max_eta mu_minpt ele_minpt rescale systFlag js h
    unfold samesign.getJets_otf at h ⊢
    by_cases hpf : (!samesign.isParticleFlow type) = true
    · rw [if_pos hpf] at h ⊢
      simp only [Except.ok.injEq] at h
      subst h
      exact ⟨[], rfl, List.Perm.refl _, List.Pairwise.nil⟩
    · rw [if_neg hpf] at h ⊢
      cases hf : samesign.getJetFlags K ev X idx type deltaR 0 max_eta mu_minpt ele_minpt rescale
          systFlag with
      | error e => rw [hf] at h; cases h
      | ok fl =>
        rw [hf] at h
        simp only [Except.bind] at h ⊢
        cases hp : forIndexed (samesign.getJets_otf_body K ev X jc min_pt rescale systFlag) 0 fl with
        | error e => rw [hp] at h; cases h
        | ok pushed =>
          rw [hp] at h
          simp only [Bool.false_eq_true, if_false, Except.ok.injEq] at h
          subst h
          exact ⟨sort (samesign.SortByPt K) pushed.reduceOption, by simp, sort_perm _ _,
            sort_sorted K.pt _⟩
  · intro idx ju scale_type type deltaR min_pt max_eta mu_minpt ele_minpt js h
    unfold samesign.getJets_unc at h ⊢
    cases hf : samesign.getJetFlags K ev X idx type deltaR 0 max_eta mu_minpt ele_minpt
        X.default_rescale X.default_systFlag with
    | error e => rw [hf] at h; cases h
    | ok fl =>
      rw [hf] at h
      simp only [Except.bind] at h ⊢
      cases hp : forIndexed (samesign.getJets_unc_body K ev ju scale_type min_pt) 0 fl with
      | error e => rw [hp] at h; cases h
      | ok pushed =>
        rw [hp] at h
        simp only [Bool.false_eq_true, if_false, Except.ok.injEq] at h
        subst h
        exact ⟨sort (samesign.SortByPt K) pushed.reduceOption, by simp, sort_perm _ _,
          sort_sorted K.pt _⟩
  · intro idx jc ju scale_type type deltaR min_pt max_eta mu_minpt ele_minpt js h
    unfold samesign.getJets_otf_unc at h ⊢
    cases hf : samesign.getJetFlags K ev X idx type deltaR 0 max_eta mu_minpt ele_minpt
        X.default_rescale X.default_systFlag with
    | error e => rw [hf] at h; cases h
    | ok fl =>
      rw [hf] at h
      simp only [Except.bind] at h ⊢
      cases hp : forIndexed (samesign.getJets_otf_unc_body K ev jc ju scale_type min_pt) 0 fl with
      | error e => rw [hp] at h; cases h
      | ok pushed =>
        rw [hp] at h
        simp only [Bool.false_eq_true, if_false, Except.ok.injEq] at h
        subst h
        exact ⟨sort (samesign.SortByPt K) pushed.reduceOption, by simp, sort_perm _ _,
          sort_sorted K.pt _⟩
  · simp only [sort, sortInsert, jets_pt_gt, P4.ops]
    norm_num
  · simp only [sort, sortInsert, samesign.SortByPt, P4.ops]
    norm_num

theorem dijetEvent_getJets_fast :
    getJets_fast P4.ops dijetEvent 0 .JETS_TYPE_PF_CORR .JETS_CLEAN_HYP_E_MU (2 / 5) 0 (5 / 2) =
      .ok [(some ⟨20, 0, 0⟩, 1), (some ⟨50, 1, 1⟩, 1)] := by
  simp [getJets_fast, jetCollection, forIndexed, getJets_fast_body, jetCorr, vat, dijetEvent,
    passesKinematics, cleaningVeto, passesCaloJetID, nearestCaloJet, vidx, P4.ops, P4.etaOf,
    Except.bind]
  norm_num

theorem dijetEvent_getJets_unsorted :
    getJets P4.ops dijetEvent 0 false .JETS_TYPE_PF_CORR .JETS_CLEAN_HYP_E_MU (2 / 5) 0 (5 / 2) =
      .ok [⟨20, 0, 0⟩, ⟨50, 1, 1⟩] := by
  unfold getJets
  rw [dijetEvent_getJets_fast]
  simp [Except.bind, correctedJets, P4.ops]

theorem dijetEvent_getJets_sorted :
    getJets P4.ops dijetEvent 0 true .JETS_TYPE_PF_CORR .JETS_CLEAN_HYP_E_MU (2 / 5) 0 (5 / 2) =
      .ok [⟨50, 1, 1⟩, ⟨20, 0, 0⟩] := by
  unfold getJets
  rw [dijetEvent_getJets_fast]
  simp only [Except.bind, correctedJets, if_true, sort, sortInsert, jets_pt_gt, P4.ops]
  norm_num

theorem dijetEvent_getJetFlags :
    getJetFlags P4.ops dijetEvent 0 .JETS_TYPE_PF_CORR .JETS_CLEAN_HYP_E_MU (2 / 5) 0 (5 / 2) =
      .ok [true, true] := by
  unfold getJetFlags
  rw [dijetEvent_getJets_fast]
  simp [Except.bind]

/-- C6, witness: the dijet event, whose unsorted selection is the jets of pt 20
and 50 in raw order. -/
theorem C6_sorted_permutation_witness :
    ∃ s, getJets P4.ops dijetEvent 0 true .JETS_TYPE_PF_CORR .JETS_CLEAN_HYP_E_MU (2 / 5) 0
        (5 / 2) = .ok s ∧
      s.Perm [⟨20, 0, 0⟩, ⟨50, 1, 1⟩] ∧ s.Pairwise (fun a b => P4.ops.pt b ≤ P4.ops.pt a) :=
  (C6_sorted_permutation P4.ops dijetEvent (plainCollab P4.ops dijetEvent)).1 0
    .JETS_TYPE_PF_CORR .JETS_CLEAN_HYP_E_MU (2 / 5) 0 (5 / 2) [⟨20, 0, 0⟩, ⟨50, 1, 1⟩]
    dijetEvent_getJets_unsorted

/-! ## ssSelections.cc: facts about the loops -/

section samesignFacts

variable {V : Type} (K : LorentzOps V) (ev : Event V) (X : Collab V)

theorem vat_of_lt {α : Type} (l : List α) (i : Nat) (h : i < l.length) : vat l i = .ok l[i] := by
  simp [vat, List.getElem?_eq_getElem h]

theorem vat_eq_ok {α : Type} (l : List α) (i : Nat) (x : α) :
    vat l i = .ok x ↔ l[i]? = some x := by
  unfold vat
  cases l[i]? with
  | none => simp
  | some y => simp

theorem cassert_eq_ok (c : Bool) : cassert c = .ok () ↔ c = true := by
  cases c <;> simp [cassert]

/-- A flag loop whose body leaves a false flag false: the result has the length
of the input and is true only where the input is. -/
theorem flagLoop_sound (body : Nat → Bool → Result Bool)
    (hfalse : ∀ j, body j false = .ok false) (tmp : List Bool) (k : Nat) (fl : List Bool)
    (h : forIndexed body k tmp = .ok fl) :
    fl.length = tmp.length ∧ ∀ i : Nat, fl[i]? = some true → tmp[i]? = some true := by
  have hlen := forIndexed_length tmp k fl h
  refine ⟨hlen, ?_⟩
  intro i hi
  have hi1 : i < fl.length := (List.getElem?_eq_some_iff.mp hi).1
  have hi2 : i < tmp.length := hlen ▸ hi1
  obtain ⟨r, hr1, hr2⟩ := forIndexed_getElem? tmp k fl h i tmp[i] (List.getElem?_eq_getElem hi2)
  rw [hi] at hr1
  simp only [Option.some.injEq] at hr1
  subst hr1
  rw [List.getElem?_eq_getElem hi2]
  cases hx : tmp[i] with
  | true => rfl
  | false =>
    rw [hx, hfalse] at hr2
    simp at hr2

/-- A flag loop whose body returns for every true flag below `n` returns on
every list that ends at or before `n`. -/
theorem flagLoop_returns (body : Nat → Bool → Result Bool) (n : Nat)
    (hfalse : ∀ j, body j false = .ok false)
    (htrue : ∀ j, j < n → ∃ b, body j true = .ok b) (tmp : List Bool) (k : Nat)
    (hk : k + tmp.length ≤ n) : ∃ fl, forIndexed body k tmp = .ok fl := by
  apply forIndexed_total
  intro i x hx
  have hi : i < tmp.length := (List.getElem?_eq_some_iff.mp hx).1
  cases x with
  | false => exact ⟨false, hfalse _⟩
  | true => exact htrue _ (by omega)

theorem storedJEC_returns (hal : ev.pfAligned) (j : Nat) (hj : j < ev.pfjets_p4.length) :
    ∃ c, samesign.storedJEC ev j = .ok c := by
  unfold samesign.storedJEC
  obtain ⟨h1, h2, _⟩ := hal
  split
  · exact ⟨_, vat_of_lt _ _ (by omega)⟩
  · exact ⟨_, vat_of_lt _ _ (by omega)⟩

theorem otfJEC_returns (hal : ev.pfAligned) (jc : FactorizedJetCorrector) (j : Nat)
    (hj : j < ev.pfjets_p4.length) : ∃ c, samesign.otfJEC K ev jc j = .ok c := by
  unfold samesign.otfJEC
  obtain ⟨_, _, h3⟩ := hal
  rw [vat_of_lt _ _ (by omega : j < ev.pfjets_area.length), vat_of_lt _ _ hj]
  exact ⟨_, rfl⟩

theorem getJetFlags_body_false (deltaR min_pt mu_minpt ele_minpt rescale : ℚ) (systFlag : Int)
    (j : Nat) :
    samesign.getJetFlags_body K ev X deltaR min_pt mu_minpt ele_minpt rescale systFlag j false
      = .ok false := by
  simp [samesign.getJetFlags_body]

theorem getJetFlags_body_returns (hal : ev.pfAligned)
    (deltaR min_pt mu_minpt ele_minpt rescale : ℚ) (systFlag : Int) (j : Nat)
    (hj : j < ev.pfjets_p4.length) :
    ∃ b, samesign.getJetFlags_body K ev X deltaR min_pt mu_minpt ele_minpt rescale systFlag j
      true = .ok b := by
  obtain ⟨c, hc⟩ := storedJEC_returns ev hal j hj
  simp only [samesign.getJetFlags_body, hc, vat_of_lt _ _ hj, Except.bind, Bool.not_true,
    Bool.false_eq_true, if_false]
  split
  · exact ⟨_, rfl⟩
  · split
    · exact ⟨_, rfl⟩
    · exact ⟨_, rfl⟩

theorem getJetFlags_otf_body_false (jc : FactorizedJetCorrector) (min_pt rescale : ℚ)
    (systFlag : Int) (j : Nat) :
    samesign.getJetFlags_otf_body K ev X jc min_pt rescale systFlag j false = .ok false := by
  simp [samesign.getJetFlags_otf_body]

theorem getJetFlags_otf_body_returns (hal : ev.pfAligned) (jc : FactorizedJetCorrector)
    (min_pt rescale : ℚ) (systFlag : Int) (j : Nat) (hj : j < ev.pfjets_p4.length) :
    ∃ b, samesign.getJetFlags_otf_body K ev X jc min_pt rescale systFlag j true = .ok b := by
  obtain ⟨c, hc⟩ := otfJEC_returns K ev hal jc j hj
  simp only [samesign.getJetFlags_otf_body, hc, vat_of_lt _ _ hj, Except.bind, Bool.not_true,
    Bool.false_eq_true, if_false]
  split
  · exact ⟨_, rfl⟩
  · exact ⟨_, rfl⟩

theorem getJetFlags_unc_body_false (ju : JetCorrectionUncertainty) (scale_type : Int)
    (min_pt : ℚ) (j : Nat) :
    samesign.getJetFlags_unc_body K ev ju scale_type min_pt j false = .ok false := by
  simp [samesign.getJetFlags_unc_body]

theorem getJetFlags_unc_body_returns (hal : ev.pfAligned) (ju : JetCorrectionUncertainty)
    (scale_type : Int) (min_pt : ℚ) (j : Nat) (hj : j < ev.pfjets_p4.length) :
    ∃ b, samesign.getJetFlags_unc_body K ev ju scale_type min_pt j true = .ok b := by
  obtain ⟨c, hc⟩ := storedJEC_returns ev hal j hj
  simp only [samesign.getJetFlags_unc_body, hc, vat_of_lt _ _ hj, Except.bind, Bool.not_true,
    Bool.false_eq_true, if_false]
  split
  · exact ⟨_, rfl⟩
  · exact ⟨_, rfl⟩

theorem getJetFlags_otf_unc_body_false (jc : FactorizedJetCorrector)
    (ju : JetCorrectionUncertainty) (scale_type : Int) (min_pt : ℚ) (j : Nat) :
    samesign.getJetFlags_otf_unc_body K ev jc ju scale_type min_pt j false = .ok false := by
  simp [samesign.getJetFlags_otf_unc_body]

theorem getJetFlags_otf_unc_body_returns (hal : ev.pfAligned) (jc : FactorizedJetCorrector)
    (ju : JetCorrectionUncertainty) (scale_type : Int) (min_pt : ℚ) (j : Nat)
    (hj : j < ev.pfjets_p4.length) :
    ∃ b, samesign.getJetFlags_otf_unc_body K ev jc ju scale_type min_pt j true = .ok b := by
  obtain ⟨c, hc⟩ := otfJEC_returns K ev hal jc j hj
  simp only [samesign.getJetFlags_otf_unc_body, hc, vat_of_lt _ _ hj, Except.bind, Bool.not_true,
    Bool.false_eq_true, if_false]
  split
  · exact ⟨_, rfl⟩
  · exact ⟨_, rfl⟩

/-- What a flag query that starts from `samesign::getJetFlags` at `min_pt = 0`,
asserts the length and runs a flag loop returns. -/
theorem flagQuery_sound (first : Result (List Bool)) (n : Nat) (body : Nat → Bool → Result Bool)
    (hfalse : ∀ j, body j false = .ok false) (fl : List Bool)
    (h : (first.bind fun tmp =>
      (cassert (tmp.length == n)).bind fun _ => forIndexed body 0 tmp) = .ok fl) :
    ∃ base, first = .ok base ∧ fl.length = base.length ∧ base.length = n ∧
      ∀ i : Nat, fl[i]? = some true → base[i]? = some true := by
  cases hf : first with
  | error e => rw [hf] at h; cases h
  | ok base =>
    rw [hf] at h
    simp only [Except.bind] at h
    cases ha : cassert (base.length == n) with
    | error e => rw [ha] at h; cases h
    | ok u =>
      rw [ha] at h
      simp only at h
      have hn : base.length = n := by
        have := (cassert_eq_ok _).mp ha
        simpa using this
      obtain ⟨h1, h2⟩ := flagLoop_sound body hfalse base 0 fl h
      exact ⟨base, rfl, h1, hn, h2⟩

theorem flagQuery_returns (first : Result (List Bool)) (n : Nat)
    (body : Nat → Bool → Result Bool) (hfalse : ∀ j, body j false = .ok false)
    (htrue : ∀ j, j < n → ∃ b, body j true = .ok b) (base : List Bool)
    (hfirst : first = .ok base) (hn : base.length = n) :
    ∃ fl, (first.bind fun tmp =>
      (cassert (tmp.length == n)).bind fun _ => forIndexed body 0 tmp) = .ok fl := by
  obtain ⟨fl, hfl⟩ := flagLoop_returns body n hfalse htrue base 0 (by omega)
  refine ⟨fl, ?_⟩
  rw [hfirst]
  have : cassert (base.length == n) = .ok () := (cassert_eq_ok _).mpr (by simp [hn])
  simp only [Except.bind, this, hfl]

end samesignFacts

section samesignFlags

variable {V : Type} (K : LorentzOps V) (ev : Event V) (X : Collab V)

theorem getJetFlags_sound (idx : Int) (type : JetType)
    (deltaR min_pt max_eta mu_minpt ele_minpt rescale : ℚ) (systFlag : Int) (fl : List Bool)
    (h : samesign.getJetFlags K ev X idx type deltaR min_pt max_eta mu_minpt ele_minpt rescale
      systFlag = .ok fl) :
    ∃ base, X.base_getJetFlags (toUnsigned idx) type .JETS_CLEAN_HYP_E_MU deltaR 0 max_eta
        rescale (some systFlag) = .ok base ∧
      fl.length = base.length ∧ ∀ i : Nat, fl[i]? = some true → base[i]? = some true := by
  unfold samesign.getJetFlags at h
  cases hb : X.base_getJetFlags (toUnsigned idx) type .JETS_CLEAN_HYP_E_MU deltaR 0 max_eta
      rescale (some systFlag) with
  | error e => rw [hb] at h; cases h
  | ok base =>
    rw [hb] at h
    simp only [Except.bind] at h
    obtain ⟨h1, h2⟩ := flagLoop_sound _
      (getJetFlags_body_false K ev X deltaR min_pt mu_minpt ele_minpt rescale systFlag) base 0 fl h
    exact ⟨base, rfl, h1, h2⟩

theorem getJetFlags_returns (hal : ev.pfAligned) (idx : Int) (type : JetType)
    (deltaR min_pt max_eta mu_minpt ele_minpt rescale : ℚ) (systFlag : Int) (base : List Bool)
    (hb : X.base_getJetFlags (toUnsigned idx) type .JETS_CLEAN_HYP_E_MU deltaR 0 max_eta
        rescale (some systFlag) = .ok base)
    (hn : base.length = ev.pfjets_p4.length) :
    ∃ fl, samesign.getJetFlags K ev X idx type deltaR min_pt max_eta mu_minpt ele_minpt rescale
      systFlag = .ok fl ∧ fl.length = ev.pfjets_p4.length := by
  obtain ⟨fl, hfl⟩ := flagLoop_returns
    (samesign.getJetFlags_body K ev X deltaR min_pt mu_minpt ele_minpt rescale systFlag)
    ev.pfjets_p4.length
    (getJetFlags_body_false K ev X deltaR min_pt mu_minpt ele_minpt rescale systFlag)
    (fun j hj => getJetFlags_body_returns K ev X hal deltaR min_pt mu_minpt ele_minpt rescale
      systFlag j hj) base 0 (by omega)
  refine ⟨fl, ?_, ?_⟩
  · unfold samesign.getJetFlags
    rw [hb]
    simpa only [Except.bind] using hfl
  · rw [forIndexed_length base 0 fl hfl, hn]

end samesignFlags

/-! ## Claims on the samesign jet flags -/

/-- C1. Each of the four `samesign::getJetFlags` returns one boolean per raw
jet. Whatever a variant returns has the length of the flag list it starts from
and is true only where that list is true; for the variants with a corrector or
an uncertainty that length is the number of raw particle-flow jets. On an event
whose per-jet tables are aligned, and with a base selection that yields one
flag per raw particle-flow jet, all four return, with one flag per raw jet.
The base selection of the sources returns one flag per jet of the requested
collection. -/
theorem C1_one_flag_per_raw_jet {V : Type} (K : LorentzOps V) (ev : Event V) (X : Collab V)
    (idx : Int) (type : JetType) (deltaR min_pt max_eta mu_minpt ele_minpt rescale : ℚ)
    (systFlag : Int) (jc : FactorizedJetCorrector) (ju : JetCorrectionUncertainty)
    (scale_type : Int) :
    (∀ fl, samesign.getJetFlags K ev X idx type deltaR min_pt max_eta mu_minpt ele_minpt rescale
        systFlag = .ok fl →
      ∃ base, X.base_getJetFlags (toUnsigned idx) type .JETS_CLEAN_HYP_E_MU deltaR 0 max_eta
          rescale (some systFlag) = .ok base ∧
        fl.length = base.length ∧ ∀ i : Nat, fl[i]? = some true → base[i]? = some true) ∧
    (∀ fl, samesign.getJetFlags_otf K ev X idx jc type deltaR min_pt max_eta mu_minpt ele_minpt
        rescale systFlag = .ok fl →
      ∃ base, samesign.getJetFlags K ev X idx type deltaR 0 max_eta mu_minpt ele_minpt rescale
          systFlag = .ok base ∧
        fl.length = base.length ∧ base.length = ev.pfjets_p4.length ∧
        ∀ i : Nat, fl[i]? = some true → base[i]? = some true) ∧
    (∀ fl, samesign.getJetFlags_unc K ev X idx ju scale_type type deltaR min_pt max_eta mu_minpt
        ele_minpt = .ok fl →
      ∃ base, samesign.getJetFlags K ev X idx type deltaR 0 max_eta mu_minpt ele_minpt
          X.default_rescale X.default_systFlag = .ok base ∧
        fl.length = base.length ∧ base.length = ev.pfjets_p4.length ∧
        ∀ i : Nat, fl[i]? = some true → base[i]? = some true) ∧
    (∀ fl, samesign.getJetFlags_otf_unc K ev X idx jc ju scale_type type deltaR min_pt max_eta
        mu_minpt ele_minpt = .ok fl →
      ∃ base, samesign.getJetFlags K ev X idx type deltaR 0 max_eta mu_minpt ele_minpt
          X.default_rescale X.default_systFlag = .ok base ∧
        fl.length = base.length ∧ base.length = ev.pfjets_p4.length ∧
        ∀ i : Nat, fl[i]? = some true → base[i]? = some true) ∧
    (ev.pfAligned →
      (∀ (rs : ℚ) (sf : Int), ∃ base,
        X.base_getJetFlags (toUnsigned idx) type .JETS_CLEAN_HYP_E_MU deltaR 0 max_eta rs
          (some sf) = .ok base ∧ base.length = ev.pfjets_p4.length) →
      ∃ f1 f2 f3 f4,
        samesign.getJetFlags K ev X idx type deltaR min_pt max_eta mu_minpt ele_minpt rescale
          systFlag = .ok f1 ∧
        samesign.getJetFlags_otf K ev X idx jc type deltaR min_pt max_eta mu_minpt ele_minpt
          rescale systFlag = .ok f2 ∧
        samesign.getJetFlags_unc K ev X idx ju scale_type type deltaR min_pt max_eta mu_minpt
          ele_minpt = .ok f3 ∧
        samesign.getJetFlags_otf_unc K ev X idx jc ju scale_type type deltaR min_pt max_eta
          mu_minpt ele_minpt = .ok f4 ∧
        f1.length = ev.pfjets_p4.length ∧ f2.length = ev.pfjets_p4.length ∧
        f3.length = ev.pfjets_p4.length ∧ f4.length = ev.pfjets_p4.length) ∧
    (∀ (i_hyp : Nat) (cleaning : CleaningType) (fl : List Bool),
      CORE.getJetFlags K ev i_hyp type cleaning deltaR min_pt max_eta = .ok fl →
      ∃ jets, jetCollection ev type = .ok jets ∧ fl.length = jets.length) := by
  refine ⟨?_, ?_, ?_, ?_, ?_, ?_⟩
  · intro fl h
    exact getJetFlags_sound K ev X idx type deltaR min_pt max_eta mu_minpt ele_minpt rescale
      systFlag fl h
  · intro fl h
    exact flagQuery_sound _ _ _
      (getJetFlags_otf_body_false K ev X jc min_pt rescale systFlag) fl h
  · intro fl h
    exact flagQuery_sound _ _ _ (getJetFlags_unc_body_false K ev ju scale_type min_pt) fl h
  · intro fl h
    exact flagQuery_sound _ _ _
      (getJetFlags_otf_unc_body_false K ev jc ju scale_type min_pt) fl h
  · intro hal hbase
    obtain ⟨b1, hb1, hn1⟩ := hbase rescale systFlag
    obtain ⟨b2, hb2, hn2⟩ := hbase X.default_rescale X.default_systFlag
    obtain ⟨f1, hf1, hl1⟩ := getJetFlags_returns K ev X hal idx type deltaR min_pt max_eta
      mu_minpt ele_minpt rescale systFlag b1 hb1 hn1
    obtain ⟨g1, hg1, hgl1⟩ := getJetFlags_returns K ev X hal idx type deltaR 0 max_eta
      mu_minpt ele_minpt rescale systFlag b1 hb1 hn1
    obtain ⟨g2, hg2, hgl2⟩ := getJetFlags_returns K ev X hal idx type deltaR 0 max_eta
      mu_minpt ele_minpt X.default_rescale X.default_systFlag b2 hb2 hn2
    obtain ⟨f2, hf2⟩ := flagQuery_returns _ ev.pfjets_p4.length _
      (getJetFlags_otf_body_false K ev X jc min_pt rescale systFlag)
      (fun j hj => getJetFlags_otf_body_returns K ev X hal jc min_pt rescale systFlag j hj)
      g1 hg1 hgl1
    obtain ⟨f3, hf3⟩ := flagQuery_returns _ ev.pfjets_p4.length _
      (getJetFlags_unc_body_false K ev ju scale_type min_pt)
      (fun j hj => getJetFlags_unc_body_returns K ev hal ju scale_type min_pt j hj)
      g2 hg2 hgl2
    obtain ⟨f4, hf4⟩ := flagQuery_returns _ ev.pfjets_p4.length _
      (getJetFlags_otf_unc_body_false K ev jc ju scale_type min_pt)
      (fun j hj => getJetFlags_otf_unc_body_returns K ev hal jc ju scale_type min_pt j hj)
      g2 hg2 hgl2
    refine ⟨f1, f2, f3, f4, hf1, hf2, hf3, hf4, hl1, ?_, ?_, ?_⟩
    · obtain ⟨b, hb, h1, h2, _⟩ := flagQuery_sound _ _ _
        (getJetFlags_otf_body_false K ev X jc min_pt rescale systFlag) f2 hf2
      omega
    · obtain ⟨b, hb, h1, h2, _⟩ := flagQuery_sound _ _ _
        (getJetFlags_unc_body_false K ev ju scale_type min_pt) f3 hf3
      omega
    · obtain ⟨b, hb, h1, h2, _⟩ := flagQuery_sound _ _ _
        (getJetFlags_otf_unc_body_false K ev jc ju scale_type min_pt) f4 hf4
      omega
  · intro i_hyp cleaning fl h
    unfold CORE.getJetFlags getJets_fast at h
    cases hj : jetCollection ev type with
    | error e => rw [hj] at h; cases h
    | ok jets =>
      rw [hj] at h
      simp only [Except.bind] at h
      cases hl : forIndexed (getJets_fast_body K ev i_hyp type cleaning deltaR min_pt max_eta) 0
          jets with
      | error e => rw [hl] at h; cases h
      | ok l =>
        rw [hl] at h
        simp only [Except.ok.injEq] at h
        subst h
        exact ⟨jets, rfl, by simp [forIndexed_length jets 0 l hl]⟩

/-- C1, witness: the dijet event with the base selection of the sources, for
particle-flow jets; all four variants return two flags. -/
theorem C1_one_flag_per_raw_jet_witness :
    ∃ f1 f2 f3 f4,
      samesign.getJetFlags P4.ops dijetEvent (plainCollab P4.ops dijetEvent) 0
        .JETS_TYPE_PF_CORR (2 / 5) 30 (5 / 2) 20 20 1 0 = .ok f1 ∧
      samesign.getJetFlags_otf P4.ops dijetEvent (plainCollab P4.ops dijetEvent) 0 flatCorrector
        .JETS_TYPE_PF_CORR (2 / 5) 30 (5 / 2) 20 20 1 0 = .ok f2 ∧
      samesign.getJetFlags_unc P4.ops dijetEvent (plainCollab P4.ops dijetEvent) 0
        flatUncertainty 1 .JETS_TYPE_PF_CORR (2 / 5) 30 (5 / 2) 20 20 = .ok f3 ∧
      samesign.getJetFlags_otf_unc P4.ops dijetEvent (plainCollab P4.ops dijetEvent) 0
        flatCorrector flatUncertainty 1 .JETS_TYPE_PF_CORR (2 / 5) 30 (5 / 2) 20 20 = .ok f4 ∧
      f1.length = dijetEvent.pfjets_p4.length ∧ f2.length = dijetEvent.pfjets_p4.length ∧
      f3.length = dijetEvent.pfjets_p4.length ∧ f4.length = dijetEvent.pfjets_p4.length :=
  (C1_one_flag_per_raw_jet P4.ops dijetEvent (plainCollab P4.ops dijetEvent) 0
    .JETS_TYPE_PF_CORR (2 / 5) 30 (5 / 2) 20 20 1 0 flatCorrector flatUncertainty 1).2.2.2.2.1
    (by simp [Event.pfAligned, dijetEvent])
    (fun _ _ => ⟨[true, true], dijetEvent_getJetFlags, rfl⟩)

section overlap

variable {V : Type} (K : LorentzOps V) (ev : Event V) (X : Collab V)

/-- An overlap loop sets `jetIsLep` exactly when some lepton from position `k`
on is at or above the pt threshold, is a numerator lepton and is not farther
from the jet than `deltaR`. -/
theorem leptonLoop_iff (isNumerator : Nat → Bool) (vjet : V) (deltaR minpt : ℚ) :
    ∀ (ls : List V) (k : Nat),
      samesign.leptonLoop K isNumerator vjet deltaR minpt k ls = true ↔
        ∃ (i : Nat) (l : V), ls[i]? = some l ∧ minpt ≤ K.pt l ∧ isNumerator (k + i) = true ∧
          K.DeltaR vjet l ≤ deltaR
  | [], k => by simp [samesign.leptonLoop]
  | l :: ls, k => by
    have ih := leptonLoop_iff isNumerator vjet deltaR minpt ls (k + 1)
    have shift : (∃ (i : Nat) (l1 : V), ls[i]? = some l1 ∧ minpt ≤ K.pt l1 ∧
        isNumerator (k + 1 + i) = true ∧ K.DeltaR vjet l1 ≤ deltaR) →
        ∃ (i : Nat) (l1 : V), (l :: ls)[i]? = some l1 ∧ minpt ≤ K.pt l1 ∧
          isNumerator (k + i) = true ∧ K.DeltaR vjet l1 ≤ deltaR := by
      rintro ⟨i, l1, h1, h2, h3, h4⟩
      refine ⟨i + 1, l1, by simpa using h1, h2, ?_, h4⟩
      have e : k + (i + 1) = k + 1 + i := by omega
      rw [e]; exact h3
    have unshift : ∀ (i : Nat) (l1 : V), (l :: ls)[i]? = some l1 → minpt ≤ K.pt l1 →
        isNumerator (k + i) = true → K.DeltaR vjet l1 ≤ deltaR →
        ¬ (minpt ≤ K.pt l ∧ isNumerator k = true ∧ K.DeltaR vjet l ≤ deltaR) →
        ∃ (i : Nat) (l1 : V), ls[i]? = some l1 ∧ minpt ≤ K.pt l1 ∧
          isNumerator (k + 1 + i) = true ∧ K.DeltaR vjet l1 ≤ deltaR := by
      intro i l1 h1 h2 h3 h4 hn
      cases i with
      | zero =>
        simp only [List.getElem?_cons_zero, Option.some.injEq] at h1
        subst h1
        exact absurd ⟨h2, by simpa using h3, h4⟩ hn
      | succ j =>
        refine ⟨j, l1, by simpa using h1, h2, ?_, h4⟩
        have e : k + 1 + j = k + (j + 1) := by omega
        rw [e]; exact h3
    simp only [samesign.leptonLoop]
    by_cases hpt : K.pt l < minpt
    · rw [if_pos hpt, ih]
      constructor
      · exact shift
      · rintro ⟨i, l1, h1, h2, h3, h4⟩
        exact unshift i l1 h1 h2 h3 h4 (fun h => absurd h.1 (not_le.mpr hpt))
    · rw [if_neg hpt]
      by_cases hnum : isNumerator k = true
      · have hnum1 : ¬ ((!isNumerator k) = true) := by simp [hnum]
        rw [if_neg hnum1]
        by_cases hdr : K.DeltaR vjet l > deltaR
        · rw [if_pos hdr, ih]
          constructor
          · exact shift
          · rintro ⟨i, l1, h1, h2, h3, h4⟩
            exact unshift i l1 h1 h2 h3 h4 (fun h => absurd h.2.2 (not_le.mpr hdr))
        · rw [if_neg hdr]
          simp only [true_iff]
          exact ⟨0, l, by simp, not_lt.mp hpt, by simpa using hnum, not_lt.mp hdr⟩
      · have hnum1 : (!isNumerator k) = true := by simpa using hnum
        rw [if_pos hnum1, ih]
        constructor
        · exact shift
        · rintro ⟨i, l1, h1, h2, h3, h4⟩
          exact unshift i l1 h1 h2 h3 h4 (fun h => hnum h.2.1)

theorem jetIsLep_iff (vjet : V) (deltaR mu_minpt ele_minpt : ℚ) :
    samesign.jetIsLep K ev X vjet deltaR mu_minpt ele_minpt = true ↔
      (∃ (e : Nat) (l : V), ev.els_p4[e]? = some l ∧ ele_minpt ≤ K.pt l ∧
          samesign.isNumeratorLepton X 11 e X.default_use_el_eta = true ∧
          K.DeltaR vjet l ≤ deltaR) ∨
      (∃ (m : Nat) (l : V), ev.mus_p4[m]? = some l ∧ mu_minpt ≤ K.pt l ∧
          samesign.isNumeratorLepton X 13 m X.default_use_el_eta = true ∧
          K.DeltaR vjet l ≤ deltaR) := by
  unfold samesign.jetIsLep
  have he := leptonLoop_iff K (fun eidx => samesign.isNumeratorLepton X 11 eidx
    X.default_use_el_eta) vjet deltaR ele_minpt ev.els_p4 0
  have hm := leptonLoop_iff K (fun midx => samesign.isNumeratorLepton X 13 midx
    X.default_use_el_eta) vjet deltaR mu_minpt ev.mus_p4 0
  simp only [Nat.zero_add] at he hm
  by_cases h : samesign.leptonLoop K (fun eidx => samesign.isNumeratorLepton X 11 eidx
      X.default_use_el_eta) vjet deltaR ele_minpt 0 ev.els_p4 = true
  · rw [if_pos h]
    simp only [true_iff]
    exact Or.inl (he.mp h)
  · rw [if_neg h, hm]
    constructor
    · exact Or.inr
    · rintro (h1 | h1)
      · exact absurd (he.mpr h1) h
      · exact h1

end overlap

/-- C4, as amended. In `samesign::getJetFlags` and `samesign::getJets` (JEC from
the ntuple) a jet that passed the base selection and the min-pt cut is rejected
as lepton-contaminated exactly when there is an electron with
`pt >= ele_minpt` that is a numerator lepton, or a muon with `pt >= mu_minpt`
that is a numerator lepton, whose DeltaR to the jet is at most the cone
`deltaR` (not greater than it). -/
theorem C4_lepton_overlap_at_most_cone {V : Type} (K : LorentzOps V) (ev : Event V)
    (X : Collab V) (idx : Int) (type : JetType)
    (deltaR min_pt max_eta mu_minpt ele_minpt rescale : ℚ) (systFlag : Int) :
    (∀ vjet : V, samesign.jetIsLep K ev X vjet deltaR mu_minpt ele_minpt = true ↔
      (∃ (e : Nat) (l : V), ev.els_p4[e]? = some l ∧ K.pt l ≥ ele_minpt ∧
          samesign.isNumeratorLepton X 11 e X.default_use_el_eta = true ∧
          K.DeltaR vjet l ≤ deltaR) ∨
      (∃ (m : Nat) (l : V), ev.mus_p4[m]? = some l ∧ K.pt l ≥ mu_minpt ∧
          samesign.isNumeratorLepton X 13 m X.default_use_el_eta = true ∧
          K.DeltaR vjet l ≤ deltaR)) ∧
    (∀ (jidx : Nat) (jet_cor : ℚ) (p4 : V),
      samesign.storedJEC ev jidx = .ok jet_cor → vat ev.pfjets_p4 jidx = .ok p4 →
      K.pt (samesign.applySyst K X systFlag (K.scale (K.scale p4 jet_cor) rescale)) ≥ min_pt →
      samesign.getJetFlags_body K ev X deltaR min_pt mu_minpt ele_minpt rescale systFlag jidx true
        = .ok (!samesign.jetIsLep K ev X
            (samesign.applySyst K X systFlag (K.scale (K.scale p4 jet_cor) rescale))
            deltaR mu_minpt ele_minpt)) ∧
    (∀ (sort_by_pt : Bool) (tmp_jets js : List V),
      X.base_getJets (toUnsigned idx) sort_by_pt type .JETS_CLEAN_HYP_E_MU deltaR 0 max_eta
        rescale (some systFlag) = .ok tmp_jets →
      samesign.getJets K ev X idx type deltaR min_pt max_eta mu_minpt ele_minpt rescale systFlag
        sort_by_pt = .ok js →
      ∀ vjet ∈ tmp_jets, K.pt vjet ≥ min_pt →
        (vjet ∈ js ↔ samesign.jetIsLep K ev X vjet deltaR mu_minpt ele_minpt = false)) := by
  refine ⟨?_, ?_, ?_⟩
  · intro vjet
    exact jetIsLep_iff K ev X vjet deltaR mu_minpt ele_minpt
  · intro jidx jet_cor p4 hc hp hpt
    have hpt1 : ¬ K.pt (samesign.applySyst K X systFlag (K.scale (K.scale p4 jet_cor) rescale))
        < min_pt := not_lt.mpr hpt
    simp only [samesign.getJetFlags_body, hc, hp, Except.bind, Bool.not_true, Bool.false_eq_true,
      if_false, hpt1]
    cases samesign.jetIsLep K ev X
      (samesign.applySyst K X systFlag (K.scale (K.scale p4 jet_cor) rescale))
      deltaR mu_minpt ele_minpt <;> simp
  · intro sort_by_pt tmp_jets js hb h vjet hv hpt
    unfold samesign.getJets at h
    rw [hb] at h
    simp only [Except.bind] at h
    have hpt1 : ¬ K.pt vjet < min_pt := not_lt.mpr hpt
    have hfilter : vjet ∈ tmp_jets.filter (fun vjet =>
        !decide (K.pt vjet < min_pt) && !samesign.jetIsLep K ev X vjet deltaR mu_minpt ele_minpt)
        ↔ samesign.jetIsLep K ev X vjet deltaR mu_minpt ele_minpt = false := by
      simp [List.mem_filter, hv, hpt1]
    cases sort_by_pt with
    | false =>
      simp only [Bool.false_eq_true, if_false, Except.ok.injEq] at h
      subst h
      exact hfilter
    | true =>
      simp only [if_true, Except.ok.injEq] at h
      subst h
      rw [(sort_perm _ _).mem_iff]
      exact hfilter

/-- C4, witness: at the cone boundary of the boundary event the amended
criterion holds for the electron, and the jet counts as lepton-contaminated. -/
theorem C4_lepton_overlap_at_most_cone_witness :
    samesign.jetIsLep P4.ops boundaryEvent (numeratorCollab P4.ops boundaryEvent) ⟨50, 1, 0⟩
      (2 / 5) 20 20 = true :=
  ((C4_lepton_overlap_at_most_cone P4.ops boundaryEvent (numeratorCollab P4.ops boundaryEvent) 0
    .JETS_TYPE_PF_CORR (2 / 5) 40 (5 / 2) 20 20 1 0).1 ⟨50, 1, 0⟩).mpr
    (Or.inl ⟨0, ⟨25, 1, 2 / 5⟩, rfl, by simp only [P4.ops]; norm_num, rfl,
      by simp only [P4.ops, P4.etaOf]; norm_num [abs_of_pos]⟩)

theorem boundaryEvent_getJetFlags :
    getJetFlags P4.ops boundaryEvent 0 .JETS_TYPE_PF_CORR .JETS_CLEAN_HYP_E_MU (2 / 5) 0 (5 / 2)
      = .ok [true] := by
  simp [getJetFlags, getJets_fast, jetCollection, forIndexed, getJets_fast_body, jetCorr, vat,
    boundaryEvent, passesKinematics, cleaningVeto, passesCaloJetID, nearestCaloJet, vidx, P4.ops,
    P4.etaOf, Except.bind]
  norm_num

theorem boundaryEvent_jetIsLep :
    samesign.jetIsLep P4.ops boundaryEvent (numeratorCollab P4.ops boundaryEvent) ⟨50, 1, 0⟩
      (2 / 5) 20 20 = true := by
  simp [samesign.jetIsLep, samesign.leptonLoop, samesign.isNumeratorLepton, boundaryEvent,
    numeratorCollab, P4.ops, P4.etaOf]
  norm_num [abs_of_pos]

/-- C4, counterexample: the electron of the boundary event is a numerator
lepton above threshold at DeltaR exactly 2/5 from the jet, which passed the base
selection and `min_pt = 40`. With the cone at 2/5 the jet is rejected, although
no lepton is strictly inside the cone. -/
theorem C4_overlap_on_cone_boundary :
    getJetFlags P4.ops boundaryEvent 0 .JETS_TYPE_PF_CORR .JETS_CLEAN_HYP_E_MU (2 / 5) 0 (5 / 2)
      = .ok [true] ∧
    samesign.getJetFlags P4.ops boundaryEvent (numeratorCollab P4.ops boundaryEvent) 0
      .JETS_TYPE_PF_CORR (2 / 5) 40 (5 / 2) 20 20 1 0 = .ok [false] ∧
    samesign.jetIsLep P4.ops boundaryEvent (numeratorCollab P4.ops boundaryEvent) ⟨50, 1, 0⟩
      (2 / 5) 20 20 = true ∧
    ¬ ((∃ (e : Nat) (l : P4), boundaryEvent.els_p4[e]? = some l ∧ P4.ops.pt l ≥ 20 ∧
          samesign.isNumeratorLepton (numeratorCollab P4.ops boundaryEvent) 11 e
            (numeratorCollab P4.ops boundaryEvent).default_use_el_eta = true ∧
          P4.ops.DeltaR ⟨50, 1, 0⟩ l < 2 / 5) ∨
       (∃ (m : Nat) (l : P4), boundaryEvent.mus_p4[m]? = some l ∧ P4.ops.pt l ≥ 20 ∧
          samesign.isNumeratorLepton (numeratorCollab P4.ops boundaryEvent) 13 m
            (numeratorCollab P4.ops boundaryEvent).default_use_el_eta = true ∧
          P4.ops.DeltaR ⟨50, 1, 0⟩ l < 2 / 5)) := by
  refine ⟨boundaryEvent_getJetFlags, ?_, boundaryEvent_jetIsLep, ?_⟩
  · have hb : (numeratorCollab P4.ops boundaryEvent).base_getJetFlags (toUnsigned 0)
        .JETS_TYPE_PF_CORR .JETS_CLEAN_HYP_E_MU (2 / 5) 0 (5 / 2) 1 (some 0) = .ok [true] :=
      boundaryEvent_getJetFlags
    have hv : P4.ops.scale (P4.ops.scale (⟨50, 1, 0⟩ : P4) 1) 1 = ⟨50, 1, 0⟩ := by
      simp [P4.ops]
    unfold samesign.getJetFlags
    rw [hb]
    simp only [Except.bind, forIndexed, samesign.getJetFlags_body, samesign.storedJEC,
      samesign.applySyst, boundaryEvent, vat, List.getElem?_cons_zero, Bool.not_true,
      Bool.false_eq_true, if_false, ne_eq, not_true_eq_false]
    rw [hv]
    have hl := boundaryEvent_jetIsLep
    simp only [boundaryEvent] at hl
    rw [hl]
    simp only [P4.ops]
    norm_num
  · rintro (⟨e, l, h1, _, _, h4⟩ | ⟨m, l, h1, _, _, h4⟩)
    · match e, h1 with
      | 0, h1 =>
        simp only [boundaryEvent, List.getElem?_cons_zero, Option.some.injEq] at h1
        subst h1
        simp only [P4.ops, P4.etaOf] at h4
        norm_num [abs_of_pos] at h4
      | e + 1, h1 => simp [boundaryEvent] at h1
    · match m, h1 with
      | 0, h1 =>
        simp only [boundaryEvent, List.getElem?_cons_zero, Option.some.injEq] at h1
        subst h1
        simp only [P4.ops, P4.etaOf] at h4
        norm_num [abs_of_pos] at h4
      | 1, h1 =>
        simp only [boundaryEvent, List.getElem?_cons_succ, List.getElem?_cons_zero,
          Option.some.injEq] at h1
        subst h1
        simp only [P4.ops, P4.etaOf] at h4
        norm_num [abs_of_pos] at h4
      | m + 2, h1 => simp [boundaryEvent] at h1

/-! ## Flags and momenta of one strategy -/

section views

variable {V : Type} (K : LorentzOps V) (ev : Event V) (X : Collab V)

theorem reduceOption_length_eq_count {α : Type} (pushed : List (Option α)) :
    pushed.reduceOption.length = (pushed.map Option.isSome).count true := by
  induction pushed with
  | nil => rfl
  | cons o rest ih =>
    cases o with
    | none => simpa [List.reduceOption_cons_of_none] using ih
    | some a => simp [List.reduceOption_cons_of_some, ih]

theorem trueIndices_length (fl : List Bool) : ∀ k : Nat, (trueIndices k fl).length = fl.count true := by
  induction fl with
  | nil => intro k; rfl
  | cons f rest ih =>
    intro k
    cases f with
    | false => simpa [trueIndices] using ih (k + 1)
    | true => simp [trueIndices, ih (k + 1)]

/-- The entries kept by `reduceOption` are, in order, the values at the
positions of the `some` entries. -/
theorem reduceOption_forall₂ {α : Type} (pushed : List (Option α)) :
    ∀ k : Nat, List.Forall₂ (fun (v : α) (i : Nat) => ∃ j : Nat, i = k + j ∧ pushed[j]? = some (some v))
      pushed.reduceOption (trueIndices k (pushed.map Option.isSome)) := by
  induction pushed with
  | nil => intro k; exact List.Forall₂.nil
  | cons o rest ih =>
    intro k
    have step : List.Forall₂
        (fun (v : α) (i : Nat) => ∃ j : Nat, i = k + j ∧ (o :: rest)[j]? = some (some v))
        rest.reduceOption (trueIndices (k + 1) (rest.map Option.isSome)) := by
      refine List.Forall₂.imp ?_ (ih (k + 1))
      rintro v i ⟨j, h1, h2⟩
      exact ⟨j + 1, by omega, by simpa using h2⟩
    cases o with
    | none =>
      simpa [List.reduceOption_cons_of_none, trueIndices] using step
    | some a =>
      simp only [List.reduceOption_cons_of_some, List.map_cons, Option.isSome_some, trueIndices]
      exact List.Forall₂.cons ⟨0, by omega, by simp⟩ step

theorem getJets_otf_body_flag (jc : FactorizedJetCorrector) (min_pt rescale : ℚ)
    (hassoc : ∀ (v : V) (a : ℚ), K.scale (K.scale v a) rescale = K.scale v (a * rescale))
    (systFlag : Int) (j : Nat) (flag : Bool) :
    samesign.getJetFlags_otf_body K ev X jc min_pt rescale systFlag j flag =
      (samesign.getJets_otf_body K ev X jc min_pt rescale systFlag j flag).map Option.isSome := by
  cases flag with
  | false => simp [samesign.getJetFlags_otf_body, samesign.getJets_otf_body, Except.map]
  | true =>
    simp only [samesign.getJetFlags_otf_body, samesign.getJets_otf_body, Bool.not_true,
      Bool.false_eq_true, if_false]
    cases hc : samesign.otfJEC K ev jc j with
    | error e =>
      have he : e = Fault.out_of_range := by
        unfold samesign.otfJEC vat at hc
        cases h1 : ev.pfjets_area[j]? <;> cases h2 : ev.pfjets_p4[j]? <;>
          simp [h1, h2, Except.bind] at hc
        all_goals exact hc.symm
      subst he
      cases hp : vat ev.pfjets_p4 j with
      | error e2 =>
        have he2 : e2 = Fault.out_of_range := by
          unfold vat at hp
          cases h2 : ev.pfjets_p4[j]? <;> simp [h2] at hp
          exact hp.symm
        subst he2
        rfl
      | ok p4 => rfl
    | ok c =>
      cases hp : vat ev.pfjets_p4 j with
      | error e2 => rfl
      | ok p4 =>
        simp only [Except.bind, Except.map, hassoc]
        split <;> rfl

theorem getJets_otf_body_some (jc : FactorizedJetCorrector) (min_pt rescale : ℚ)
    (systFlag : Int) (j : Nat) (flag : Bool) (v : V)
    (h : samesign.getJets_otf_body K ev X jc min_pt rescale systFlag j flag = .ok (some v)) :
    samesign.otfMomentum K ev X jc rescale systFlag j = .ok v := by
  cases flag with
  | false => simp [samesign.getJets_otf_body] at h
  | true =>
    simp only [samesign.getJets_otf_body, Bool.not_true, Bool.false_eq_true, if_false] at h
    unfold samesign.otfMomentum
    cases hp : vat ev.pfjets_p4 j with
    | error e => rw [hp] at h; cases h
    | ok p4 =>
      rw [hp] at h
      simp only [Except.bind] at h ⊢
      cases hc : samesign.otfJEC K ev jc j with
      | error e => rw [hc] at h; cases h
      | ok c =>
        rw [hc] at h
        simp only at h ⊢
        split at h
        · cases h
        · simp only [Except.ok.injEq, Option.some.injEq] at h
          rw [h]

end views

/-- The two views of the on-the-fly strategy when scaling by `rescale` after
another factor is scaling by the product, as it is for `rescale = 1`. For a
particle-flow jet type and identical arguments, the list of `samesign::getJets`
with a corrector and without sorting has as many entries as
`samesign::getJetFlags` with the corrector has true entries, and its k-th entry
is the corrected momentum of the k-th raw jet whose flag is true. The flags keep
one position per raw jet: a jet that the lepton overlap removed in the first
stage stays in its position, as false. On an aligned event both queries
return. -/
theorem otf_flags_and_momenta_agree {V : Type} (K : LorentzOps V) (ev : Event V) (X : Collab V)
    (idx : Int) (jc : FactorizedJetCorrector) (type : JetType)
    (deltaR min_pt max_eta mu_minpt ele_minpt rescale : ℚ)
    (hassoc : ∀ (v : V) (a : ℚ), K.scale (K.scale v a) rescale = K.scale v (a * rescale))
    (systFlag : Int) (hpf : samesign.isParticleFlow type = true) :
    (∀ js fl,
      samesign.getJets_otf K ev X idx jc type deltaR min_pt max_eta mu_minpt ele_minpt rescale
        systFlag false = .ok js →
      samesign.getJetFlags_otf K ev X idx jc type deltaR min_pt max_eta mu_minpt ele_minpt
        rescale systFlag = .ok fl →
      js.length = fl.count true ∧
      List.Forall₂ (fun v i => samesign.otfMomentum K ev X jc rescale systFlag i = .ok v) js
        (trueIndices 0 fl)) ∧
    (∀ fl base,
      samesign.getJetFlags_otf K ev X idx jc type deltaR min_pt max_eta mu_minpt ele_minpt
        rescale systFlag = .ok fl →
      samesign.getJetFlags K ev X idx type deltaR 0 max_eta mu_minpt ele_minpt rescale systFlag
        = .ok base →
      fl.length = ev.pfjets_p4.length ∧
      ∀ i : Nat, base[i]? = some false → fl[i]? = some false) ∧
    (∀ (jidx : Nat) (jet_cor : ℚ) (p4 : V),
      samesign.storedJEC ev jidx = .ok jet_cor → vat ev.pfjets_p4 jidx = .ok p4 →
      samesign.jetIsLep K ev X
        (samesign.applySyst K X systFlag (K.scale (K.scale p4 jet_cor) rescale))
        deltaR mu_minpt ele_minpt = true →
      samesign.getJetFlags_body K ev X deltaR 0 mu_minpt ele_minpt rescale systFlag jidx true
        = .ok false) ∧
    (ev.pfAligned →
      (∃ base, X.base_getJetFlags (toUnsigned idx) type .JETS_CLEAN_HYP_E_MU deltaR 0 max_eta
        rescale (some systFlag) = .ok base ∧ base.length = ev.pfjets_p4.length) →
      ∃ js fl,
        samesign.getJets_otf K ev X idx jc type deltaR min_pt max_eta mu_minpt ele_minpt rescale
          systFlag false = .ok js ∧
        samesign.getJetFlags_otf K ev X idx jc type deltaR min_pt max_eta mu_minpt ele_minpt
          rescale systFlag = .ok fl) := by
  have hguard : ¬ ((!samesign.isParticleFlow type) = true) := by simp [hpf]
  have hbodies : ∀ (tmp : List Bool),
      forIndexed (samesign.getJetFlags_otf_body K ev X jc min_pt rescale systFlag) 0 tmp =
        (forIndexed (samesign.getJets_otf_body K ev X jc min_pt rescale systFlag) 0 tmp).map
          (List.map Option.isSome) := fun tmp =>
    forIndexed_map Option.isSome tmp 0
      (fun i x _ => getJets_otf_body_flag K ev X jc min_pt rescale hassoc systFlag (0 + i) x)
  refine ⟨?_, ?_, ?_, ?_⟩
  · intro js fl hj hf
    unfold samesign.getJets_otf at hj
    unfold samesign.getJetFlags_otf at hf
    rw [if_neg hguard] at hj
    cases hfirst : samesign.getJetFlags K ev X idx type deltaR 0 max_eta mu_minpt ele_minpt
        rescale systFlag with
    | error e => rw [hfirst] at hj; cases hj
    | ok tmp =>
      rw [hfirst] at hj hf
      simp only [Except.bind] at hj hf
      cases hpush : forIndexed (samesign.getJets_otf_body K ev X jc min_pt rescale systFlag) 0
          tmp with
      | error e => rw [hpush] at hj; cases hj
      | ok pushed =>
        rw [hpush] at hj
        simp only [Bool.false_eq_true, if_false, Except.ok.injEq] at hj
        subst hj
        cases ha : cassert (tmp.length == ev.pfjets_p4.length) with
        | error e => rw [ha] at hf; cases hf
        | ok u =>
          rw [ha] at hf
          simp only at hf
          rw [hbodies tmp, hpush] at hf
          simp only [Except.map, Except.ok.injEq] at hf
          subst hf
          refine ⟨reduceOption_length_eq_count pushed, ?_⟩
          refine List.Forall₂.imp ?_ (reduceOption_forall₂ pushed 0)
          rintro v i ⟨j, h1, h2⟩
          have hi : i = j := by omega
          subst hi
          have hlt : i < pushed.length := (List.getElem?_eq_some_iff.mp h2).1
          have hlen := forIndexed_length tmp 0 pushed hpush
          have hlt2 : i < tmp.length := hlen ▸ hlt
          obtain ⟨r, hr1, hr2⟩ := forIndexed_getElem? tmp 0 pushed hpush i tmp[i]
            (List.getElem?_eq_getElem hlt2)
          rw [h2] at hr1
          simp only [Option.some.injEq] at hr1
          subst hr1
          simp only [Nat.zero_add] at hr2
          exact getJets_otf_body_some K ev X jc min_pt rescale systFlag i _ v hr2
  · intro fl base hf hb
    obtain ⟨b, hb1, h1, h2, _⟩ := flagQuery_sound _ _ _
      (getJetFlags_otf_body_false K ev X jc min_pt rescale systFlag) fl hf
    rw [hb] at hb1
    simp only [Except.ok.injEq] at hb1
    subst hb1
    refine ⟨by omega, ?_⟩
    intro i hi
    unfold samesign.getJetFlags_otf at hf
    rw [hb] at hf
    simp only [Except.bind] at hf
    cases ha : cassert (base.length == ev.pfjets_p4.length) with
    | error e => rw [ha] at hf; cases hf
    | ok u =>
      rw [ha] at hf
      simp only at hf
      obtain ⟨r, hr1, hr2⟩ := forIndexed_getElem? base 0 fl hf i false hi
      rw [getJetFlags_otf_body_false] at hr2
      simp only [Except.ok.injEq] at hr2
      rw [hr1, ← hr2]
  · intro jidx jet_cor p4 hc hp hl
    simp only [samesign.getJetFlags_body, hc, hp, Except.bind, Bool.not_true, Bool.false_eq_true,
      if_false, hl, if_true]
    split <;> rfl
  · rintro hal ⟨base, hb, hn⟩
    obtain ⟨tmp, htmp, hlen⟩ := getJetFlags_returns K ev X hal idx type deltaR 0 max_eta
      mu_minpt ele_minpt rescale systFlag base hb hn
    obtain ⟨fl, hfl⟩ := flagQuery_returns _ ev.pfjets_p4.length _
      (getJetFlags_otf_body_false K ev X jc min_pt rescale systFlag)
      (fun j hj => getJetFlags_otf_body_returns K ev X hal jc min_pt rescale systFlag j hj)
      tmp htmp hlen
    have hfl2 := hfl
    rw [htmp] at hfl2
    simp only [Except.bind] at hfl2
    have ha : cassert (tmp.length == ev.pfjets_p4.length) = .ok () :=
      (cassert_eq_ok _).mpr (by simp [hlen])
    rw [ha] at hfl2
    simp only at hfl2
    rw [hbodies tmp] at hfl2
    cases hpush : forIndexed (samesign.getJets_otf_body K ev X jc min_pt rescale systFlag) 0
        tmp with
    | error e => rw [hpush] at hfl2; cases hfl2
    | ok pushed =>
      refine ⟨pushed.reduceOption, fl, ?_, hfl⟩
      unfold samesign.getJets_otf
      rw [if_neg hguard, htmp]
      simp only [Except.bind, hpush, Bool.false_eq_true, if_false]

/-! ## Evaluating the loops on given entries -/

section evaluation

variable {V : Type} (K : LorentzOps V) (ev : Event V) (X : Collab V)

theorem forIndexed_cons_ok {α β : Type} (body : Nat → α → Result β) (k : Nat) (x : α)
    (xs : List α) (r : β) (rs : List β) (h1 : body k x = .ok r)
    (h2 : forIndexed body (k + 1) xs = .ok rs) :
    forIndexed body k (x :: xs) = .ok (r :: rs) := by
  simp only [forIndexed, h1, h2]

theorem otfJEC_eq (jc : FactorizedJetCorrector) (j : Nat) (area : ℚ) (p4 : V)
    (ha : vat ev.pfjets_area j = .ok area) (hp : vat ev.pfjets_p4 j = .ok p4) :
    samesign.otfJEC K ev jc j = .ok (jc.correction ev.evt_ww_rho_vor area (K.pt p4) (K.eta p4)) := by
  simp only [samesign.otfJEC, ha, hp, Except.bind]
  rfl

theorem getJetFlags_body_eq (deltaR min_pt mu_minpt ele_minpt rescale : ℚ) (systFlag : Int)
    (j : Nat) (c : ℚ) (p4 vjet : V) (hc : samesign.storedJEC ev j = .ok c)
    (hp : vat ev.pfjets_p4 j = .ok p4)
    (hv : samesign.applySyst K X systFlag (K.scale (K.scale p4 c) rescale) = vjet) :
    samesign.getJetFlags_body K ev X deltaR min_pt mu_minpt ele_minpt rescale systFlag j true =
      .ok (!decide (K.pt vjet < min_pt) &&
        !samesign.jetIsLep K ev X vjet deltaR mu_minpt ele_minpt) := by
  simp only [samesign.getJetFlags_body, hc, hp, Except.bind, hv, Bool.not_true,
    Bool.false_eq_true, if_false]
  by_cases h1 : K.pt vjet < min_pt
  · simp [h1]
  · cases h2 : samesign.jetIsLep K ev X vjet deltaR mu_minpt ele_minpt <;> simp [h1]

theorem getJetFlags_otf_body_eq (jc : FactorizedJetCorrector) (min_pt rescale : ℚ)
    (systFlag : Int) (j : Nat) (c : ℚ) (p4 vjet : V)
    (hc : samesign.otfJEC K ev jc j = .ok c) (hp : vat ev.pfjets_p4 j = .ok p4)
    (hv : samesign.applySyst K X systFlag (K.scale (K.scale p4 c) rescale) = vjet) :
    samesign.getJetFlags_otf_body K ev X jc min_pt rescale systFlag j true =
      .ok (!decide (K.pt vjet < min_pt)) := by
  simp only [samesign.getJetFlags_otf_body, hc, hp, Except.bind, hv, Bool.not_true,
    Bool.false_eq_true, if_false]
  by_cases h1 : K.pt vjet < min_pt <;> simp [h1]

theorem getJets_otf_body_eq (jc : FactorizedJetCorrector) (min_pt rescale : ℚ)
    (systFlag : Int) (j : Nat) (c : ℚ) (p4 vjet : V)
    (hc : samesign.otfJEC K ev jc j = .ok c) (hp : vat ev.pfjets_p4 j = .ok p4)
    (hv : samesign.applySyst K X systFlag (K.scale p4 (c * rescale)) = vjet) :
    samesign.getJets_otf_body K ev X jc min_pt rescale systFlag j true =
      .ok (if K.pt vjet < min_pt then none else some vjet) := by
  simp only [samesign.getJets_otf_body, hc, hp, Except.bind, hv, Bool.not_true,
    Bool.false_eq_true, if_false]
  by_cases h1 : K.pt vjet < min_pt <;> simp [h1]

theorem getAllCorrectedJets_otf_body_eq (jc : FactorizedJetCorrector) (systFlag : Int)
    (j : Nat) (c : ℚ) (p4 v : V) (hc : samesign.otfJEC K ev jc j = .ok c)
    (hv : samesign.applySyst K X systFlag (K.scale p4 c) = v) :
    samesign.getAllCorrectedJets_otf_body K ev X jc systFlag j p4 = .ok v := by
  simp only [samesign.getAllCorrectedJets_otf_body, hc, Except.bind, hv]

theorem getAllCorrectedJets_body_eq (systFlag : Int) (j : Nat) (c : ℚ) (p4 v : V)
    (hc : samesign.storedJEC ev j = .ok c)
    (hv : samesign.applySyst K X systFlag (K.scale p4 c) = v) :
    samesign.getAllCorrectedJets_body K ev X systFlag j p4 = .ok v := by
  simp only [samesign.getAllCorrectedJets_body, hc, Except.bind, hv]

end evaluation

theorem overlapEvent_base_flags :
    getJetFlags P4.ops overlapEvent 0 .JETS_TYPE_PF_CORR .JETS_CLEAN_HYP_E_MU (2 / 5) 0 (5 / 2)
      = .ok [true, true] := by
  simp [getJetFlags, getJets_fast, jetCollection, forIndexed, getJets_fast_body, jetCorr, vat,
    overlapEvent, passesKinematics, cleaningVeto, passesCaloJetID, nearestCaloJet, vidx, P4.ops,
    P4.etaOf, Except.bind]
  norm_num [abs_of_pos]

theorem overlapEvent_jetIsLep_first :
    samesign.jetIsLep P4.ops overlapEvent overlapCollab ⟨50, 1, 0⟩ (2 / 5) 20 20 = true := by
  simp [samesign.jetIsLep, samesign.leptonLoop, samesign.isNumeratorLepton, overlapEvent,
    overlapCollab, numeratorCollab, P4.ops, P4.etaOf]
  norm_num [abs_of_pos]

theorem overlapEvent_jetIsLep_second :
    samesign.jetIsLep P4.ops overlapEvent overlapCollab ⟨60, -1, 2⟩ (2 / 5) 20 20 = false := by
  simp [samesign.jetIsLep, samesign.leptonLoop, samesign.isNumeratorLepton, overlapEvent,
    overlapCollab, numeratorCollab, P4.ops, P4.etaOf]
  norm_num [abs_of_pos]

/-- On `overlapEvent` the flags with the JEC of the ntuple are false for the jet
next to the electron and true for the other jet, for every `min_pt` up to 60. -/
theorem overlapEvent_flags (min_pt : ℚ) (h : min_pt ≤ 60) :
    samesign.getJetFlags P4.ops overlapEvent overlapCollab 0 .JETS_TYPE_PF_CORR (2 / 5) min_pt
      (5 / 2) 20 20 1 0 = .ok [false, true] := by
  have hb : overlapCollab.base_getJetFlags (toUnsigned 0) .JETS_TYPE_PF_CORR
      .JETS_CLEAN_HYP_E_MU (2 / 5) 0 (5 / 2) 1 (some 0) = .ok [true, true] :=
    overlapEvent_base_flags
  have b0 : samesign.getJetFlags_body P4.ops overlapEvent overlapCollab (2 / 5) min_pt 20 20 1 0
      0 true = .ok false := by
    rw [getJetFlags_body_eq P4.ops overlapEvent overlapCollab (2 / 5) min_pt 20 20 1 0 0 1
      ⟨50, 1, 0⟩ ⟨50, 1, 0⟩ rfl rfl (by simp [samesign.applySyst, P4.ops]),
      overlapEvent_jetIsLep_first]
    simp
  have b1 : samesign.getJetFlags_body P4.ops overlapEvent overlapCollab (2 / 5) min_pt 20 20 1 0
      1 true = .ok true := by
    rw [getJetFlags_body_eq P4.ops overlapEvent overlapCollab (2 / 5) min_pt 20 20 1 0 1 1
      ⟨60, -1, 2⟩ ⟨60, -1, 2⟩ rfl rfl (by simp [samesign.applySyst, P4.ops]),
      overlapEvent_jetIsLep_second]
    have : ¬ (P4.ops.pt (⟨60, -1, 2⟩ : P4) < min_pt) := by
      simp only [P4.ops]
      norm_num
      exact h
    simp [this]
  unfold samesign.getJetFlags
  rw [hb]
  exact forIndexed_cons_ok _ _ _ _ _ _ b0 (forIndexed_cons_ok _ _ _ _ _ _ b1 rfl)

theorem overlapEvent_otfJEC (j : Nat) (hj : j < 2) :
    samesign.otfJEC P4.ops overlapEvent flatCorrector j = .ok (11 / 10) := by
  match j, hj with
  | 0, _ => exact otfJEC_eq P4.ops overlapEvent flatCorrector 0 (1 / 2) ⟨50, 1, 0⟩ rfl rfl
  | 1, _ => exact otfJEC_eq P4.ops overlapEvent flatCorrector 1 (1 / 2) ⟨60, -1, 2⟩ rfl rfl

theorem overlapEvent_flags_otf :
    samesign.getJetFlags_otf P4.ops overlapEvent overlapCollab 0 flatCorrector
      .JETS_TYPE_PF_CORR (2 / 5) 30 (5 / 2) 20 20 1 0 = .ok [false, true] := by
  have b1 : samesign.getJetFlags_otf_body P4.ops overlapEvent overlapCollab flatCorrector 30 1 0
      1 true = .ok true := by
    rw [getJetFlags_otf_body_eq P4.ops overlapEvent overlapCollab flatCorrector 30 1 0 1 (11 / 10)
      ⟨60, -1, 2⟩ ⟨66, -1, 2⟩ (overlapEvent_otfJEC 1 (by omega)) rfl
      (by simp [samesign.applySyst, P4.ops]; norm_num)]
    simp only [P4.ops]
    norm_num
  unfold samesign.getJetFlags_otf
  rw [overlapEvent_flags 0 (by norm_num)]
  simp only [Except.bind, cassert, overlapEvent, List.length_cons, List.length_nil, beq_self_eq_true,
    if_true]
  exact forIndexed_cons_ok _ _ _ _ _ _
    (getJetFlags_otf_body_false P4.ops _ overlapCollab flatCorrector 30 1 0 0)
    (forIndexed_cons_ok _ _ _ _ _ _ b1 rfl)

theorem overlapEvent_jets_otf :
    samesign.getJets_otf P4.ops overlapEvent overlapCollab 0 flatCorrector
      .JETS_TYPE_PF_CORR (2 / 5) 30 (5 / 2) 20 20 1 0 false = .ok [⟨66, -1, 2⟩] := by
  have b0 : samesign.getJets_otf_body P4.ops overlapEvent overlapCollab flatCorrector 30 1 0
      0 false = .ok none := by
    simp [samesign.getJets_otf_body]
  have b1 : samesign.getJets_otf_body P4.ops overlapEvent overlapCollab flatCorrector 30 1 0
      1 true = .ok (some ⟨66, -1, 2⟩) := by
    rw [getJets_otf_body_eq P4.ops overlapEvent overlapCollab flatCorrector 30 1 0 1 (11 / 10)
      ⟨60, -1, 2⟩ ⟨66, -1, 2⟩ (overlapEvent_otfJEC 1 (by omega)) rfl
      (by simp [samesign.applySyst, P4.ops]; norm_num)]
    simp only [P4.ops]
    norm_num
  have hl : forIndexed (samesign.getJets_otf_body P4.ops overlapEvent overlapCollab flatCorrector
      30 1 0) 0 [false, true] = .ok [none, some ⟨66, -1, 2⟩] :=
    forIndexed_cons_ok _ _ _ _ _ _ b0 (forIndexed_cons_ok _ _ _ _ _ _ b1 rfl)
  unfold samesign.getJets_otf
  rw [overlapEvent_flags 0 (by norm_num)]
  simp only [samesign.isParticleFlow, Except.bind, hl]
  simp [List.reduceOption]

/-- On `overlapEvent` with a corrector of scale 11/10, `rescale = 1` and
`min_pt = 30` the flags are false, true and the momenta are the second jet at
pt 66: the jet next to the electron keeps its position in the flags. -/
theorem overlapEvent_flags_and_momenta :
    ([⟨66, -1, 2⟩] : List P4).length = [false, true].count true ∧
    List.Forall₂
      (fun v i => samesign.otfMomentum P4.ops overlapEvent overlapCollab flatCorrector 1 0 i = .ok v)
      [⟨66, -1, 2⟩] (trueIndices 0 [false, true]) :=
  (otf_flags_and_momenta_agree P4.ops overlapEvent overlapCollab 0 flatCorrector
    .JETS_TYPE_PF_CORR (2 / 5) 30 (5 / 2) 20 20 1 (fun v a => P4.ops_lawful.scale_scale v a 1) 0
    rfl).1 [⟨66, -1, 2⟩] [false, true] overlapEvent_jets_otf overlapEvent_flags_otf

/-! ## Flags and momenta of one strategy in single precision -/

theorem float32_nine_tenths : float32 (9 / 10) = 7549747 / 8388608 := by decide!

theorem roundingEvent_base_flags :
    getJetFlags P4.float32Ops roundingEvent 0 .JETS_TYPE_PF_CORR .JETS_CLEAN_HYP_E_MU (2 / 5) 0
      (5 / 2) = .ok [true] := by
  simp [getJetFlags, getJets_fast, jetCollection, forIndexed, getJets_fast_body, jetCorr, vat,
    roundingEvent, passesKinematics, cleaningVeto, passesCaloJetID, nearestCaloJet, vidx,
    P4.float32Ops, P4.etaOf, Except.bind]
  norm_num [abs_of_pos]

theorem roundingEvent_jetIsLep (v : P4) :
    samesign.jetIsLep P4.float32Ops roundingEvent (plainCollab P4.float32Ops roundingEvent) v
      (2 / 5) 20 20 = false := by
  simp [samesign.jetIsLep, samesign.leptonLoop, roundingEvent]

theorem roundingEvent_flags :
    samesign.getJetFlags P4.float32Ops roundingEvent (plainCollab P4.float32Ops roundingEvent) 0
      .JETS_TYPE_PF_CORR (2 / 5) 0 (5 / 2) 20 20 (3 / 2) 0 = .ok [true] := by
  have hb : (plainCollab P4.float32Ops roundingEvent).base_getJetFlags (toUnsigned 0)
      .JETS_TYPE_PF_CORR .JETS_CLEAN_HYP_E_MU (2 / 5) 0 (5 / 2) (3 / 2) (some 0) = .ok [true] :=
    roundingEvent_base_flags
  have hv : samesign.applySyst P4.float32Ops (plainCollab P4.float32Ops roundingEvent) 0
      (P4.float32Ops.scale (P4.float32Ops.scale ⟨20, 0, 0⟩ 1) (3 / 2)) = ⟨30, 0, 0⟩ := by
    have : P4.float32Ops.scale (P4.float32Ops.scale ⟨20, 0, 0⟩ 1) (3 / 2) = ⟨30, 0, 0⟩ := by
      decide!
    rw [this]
    rfl
  have b0 : samesign.getJetFlags_body P4.float32Ops roundingEvent
      (plainCollab P4.float32Ops roundingEvent) (2 / 5) 0 20 20 (3 / 2) 0 0 true = .ok true := by
    rw [getJetFlags_body_eq P4.float32Ops roundingEvent _ (2 / 5) 0 20 20 (3 / 2) 0 0 1
      ⟨20, 0, 0⟩ ⟨30, 0, 0⟩ rfl rfl hv, roundingEvent_jetIsLep]
    simp [P4.float32Ops]
  unfold samesign.getJetFlags
  rw [hb]
  exact forIndexed_cons_ok _ 0 true [] true [] b0 rfl

theorem roundingEvent_otfJEC :
    samesign.otfJEC P4.float32Ops roundingEvent singleCorrector 0 = .ok (7549747 / 8388608) :=
  otfJEC_eq P4.float32Ops roundingEvent singleCorrector 0 (1 / 2) ⟨20, 0, 0⟩ rfl rfl

/-- In single precision, scaling the jet of `roundingEvent` by `0.9f` and then
by 3/2 gives pt 27. -/
theorem roundingEvent_two_steps :
    P4.float32Ops.scale (P4.float32Ops.scale ⟨20, 0, 0⟩ (7549747 / 8388608)) (3 / 2) =
      ⟨27, 0, 0⟩ := by decide!

/-- In single precision, scaling the jet of `roundingEvent` by the product of
`0.9f` and 3/2 gives pt `14155775 / 2 ^ 19`, one unit in the last place below
27. -/
theorem roundingEvent_one_step :
    P4.float32Ops.scale ⟨20, 0, 0⟩ (7549747 / 8388608 * (3 / 2)) =
      ⟨14155775 / 524288, 0, 0⟩ := by decide!

/-- C5, at the failing input: `roundingEvent`, whose jet has `px = 20` and
`py = pz = 0`, with a corrector of scale `0.9f`, `rescale = 1.5`, no systematic
shift and `min_pt = 27`, in single precision. `getJetFlags` cuts on
`(p4 * jet_cor) * rescale`, of pt 27, and returns a true flag; `getJets` cuts on
`p4 * (jet_cor * rescale)`, of pt 26.999998..., and returns no momentum. -/
theorem C5_flags_and_momenta_differ_in_rounding :
    samesign.getJetFlags_otf P4.float32Ops roundingEvent
      (plainCollab P4.float32Ops roundingEvent) 0 singleCorrector .JETS_TYPE_PF_CORR (2 / 5) 27
      (5 / 2) 20 20 (3 / 2) 0 = .ok [true] ∧
    samesign.getJets_otf P4.float32Ops roundingEvent
      (plainCollab P4.float32Ops roundingEvent) 0 singleCorrector .JETS_TYPE_PF_CORR (2 / 5) 27
      (5 / 2) 20 20 (3 / 2) 0 false = .ok [] ∧
    ([] : List P4).length ≠ [true].count true := by
  have hs : ∀ v : P4, samesign.applySyst P4.float32Ops (plainCollab P4.float32Ops roundingEvent)
      0 v = v := fun _ => rfl
  have bf : samesign.getJetFlags_otf_body P4.float32Ops roundingEvent
      (plainCollab P4.float32Ops roundingEvent) singleCorrector 27 (3 / 2) 0 0 true
        = .ok true := by
    rw [getJetFlags_otf_body_eq P4.float32Ops roundingEvent _ singleCorrector 27 (3 / 2) 0 0
      (7549747 / 8388608) ⟨20, 0, 0⟩ ⟨27, 0, 0⟩ roundingEvent_otfJEC rfl
      (by rw [hs, roundingEvent_two_steps])]
    simp [P4.float32Ops]
  have bj : samesign.getJets_otf_body P4.float32Ops roundingEvent
      (plainCollab P4.float32Ops roundingEvent) singleCorrector 27 (3 / 2) 0 0 true
        = .ok none := by
    rw [getJets_otf_body_eq P4.float32Ops roundingEvent _ singleCorrector 27 (3 / 2) 0 0
      (7549747 / 8388608) ⟨20, 0, 0⟩ ⟨14155775 / 524288, 0, 0⟩ roundingEvent_otfJEC rfl
      (by rw [hs, roundingEvent_one_step])]
    simp only [P4.float32Ops]
    norm_num [abs_of_pos]
  refine ⟨?_, ?_, by decide⟩
  · unfold samesign.getJetFlags_otf
    rw [roundingEvent_flags]
    simp only [Except.bind, cassert, roundingEvent, List.length_cons, List.length_nil,
      beq_self_eq_true, if_true]
    exact forIndexed_cons_ok _ 0 true [] true [] bf rfl
  · have hl : forIndexed (samesign.getJets_otf_body P4.float32Ops roundingEvent
        (plainCollab P4.float32Ops roundingEvent) singleCorrector 27 (3 / 2) 0) 0 [true]
          = .ok [none] :=
      forIndexed_cons_ok _ 0 true [] none [] bj rfl
    unfold samesign.getJets_otf
    rw [roundingEvent_flags]
    simp only [samesign.isParticleFlow, Except.bind, hl]
    simp [List.reduceOption]


/-! ## Discriminators -/

section discriminators

variable {V : Type} (K : LorentzOps V) (ev : Event V) (X : Collab V)

theorem forIndexed_id {α : Type} : ∀ (xs : List α) (k : Nat),
    forIndexed (fun _ (x : α) => (Except.ok x : Result α)) k xs = .ok xs
  | [], _ => rfl
  | x :: xs, k => by
    simp only [forIndexed, forIndexed_id xs (k + 1)]

theorem discBody_isSome (disc : List ℚ) (j : Nat) (flag : Bool) (hj : j < disc.length) :
    (Except.ok flag : Result Bool) = (samesign.discBody disc j flag).map Option.isSome := by
  cases flag with
  | false => simp [samesign.discBody, Except.map]
  | true => simp [samesign.discBody, vat_of_lt disc j hj, Except.bind, Except.map]

theorem discBody_some (disc : List ℚ) (j : Nat) (flag : Bool) (d : ℚ)
    (h : samesign.discBody disc j flag = .ok (some d)) : disc[j]? = some d := by
  cases flag with
  | false => simp [samesign.discBody] at h
  | true =>
    simp only [samesign.discBody, Bool.not_true, Bool.false_eq_true, if_false] at h
    cases hv : vat disc j with
    | error e => rw [hv] at h; cases h
    | ok x =>
      rw [hv] at h
      simp only [Except.bind, Except.ok.injEq, Option.some.injEq] at h
      subst h
      exact (vat_eq_ok disc j x).mp hv

/-- The unsorted branch of `getJetBtagDiscriminators` on lists of one length:
one value per true flag, the k-th being the table entry at the k-th true
position. -/
theorem discriminatorsOf_unsorted (p4s : List V) (fl : List Bool) (disc : List ℚ)
    (h1 : p4s.length = fl.length) (h2 : fl.length = disc.length) :
    ∃ ret, samesign.discriminatorsOf K p4s fl disc false = .ok ret ∧
      ret.length = fl.count true ∧
      List.Forall₂ (fun (d : ℚ) (i : Nat) => disc[i]? = some d) ret (trueIndices 0 fl) := by
  have ha1 : cassert (p4s.length == fl.length) = .ok () := (cassert_eq_ok _).mpr (by simp [h1])
  have ha2 : cassert (fl.length == disc.length) = .ok () := (cassert_eq_ok _).mpr (by simp [h2])
  have hmap := @forIndexed_map Bool (Option ℚ) Bool (samesign.discBody disc)
    (fun _ (x : Bool) => (Except.ok x : Result Bool)) Option.isSome fl 0
    (fun i x hx => discBody_isSome disc (0 + i) x (by
      have := (List.getElem?_eq_some_iff.mp hx).1
      omega))
  rw [forIndexed_id] at hmap
  cases hp : forIndexed (samesign.discBody disc) 0 fl with
  | error e => rw [hp] at hmap; cases hmap
  | ok pushed =>
    rw [hp] at hmap
    simp only [Except.map, Except.ok.injEq] at hmap
    refine ⟨pushed.reduceOption, ?_, ?_, ?_⟩
    · simp only [samesign.discriminatorsOf, ha1, ha2, Except.bind, hp, Bool.false_eq_true,
        if_false]
    · rw [hmap]; exact reduceOption_length_eq_count pushed
    · rw [hmap]
      refine List.Forall₂.imp ?_ (reduceOption_forall₂ pushed 0)
      rintro d i ⟨j, hj1, hj2⟩
      have hi : i = j := by omega
      subst hi
      have hlt : i < pushed.length := (List.getElem?_eq_some_iff.mp hj2).1
      have hlen := forIndexed_length fl 0 pushed hp
      have hlt2 : i < fl.length := hlen ▸ hlt
      obtain ⟨r, hr1, hr2⟩ := forIndexed_getElem? fl 0 pushed hp i fl[i]
        (List.getElem?_eq_getElem hlt2)
      rw [hj2] at hr1
      simp only [Option.some.injEq] at hr1
      subst hr1
      simp only [Nat.zero_add] at hr2
      exact discBody_some disc i _ d hr2

end discriminators

/-- C8. With `sort_by_pt` disabled, whenever the corrected-jet list, the flag
list and the discriminator table all have the raw jet count as length, each of
the four `samesign::getJetBtagDiscriminators` returns as many values as
`samesign::getJetFlags` has true entries, the k-th value being the table entry
at the k-th raw index whose flag is true. -/
theorem C8_discriminators_of_passing_jets {V : Type} (K : LorentzOps V) (ev : Event V)
    (X : Collab V) (idx : Int) (type : JetType) (btag_type : BtagType)
    (deltaR min_pt max_eta mu_minpt ele_minpt rescale : ℚ) (systFlag : Int)
    (jc : FactorizedJetCorrector) (ju : JetCorrectionUncertainty) (scale_type : Int)
    (hdisc : (X.btagDiscriminators btag_type type).length = ev.pfjets_p4.length) :
    (∀ p4s fl,
      samesign.getAllCorrectedJets K ev X type systFlag false = .ok p4s →
      samesign.getJetFlags K ev X idx type deltaR min_pt max_eta mu_minpt ele_minpt rescale
        systFlag = .ok fl →
      p4s.length = ev.pfjets_p4.length → fl.length = ev.pfjets_p4.length →
      ∃ ret, samesign.getJetBtagDiscriminators K ev X idx type btag_type deltaR min_pt max_eta
          mu_minpt ele_minpt rescale systFlag false = .ok ret ∧
        ret.length = fl.count true ∧
        List.Forall₂ (fun (d : ℚ) (i : Nat) => (X.btagDiscriminators btag_type type)[i]? = some d)
          ret (trueIndices 0 fl)) ∧
    (∀ p4s fl,
      samesign.getAllCorrectedJets_otf K ev X type jc systFlag false = .ok p4s →
      samesign.getJetFlags_otf K ev X idx jc type deltaR min_pt max_eta mu_minpt ele_minpt
        rescale systFlag = .ok fl →
      p4s.length = ev.pfjets_p4.length → fl.length = ev.pfjets_p4.length →
      ∃ ret, samesign.getJetBtagDiscriminators_otf K ev X idx jc type btag_type deltaR min_pt
          max_eta mu_minpt ele_minpt rescale systFlag false = .ok ret ∧
        ret.length = fl.count true ∧
        List.Forall₂ (fun (d : ℚ) (i : Nat) => (X.btagDiscriminators btag_type type)[i]? = some d)
          ret (trueIndices 0 fl)) ∧
    (∀ p4s fl,
      samesign.getAllCorrectedJets_unc K ev type ju scale_type false = .ok p4s →
      samesign.getJetFlags_unc K ev X idx ju scale_type type deltaR min_pt max_eta mu_minpt
        ele_minpt = .ok fl →
      p4s.length = ev.pfjets_p4.length → fl.length = ev.pfjets_p4.length →
      ∃ ret, samesign.getJetBtagDiscriminators_unc K ev X idx ju scale_type type btag_type
          deltaR min_pt max_eta mu_minpt ele_minpt false = .ok ret ∧
        ret.length = fl.count true ∧
        List.Forall₂ (fun (d : ℚ) (i : Nat) => (X.btagDiscriminators btag_type type)[i]? = some d)
          ret (trueIndices 0 fl)) ∧
    (∀ p4s fl,
      samesign.getAllCorrectedJets_otf_unc K ev type jc ju scale_type false = .ok p4s →
      samesign.getJetFlags_otf_unc K ev X idx jc ju scale_type type deltaR min_pt max_eta
        mu_minpt ele_minpt = .ok fl →
      p4s.length = ev.pfjets_p4.length → fl.length = ev.pfjets_p4.length →
      ∃ ret, samesign.getJetBtagDiscriminators_otf_unc K ev X idx jc ju scale_type type
          btag_type deltaR min_pt max_eta mu_minpt ele_minpt false = .ok ret ∧
        ret.length = fl.count true ∧
        List.Forall₂ (fun (d : ℚ) (i : Nat) => (X.btagDiscriminators btag_type type)[i]? = some d)
          ret (trueIndices 0 fl)) := by
  refine ⟨?_, ?_, ?_, ?_⟩
  · intro p4s fl hp hf h1 h2
    obtain ⟨ret, hr, h3, h4⟩ := discriminatorsOf_unsorted K p4s fl
      (X.btagDiscriminators btag_type type) (by omega) (by omega)
    refine ⟨ret, ?_, h3, h4⟩
    simp only [samesign.getJetBtagDiscriminators, hp, hf, Except.bind, hr]
  · intro p4s fl hp hf h1 h2
    obtain ⟨ret, hr, h3, h4⟩ := discriminatorsOf_unsorted K p4s fl
      (X.btagDiscriminators btag_type type) (by omega) (by omega)
    refine ⟨ret, ?_, h3, h4⟩
    simp only [samesign.getJetBtagDiscriminators_otf, hp, hf, Except.bind, hr]
  · intro p4s fl hp hf h1 h2
    obtain ⟨ret, hr, h3, h4⟩ := discriminatorsOf_unsorted K p4s fl
      (X.btagDiscriminators btag_type type) (by omega) (by omega)
    refine ⟨ret, ?_, h3, h4⟩
    simp only [samesign.getJetBtagDiscriminators_unc, hp, hf, Except.bind, hr]
  · intro p4s fl hp hf h1 h2
    obtain ⟨ret, hr, h3, h4⟩ := discriminatorsOf_unsorted K p4s fl
      (X.btagDiscriminators btag_type type) (by omega) (by omega)
    refine ⟨ret, ?_, h3, h4⟩
    simp only [samesign.getJetBtagDiscriminators_otf_unc, hp, hf, Except.bind, hr]

theorem overlapEvent_allCorrected :
    samesign.getAllCorrectedJets P4.ops overlapEvent overlapCollab .JETS_TYPE_PF_CORR 0 false
      = .ok [⟨50, 1, 0⟩, ⟨60, -1, 2⟩] :=
  forIndexed_cons_ok _ _ _ _ _ _
    (getAllCorrectedJets_body_eq P4.ops overlapEvent overlapCollab 0 0 1 ⟨50, 1, 0⟩ ⟨50, 1, 0⟩ rfl
      (by simp [samesign.applySyst, P4.ops]))
    (forIndexed_cons_ok _ _ _ _ _ _
      (getAllCorrectedJets_body_eq P4.ops overlapEvent overlapCollab 0 1 1 ⟨60, -1, 2⟩
        ⟨60, -1, 2⟩ rfl (by simp [samesign.applySyst, P4.ops])) rfl)

/-- C8, witness: on `overlapEvent`, whose table is 3/10, 9/10 and whose flags
at `min_pt = 30` are false, true, the unsorted query returns a list of one
value, the table entry of the second jet. -/
theorem C8_discriminators_of_passing_jets_witness :
    ∃ ret, samesign.getJetBtagDiscriminators P4.ops overlapEvent overlapCollab 0
        .JETS_TYPE_PF_CORR 0 (2 / 5) 30 (5 / 2) 20 20 1 0 false = .ok ret ∧
      ret.length = [false, true].count true ∧
      List.Forall₂ (fun (d : ℚ) (i : Nat) =>
          (overlapCollab.btagDiscriminators 0 .JETS_TYPE_PF_CORR)[i]? = some d)
        ret (trueIndices 0 [false, true]) :=
  (C8_discriminators_of_passing_jets P4.ops overlapEvent overlapCollab 0 .JETS_TYPE_PF_CORR 0
    (2 / 5) 30 (5 / 2) 20 20 1 0 flatCorrector flatUncertainty 1 rfl).1
    [⟨50, 1, 0⟩, ⟨60, -1, 2⟩] [false, true] overlapEvent_allCorrected
    (overlapEvent_flags 30 (by norm_num)) rfl rfl

/-! ## samesign2011: the flags with a corrector -/

theorem dijetEvent_flags2011 :
    samesign2011.getJetFlags P4.ops dijetEvent (plainCollab P4.ops dijetEvent) 0
      .JETS_TYPE_PF_CORR (2 / 5) 0 (5 / 2) 5 10 .DET_ISO 1 = .ok [true, true] := by
  have hb : (plainCollab P4.ops dijetEvent).base_getJetFlags (toUnsigned 0) .JETS_TYPE_PF_CORR
      .JETS_CLEAN_HYP_E_MU (2 / 5) 0 (5 / 2) 1 none = .ok [true, true] := dijetEvent_getJetFlags
  have b0 : samesign2011.getJetFlags_body P4.ops dijetEvent (plainCollab P4.ops dijetEvent)
      (2 / 5) 0 5 10 .DET_ISO 1 0 true = .ok true := by
    simp [samesign2011.getJetFlags_body, vat, dijetEvent, Except.bind, samesign2011.jetIsLep,
      samesign.leptonLoop, P4.ops]
  have b1 : samesign2011.getJetFlags_body P4.ops dijetEvent (plainCollab P4.ops dijetEvent)
      (2 / 5) 0 5 10 .DET_ISO 1 1 true = .ok true := by
    simp [samesign2011.getJetFlags_body, vat, dijetEvent, Except.bind, samesign2011.jetIsLep,
      samesign.leptonLoop, P4.ops]
  unfold samesign2011.getJetFlags
  rw [hb]
  exact forIndexed_cons_ok _ _ _ _ _ _ b0 (forIndexed_cons_ok _ _ _ _ _ _ b1 rfl)

theorem dijetEvent_jets2011 :
    samesign2011.getJets P4.ops dijetEvent (plainCollab P4.ops dijetEvent) 0
      .JETS_TYPE_PF_CORR (2 / 5) 0 (5 / 2) 5 10 .DET_ISO 1 = .ok [⟨50, 1, 1⟩, ⟨20, 0, 0⟩] := by
  have hb : (plainCollab P4.ops dijetEvent).base_getJets (toUnsigned 0) true .JETS_TYPE_PF_CORR
      .JETS_CLEAN_HYP_E_MU (2 / 5) 0 (5 / 2) 1 none = .ok [⟨50, 1, 1⟩, ⟨20, 0, 0⟩] :=
    dijetEvent_getJets_sorted
  unfold samesign2011.getJets
  rw [hb]
  simp only [Except.bind, samesign2011.jetIsLep, dijetEvent, samesign.leptonLoop,
    List.filter, sort, sortInsert, samesign.SortByPt, P4.ops]
  norm_num

theorem forwardEvent_getJets_fast :
    getJets_fast P4.ops forwardEvent 0 .JETS_TYPE_PF_CORR .JETS_CLEAN_HYP_E_MU (2 / 5) 0 (5 / 2) =
      .ok [(none, 1), (some ⟨50, 1, 1⟩, 1)] := by
  simp [getJets_fast, jetCollection, forIndexed, getJets_fast_body, jetCorr, vat, forwardEvent,
    passesKinematics, cleaningVeto, passesCaloJetID, nearestCaloJet, vidx, P4.ops, P4.etaOf,
    Except.bind]
  norm_num [abs_of_pos]

theorem forwardEvent_flags2011 :
    samesign2011.getJetFlags P4.ops forwardEvent (plainCollab P4.ops forwardEvent) 0
      .JETS_TYPE_PF_CORR (2 / 5) 0 (5 / 2) 5 10 .DET_ISO 1 = .ok [false, true] := by
  have hb : (plainCollab P4.ops forwardEvent).base_getJetFlags (toUnsigned 0) .JETS_TYPE_PF_CORR
      .JETS_CLEAN_HYP_E_MU (2 / 5) 0 (5 / 2) 1 none = .ok [false, true] := by
    show getJetFlags P4.ops forwardEvent 0 .JETS_TYPE_PF_CORR .JETS_CLEAN_HYP_E_MU (2 / 5) 0
      (5 / 2) = .ok [false, true]
    unfold getJetFlags
    rw [forwardEvent_getJets_fast]
    simp [Except.bind]
  have b0 : samesign2011.getJetFlags_body P4.ops forwardEvent (plainCollab P4.ops forwardEvent)
      (2 / 5) 0 5 10 .DET_ISO 1 0 false = .ok false := by
    simp [samesign2011.getJetFlags_body]
  have b1 : samesign2011.getJetFlags_body P4.ops forwardEvent (plainCollab P4.ops forwardEvent)
      (2 / 5) 0 5 10 .DET_ISO 1 1 true = .ok true := by
    simp [samesign2011.getJetFlags_body, vat, forwardEvent, Except.bind, samesign2011.jetIsLep,
      samesign.leptonLoop, P4.ops]
  unfold samesign2011.getJetFlags
  rw [hb]
  exact forIndexed_cons_ok _ _ _ _ _ _ b0 (forIndexed_cons_ok _ _ _ _ _ _ b1 rfl)

theorem forwardEvent_jets2011 :
    samesign2011.getJets P4.ops forwardEvent (plainCollab P4.ops forwardEvent) 0
      .JETS_TYPE_PF_CORR (2 / 5) 0 (5 / 2) 5 10 .DET_ISO 1 = .ok [⟨50, 1, 1⟩] := by
  have hb : (plainCollab P4.ops forwardEvent).base_getJets (toUnsigned 0) true .JETS_TYPE_PF_CORR
      .JETS_CLEAN_HYP_E_MU (2 / 5) 0 (5 / 2) 1 none = .ok [⟨50, 1, 1⟩] := by
    show getJets P4.ops forwardEvent 0 true .JETS_TYPE_PF_CORR .JETS_CLEAN_HYP_E_MU (2 / 5) 0
      (5 / 2) = .ok [⟨50, 1, 1⟩]
    unfold getJets
    rw [forwardEvent_getJets_fast]
    simp only [Except.bind, correctedJets, if_true, sort, sortInsert, P4.ops]
    norm_num
  unfold samesign2011.getJets
  rw [hb]
  simp [Except.bind, samesign2011.jetIsLep, forwardEvent, samesign.leptonLoop,
    List.filter, sort, sortInsert, samesign.SortByPt, P4.ops]

/-- C2, the code at two failing inputs. On `dijetEvent` (raw pt 20 and 50, both
jets through the first stage) with a corrector of scale 11/10 and
`min_pt = 30`, `samesign2011::getJetFlags` with the corrector returns true,
false: position 0 is decided by the pt-sorted list's first momentum (pt 50), not
by raw jet 0, whose own corrected pt is 22, so the flags are not aligned with
the raw jets. On `forwardEvent` (first jet
outside `max_eta`) the call ends in `std::out_of_range`: the one selected
momentum is read at position 1. -/
theorem C2_flags_read_sorted_list :
    samesign2011.getJetFlags_otf P4.ops dijetEvent (plainCollab P4.ops dijetEvent) 0
      flatCorrector .JETS_TYPE_PF_CORR (2 / 5) 30 (5 / 2) 5 10 .DET_ISO 1 = .ok [true, false] ∧
    samesign2011.getJetFlags P4.ops dijetEvent (plainCollab P4.ops dijetEvent) 0
      .JETS_TYPE_PF_CORR (2 / 5) 0 (5 / 2) 5 10 .DET_ISO 1 = .ok [true, true] ∧
    P4.ops.pt (P4.ops.scale ⟨20, 0, 0⟩ (jetCorrection P4.ops ⟨20, 0, 0⟩ flatCorrector * 1)) = 22 ∧
    P4.ops.pt (P4.ops.scale ⟨50, 1, 1⟩ (jetCorrection P4.ops ⟨50, 1, 1⟩ flatCorrector * 1)) = 55 ∧
    ¬ rawAlignedFlags P4.ops dijetEvent flatCorrector 30 1 [true, true] [true, false] ∧
    samesign2011.getJetFlags_otf P4.ops forwardEvent (plainCollab P4.ops forwardEvent) 0
      flatCorrector .JETS_TYPE_PF_CORR (2 / 5) 30 (5 / 2) 5 10 .DET_ISO 1
      = .error .out_of_range := by
  refine ⟨?_, dijetEvent_flags2011, ?_, ?_, ?_, ?_⟩
  · have b0 : samesign2011.getJetFlags_otf_body P4.ops flatCorrector [⟨50, 1, 1⟩, ⟨20, 0, 0⟩] 30 1
        0 true = .ok true := by
      simp only [samesign2011.getJetFlags_otf_body, vat, jetCorrection, flatCorrector,
        FactorizedJetCorrector.setJetPt, FactorizedJetCorrector.setJetEta,
        FactorizedJetCorrector.getCorrection, P4.ops, Except.bind, List.getElem?_cons_zero]
      norm_num
    have b1 : samesign2011.getJetFlags_otf_body P4.ops flatCorrector [⟨50, 1, 1⟩, ⟨20, 0, 0⟩] 30 1
        1 true = .ok false := by
      simp only [samesign2011.getJetFlags_otf_body, vat, jetCorrection, flatCorrector,
        FactorizedJetCorrector.setJetPt, FactorizedJetCorrector.setJetEta,
        FactorizedJetCorrector.getCorrection, P4.ops, Except.bind, List.getElem?_cons_succ,
        List.getElem?_cons_zero]
      norm_num
    unfold samesign2011.getJetFlags_otf
    have h1 : samesign2011.getJetFlags P4.ops dijetEvent (plainCollab P4.ops dijetEvent) 0
        .JETS_TYPE_PF_CORR (2 / 5) 0 (5 / 2) 5 10 .DET_ISO
        (plainCollab P4.ops dijetEvent).default_rescale2011 = .ok [true, true] :=
      dijetEvent_flags2011
    have h2 : samesign2011.getJets P4.ops dijetEvent (plainCollab P4.ops dijetEvent) 0
        .JETS_TYPE_PF_CORR (2 / 5) 0 (5 / 2) 5 10 .DET_ISO
        (plainCollab P4.ops dijetEvent).default_rescale2011 = .ok [⟨50, 1, 1⟩, ⟨20, 0, 0⟩] :=
      dijetEvent_jets2011
    rw [h1, h2]
    exact forIndexed_cons_ok _ _ _ _ _ _ b0 (forIndexed_cons_ok _ _ _ _ _ _ b1 rfl)
  · simp only [jetCorrection, flatCorrector, FactorizedJetCorrector.setJetPt,
      FactorizedJetCorrector.setJetEta, FactorizedJetCorrector.getCorrection, P4.ops]
    norm_num
  · simp only [jetCorrection, flatCorrector, FactorizedJetCorrector.setJetPt,
      FactorizedJetCorrector.setJetEta, FactorizedJetCorrector.getCorrection, P4.ops]
    norm_num
  · rintro ⟨_, h⟩
    have h0 := (h 0 ⟨20, 0, 0⟩ rfl).mp rfl
    have hpt := h0.2
    simp only [jetCorrection, flatCorrector, FactorizedJetCorrector.setJetPt,
      FactorizedJetCorrector.setJetEta, FactorizedJetCorrector.getCorrection, P4.ops] at hpt
    norm_num at hpt
  · unfold samesign2011.getJetFlags_otf
    have h1 : samesign2011.getJetFlags P4.ops forwardEvent (plainCollab P4.ops forwardEvent) 0
        .JETS_TYPE_PF_CORR (2 / 5) 0 (5 / 2) 5 10 .DET_ISO
        (plainCollab P4.ops forwardEvent).default_rescale2011 = .ok [false, true] :=
      forwardEvent_flags2011
    have h2 : samesign2011.getJets P4.ops forwardEvent (plainCollab P4.ops forwardEvent) 0
        .JETS_TYPE_PF_CORR (2 / 5) 0 (5 / 2) 5 10 .DET_ISO
        (plainCollab P4.ops forwardEvent).default_rescale2011 = .ok [⟨50, 1, 1⟩] :=
      forwardEvent_jets2011
    rw [h1, h2]
    simp [Except.bind, forIndexed, samesign2011.getJetFlags_otf_body, vat]

/-! ## Momenta and discriminators under a rescale and a shift -/

theorem shiftEvent_base_flags :
    getJetFlags P4.ops shiftEvent 0 .JETS_TYPE_PF_CORR .JETS_CLEAN_HYP_E_MU (2 / 5) 0 (5 / 2)
      = .ok [true, true] := by
  simp [getJetFlags, getJets_fast, jetCollection, forIndexed, getJets_fast_body, jetCorr, vat,
    shiftEvent, passesKinematics, cleaningVeto, passesCaloJetID, nearestCaloJet, vidx, P4.ops,
    P4.etaOf, Except.bind]
  norm_num [abs_of_pos]

theorem shiftEvent_rescaled_first :
    samesign.applySyst P4.ops shiftCollab 1 (P4.ops.scale ⟨52, 0, 0⟩ (1 * (21 / 20)))
      = ⟨273 / 5, 0, 0⟩ := by
  simp [samesign.applySyst, shiftCollab, binnedShift, P4.ops, P4.etaOf]
  norm_num [abs_of_pos]

theorem shiftEvent_rescaled_second :
    samesign.applySyst P4.ops shiftCollab 1 (P4.ops.scale ⟨48, 2, 1⟩ (1 * (21 / 20)))
      = ⟨252 / 5, 2, 1⟩ := by
  simp [samesign.applySyst, shiftCollab, binnedShift, P4.ops, P4.etaOf]
  norm_num [abs_of_pos]

theorem shiftEvent_unrescaled_first :
    samesign.applySyst P4.ops shiftCollab 1 (P4.ops.scale ⟨52, 0, 0⟩ 1) = ⟨52, 0, 0⟩ := by
  simp [samesign.applySyst, shiftCollab, binnedShift, P4.ops, P4.etaOf]

theorem shiftEvent_unrescaled_second :
    samesign.applySyst P4.ops shiftCollab 1 (P4.ops.scale ⟨48, 2, 1⟩ 1) = ⟨264 / 5, 2, 1⟩ := by
  simp [samesign.applySyst, shiftCollab, binnedShift, P4.ops, P4.etaOf]
  norm_num [abs_of_pos]

theorem shiftEvent_otfJEC (j : Nat) (hj : j < 2) :
    samesign.otfJEC P4.ops shiftEvent unitCorrector j = .ok 1 := by
  match j, hj with
  | 0, _ => exact otfJEC_eq P4.ops shiftEvent unitCorrector 0 (1 / 2) ⟨52, 0, 0⟩ rfl rfl
  | 1, _ => exact otfJEC_eq P4.ops shiftEvent unitCorrector 1 (1 / 2) ⟨48, 2, 1⟩ rfl rfl

theorem shiftEvent_flags :
    samesign.getJetFlags P4.ops shiftEvent shiftCollab 0 .JETS_TYPE_PF_CORR (2 / 5) 0 (5 / 2)
      20 20 (21 / 20) 1 = .ok [true, true] := by
  have hb : shiftCollab.base_getJetFlags (toUnsigned 0) .JETS_TYPE_PF_CORR
      .JETS_CLEAN_HYP_E_MU (2 / 5) 0 (5 / 2) (21 / 20) (some 1) = .ok [true, true] :=
    shiftEvent_base_flags
  have hs : ∀ v : P4, P4.ops.scale (P4.ops.scale v 1) (21 / 20) = P4.ops.scale v (1 * (21 / 20)) :=
    fun v => P4.ops_lawful.scale_scale v 1 (21 / 20)
  have hl : ∀ v : P4, samesign.jetIsLep P4.ops shiftEvent shiftCollab v (2 / 5) 20 20 = false := by
    intro v
    simp [samesign.jetIsLep, samesign.leptonLoop, shiftEvent]
  have b0 : samesign.getJetFlags_body P4.ops shiftEvent shiftCollab (2 / 5) 0 20 20 (21 / 20) 1
      0 true = .ok true := by
    rw [getJetFlags_body_eq P4.ops shiftEvent shiftCollab (2 / 5) 0 20 20 (21 / 20) 1 0 1
      ⟨52, 0, 0⟩ ⟨273 / 5, 0, 0⟩ rfl rfl (by rw [hs]; exact shiftEvent_rescaled_first), hl]
    simp only [P4.ops]
    norm_num [abs_of_pos]
  have b1 : samesign.getJetFlags_body P4.ops shiftEvent shiftCollab (2 / 5) 0 20 20 (21 / 20) 1
      1 true = .ok true := by
    rw [getJetFlags_body_eq P4.ops shiftEvent shiftCollab (2 / 5) 0 20 20 (21 / 20) 1 1 1
      ⟨48, 2, 1⟩ ⟨252 / 5, 2, 1⟩ rfl rfl (by rw [hs]; exact shiftEvent_rescaled_second), hl]
    simp only [P4.ops]
    norm_num [abs_of_pos]
  unfold samesign.getJetFlags
  rw [hb]
  exact forIndexed_cons_ok _ _ _ _ _ _ b0 (forIndexed_cons_ok _ _ _ _ _ _ b1 rfl)

theorem shiftEvent_flags_otf :
    samesign.getJetFlags_otf P4.ops shiftEvent shiftCollab 0 unitCorrector .JETS_TYPE_PF_CORR
      (2 / 5) 30 (5 / 2) 20 20 (21 / 20) 1 = .ok [true, true] := by
  have hs : ∀ v : P4, P4.ops.scale (P4.ops.scale v 1) (21 / 20) = P4.ops.scale v (1 * (21 / 20)) :=
    fun v => P4.ops_lawful.scale_scale v 1 (21 / 20)
  have b0 : samesign.getJetFlags_otf_body P4.ops shiftEvent shiftCollab unitCorrector 30
      (21 / 20) 1 0 true = .ok true := by
    rw [getJetFlags_otf_body_eq P4.ops shiftEvent shiftCollab unitCorrector 30 (21 / 20) 1 0 1
      ⟨52, 0, 0⟩ ⟨273 / 5, 0, 0⟩ (shiftEvent_otfJEC 0 (by omega)) rfl
      (by rw [hs]; exact shiftEvent_rescaled_first)]
    simp only [P4.ops]
    norm_num [abs_of_pos]
  have b1 : samesign.getJetFlags_otf_body P4.ops shiftEvent shiftCollab unitCorrector 30
      (21 / 20) 1 1 true = .ok true := by
    rw [getJetFlags_otf_body_eq P4.ops shiftEvent shiftCollab unitCorrector 30 (21 / 20) 1 1 1
      ⟨48, 2, 1⟩ ⟨252 / 5, 2, 1⟩ (shiftEvent_otfJEC 1 (by omega)) rfl
      (by rw [hs]; exact shiftEvent_rescaled_second)]
    simp only [P4.ops]
    norm_num [abs_of_pos]
  unfold samesign.getJetFlags_otf
  rw [shiftEvent_flags]
  simp only [Except.bind, cassert, shiftEvent, List.length_cons, List.length_nil,
    beq_self_eq_true, if_true]
  exact forIndexed_cons_ok _ _ _ _ _ _ b0 (forIndexed_cons_ok _ _ _ _ _ _ b1 rfl)

theorem shiftEvent_jets_otf :
    samesign.getJets_otf P4.ops shiftEvent shiftCollab 0 unitCorrector .JETS_TYPE_PF_CORR
      (2 / 5) 30 (5 / 2) 20 20 (21 / 20) 1 true = .ok [⟨273 / 5, 0, 0⟩, ⟨252 / 5, 2, 1⟩] := by
  have b0 : samesign.getJets_otf_body P4.ops shiftEvent shiftCollab unitCorrector 30 (21 / 20) 1
      0 true = .ok (some ⟨273 / 5, 0, 0⟩) := by
    rw [getJets_otf_body_eq P4.ops shiftEvent shiftCollab unitCorrector 30 (21 / 20) 1 0 1
      ⟨52, 0, 0⟩ ⟨273 / 5, 0, 0⟩ (shiftEvent_otfJEC 0 (by omega)) rfl
      shiftEvent_rescaled_first]
    simp only [P4.ops]
    norm_num [abs_of_pos]
  have b1 : samesign.getJets_otf_body P4.ops shiftEvent shiftCollab unitCorrector 30 (21 / 20) 1
      1 true = .ok (some ⟨252 / 5, 2, 1⟩) := by
    rw [getJets_otf_body_eq P4.ops shiftEvent shiftCollab unitCorrector 30 (21 / 20) 1 1 1
      ⟨48, 2, 1⟩ ⟨252 / 5, 2, 1⟩ (shiftEvent_otfJEC 1 (by omega)) rfl
      shiftEvent_rescaled_second]
    simp only [P4.ops]
    norm_num [abs_of_pos]
  have hl : forIndexed (samesign.getJets_otf_body P4.ops shiftEvent shiftCollab unitCorrector 30
      (21 / 20) 1) 0 [true, true] = .ok [some ⟨273 / 5, 0, 0⟩, some ⟨252 / 5, 2, 1⟩] :=
    forIndexed_cons_ok _ _ _ _ _ _ b0 (forIndexed_cons_ok _ _ _ _ _ _ b1 rfl)
  unfold samesign.getJets_otf
  rw [shiftEvent_flags]
  simp only [samesign.isParticleFlow, Except.bind, hl]
  simp only [List.reduceOption, List.filterMap, id, sort, sortInsert, samesign.SortByPt, P4.ops]
  norm_num [abs_of_pos]

theorem shiftEvent_allCorrected_otf :
    samesign.getAllCorrectedJets_otf P4.ops shiftEvent shiftCollab .JETS_TYPE_PF_CORR
      unitCorrector 1 false = .ok [⟨52, 0, 0⟩, ⟨264 / 5, 2, 1⟩] :=
  forIndexed_cons_ok _ _ _ _ _ _
    (getAllCorrectedJets_otf_body_eq P4.ops shiftEvent shiftCollab unitCorrector 1 0 1
      ⟨52, 0, 0⟩ ⟨52, 0, 0⟩ (shiftEvent_otfJEC 0 (by omega)) shiftEvent_unrescaled_first)
    (forIndexed_cons_ok _ _ _ _ _ _
      (getAllCorrectedJets_otf_body_eq P4.ops shiftEvent shiftCollab unitCorrector 1 1 1
        ⟨48, 2, 1⟩ ⟨264 / 5, 2, 1⟩ (shiftEvent_otfJEC 1 (by omega))
        shiftEvent_unrescaled_second) rfl)

/-- C7, the code at a failing input. On `shiftEvent` with the on-the-fly
strategy, rescale 21/20 and the binned shift, the sorted `getJets` returns raw
jet 0 (pt 273/5) before raw jet 1 (pt 252/5), while the sorted
`getJetBtagDiscriminators` returns 9/10, 3/10: the value of raw jet 1 before
that of raw jet 0, whose table entries are 3/10 for jet 0 and 9/10 for jet 1:
no list of raw indices yields both lists. The discriminators are ordered by the
momenta of `getAllCorrectedJets`, which carry no rescale and are shifted at the
unrescaled pt (52 and 264/5). -/
theorem C7_discriminators_sorted_by_other_momenta :
    samesign.getJets_otf P4.ops shiftEvent shiftCollab 0 unitCorrector .JETS_TYPE_PF_CORR
      (2 / 5) 30 (5 / 2) 20 20 (21 / 20) 1 true = .ok [⟨273 / 5, 0, 0⟩, ⟨252 / 5, 2, 1⟩] ∧
    samesign.getJetBtagDiscriminators_otf P4.ops shiftEvent shiftCollab 0 unitCorrector
      .JETS_TYPE_PF_CORR 0 (2 / 5) 30 (5 / 2) 20 20 (21 / 20) 1 true = .ok [9 / 10, 3 / 10] ∧
    samesign.otfMomentum P4.ops shiftEvent shiftCollab unitCorrector (21 / 20) 1 0
      = .ok ⟨273 / 5, 0, 0⟩ ∧
    samesign.otfMomentum P4.ops shiftEvent shiftCollab unitCorrector (21 / 20) 1 1
      = .ok ⟨252 / 5, 2, 1⟩ ∧
    shiftCollab.btagDiscriminators 0 .JETS_TYPE_PF_CORR = [3 / 10, 9 / 10] ∧
    samesign.getAllCorrectedJets_otf P4.ops shiftEvent shiftCollab .JETS_TYPE_PF_CORR
      unitCorrector 1 false = .ok [⟨52, 0, 0⟩, ⟨264 / 5, 2, 1⟩] ∧
    ¬ sameJets (samesign.otfMomentum P4.ops shiftEvent shiftCollab unitCorrector (21 / 20) 1)
      (shiftCollab.btagDiscriminators 0 .JETS_TYPE_PF_CORR)
      [⟨273 / 5, 0, 0⟩, ⟨252 / 5, 2, 1⟩] [9 / 10, 3 / 10] := by
  have hm0 : samesign.otfMomentum P4.ops shiftEvent shiftCollab unitCorrector (21 / 20) 1 0
      = .ok ⟨273 / 5, 0, 0⟩ := by
    simp only [samesign.otfMomentum, shiftEvent_otfJEC 0 (by omega), Except.bind]
    rw [show vat shiftEvent.pfjets_p4 0 = .ok ⟨52, 0, 0⟩ from rfl]
    simp only [shiftEvent_rescaled_first]
  have hm1 : samesign.otfMomentum P4.ops shiftEvent shiftCollab unitCorrector (21 / 20) 1 1
      = .ok ⟨252 / 5, 2, 1⟩ := by
    simp only [samesign.otfMomentum, shiftEvent_otfJEC 1 (by omega), Except.bind]
    rw [show vat shiftEvent.pfjets_p4 1 = .ok ⟨48, 2, 1⟩ from rfl]
    simp only [shiftEvent_rescaled_second]
  refine ⟨shiftEvent_jets_otf, ?_, hm0, hm1, rfl, shiftEvent_allCorrected_otf, ?_⟩
  · have hd : shiftCollab.btagDiscriminators 0 .JETS_TYPE_PF_CORR = [3 / 10, 9 / 10] := rfl
    have p0 : samesign.pairBody [(⟨52, 0, 0⟩ : P4), ⟨264 / 5, 2, 1⟩] [3 / 10, 9 / 10] 0 true
        = .ok (some (⟨52, 0, 0⟩, 3 / 10)) := by
      simp [samesign.pairBody, vat, Except.bind]
    have p1 : samesign.pairBody [(⟨52, 0, 0⟩ : P4), ⟨264 / 5, 2, 1⟩] [3 / 10, 9 / 10] 1 true
        = .ok (some (⟨264 / 5, 2, 1⟩, 9 / 10)) := by
      simp [samesign.pairBody, vat, Except.bind]
    have hl : forIndexed (samesign.pairBody [(⟨52, 0, 0⟩ : P4), ⟨264 / 5, 2, 1⟩]
        [3 / 10, 9 / 10]) 0 [true, true]
        = .ok [some (⟨52, 0, 0⟩, 3 / 10), some (⟨264 / 5, 2, 1⟩, 9 / 10)] :=
      forIndexed_cons_ok _ _ _ _ _ _ p0 (forIndexed_cons_ok _ _ _ _ _ _ p1 rfl)
    unfold samesign.getJetBtagDiscriminators_otf
    rw [shiftEvent_allCorrected_otf, shiftEvent_flags_otf, hd]
    simp only [Except.bind, samesign.discriminatorsOf, cassert, List.length_cons,
      List.length_nil, beq_self_eq_true, if_true, hl]
    simp only [List.reduceOption, List.filterMap, id, sort, sortInsert, samesign.SortByPt_pair,
      P4.ops]
    norm_num [abs_of_pos]
  · rintro ⟨idxs, hj, hd⟩
    have hd0 : shiftCollab.btagDiscriminators 0 .JETS_TYPE_PF_CORR = [3 / 10, 9 / 10] := rfl
    rw [hd0] at hd
    match idxs, hj, hd with
    | i0 :: _, List.Forall₂.cons hj0 _, List.Forall₂.cons hd0 _ =>
      match i0, hj0, hd0 with
      | 0, _, hd0 =>
        simp only [List.getElem?_cons_zero, Option.some.injEq] at hd0
        norm_num at hd0
      | 1, hj0, _ =>
        have hj1 : samesign.otfMomentum P4.ops shiftEvent shiftCollab unitCorrector (21 / 20) 1 1
            = .ok ⟨273 / 5, 0, 0⟩ := hj0
        rw [hm1] at hj1
        simp only [Except.ok.injEq, P4.mk.injEq] at hj1
        norm_num at hj1
      | i + 2, _, hd0 => simp at hd0

/-! ## All corrected jets -/

/-- C11. With `systFlag = 0` the function `samesign::getAllCorrectedJets` that
takes the JEC from the ntuple returns one momentum per raw particle-flow jet, in
raw order: entry `i` is raw momentum `i` times the stored factor of jet `i`,
read from `pfjets_corL1FastL2L3residual` on real data and from
`pfjets_corL1FastL2L3` on simulation. The arguments `type` and `sort_by_pt` do
not change the result. The call returns exactly when the table it reads has an
entry for every raw jet. -/
theorem C11_all_corrected_jets_from_ntuple {V : Type} (K : LorentzOps V) (ev : Event V)
    (X : Collab V) (type : JetType) (sort_by_pt : Bool) :
    (∀ out, samesign.getAllCorrectedJets K ev X type 0 sort_by_pt = .ok out →
      out.length = ev.pfjets_p4.length ∧
      ∀ (i : Nat) (p4 : V), ev.pfjets_p4[i]? = some p4 →
        ∃ c : ℚ, out[i]? = some (K.scale p4 c) ∧
          (ev.evt_isRealData = true → ev.pfjets_corL1FastL2L3residual[i]? = some c) ∧
          (ev.evt_isRealData = false → ev.pfjets_corL1FastL2L3[i]? = some c)) ∧
    (∀ (type2 : JetType) (sort2 : Bool),
      samesign.getAllCorrectedJets K ev X type2 0 sort2 =
        samesign.getAllCorrectedJets K ev X type 0 sort_by_pt) ∧
    ((∃ out, samesign.getAllCorrectedJets K ev X type 0 sort_by_pt = .ok out) ↔
      ev.pfjets_p4.length ≤
        (if ev.evt_isRealData then ev.pfjets_corL1FastL2L3residual
          else ev.pfjets_corL1FastL2L3).length) := by
  have hbody : ∀ (i : Nat) (p4 : V) (r : V),
      samesign.getAllCorrectedJets_body K ev X 0 i p4 = .ok r →
      ∃ c : ℚ, r = K.scale p4 c ∧
        (if ev.evt_isRealData then ev.pfjets_corL1FastL2L3residual
          else ev.pfjets_corL1FastL2L3)[i]? = some c := by
    intro i p4 r h
    unfold samesign.getAllCorrectedJets_body at h
    cases hc : samesign.storedJEC ev i with
    | error e => rw [hc] at h; cases h
    | ok c =>
      rw [hc] at h
      simp only [Except.bind, samesign.applySyst, ne_eq, not_true_eq_false, if_false,
        Except.ok.injEq] at h
      refine ⟨c, h.symm, ?_⟩
      unfold samesign.storedJEC at hc
      split at hc
      · rename_i hd
        rw [if_pos hd]
        exact (vat_eq_ok _ _ _).mp hc
      · rename_i hd
        rw [if_neg hd]
        exact (vat_eq_ok _ _ _).mp hc
  refine ⟨?_, fun _ _ => rfl, ?_, ?_⟩
  · intro out h
    unfold samesign.getAllCorrectedJets at h
    refine ⟨forIndexed_length _ _ _ h, ?_⟩
    intro i p4 hp
    obtain ⟨r, hr1, hr2⟩ := forIndexed_getElem? _ _ _ h i p4 hp
    simp only [Nat.zero_add] at hr2
    obtain ⟨c, hc1, hc2⟩ := hbody i p4 r hr2
    refine ⟨c, by rw [hr1, hc1], ?_, ?_⟩
    · intro hd
      rwa [if_pos hd] at hc2
    · intro hd
      rwa [if_neg (by simp [hd])] at hc2
  · rintro ⟨out, h⟩
    unfold samesign.getAllCorrectedJets at h
    by_contra hlt
    push_neg at hlt
    have hpos : 0 < ev.pfjets_p4.length := by omega
    set n := ev.pfjets_p4.length - 1 with hn
    have hn1 : n < ev.pfjets_p4.length := by omega
    obtain ⟨r, _, hr2⟩ := forIndexed_getElem? _ _ _ h n ev.pfjets_p4[n]
      (List.getElem?_eq_getElem hn1)
    simp only [Nat.zero_add] at hr2
    obtain ⟨c, _, hc2⟩ := hbody n _ r hr2
    have := (List.getElem?_eq_some_iff.mp hc2).1
    omega
  · intro hle
    unfold samesign.getAllCorrectedJets
    apply forIndexed_total
    intro i x hx
    have hi : i < ev.pfjets_p4.length := (List.getElem?_eq_some_iff.mp hx).1
    simp only [Nat.zero_add, samesign.getAllCorrectedJets_body, samesign.storedJEC]
    split at hle
    · rename_i hd
      rw [if_pos hd, vat_of_lt _ _ (by omega)]
      exact ⟨_, rfl⟩
    · rename_i hd
      rw [if_neg hd, vat_of_lt _ _ (by omega)]
      exact ⟨_, rfl⟩

/-- C11, witness: on `overlapEvent` (simulation, stored factors 1) the call
returns the two raw momenta, and entry `i` is raw momentum `i` times the
L1FastL2L3 factor of jet `i`. -/
theorem C11_all_corrected_jets_from_ntuple_witness :
    ([⟨50, 1, 0⟩, ⟨60, -1, 2⟩] : List P4).length = overlapEvent.pfjets_p4.length ∧
    ∀ (i : Nat) (p4 : P4), overlapEvent.pfjets_p4[i]? = some p4 →
      ∃ c : ℚ, ([⟨50, 1, 0⟩, ⟨60, -1, 2⟩] : List P4)[i]? = some (P4.ops.scale p4 c) ∧
        (overlapEvent.evt_isRealData = true →
          overlapEvent.pfjets_corL1FastL2L3residual[i]? = some c) ∧
        (overlapEvent.evt_isRealData = false → overlapEvent.pfjets_corL1FastL2L3[i]? = some c) :=
  (C11_all_corrected_jets_from_ntuple P4.ops overlapEvent overlapCollab .JETS_TYPE_PF_CORR
    false).1 _ overlapEvent_allCorrected

/-! ## Uncertainty shifts -/

section shifts

variable {V : Type} (K : LorentzOps V) (ev : Event V) (X : Collab V)

/-- The conditional of `getAllCorrectedJets` on eta is the clamp. -/
theorem clampEta_eq (eta : ℚ) :
    (if eta > 0 then min eta (51999 / 10000) else max eta (-(51999 / 10000))) = clampEta eta := by
  unfold clampEta
  split
  · rename_i h
    have h1 : -(51999 / 10000 : ℚ) ≤ min eta (51999 / 10000) := by
      apply le_min
      · linarith
      · norm_num
    rw [max_eq_right h1]
  · rename_i h
    have h1 : eta ≤ 51999 / 10000 := by linarith
    rw [min_eq_left h1, max_comm]

theorem clampEta_of_abs_le (eta : ℚ) (h : |eta| ≤ 51999 / 10000) : clampEta eta = eta := by
  unfold clampEta
  obtain ⟨h1, h2⟩ := abs_le.mp h
  rw [min_eq_left h2, max_eq_right h1]

theorem applyUncClamped_eq (ju : JetCorrectionUncertainty) (dir : Int) (v : V) :
    samesign.applyUncClamped K ju dir v =
      K.scale v (1 + (dir : ℚ) * ju.uncertainty (K.pt v) (clampEta (K.eta v))) := by
  simp only [samesign.applyUncClamped, clampEta_eq, JetCorrectionUncertainty.setJetPt,
    JetCorrectionUncertainty.setJetEta, JetCorrectionUncertainty.getUncertainty, mul_comm]

theorem applyUnc_eq (ju : JetCorrectionUncertainty) (dir : Int) (v : V) :
    samesign.applyUnc K ju dir v =
      K.scale v (1 + (dir : ℚ) * ju.uncertainty (K.pt v) (K.eta v)) := by
  simp only [samesign.applyUnc, JetCorrectionUncertainty.setJetPt,
    JetCorrectionUncertainty.setJetEta, JetCorrectionUncertainty.getUncertainty, mul_comm]

theorem applyUnc_eq_clamped (ju : JetCorrectionUncertainty) (dir : Int) (v : V)
    (h : |K.eta v| ≤ 51999 / 10000) :
    samesign.applyUnc K ju dir v = samesign.applyUncClamped K ju dir v := by
  rw [applyUnc_eq, applyUncClamped_eq, clampEta_of_abs_le _ h]

theorem getJetFlags_unc_body_eq (ju : JetCorrectionUncertainty) (dir : Int) (min_pt : ℚ)
    (j : Nat) (c : ℚ) (p4 : V) (hc : samesign.storedJEC ev j = .ok c)
    (hp : vat ev.pfjets_p4 j = .ok p4) :
    samesign.getJetFlags_unc_body K ev ju dir min_pt j true =
      .ok (!decide (K.pt (samesign.applyUnc K ju dir (K.scale p4 c)) < min_pt)) := by
  simp only [samesign.getJetFlags_unc_body, hc, hp, Except.bind, Bool.not_true,
    Bool.false_eq_true, if_false]
  by_cases h1 : K.pt (samesign.applyUnc K ju dir (K.scale p4 c)) < min_pt <;> simp [h1]

theorem getJets_unc_body_eq (ju : JetCorrectionUncertainty) (dir : Int) (min_pt : ℚ)
    (j : Nat) (c : ℚ) (p4 : V) (hc : samesign.storedJEC ev j = .ok c)
    (hp : vat ev.pfjets_p4 j = .ok p4) :
    samesign.getJets_unc_body K ev ju dir min_pt j true =
      .ok (if K.pt (samesign.applyUnc K ju dir (K.scale p4 c)) < min_pt then none
        else some (samesign.applyUnc K ju dir (K.scale p4 c))) := by
  simp only [samesign.getJets_unc_body, hc, hp, Except.bind, Bool.not_true,
    Bool.false_eq_true, if_false]
  by_cases h1 : K.pt (samesign.applyUnc K ju dir (K.scale p4 c)) < min_pt <;> simp [h1]

end shifts

theorem edgeEvent_base_flags :
    getJetFlags P4.ops edgeEvent 0 .JETS_TYPE_PF_CORR .JETS_CLEAN_HYP_E_MU (2 / 5) 0 6
      = .ok [true] := by
  simp [getJetFlags, getJets_fast, jetCollection, forIndexed, getJets_fast_body, jetCorr, vat,
    edgeEvent, passesKinematics, cleaningVeto, passesCaloJetID, nearestCaloJet, vidx, P4.ops,
    P4.etaOf, Except.bind]
  norm_num [abs_of_pos]

theorem edgeEvent_flags :
    samesign.getJetFlags P4.ops edgeEvent (plainCollab P4.ops edgeEvent) 0 .JETS_TYPE_PF_CORR
      (2 / 5) 0 6 20 20 1 0 = .ok [true] := by
  have hb : (plainCollab P4.ops edgeEvent).base_getJetFlags (toUnsigned 0) .JETS_TYPE_PF_CORR
      .JETS_CLEAN_HYP_E_MU (2 / 5) 0 6 1 (some 0) = .ok [true] := edgeEvent_base_flags
  have hl : ∀ v : P4, samesign.jetIsLep P4.ops edgeEvent (plainCollab P4.ops edgeEvent) v (2 / 5)
      20 20 = false := by
    intro v
    simp [samesign.jetIsLep, samesign.leptonLoop, edgeEvent]
  have b0 : samesign.getJetFlags_body P4.ops edgeEvent (plainCollab P4.ops edgeEvent) (2 / 5) 0
      20 20 1 0 0 true = .ok true := by
    rw [getJetFlags_body_eq P4.ops edgeEvent (plainCollab P4.ops edgeEvent) (2 / 5) 0 20 20 1 0 0
      1 ⟨50, 11 / 2, 0⟩ ⟨50, 11 / 2, 0⟩ rfl rfl (by simp [samesign.applySyst, P4.ops]), hl]
    simp only [P4.ops]
    norm_num [abs_of_pos]
  unfold samesign.getJetFlags
  rw [hb]
  exact forIndexed_cons_ok _ _ _ [] _ [] b0 rfl

theorem edgeEvent_unclamped :
    samesign.applyUnc P4.ops edgeUncertainty (-1) (P4.ops.scale ⟨50, 11 / 2, 0⟩ 1)
      = ⟨25, 11 / 2, 0⟩ := by
  simp [samesign.applyUnc, edgeUncertainty, JetCorrectionUncertainty.setJetPt,
    JetCorrectionUncertainty.setJetEta, JetCorrectionUncertainty.getUncertainty, P4.ops, P4.etaOf]
  norm_num [abs_of_pos]

theorem edgeEvent_clamped :
    samesign.applyUncClamped P4.ops edgeUncertainty (-1) (P4.ops.scale ⟨50, 11 / 2, 0⟩ 1)
      = ⟨95 / 2, 11 / 2, 0⟩ := by
  simp [samesign.applyUncClamped, edgeUncertainty, JetCorrectionUncertainty.setJetPt,
    JetCorrectionUncertainty.setJetEta, JetCorrectionUncertainty.getUncertainty, P4.ops, P4.etaOf]
  norm_num [abs_of_pos]

theorem edgeEvent_shifted :
    samesign.shiftedMomentum P4.ops edgeEvent edgeUncertainty (-1) 0 = .ok ⟨95 / 2, 11 / 2, 0⟩ := by
  have h := applyUncClamped_eq P4.ops edgeUncertainty (-1) (P4.ops.scale ⟨50, 11 / 2, 0⟩ 1)
  rw [edgeEvent_clamped] at h
  simp only [samesign.shiftedMomentum, Except.bind]
  rw [show samesign.storedJEC edgeEvent 0 = .ok 1 from rfl,
    show vat edgeEvent.pfjets_p4 0 = .ok ⟨50, 11 / 2, 0⟩ from rfl]
  simp only [← h]

/-- C12, the code at a failing input. `samesign::getAllCorrectedJets` with an
uncertainty returns, for every event, the nominal momenta shifted with the
uncertainty read at the clamped eta, and the shift of the jet and flag queries
equals it whenever the nominal `|eta|` is at most 5.1999. On `edgeEvent` (one
jet of nominal pt 50 at eta 11/2, through the first stage for `max_eta = 6`)
with an uncertainty of 1/20 inside the interval and 1/2 beyond, and direction
-1, the shifted momentum has pt 95/2 and `getAllCorrectedJets` returns it;
`samesign::getJets` with the uncertainty returns the jet at pt 25 for
`min_pt = 20` and no jet for `min_pt = 30`, and `samesign::getJetFlags` with the
uncertainty returns false for `min_pt = 30`: both read the uncertainty at eta
11/2. -/
theorem C12_jets_and_flags_read_unclamped_eta :
    (∀ (V : Type) (K : LorentzOps V) (ev : Event V) (ju : JetCorrectionUncertainty) (dir : Int)
        (type : JetType) (sort_by_pt : Bool) (out : List V),
      samesign.getAllCorrectedJets_unc K ev type ju dir sort_by_pt = .ok out →
      out.length = ev.pfjets_p4.length ∧
      ∀ i : Nat, i < ev.pfjets_p4.length →
        ∃ v, samesign.shiftedMomentum K ev ju dir i = .ok v ∧ out[i]? = some v) ∧
    (∀ (V : Type) (K : LorentzOps V) (ju : JetCorrectionUncertainty) (dir : Int) (v : V),
      |K.eta v| ≤ 51999 / 10000 →
      samesign.applyUnc K ju dir v = samesign.applyUncClamped K ju dir v) ∧
    samesign.getJetFlags P4.ops edgeEvent (plainCollab P4.ops edgeEvent) 0 .JETS_TYPE_PF_CORR
      (2 / 5) 0 6 20 20 1 0 = .ok [true] ∧
    samesign.shiftedMomentum P4.ops edgeEvent edgeUncertainty (-1) 0
      = .ok ⟨95 / 2, 11 / 2, 0⟩ ∧
    P4.ops.pt (⟨95 / 2, 11 / 2, 0⟩ : P4) ≥ 30 ∧
    samesign.getAllCorrectedJets_unc P4.ops edgeEvent .JETS_TYPE_PF_CORR edgeUncertainty (-1)
      false = .ok [⟨95 / 2, 11 / 2, 0⟩] ∧
    samesign.getJets_unc P4.ops edgeEvent (plainCollab P4.ops edgeEvent) 0 edgeUncertainty (-1)
      .JETS_TYPE_PF_CORR (2 / 5) 20 6 20 20 false = .ok [⟨25, 11 / 2, 0⟩] ∧
    samesign.getJets_unc P4.ops edgeEvent (plainCollab P4.ops edgeEvent) 0 edgeUncertainty (-1)
      .JETS_TYPE_PF_CORR (2 / 5) 30 6 20 20 false = .ok [] ∧
    samesign.getJetFlags_unc P4.ops edgeEvent (plainCollab P4.ops edgeEvent) 0 edgeUncertainty
      (-1) .JETS_TYPE_PF_CORR (2 / 5) 30 6 20 20 = .ok [false] := by
  have hfirst : samesign.getJetFlags P4.ops edgeEvent (plainCollab P4.ops edgeEvent) 0
      .JETS_TYPE_PF_CORR (2 / 5) 0 6 20 20 (plainCollab P4.ops edgeEvent).default_rescale
      (plainCollab P4.ops edgeEvent).default_systFlag = .ok [true] := edgeEvent_flags
  refine ⟨?_, ?_, edgeEvent_flags, edgeEvent_shifted, ?_, ?_, ?_, ?_, ?_⟩
  · intro V K ev ju dir type sort_by_pt out h
    unfold samesign.getAllCorrectedJets_unc at h
    refine ⟨forIndexed_length _ _ _ h, ?_⟩
    intro i hi
    obtain ⟨r, hr1, hr2⟩ := forIndexed_getElem? _ _ _ h i ev.pfjets_p4[i]
      (List.getElem?_eq_getElem hi)
    simp only [Nat.zero_add, samesign.getAllCorrectedJets_unc_body] at hr2
    refine ⟨r, ?_, hr1⟩
    unfold samesign.shiftedMomentum
    cases hc : samesign.storedJEC ev i with
    | error e => rw [hc] at hr2; cases hr2
    | ok c =>
      rw [hc] at hr2
      simp only [Except.bind, Except.ok.injEq, vat_of_lt _ _ hi] at hr2 ⊢
      rw [← hr2, applyUncClamped_eq]
  · intro V K ju dir v h
    exact applyUnc_eq_clamped K ju dir v h
  · simp only [P4.ops]
    norm_num [abs_of_pos]
  · exact forIndexed_cons_ok _ _ _ [] _ []
      (by
        simp only [samesign.getAllCorrectedJets_unc_body, Except.bind]
        rw [show samesign.storedJEC edgeEvent 0 = .ok 1 from rfl, ← edgeEvent_clamped]) rfl
  · have b0 : samesign.getJets_unc_body P4.ops edgeEvent edgeUncertainty (-1) 20 0 true
        = .ok (some ⟨25, 11 / 2, 0⟩) := by
      rw [getJets_unc_body_eq P4.ops edgeEvent edgeUncertainty (-1) 20 0 1 ⟨50, 11 / 2, 0⟩ rfl rfl,
        edgeEvent_unclamped]
      simp only [P4.ops]
      norm_num [abs_of_pos]
    unfold samesign.getJets_unc
    rw [hfirst]
    simp only [Except.bind, forIndexed_cons_ok _ _ _ [] _ [] b0 rfl]
    simp [List.reduceOption]
  · have b0 : samesign.getJets_unc_body P4.ops edgeEvent edgeUncertainty (-1) 30 0 true
        = .ok none := by
      rw [getJets_unc_body_eq P4.ops edgeEvent edgeUncertainty (-1) 30 0 1 ⟨50, 11 / 2, 0⟩ rfl rfl,
        edgeEvent_unclamped]
      simp only [P4.ops]
      norm_num [abs_of_pos]
    unfold samesign.getJets_unc
    rw [hfirst]
    simp only [Except.bind, forIndexed_cons_ok _ _ _ [] _ [] b0 rfl]
    simp [List.reduceOption]
  · have b0 : samesign.getJetFlags_unc_body P4.ops edgeEvent edgeUncertainty (-1) 30 0 true
        = .ok false := by
      rw [getJetFlags_unc_body_eq P4.ops edgeEvent edgeUncertainty (-1) 30 0 1 ⟨50, 11 / 2, 0⟩
        rfl rfl, edgeEvent_unclamped]
      simp only [P4.ops]
      norm_num [abs_of_pos]
    unfold samesign.getJetFlags_unc
    rw [hfirst]
    simp only [Except.bind, cassert, edgeEvent, List.length_cons, List.length_nil,
      beq_self_eq_true, if_true]
    exact forIndexed_cons_ok _ _ _ [] _ [] b0 rfl

/-- C13, amended. In `samesign::getAllCorrectedJets` with a corrector and an
uncertainty, entry `i` equals `raw_i * s_i * (1 + direction * u_i)`, where
`s_i` is the corrector scale for rho, the area, the raw pt and the raw eta of
jet `i`, and `u_i` is the uncertainty at the pt of `raw_i * s_i` and at the eta
of `raw_i * s_i` clamped into the interval from -5.1999 to 5.1999. Where that
eta lies in the interval the entry is the momentum with the uncertainty read at
the eta itself. The call returns exactly when every raw jet has an area. -/
theorem C13_correction_then_clamped_shift {V : Type} (K : LorentzOps V) (ev : Event V)
    (jc : FactorizedJetCorrector) (ju : JetCorrectionUncertainty) (dir : Int) (type : JetType)
    (sort_by_pt : Bool) :
    (∀ out, samesign.getAllCorrectedJets_otf_unc K ev type jc ju dir sort_by_pt = .ok out →
      out.length = ev.pfjets_p4.length ∧
      ∀ (i : Nat) (raw : V), ev.pfjets_p4[i]? = some raw →
        ∃ area s u : ℚ, ev.pfjets_area[i]? = some area ∧
          s = jc.correction ev.evt_ww_rho_vor area (K.pt raw) (K.eta raw) ∧
          u = ju.uncertainty (K.pt (K.scale raw s)) (clampEta (K.eta (K.scale raw s))) ∧
          out[i]? = some (K.scale (K.scale raw s) (1 + (dir : ℚ) * u)) ∧
          (|K.eta (K.scale raw s)| ≤ 51999 / 10000 →
            samesign.combinedMomentum K ev jc ju dir i
              = .ok (K.scale (K.scale raw s) (1 + (dir : ℚ) * u)))) ∧
    ((∃ out, samesign.getAllCorrectedJets_otf_unc K ev type jc ju dir sort_by_pt = .ok out) ↔
      ev.pfjets_p4.length ≤ ev.pfjets_area.length) := by
  have hbody : ∀ (i : Nat) (raw r : V), ev.pfjets_p4[i]? = some raw →
      samesign.getAllCorrectedJets_otf_unc_body K ev jc ju dir i raw = .ok r →
      ∃ area : ℚ, ev.pfjets_area[i]? = some area ∧
        r = K.scale (K.scale raw
            (jc.correction ev.evt_ww_rho_vor area (K.pt raw) (K.eta raw)))
          (1 + (dir : ℚ) * ju.uncertainty
            (K.pt (K.scale raw (jc.correction ev.evt_ww_rho_vor area (K.pt raw) (K.eta raw))))
            (clampEta (K.eta (K.scale raw
              (jc.correction ev.evt_ww_rho_vor area (K.pt raw) (K.eta raw)))))) := by
    intro i raw r hraw h
    unfold samesign.getAllCorrectedJets_otf_unc_body at h
    cases ha : vat ev.pfjets_area i with
    | error e =>
      simp only [samesign.otfJEC, ha, Except.bind] at h
      cases h
    | ok area =>
      have hp : vat ev.pfjets_p4 i = .ok raw := (vat_eq_ok _ _ _).mpr hraw
      rw [otfJEC_eq K ev jc i area raw ha hp] at h
      simp only [Except.bind, Except.ok.injEq] at h
      refine ⟨area, (vat_eq_ok _ _ _).mp ha, ?_⟩
      rw [← h, applyUncClamped_eq]
  refine ⟨?_, ?_, ?_⟩
  · intro out h
    unfold samesign.getAllCorrectedJets_otf_unc at h
    refine ⟨forIndexed_length _ _ _ h, ?_⟩
    intro i raw hraw
    obtain ⟨r, hr1, hr2⟩ := forIndexed_getElem? _ _ _ h i raw hraw
    simp only [Nat.zero_add] at hr2
    obtain ⟨area, ha, hr⟩ := hbody i raw r hraw hr2
    refine ⟨area, _, _, ha, rfl, rfl, by rw [hr1, hr], ?_⟩
    intro hin
    simp only [samesign.combinedMomentum, (vat_eq_ok _ _ _).mpr ha, (vat_eq_ok _ _ _).mpr hraw,
      Except.bind, clampEta_of_abs_le _ hin]
  · rintro ⟨out, h⟩
    unfold samesign.getAllCorrectedJets_otf_unc at h
    by_contra hlt
    push_neg at hlt
    have hn1 : ev.pfjets_p4.length - 1 < ev.pfjets_p4.length := by omega
    obtain ⟨r, _, hr2⟩ := forIndexed_getElem? _ _ _ h (ev.pfjets_p4.length - 1) _
      (List.getElem?_eq_getElem hn1)
    simp only [Nat.zero_add] at hr2
    obtain ⟨area, ha, _⟩ := hbody _ _ r (List.getElem?_eq_getElem hn1) hr2
    have := (List.getElem?_eq_some_iff.mp ha).1
    omega
  · intro hle
    unfold samesign.getAllCorrectedJets_otf_unc
    apply forIndexed_total
    intro i x hx
    have hi : i < ev.pfjets_p4.length := (List.getElem?_eq_some_iff.mp hx).1
    simp only [Nat.zero_add, samesign.getAllCorrectedJets_otf_unc_body, samesign.otfJEC,
      vat_of_lt _ _ (by omega : i < ev.pfjets_area.length), vat_of_lt _ _ hi, Except.bind]
    exact ⟨_, rfl⟩

theorem edgeEvent_allCorrected_otf_unc :
    samesign.getAllCorrectedJets_otf_unc P4.ops edgeEvent .JETS_TYPE_PF_CORR unitCorrector
      edgeUncertainty 1 false = .ok [⟨105 / 2, 11 / 2, 0⟩] := by
  refine forIndexed_cons_ok _ _ _ [] _ [] ?_ rfl
  simp only [samesign.getAllCorrectedJets_otf_unc_body, Except.bind]
  rw [otfJEC_eq P4.ops edgeEvent unitCorrector 0 (1 / 2) ⟨50, 11 / 2, 0⟩ rfl rfl]
  simp [samesign.applyUncClamped, edgeUncertainty, unitCorrector,
    JetCorrectionUncertainty.setJetPt, JetCorrectionUncertainty.setJetEta,
    JetCorrectionUncertainty.getUncertainty, P4.ops, P4.etaOf]
  norm_num [abs_of_pos]

/-- C13, witness: on `edgeEvent` with a corrector of scale 1 the call returns
one momentum, raw jet 0 times 1 times `1 + u`, `u` read at the clamped eta. -/
theorem C13_correction_then_clamped_shift_witness :
    ([⟨105 / 2, 11 / 2, 0⟩] : List P4).length = edgeEvent.pfjets_p4.length ∧
    ∀ (i : Nat) (raw : P4), edgeEvent.pfjets_p4[i]? = some raw →
      ∃ area s u : ℚ, edgeEvent.pfjets_area[i]? = some area ∧
        s = unitCorrector.correction edgeEvent.evt_ww_rho_vor area (P4.ops.pt raw)
          (P4.ops.eta raw) ∧
        u = edgeUncertainty.uncertainty (P4.ops.pt (P4.ops.scale raw s))
          (clampEta (P4.ops.eta (P4.ops.scale raw s))) ∧
        ([⟨105 / 2, 11 / 2, 0⟩] : List P4)[i]? =
          some (P4.ops.scale (P4.ops.scale raw s) (1 + ((1 : Int) : ℚ) * u)) ∧
        (|P4.ops.eta (P4.ops.scale raw s)| ≤ 51999 / 10000 →
          samesign.combinedMomentum P4.ops edgeEvent unitCorrector edgeUncertainty 1 i
            = .ok (P4.ops.scale (P4.ops.scale raw s) (1 + ((1 : Int) : ℚ) * u))) :=
  (C13_correction_then_clamped_shift P4.ops edgeEvent unitCorrector edgeUncertainty 1
    .JETS_TYPE_PF_CORR false).1 _ edgeEvent_allCorrected_otf_unc

/-- C13, counterexample: on `edgeEvent` with a corrector of scale 1, direction 1
and an uncertainty of 1/20 inside the interval and 1/2 beyond, the function
returns the jet at pt 105/2, the uncertainty read at eta 5.1999, while
`raw * s * (1 + direction * u)` with `u` read at the eta of `raw * s`, 11/2, is
the jet at pt 75. -/
theorem C13_uncertainty_read_at_clamped_eta :
    samesign.getAllCorrectedJets_otf_unc P4.ops edgeEvent .JETS_TYPE_PF_CORR unitCorrector
      edgeUncertainty 1 false = .ok [⟨105 / 2, 11 / 2, 0⟩] ∧
    samesign.combinedMomentum P4.ops edgeEvent unitCorrector edgeUncertainty 1 0
      = .ok ⟨75, 11 / 2, 0⟩ ∧
    ¬ (∀ out, samesign.getAllCorrectedJets_otf_unc P4.ops edgeEvent .JETS_TYPE_PF_CORR
        unitCorrector edgeUncertainty 1 false = .ok out →
      ∀ (i : Nat) (v : P4),
        samesign.combinedMomentum P4.ops edgeEvent unitCorrector edgeUncertainty 1 i = .ok v →
        out[i]? = some v) := by
  have h1 := edgeEvent_allCorrected_otf_unc
  have h2 : samesign.combinedMomentum P4.ops edgeEvent unitCorrector edgeUncertainty 1 0
      = .ok ⟨75, 11 / 2, 0⟩ := by
    simp only [samesign.combinedMomentum, Except.bind]
    rw [show vat edgeEvent.pfjets_area 0 = .ok (1 / 2) from rfl,
      show vat edgeEvent.pfjets_p4 0 = .ok ⟨50, 11 / 2, 0⟩ from rfl]
    simp [edgeUncertainty, unitCorrector, P4.ops, P4.etaOf]
    norm_num [abs_of_pos]
  refine ⟨h1, h2, ?_⟩
  intro h
  have h3 := h _ h1 0 _ h2
  simp only [List.getElem?_cons_zero, Option.some.injEq, P4.mk.injEq] at h3
  norm_num at h3

/-! ## Rescale and systematic shift -/

/-- A flag loop whose body leaves a false flag false: flag `i` of the result is
true exactly when flag `i` of the input is true and the body returns true on
it. -/
theorem flagLoop_true_iff (body : Nat → Bool → Result Bool)
    (hfalse : ∀ j, body j false = .ok false) (tmp : List Bool) (k : Nat) (fl : List Bool)
    (h : forIndexed body k tmp = .ok fl) (i : Nat) :
    fl[i]? = some true ↔ (tmp[i]? = some true ∧ body (k + i) true = .ok true) := by
  constructor
  · intro hi
    have ht := (flagLoop_sound body hfalse tmp k fl h).2 i hi
    obtain ⟨r, hr1, hr2⟩ := forIndexed_getElem? tmp k fl h i true ht
    rw [hi] at hr1
    simp only [Option.some.injEq] at hr1
    subst hr1
    exact ⟨ht, hr2⟩
  · rintro ⟨ht, hb⟩
    obtain ⟨r, hr1, hr2⟩ := forIndexed_getElem? tmp k fl h i true ht
    rw [hb] at hr2
    simp only [Except.ok.injEq] at hr2
    rw [hr1, ← hr2]

section rescale

variable {V : Type} (K : LorentzOps V) (ev : Event V) (X : Collab V)

theorem getJetFlags_body_true_iff (deltaR min_pt mu_minpt ele_minpt rescale : ℚ)
    (systFlag : Int) (j : Nat) :
    samesign.getJetFlags_body K ev X deltaR min_pt mu_minpt ele_minpt rescale systFlag j true
        = .ok true ↔
      ∃ (c : ℚ) (raw : V), samesign.storedJEC ev j = .ok c ∧ ev.pfjets_p4[j]? = some raw ∧
        min_pt ≤ K.pt (samesign.applySyst K X systFlag (K.scale (K.scale raw c) rescale)) ∧
        samesign.jetIsLep K ev X
          (samesign.applySyst K X systFlag (K.scale (K.scale raw c) rescale))
          deltaR mu_minpt ele_minpt = false := by
  constructor
  · intro h
    cases hc : samesign.storedJEC ev j with
    | error e => simp [samesign.getJetFlags_body, hc, Except.bind] at h
    | ok c =>
      cases hp : vat ev.pfjets_p4 j with
      | error e => simp [samesign.getJetFlags_body, hc, hp, Except.bind] at h
      | ok raw =>
        rw [getJetFlags_body_eq K ev X deltaR min_pt mu_minpt ele_minpt rescale systFlag j c raw _
          hc hp rfl] at h
        simp only [Except.ok.injEq, Bool.and_eq_true, Bool.not_eq_true', decide_eq_false_iff_not,
          not_lt] at h
        exact ⟨c, raw, rfl, (vat_eq_ok _ _ _).mp hp, h.1, h.2⟩
  · rintro ⟨c, raw, hc, hp, h1, h2⟩
    rw [getJetFlags_body_eq K ev X deltaR min_pt mu_minpt ele_minpt rescale systFlag j c raw _
      hc ((vat_eq_ok _ _ _).mpr hp) rfl, h2]
    simp [not_lt.mpr h1]

theorem getJetFlags_otf_body_true_iff (jc : FactorizedJetCorrector) (min_pt rescale : ℚ)
    (systFlag : Int) (j : Nat) :
    samesign.getJetFlags_otf_body K ev X jc min_pt rescale systFlag j true = .ok true ↔
      ∃ (s : ℚ) (raw : V), samesign.otfJEC K ev jc j = .ok s ∧ ev.pfjets_p4[j]? = some raw ∧
        min_pt ≤ K.pt (samesign.applySyst K X systFlag (K.scale (K.scale raw s) rescale)) := by
  constructor
  · intro h
    cases hc : samesign.otfJEC K ev jc j with
    | error e => simp [samesign.getJetFlags_otf_body, hc, Except.bind] at h
    | ok c =>
      cases hp : vat ev.pfjets_p4 j with
      | error e => simp [samesign.getJetFlags_otf_body, hc, hp, Except.bind] at h
      | ok raw =>
        rw [getJetFlags_otf_body_eq K ev X jc min_pt rescale systFlag j c raw _ hc hp rfl] at h
        simp only [Except.ok.injEq, Bool.not_eq_true', decide_eq_false_iff_not, not_lt] at h
        exact ⟨c, raw, rfl, (vat_eq_ok _ _ _).mp hp, h⟩
  · rintro ⟨c, raw, hc, hp, h1⟩
    rw [getJetFlags_otf_body_eq K ev X jc min_pt rescale systFlag j c raw _ hc
      ((vat_eq_ok _ _ _).mpr hp) rfl]
    simp [not_lt.mpr h1]

theorem getJets_otf_body_some_iff (jc : FactorizedJetCorrector) (min_pt rescale : ℚ)
    (systFlag : Int) (j : Nat) (flag : Bool) (v : V)
    (h : samesign.getJets_otf_body K ev X jc min_pt rescale systFlag j flag = .ok (some v)) :
    ∃ (s : ℚ) (raw : V), samesign.otfJEC K ev jc j = .ok s ∧ ev.pfjets_p4[j]? = some raw ∧
      v = samesign.applySyst K X systFlag (K.scale raw (s * rescale)) ∧ min_pt ≤ K.pt v := by
  cases flag with
  | false => simp [samesign.getJets_otf_body] at h
  | true =>
    cases hc : samesign.otfJEC K ev jc j with
    | error e =>
      simp only [samesign.getJets_otf_body, hc, Except.bind, Bool.not_true, Bool.false_eq_true,
        if_false] at h
      cases hp : vat ev.pfjets_p4 j with
      | error e2 => rw [hp] at h; cases h
      | ok raw => rw [hp] at h; cases h
    | ok c =>
      cases hp : vat ev.pfjets_p4 j with
      | error e =>
        simp only [samesign.getJets_otf_body, hp, Except.bind, Bool.not_true, Bool.false_eq_true,
          if_false] at h
        cases h
      | ok raw =>
        rw [getJets_otf_body_eq K ev X jc min_pt rescale systFlag j c raw _ hc hp rfl] at h
        simp only [Except.ok.injEq] at h
        split at h
        · cases h
        · rename_i hlt
          simp only [Option.some.injEq] at h
          refine ⟨c, raw, rfl, (vat_eq_ok _ _ _).mp hp, h.symm, ?_⟩
          rw [← h]
          exact not_lt.mp hlt

end rescale

/-- C14, amended. In `samesign::getJetFlags` with the JEC of the ntuple or of a
corrector and in `samesign::getJets` with a corrector, the rescale is applied
after the correction and before the systematic shift: the momentum compared
with `min_pt` is `raw * correction * rescale * c`, where the shift factor `c`
is read at the pt and eta of the corrected and rescaled momentum
`raw * correction * rescale`. A flag is true exactly when the flag of the stage
before is true and that momentum has `pt >= min_pt` (and, with the JEC of the
ntuple, overlaps no lepton); every jet returned is such a momentum with
`pt >= min_pt`. The function `samesign::getJets` with the JEC of the ntuple
hands rescale and flag to the base `getJets` and keeps momenta it returned that
have `pt >= min_pt`. -/
theorem C14_rescale_before_shift {V : Type} (K : LorentzOps V) (ev : Event V) (X : Collab V)
    (idx : Int) (jc : FactorizedJetCorrector) (type : JetType)
    (deltaR min_pt max_eta mu_minpt ele_minpt rescale : ℚ) (systFlag : Int) :
    (∀ fl, samesign.getJetFlags K ev X idx type deltaR min_pt max_eta mu_minpt ele_minpt rescale
        systFlag = .ok fl →
      ∃ base, X.base_getJetFlags (toUnsigned idx) type .JETS_CLEAN_HYP_E_MU deltaR 0 max_eta
          rescale (some systFlag) = .ok base ∧
        ∀ i : Nat, (fl[i]? = some true ↔ (base[i]? = some true ∧
          ∃ (c : ℚ) (raw : V), samesign.storedJEC ev i = .ok c ∧ ev.pfjets_p4[i]? = some raw ∧
            min_pt ≤ K.pt (samesign.applySyst K X systFlag (K.scale (K.scale raw c) rescale)) ∧
            samesign.jetIsLep K ev X
              (samesign.applySyst K X systFlag (K.scale (K.scale raw c) rescale))
              deltaR mu_minpt ele_minpt = false))) ∧
    (∀ fl, samesign.getJetFlags_otf K ev X idx jc type deltaR min_pt max_eta mu_minpt ele_minpt
        rescale systFlag = .ok fl →
      ∃ first, samesign.getJetFlags K ev X idx type deltaR 0 max_eta mu_minpt ele_minpt rescale
          systFlag = .ok first ∧
        ∀ i : Nat, (fl[i]? = some true ↔ (first[i]? = some true ∧
          ∃ (s : ℚ) (raw : V), samesign.otfJEC K ev jc i = .ok s ∧ ev.pfjets_p4[i]? = some raw ∧
            min_pt ≤
              K.pt (samesign.applySyst K X systFlag (K.scale (K.scale raw s) rescale))))) ∧
    (∀ (sort_by_pt : Bool) (js : List V),
      samesign.getJets_otf K ev X idx jc type deltaR min_pt max_eta mu_minpt ele_minpt rescale
        systFlag sort_by_pt = .ok js →
      ∀ v ∈ js, ∃ (i : Nat) (s : ℚ) (raw : V), samesign.otfJEC K ev jc i = .ok s ∧
        ev.pfjets_p4[i]? = some raw ∧
        v = samesign.applySyst K X systFlag (K.scale raw (s * rescale)) ∧ min_pt ≤ K.pt v) ∧
    (∀ v : V, systFlag ≠ 0 →
      samesign.applySyst K X systFlag v =
        K.scale v (X.getJetMetSyst systFlag (K.pt v) (K.eta v))) ∧
    (∀ v : V, samesign.applySyst K X 0 v = v) ∧
    (∀ (sort_by_pt : Bool) (js : List V),
      samesign.getJets K ev X idx type deltaR min_pt max_eta mu_minpt ele_minpt rescale systFlag
        sort_by_pt = .ok js →
      ∃ tmp_jets, X.base_getJets (toUnsigned idx) sort_by_pt type .JETS_CLEAN_HYP_E_MU deltaR 0
          max_eta rescale (some systFlag) = .ok tmp_jets ∧
        ∀ v ∈ js, v ∈ tmp_jets ∧ min_pt ≤ K.pt v) := by
  refine ⟨?_, ?_, ?_, ?_, ?_, ?_⟩
  · intro fl h
    unfold samesign.getJetFlags at h
    cases hb : X.base_getJetFlags (toUnsigned idx) type .JETS_CLEAN_HYP_E_MU deltaR 0 max_eta
        rescale (some systFlag) with
    | error e => rw [hb] at h; cases h
    | ok base =>
      rw [hb] at h
      simp only [Except.bind] at h
      refine ⟨base, rfl, ?_⟩
      intro i
      rw [flagLoop_true_iff _
        (getJetFlags_body_false K ev X deltaR min_pt mu_minpt ele_minpt rescale systFlag) base 0 fl
        h i, Nat.zero_add, getJetFlags_body_true_iff]
  · intro fl h
    unfold samesign.getJetFlags_otf at h
    cases hb : samesign.getJetFlags K ev X idx type deltaR 0 max_eta mu_minpt ele_minpt rescale
        systFlag with
    | error e => rw [hb] at h; cases h
    | ok first =>
      rw [hb] at h
      simp only [Except.bind] at h
      cases ha : cassert (first.length == ev.pfjets_p4.length) with
      | error e => rw [ha] at h; cases h
      | ok u =>
        rw [ha] at h
        simp only at h
        refine ⟨first, rfl, ?_⟩
        intro i
        rw [flagLoop_true_iff _ (getJetFlags_otf_body_false K ev X jc min_pt rescale systFlag)
          first 0 fl h i, Nat.zero_add, getJetFlags_otf_body_true_iff]
  · intro sort_by_pt js h v hv
    unfold samesign.getJets_otf at h
    split at h
    · simp only [Except.ok.injEq] at h
      subst h
      simp at hv
    · cases hb : samesign.getJetFlags K ev X idx type deltaR 0 max_eta mu_minpt ele_minpt rescale
          systFlag with
      | error e => rw [hb] at h; cases h
      | ok first =>
        rw [hb] at h
        simp only [Except.bind] at h
        cases hp : forIndexed (samesign.getJets_otf_body K ev X jc min_pt rescale systFlag) 0
            first with
        | error e => rw [hp] at h; cases h
        | ok pushed =>
          rw [hp] at h
          simp only at h
          have hmem : v ∈ pushed.reduceOption := by
            split at h
            · simp only [Except.ok.injEq] at h
              subst h
              exact (sort_perm _ _).mem_iff.mp hv
            · simp only [Except.ok.injEq] at h
              subst h
              exact hv
          have hsome : some v ∈ pushed := List.reduceOption_mem_iff.mp hmem
          obtain ⟨i, hi⟩ := List.getElem?_of_mem hsome
          have hlen := forIndexed_length first 0 pushed hp
          have hi2 : i < first.length := hlen ▸ (List.getElem?_eq_some_iff.mp hi).1
          obtain ⟨r, hr1, hr2⟩ := forIndexed_getElem? first 0 pushed hp i first[i]
            (List.getElem?_eq_getElem hi2)
          rw [hi] at hr1
          simp only [Option.some.injEq] at hr1
          subst hr1
          simp only [Nat.zero_add] at hr2
          obtain ⟨s, raw, h1, h2, h3, h4⟩ :=
            getJets_otf_body_some_iff K ev X jc min_pt rescale systFlag i _ v hr2
          exact ⟨i, s, raw, h1, h2, h3, h4⟩
  · intro v hs
    simp [samesign.applySyst, hs]
  · intro v
    simp [samesign.applySyst]
  · intro sort_by_pt js h
    unfold samesign.getJets at h
    cases hb : X.base_getJets (toUnsigned idx) sort_by_pt type .JETS_CLEAN_HYP_E_MU deltaR 0
        max_eta rescale (some systFlag) with
    | error e => rw [hb] at h; cases h
    | ok tmp_jets =>
      rw [hb] at h
      simp only [Except.bind] at h
      refine ⟨tmp_jets, rfl, ?_⟩
      intro v hv
      have hmem : v ∈ tmp_jets.filter fun vjet =>
          !decide (K.pt vjet < min_pt) &&
            !samesign.jetIsLep K ev X vjet deltaR mu_minpt ele_minpt := by
        split at h
        · simp only [Except.ok.injEq] at h
          subst h
          exact (sort_perm _ _).mem_iff.mp hv
        · simp only [Except.ok.injEq] at h
          subst h
          exact hv
      obtain ⟨h1, h2⟩ := List.mem_filter.mp hmem
      simp only [Bool.and_eq_true, Bool.not_eq_true', decide_eq_false_iff_not, not_lt] at h2
      exact ⟨h1, h2.1⟩

theorem shiftEvent_flags_52 :
    samesign.getJetFlags P4.ops shiftEvent shiftCollab 0 .JETS_TYPE_PF_CORR (2 / 5) 52 (5 / 2)
      20 20 (21 / 20) 1 = .ok [true, false] := by
  have hb : shiftCollab.base_getJetFlags (toUnsigned 0) .JETS_TYPE_PF_CORR
      .JETS_CLEAN_HYP_E_MU (2 / 5) 0 (5 / 2) (21 / 20) (some 1) = .ok [true, true] :=
    shiftEvent_base_flags
  have hs : ∀ v : P4, P4.ops.scale (P4.ops.scale v 1) (21 / 20) = P4.ops.scale v (1 * (21 / 20)) :=
    fun v => P4.ops_lawful.scale_scale v 1 (21 / 20)
  have hl : ∀ v : P4, samesign.jetIsLep P4.ops shiftEvent shiftCollab v (2 / 5) 20 20 = false := by
    intro v
    simp [samesign.jetIsLep, samesign.leptonLoop, shiftEvent]
  have b0 : samesign.getJetFlags_body P4.ops shiftEvent shiftCollab (2 / 5) 52 20 20 (21 / 20) 1
      0 true = .ok true := by
    rw [getJetFlags_body_eq P4.ops shiftEvent shiftCollab (2 / 5) 52 20 20 (21 / 20) 1 0 1
      ⟨52, 0, 0⟩ ⟨273 / 5, 0, 0⟩ rfl rfl (by rw [hs]; exact shiftEvent_rescaled_first), hl]
    simp only [P4.ops]
    norm_num [abs_of_pos]
  have b1 : samesign.getJetFlags_body P4.ops shiftEvent shiftCollab (2 / 5) 52 20 20 (21 / 20) 1
      1 true = .ok false := by
    rw [getJetFlags_body_eq P4.ops shiftEvent shiftCollab (2 / 5) 52 20 20 (21 / 20) 1 1 1
      ⟨48, 2, 1⟩ ⟨252 / 5, 2, 1⟩ rfl rfl (by rw [hs]; exact shiftEvent_rescaled_second), hl]
    simp only [P4.ops]
    norm_num [abs_of_pos]
  unfold samesign.getJetFlags
  rw [hb]
  exact forIndexed_cons_ok _ _ _ _ _ _ b0 (forIndexed_cons_ok _ _ _ [] _ [] b1 rfl)

theorem shiftEvent_shiftThenRescale :
    samesign.shiftThenRescale P4.ops shiftCollab 1 (21 / 20) ⟨48, 2, 1⟩ 1
      = ⟨1386 / 25, 2, 1⟩ := by
  unfold samesign.shiftThenRescale
  rw [shiftEvent_unrescaled_second]
  simp only [P4.ops]
  norm_num

/-- C14, witness: on `shiftEvent` with rescale 21/20, the binned shift and
`min_pt = 52` the flags true, false are those of the rescaled and then shifted
momenta. -/
theorem C14_rescale_before_shift_witness :
    ∃ base, shiftCollab.base_getJetFlags (toUnsigned 0) .JETS_TYPE_PF_CORR .JETS_CLEAN_HYP_E_MU
        (2 / 5) 0 (5 / 2) (21 / 20) (some 1) = .ok base ∧
      ∀ i : Nat, (([true, false] : List Bool)[i]? = some true ↔ (base[i]? = some true ∧
        ∃ (c : ℚ) (raw : P4), samesign.storedJEC shiftEvent i = .ok c ∧
          shiftEvent.pfjets_p4[i]? = some raw ∧
          52 ≤ P4.ops.pt (samesign.applySyst P4.ops shiftCollab 1
            (P4.ops.scale (P4.ops.scale raw c) (21 / 20))) ∧
          samesign.jetIsLep P4.ops shiftEvent shiftCollab
            (samesign.applySyst P4.ops shiftCollab 1
              (P4.ops.scale (P4.ops.scale raw c) (21 / 20))) (2 / 5) 20 20 = false)) :=
  (C14_rescale_before_shift P4.ops shiftEvent shiftCollab 0 unitCorrector .JETS_TYPE_PF_CORR
    (2 / 5) 52 (5 / 2) 20 20 (21 / 20) 1).1 _ shiftEvent_flags_52

/-- C14, counterexample: `shiftEvent` with rescale 21/20, the binned shift
and `min_pt = 52`. Raw jet 1 (pt 48 at eta 2, stored factor 1, first-stage flag
true, no lepton in the event) has `raw * correction * c * rescale` of pt
1386/25, the factor 11/10 read at pt 48, which is above `min_pt`; the code
compares pt 252/5, the factor 1 read at the rescaled pt 252/5, and returns a
false flag, with the JEC of the ntuple and with a corrector of scale 1, and
`samesign::getJets` with the corrector drops the jet. -/
theorem C14_shift_read_after_rescale :
    shiftCollab.base_getJetFlags (toUnsigned 0) .JETS_TYPE_PF_CORR .JETS_CLEAN_HYP_E_MU (2 / 5) 0
      (5 / 2) (21 / 20) (some 1) = .ok [true, true] ∧
    samesign.storedJEC shiftEvent 1 = .ok 1 ∧
    shiftEvent.pfjets_p4[1]? = some ⟨48, 2, 1⟩ ∧
    samesign.shiftThenRescale P4.ops shiftCollab 1 (21 / 20) ⟨48, 2, 1⟩ 1
      = ⟨1386 / 25, 2, 1⟩ ∧
    P4.ops.pt (⟨1386 / 25, 2, 1⟩ : P4) ≥ 52 ∧
    samesign.jetIsLep P4.ops shiftEvent shiftCollab ⟨1386 / 25, 2, 1⟩ (2 / 5) 20 20 = false ∧
    samesign.applySyst P4.ops shiftCollab 1
      (P4.ops.scale (P4.ops.scale ⟨48, 2, 1⟩ 1) (21 / 20)) = ⟨252 / 5, 2, 1⟩ ∧
    P4.ops.pt (⟨252 / 5, 2, 1⟩ : P4) < 52 ∧
    samesign.getJetFlags P4.ops shiftEvent shiftCollab 0 .JETS_TYPE_PF_CORR (2 / 5) 52 (5 / 2)
      20 20 (21 / 20) 1 = .ok [true, false] ∧
    samesign.getJetFlags_otf P4.ops shiftEvent shiftCollab 0 unitCorrector .JETS_TYPE_PF_CORR
      (2 / 5) 52 (5 / 2) 20 20 (21 / 20) 1 = .ok [true, false] ∧
    samesign.getJets_otf P4.ops shiftEvent shiftCollab 0 unitCorrector .JETS_TYPE_PF_CORR
      (2 / 5) 52 (5 / 2) 20 20 (21 / 20) 1 false = .ok [⟨273 / 5, 0, 0⟩] ∧
    ¬ (∀ (fl : List Bool) (i : Nat) (raw : P4) (c : ℚ),
        samesign.getJetFlags P4.ops shiftEvent shiftCollab 0 .JETS_TYPE_PF_CORR (2 / 5) 52
          (5 / 2) 20 20 (21 / 20) 1 = .ok fl →
        samesign.storedJEC shiftEvent i = .ok c → shiftEvent.pfjets_p4[i]? = some raw →
        (fl[i]? = some true ↔
          52 ≤ P4.ops.pt (samesign.shiftThenRescale P4.ops shiftCollab 1 (21 / 20) raw c))) := by
  have hs : ∀ v : P4, P4.ops.scale (P4.ops.scale v 1) (21 / 20) = P4.ops.scale v (1 * (21 / 20)) :=
    fun v => P4.ops_lawful.scale_scale v 1 (21 / 20)
  have hpt : P4.ops.pt (⟨1386 / 25, 2, 1⟩ : P4) ≥ 52 := by
    simp only [P4.ops]
    norm_num [abs_of_pos]
  refine ⟨shiftEvent_base_flags, rfl, rfl, shiftEvent_shiftThenRescale, hpt, ?_, ?_, ?_,
    shiftEvent_flags_52, ?_, ?_, ?_⟩
  · simp [samesign.jetIsLep, samesign.leptonLoop, shiftEvent]
  · rw [hs]
    exact shiftEvent_rescaled_second
  · simp only [P4.ops]
    norm_num [abs_of_pos]
  · have b0 : samesign.getJetFlags_otf_body P4.ops shiftEvent shiftCollab unitCorrector 52
        (21 / 20) 1 0 true = .ok true := by
      rw [getJetFlags_otf_body_eq P4.ops shiftEvent shiftCollab unitCorrector 52 (21 / 20) 1 0 1
        ⟨52, 0, 0⟩ ⟨273 / 5, 0, 0⟩ (shiftEvent_otfJEC 0 (by omega)) rfl
        (by rw [hs]; exact shiftEvent_rescaled_first)]
      simp only [P4.ops]
      norm_num [abs_of_pos]
    have b1 : samesign.getJetFlags_otf_body P4.ops shiftEvent shiftCollab unitCorrector 52
        (21 / 20) 1 1 true = .ok false := by
      rw [getJetFlags_otf_body_eq P4.ops shiftEvent shiftCollab unitCorrector 52 (21 / 20) 1 1 1
        ⟨48, 2, 1⟩ ⟨252 / 5, 2, 1⟩ (shiftEvent_otfJEC 1 (by omega)) rfl
        (by rw [hs]; exact shiftEvent_rescaled_second)]
      simp only [P4.ops]
      norm_num [abs_of_pos]
    unfold samesign.getJetFlags_otf
    rw [shiftEvent_flags]
    simp only [Except.bind, cassert, shiftEvent, List.length_cons, List.length_nil,
      beq_self_eq_true, if_true]
    exact forIndexed_cons_ok _ _ _ _ _ _ b0 (forIndexed_cons_ok _ _ _ [] _ [] b1 rfl)
  · have b0 : samesign.getJets_otf_body P4.ops shiftEvent shiftCollab unitCorrector 52 (21 / 20) 1
        0 true = .ok (some ⟨273 / 5, 0, 0⟩) := by
      rw [getJets_otf_body_eq P4.ops shiftEvent shiftCollab unitCorrector 52 (21 / 20) 1 0 1
        ⟨52, 0, 0⟩ ⟨273 / 5, 0, 0⟩ (shiftEvent_otfJEC 0 (by omega)) rfl
        shiftEvent_rescaled_first]
      simp only [P4.ops]
      norm_num [abs_of_pos]
    have b1 : samesign.getJets_otf_body P4.ops shiftEvent shiftCollab unitCorrector 52 (21 / 20) 1
        1 true = .ok none := by
      rw [getJets_otf_body_eq P4.ops shiftEvent shiftCollab unitCorrector 52 (21 / 20) 1 1 1
        ⟨48, 2, 1⟩ ⟨252 / 5, 2, 1⟩ (shiftEvent_otfJEC 1 (by omega)) rfl
        shiftEvent_rescaled_second]
      simp only [P4.ops]
      norm_num [abs_of_pos]
    have hl : forIndexed (samesign.getJets_otf_body P4.ops shiftEvent shiftCollab unitCorrector 52
        (21 / 20) 1) 0 [true, true] = .ok [some ⟨273 / 5, 0, 0⟩, none] :=
      forIndexed_cons_ok _ _ _ _ _ _ b0 (forIndexed_cons_ok _ _ _ [] _ [] b1 rfl)
    unfold samesign.getJets_otf
    rw [shiftEvent_flags]
    simp only [samesign.isParticleFlow, Except.bind, hl]
    simp [List.reduceOption]
  · intro h
    have h1 := (h _ 1 ⟨48, 2, 1⟩ 1 shiftEvent_flags_52 rfl rfl).mpr
      (by rw [shiftEvent_shiftThenRescale]; exact hpt)
    simp at h1

/-- C15, amended. `samesign::getJets` with an on-the-fly corrector, called with
a jet type that is not one of the four particle-flow types, returns the empty
jet list: no error is raised and the event is not read. -/
theorem C15_unsupported_type_gives_empty_list {V : Type} (K : LorentzOps V) (ev : Event V)
    (X : Collab V) (idx : Int) (jc : FactorizedJetCorrector) (type : JetType)
    (deltaR min_pt max_eta mu_minpt ele_minpt rescale : ℚ) (systFlag : Int) (sort_by_pt : Bool)
    (htype : type ≠ .JETS_TYPE_PF_FAST_CORR_RESIDUAL ∧ type ≠ .JETS_TYPE_PF_FAST_CORR ∧
      type ≠ .JETS_TYPE_PF_CORR ∧ type ≠ .JETS_TYPE_PF_UNCORR) :
    samesign.getJets_otf K ev X idx jc type deltaR min_pt max_eta mu_minpt ele_minpt rescale
      systFlag sort_by_pt = .ok [] := by
  obtain ⟨h1, h2, h3, h4⟩ := htype
  unfold samesign.getJets_otf
  rw [if_pos]
  cases type <;> simp_all [samesign.isParticleFlow]

/-- C15, witness: the JPT type on the dijet event. -/
theorem C15_unsupported_type_gives_empty_list_witness :
    samesign.getJets_otf P4.ops dijetEvent (plainCollab P4.ops dijetEvent) 0 flatCorrector
      .JETS_TYPE_JPT (2 / 5) 30 (5 / 2) 20 20 1 0 true = .ok [] :=
  C15_unsupported_type_gives_empty_list P4.ops dijetEvent (plainCollab P4.ops dijetEvent) 0
    flatCorrector .JETS_TYPE_JPT (2 / 5) 30 (5 / 2) 20 20 1 0 true
    ⟨by decide, by decide, by decide, by decide⟩

/-- C15, counterexample: for calorimeter jets on the dijet event the call
returns, and what it returns is the empty list. -/
theorem C15_calo_type_returns :
    samesign.getJets_otf P4.ops dijetEvent (plainCollab P4.ops dijetEvent) 0 flatCorrector
      .JETS_TYPE_CALO_CORR (2 / 5) 30 (5 / 2) 20 20 1 0 false = .ok [] ∧
    ¬ (∃ e, samesign.getJets_otf P4.ops dijetEvent (plainCollab P4.ops dijetEvent) 0
      flatCorrector .JETS_TYPE_CALO_CORR (2 / 5) 30 (5 / 2) 20 20 1 0 false = .error e) := by
  have h : samesign.getJets_otf P4.ops dijetEvent (plainCollab P4.ops dijetEvent) 0 flatCorrector
      .JETS_TYPE_CALO_CORR (2 / 5) 30 (5 / 2) 20 20 1 0 false = .ok [] := by
    simp [samesign.getJets_otf, samesign.isParticleFlow]
  refine ⟨h, ?_⟩
  rintro ⟨e, he⟩
  rw [h] at he
  cases he

/-! ## MC flavour of the selected jets: facts -/

section mcMatch

variable {V : Type} (K : LorentzOps V)

/-- The pairing loop can only end in `std::out_of_range`. -/
theorem mcMatchLoop_error (jets_p4 : List V) (table : List Int) :
    ∀ (flags : List Bool) (jidx good : Nat) (e : Fault),
      mcMatchLoop jets_p4 table jidx good flags = .error e → e = .out_of_range := by
  intro flags
  induction flags with
  | nil => intro jidx good e h; simp [mcMatchLoop] at h
  | cons f fs ih =>
    intro jidx good e h
    cases f with
    | false =>
      simp only [mcMatchLoop, Bool.not_false, if_true] at h
      exact ih _ _ _ h
    | true =>
      simp only [mcMatchLoop, Bool.not_true, Bool.false_eq_true, if_false] at h
      unfold vat at h
      cases h1 : jets_p4[good]? with
      | none =>
        simp only [h1, Except.bind, Except.error.injEq] at h
        exact h.symm
      | some p4 =>
        cases h2 : table[jidx]? with
        | none =>
          simp only [h1, h2, Except.bind, Except.error.injEq] at h
          exact h.symm
        | some m =>
          simp only [h1, h2, Except.bind] at h
          cases h3 : mcMatchLoop jets_p4 table (jidx + 1) (good + 1) fs with
          | error e2 =>
            rw [h3] at h
            simp only [Except.error.injEq] at h
            subst h
            exact ih _ _ _ h3
          | ok rest => rw [h3] at h; cases h

/-- With a flavour entry for every flag and a momentum for every true flag the
pairing loop returns: the momenta are the next ones of `jets_p4`, in order, and
the labels are the table entries at the positions of the true flags. -/
theorem mcMatchLoop_spec (jets_p4 : List V) (table : List Int) :
    ∀ (flags : List Bool) (jidx good : Nat), jidx + flags.length ≤ table.length →
      good + flags.count true ≤ jets_p4.length →
      ∃ labels : List Int,
        mcMatchLoop jets_p4 table jidx good flags
          = .ok (((jets_p4.drop good).take (flags.count true)).zip labels) ∧
        labels.length = flags.count true ∧
        List.Forall₂ (fun (m : Int) (i : Nat) => table[i]? = some m) labels
          (trueIndices jidx flags) := by
  intro flags
  induction flags with
  | nil =>
    intro jidx good _ _
    exact ⟨[], by simp [mcMatchLoop], rfl, List.Forall₂.nil⟩
  | cons f fs ih =>
    intro jidx good h1 h2
    cases f with
    | false =>
      simp only [List.length_cons] at h1
      have h2' : good + fs.count true ≤ jets_p4.length := by simpa using h2
      obtain ⟨labels, hl1, hl2, hl3⟩ := ih (jidx + 1) good (by omega) h2'
      refine ⟨labels, ?_, by simpa using hl2, by simpa [trueIndices] using hl3⟩
      simp only [mcMatchLoop, Bool.not_false, if_true, hl1]
      simp
    | true =>
      simp only [List.length_cons] at h1
      have hc : (true :: fs).count true = fs.count true + 1 := by simp
      rw [hc] at h2
      obtain ⟨labels, hl1, hl2, hl3⟩ := ih (jidx + 1) (good + 1) (by omega) (by omega)
      have hg : good < jets_p4.length := by omega
      have hj : jidx < table.length := by omega
      refine ⟨table[jidx] :: labels, ?_, by simp [hl2], ?_⟩
      · simp only [mcMatchLoop, Bool.not_true, Bool.false_eq_true, if_false, vat_of_lt _ _ hg,
          vat_of_lt _ _ hj, Except.bind, hl1, hc]
        rw [List.drop_eq_getElem_cons hg, List.take_succ_cons, List.zip_cons_cons]
      · simp only [trueIndices]
        exact List.Forall₂.cons (List.getElem?_eq_getElem hj) hl3

/-- With fewer momenta than true flags the pairing loop ends in
`std::out_of_range`. -/
theorem mcMatchLoop_short (jets_p4 : List V) (table : List Int) :
    ∀ (flags : List Bool) (jidx good : Nat), good ≤ jets_p4.length →
      jets_p4.length < good + flags.count true →
      mcMatchLoop jets_p4 table jidx good flags = .error .out_of_range := by
  intro flags
  induction flags with
  | nil => intro jidx good hg h; simp at h; omega
  | cons f fs ih =>
    intro jidx good hg h
    cases f with
    | false =>
      simp only [mcMatchLoop, Bool.not_false, if_true]
      exact ih _ _ hg (by simpa using h)
    | true =>
      have hc : (true :: fs).count true = fs.count true + 1 := by simp
      rw [hc] at h
      simp only [mcMatchLoop, Bool.not_true, Bool.false_eq_true, if_false]
      unfold vat
      cases h1 : jets_p4[good]? with
      | none => rfl
      | some p4 =>
        cases h2 : table[jidx]? with
        | none => rfl
        | some m =>
          have hlt : good < jets_p4.length := (List.getElem?_eq_some_iff.mp h1).1
          simp only [Except.bind]
          rw [ih (jidx + 1) (good + 1) (by omega) (by omega)]

theorem mcMatchOf_runtime_error_iff (table : List Int) (jets_p4 : List V) (jets_flag : List Bool)
    (sort_by_pt : Bool) :
    mcMatchOf K table jets_p4 jets_flag sort_by_pt = .error .runtime_error ↔
      jets_flag.length ≠ table.length := by
  unfold mcMatchOf
  constructor
  · intro h
    by_contra hne
    rw [if_neg (not_not.mpr hne)] at h
    cases hl : mcMatchLoop jets_p4 table 0 0 jets_flag with
    | error e =>
      have he := mcMatchLoop_error jets_p4 table jets_flag 0 0 e hl
      rw [hl, he] at h
      simp [Except.bind] at h
    | ok pairs =>
      rw [hl] at h
      simp only [Except.bind] at h
      split at h <;> cases h
  · intro h
    rw [if_pos h]

/-- What the shared body returns when the flag list has the length of the
table and there is one momentum per true flag. -/
theorem mcMatchOf_spec (table : List Int) (jets_p4 : List V) (jets_flag : List Bool)
    (hlen : jets_flag.length = table.length) (hjets : jets_p4.length = jets_flag.count true) :
    ∃ labels : List Int,
      mcMatchOf K table jets_p4 jets_flag false = .ok labels ∧
      labels.length = jets_flag.count true ∧
      List.Forall₂ (fun (m : Int) (i : Nat) => table[i]? = some m) labels
        (trueIndices 0 jets_flag) ∧
      ∃ pairs : List (V × Int),
        mcMatchOf K table jets_p4 jets_flag true = .ok (pairs.map Prod.snd) ∧
        pairs.Perm (jets_p4.zip labels) ∧
        pairs.Pairwise (fun a b => K.pt b.1 ≤ K.pt a.1) := by
  obtain ⟨labels, hl1, hl2, hl3⟩ := mcMatchLoop_spec jets_p4 table jets_flag 0 0 (by omega)
    (by omega)
  have hne : ¬ jets_flag.length ≠ table.length := by simp [hlen]
  have hz : ((jets_p4.drop 0).take (jets_flag.count true)).zip labels = jets_p4.zip labels := by
    rw [List.drop_zero, ← hjets, List.take_length]
  rw [hz] at hl1
  refine ⟨labels, ?_, hl2, hl3, sort (samesign.SortByPt_pair K) (jets_p4.zip labels), ?_,
    sort_perm _ _, sort_sorted (fun p : V × Int => K.pt p.1) _⟩
  · unfold mcMatchOf
    rw [if_neg hne, hl1]
    simp only [Except.bind, Bool.false_eq_true, if_false, Except.ok.injEq]
    exact List.map_snd_zip _ _ (by omega)
  · unfold mcMatchOf
    rw [if_neg hne, hl1]
    simp only [Except.bind, if_true]

end mcMatch

/-- C16. The helpers `getJetMcAlgoMatch` and `getJetMcPhysMatch` end in the
`std::runtime_error` exactly when the flag list and the flavour table they read
differ in length. When the lengths agree and there is one momentum per true
flag they return, with one label per true flag and per momentum; when the
lengths agree and the momenta are fewer than the true flags the call ends in
`std::out_of_range` instead of filling in a value. -/
theorem C16_mc_match_structural_error {V : Type} (K : LorentzOps V) (ev : Event V)
    (jets_p4 : List V) (jets_flag : List Bool) (sort_by_pt : Bool) :
    (getJetMcAlgoMatch K ev jets_p4 jets_flag sort_by_pt = .error .runtime_error ↔
      jets_flag.length ≠ ev.pfjets_mcflavorAlgo.length) ∧
    (getJetMcPhysMatch K ev jets_p4 jets_flag sort_by_pt = .error .runtime_error ↔
      jets_flag.length ≠ ev.pfjets_mcflavorPhys.length) ∧
    (jets_flag.length = ev.pfjets_mcflavorAlgo.length →
      jets_p4.length = jets_flag.count true →
      ∃ ret, getJetMcAlgoMatch K ev jets_p4 jets_flag sort_by_pt = .ok ret ∧
        ret.length = jets_flag.count true ∧ ret.length = jets_p4.length) ∧
    (jets_flag.length = ev.pfjets_mcflavorPhys.length →
      jets_p4.length = jets_flag.count true →
      ∃ ret, getJetMcPhysMatch K ev jets_p4 jets_flag sort_by_pt = .ok ret ∧
        ret.length = jets_flag.count true ∧ ret.length = jets_p4.length) ∧
    (jets_flag.length = ev.pfjets_mcflavorAlgo.length →
      jets_p4.length < jets_flag.count true →
      getJetMcAlgoMatch K ev jets_p4 jets_flag sort_by_pt = .error .out_of_range) ∧
    (jets_flag.length = ev.pfjets_mcflavorPhys.length →
      jets_p4.length < jets_flag.count true →
      getJetMcPhysMatch K ev jets_p4 jets_flag sort_by_pt = .error .out_of_range) := by
  have hret : ∀ table : List Int, jets_flag.length = table.length →
      jets_p4.length = jets_flag.count true →
      ∃ ret, mcMatchOf K table jets_p4 jets_flag sort_by_pt = .ok ret ∧
        ret.length = jets_flag.count true ∧ ret.length = jets_p4.length := by
    intro table hlen hjets
    obtain ⟨labels, h1, h2, _, pairs, h4, h5, _⟩ := mcMatchOf_spec K table jets_p4 jets_flag hlen
      hjets
    cases sort_by_pt with
    | false => exact ⟨labels, h1, h2, by omega⟩
    | true =>
      have hl : (pairs.map Prod.snd).length = jets_flag.count true := by
        rw [List.length_map, h5.length_eq, List.length_zip]
        omega
      exact ⟨_, h4, hl, by omega⟩
  have hshort : ∀ table : List Int, jets_flag.length = table.length →
      jets_p4.length < jets_flag.count true →
      mcMatchOf K table jets_p4 jets_flag sort_by_pt = .error .out_of_range := by
    intro table hlen hjets
    unfold mcMatchOf
    rw [if_neg (not_not.mpr hlen),
      mcMatchLoop_short jets_p4 table jets_flag 0 0 (by omega) (by omega)]
    rfl
  exact ⟨mcMatchOf_runtime_error_iff K _ _ _ _, mcMatchOf_runtime_error_iff K _ _ _ _,
    hret _, hret _, hshort _, hshort _⟩

/-- C16, witness: on `flavourEvent` (three labels) two momenta with the flags
true, false, true give a result of length 2, and a list of two flags ends in
the `std::runtime_error`. -/
theorem C16_mc_match_structural_error_witness :
    (∃ ret, getJetMcAlgoMatch P4.ops flavourEvent [⟨30, 0, 0⟩, ⟨60, 2, 2⟩] [true, false, true]
        true = .ok ret ∧
      ret.length = [true, false, true].count true ∧
      ret.length = ([⟨30, 0, 0⟩, ⟨60, 2, 2⟩] : List P4).length) ∧
    getJetMcPhysMatch P4.ops flavourEvent [⟨30, 0, 0⟩, ⟨60, 2, 2⟩] [true, true] false
      = .error .runtime_error :=
  ⟨(C16_mc_match_structural_error P4.ops flavourEvent [⟨30, 0, 0⟩, ⟨60, 2, 2⟩]
      [true, false, true] true).2.2.1 rfl rfl,
    (C16_mc_match_structural_error P4.ops flavourEvent [⟨30, 0, 0⟩, ⟨60, 2, 2⟩] [true, true]
      false).2.1.mpr (by decide)⟩

/-- C17. When the flag list has the length of the algorithmic flavour table
and the momenta list has one entry per true flag, in raw order,
`getJetMcAlgoMatch` without sorting returns one label per true flag, the k-th
label being the table entry at the k-th raw index whose flag is true; with
sorting it returns the labels of a rearrangement of the pairs of momentum and
label in which the pt does not increase. The function
`samesign::getJetMcAlgoMatch` calls it on the unsorted `samesign::getJets` and
on `samesign::getJetFlags` of the same arguments. -/
theorem C17_labels_of_true_flags {V : Type} (K : LorentzOps V) (ev : Event V) (X : Collab V)
    (jets_p4 : List V) (jets_flag : List Bool)
    (hlen : jets_flag.length = ev.pfjets_mcflavorAlgo.length)
    (hjets : jets_p4.length = jets_flag.count true) :
    (∃ labels : List Int,
      getJetMcAlgoMatch K ev jets_p4 jets_flag false = .ok labels ∧
      labels.length = jets_flag.count true ∧
      List.Forall₂ (fun (m : Int) (i : Nat) => ev.pfjets_mcflavorAlgo[i]? = some m) labels
        (trueIndices 0 jets_flag) ∧
      ∃ pairs : List (V × Int),
        getJetMcAlgoMatch K ev jets_p4 jets_flag true = .ok (pairs.map Prod.snd) ∧
        pairs.Perm (jets_p4.zip labels) ∧
        pairs.Pairwise (fun a b => K.pt b.1 ≤ K.pt a.1)) ∧
    (∀ (idx : Int) (type : JetType) (deltaR min_pt max_eta mu_minpt ele_minpt rescale : ℚ)
        (systFlag : Int) (sort_by_pt : Bool),
      samesign.getJets K ev X idx type deltaR min_pt max_eta mu_minpt ele_minpt rescale systFlag
        false = .ok jets_p4 →
      samesign.getJetFlags K ev X idx type deltaR min_pt max_eta mu_minpt ele_minpt rescale
        systFlag = .ok jets_flag →
      samesign.getJetMcAlgoMatch K ev X idx type deltaR min_pt max_eta mu_minpt ele_minpt rescale
        systFlag sort_by_pt = getJetMcAlgoMatch K ev jets_p4 jets_flag sort_by_pt) := by
  refine ⟨mcMatchOf_spec K ev.pfjets_mcflavorAlgo jets_p4 jets_flag hlen hjets, ?_⟩
  intro idx type deltaR min_pt max_eta mu_minpt ele_minpt rescale systFlag sort_by_pt hj hf
  simp only [samesign.getJetMcAlgoMatch, hj, hf, Except.bind]

theorem flavourEvent_unsorted :
    getJetMcAlgoMatch P4.ops flavourEvent [⟨30, 0, 0⟩, ⟨60, 2, 2⟩] [true, false, true] false
      = .ok [5, 1] := by
  simp [getJetMcAlgoMatch, mcMatchOf, mcMatchLoop, vat, flavourEvent, Except.bind]

theorem flavourEvent_sorted :
    getJetMcAlgoMatch P4.ops flavourEvent [⟨30, 0, 0⟩, ⟨60, 2, 2⟩] [true, false, true] true
      = .ok [1, 5] := by
  simp [getJetMcAlgoMatch, mcMatchOf, mcMatchLoop, vat, flavourEvent, Except.bind, sort,
    sortInsert, samesign.SortByPt_pair, P4.ops]
  norm_num [abs_of_pos]

/-- C17, witness: on `flavourEvent` (labels 5, 21, 1) with the flags true,
false, true and the momenta of jets 0 and 2 (pt 30 and 60) the unsorted call
returns 5, 1 and the sorted call 1, 5. -/
theorem C17_labels_of_true_flags_witness :
    (∃ labels : List Int,
      getJetMcAlgoMatch P4.ops flavourEvent [⟨30, 0, 0⟩, ⟨60, 2, 2⟩] [true, false, true] false
        = .ok labels ∧
      labels.length = [true, false, true].count true ∧
      List.Forall₂ (fun (m : Int) (i : Nat) => flavourEvent.pfjets_mcflavorAlgo[i]? = some m)
        labels (trueIndices 0 [true, false, true]) ∧
      ∃ pairs : List (P4 × Int),
        getJetMcAlgoMatch P4.ops flavourEvent [⟨30, 0, 0⟩, ⟨60, 2, 2⟩] [true, false, true] true
          = .ok (pairs.map Prod.snd) ∧
        pairs.Perm (([⟨30, 0, 0⟩, ⟨60, 2, 2⟩] : List P4).zip labels) ∧
        pairs.Pairwise (fun a b => P4.ops.pt b.1 ≤ P4.ops.pt a.1)) ∧
    getJetMcAlgoMatch P4.ops flavourEvent [⟨30, 0, 0⟩, ⟨60, 2, 2⟩] [true, false, true] false
      = .ok [5, 1] ∧
    getJetMcAlgoMatch P4.ops flavourEvent [⟨30, 0, 0⟩, ⟨60, 2, 2⟩] [true, false, true] true
      = .ok [1, 5] :=
  ⟨(C17_labels_of_true_flags P4.ops flavourEvent (plainCollab P4.ops flavourEvent)
      [⟨30, 0, 0⟩, ⟨60, 2, 2⟩] [true, false, true] rfl rfl).1,
    flavourEvent_unsorted, flavourEvent_sorted⟩

/-! ## Additional leptons: which faults can occur -/

section faults

variable {α β : Type}

theorem failsOnlyOutOfRange_ok (x : α) : failsOnlyOutOfRange (Except.ok x : Result α) := by
  intro e h; cases h

theorem failsOnlyOutOfRange_bind (r : Result α) (f : α → Result β)
    (hr : failsOnlyOutOfRange r) (hf : ∀ x, failsOnlyOutOfRange (f x)) :
    failsOnlyOutOfRange (r.bind f) := by
  intro e h
  cases hx : r with
  | error e2 =>
    rw [hx] at h
    simp only [Except.bind, Except.error.injEq] at h
    subst h
    exact hr _ hx
  | ok x =>
    rw [hx] at h
    exact hf x e h

theorem failsOnlyOutOfRange_ite (c : Prop) [Decidable c] (a b : Result α)
    (ha : failsOnlyOutOfRange a) (hb : failsOnlyOutOfRange b) :
    failsOnlyOutOfRange (if c then a else b) := by
  split
  · exact ha
  · exact hb

theorem failsOnlyOutOfRange_vat (l : List α) (i : Nat) : failsOnlyOutOfRange (vat l i) := by
  intro e h
  unfold vat at h
  cases hx : l[i]? with
  | none => rw [hx] at h; simp only [Except.error.injEq] at h; exact h.symm
  | some x => rw [hx] at h; cases h

theorem failsOnlyOutOfRange_vatInt (l : List α) (i : Int) : failsOnlyOutOfRange (vatInt l i) := by
  unfold vatInt
  apply failsOnlyOutOfRange_ite
  · intro e h; simp only [Except.error.injEq] at h; exact h.symm
  · exact failsOnlyOutOfRange_vat _ _

theorem failsOnlyOutOfRange_forIndexed (body : Nat → α → Result β)
    (h : ∀ i x, failsOnlyOutOfRange (body i x)) :
    ∀ (xs : List α) (k : Nat), failsOnlyOutOfRange (forIndexed body k xs)
  | [], _ => failsOnlyOutOfRange_ok _
  | x :: xs, k => by
    intro e he
    simp only [forIndexed] at he
    cases hb : body k x with
    | error e2 =>
      rw [hb] at he
      simp only [Except.error.injEq] at he
      subst he
      exact h k x _ hb
    | ok r =>
      rw [hb] at he
      cases hr : forIndexed body (k + 1) xs with
      | error e2 =>
        rw [hr] at he
        simp only [Except.error.injEq] at he
        subst he
        exact failsOnlyOutOfRange_forIndexed body h xs (k + 1) _ hr
      | ok rs => rw [hr] at he; cases he

end faults

section leptonFaults

variable {V : Type} (K : LorentzOps V) (ev : Event V) (L : LeptonCollab)

theorem leptonD0_faults (id idx : Int) : failsOnlyOutOfRange (samesign.leptonD0 ev L id idx) := by
  unfold samesign.leptonD0
  simp only
  repeat' first
    | exact failsOnlyOutOfRange_ok _
    | exact failsOnlyOutOfRange_vatInt _ _
    | apply failsOnlyOutOfRange_ite
    | apply failsOnlyOutOfRange_bind
    | intro _

theorem leptonIsolation_faults (id idx : Int) :
    failsOnlyOutOfRange (samesign.leptonIsolation K ev L id idx) := by
  unfold samesign.leptonIsolation samesign.electronIsolationPF2012 samesign.EffectiveArea03
  simp only
  repeat' first
    | exact failsOnlyOutOfRange_ok _
    | exact failsOnlyOutOfRange_vatInt _ _
    | apply failsOnlyOutOfRange_ite
    | apply failsOnlyOutOfRange_bind
    | intro _

theorem passes3rdMuonSelection_faults (mu_idx : Int) (min_lep_pt : ℚ) (h : 0 ≤ mu_idx) :
    failsOnlyOutOfRange (passes3rdMuonSelection K ev L mu_idx min_lep_pt) := by
  unfold passes3rdMuonSelection
  rw [if_neg (by omega)]
  repeat' first
    | exact failsOnlyOutOfRange_ok _
    | exact failsOnlyOutOfRange_vatInt _ _
    | exact leptonIsolation_faults K ev L _ _
    | exact leptonD0_faults ev L _ _
    | apply failsOnlyOutOfRange_ite
    | apply failsOnlyOutOfRange_bind
    | intro _

theorem passes3rdElectronSelectionNoOverlapRemoval_faults (el_idx : Int) (min_lep_pt : ℚ)
    (use_el_eta : Bool) (h : 0 ≤ el_idx) :
    failsOnlyOutOfRange
      (passes3rdElectronSelectionNoOverlapRemoval K ev L el_idx min_lep_pt use_el_eta) := by
  unfold passes3rdElectronSelectionNoOverlapRemoval
  rw [if_neg (by omega)]
  simp only
  repeat' first
    | exact failsOnlyOutOfRange_ok _
    | exact failsOnlyOutOfRange_vatInt _ _
    | exact leptonIsolation_faults K ev L _ _
    | apply failsOnlyOutOfRange_ite
    | apply failsOnlyOutOfRange_bind
    | intro _

theorem electronOverlapsMuonLoop_faults (el_p4 : V) (mu_indices : List Nat) :
    ∀ (mus : List V) (midx : Nat),
      failsOnlyOutOfRange (electronOverlapsMuonLoop K ev L el_p4 mu_indices midx mus)
  | [], _ => failsOnlyOutOfRange_ok _
  | mu :: rest, midx => by
    unfold electronOverlapsMuonLoop
    have ih := electronOverlapsMuonLoop_faults el_p4 mu_indices rest (midx + 1)
    repeat' first
      | exact failsOnlyOutOfRange_ok _
      | exact ih
      | exact passes3rdMuonSelection_faults K ev L _ _ (Int.natCast_nonneg _)
      | apply failsOnlyOutOfRange_ite
      | apply failsOnlyOutOfRange_bind
      | intro _

theorem passes3rdLeptonSelection_faults (lep_id lep_idx : Int) (min_lep_pt : ℚ)
    (mu_indices : List Nat) (h : 0 ≤ lep_idx) :
    failsOnlyOutOfRange (passes3rdLeptonSelection K ev L lep_id lep_idx min_lep_pt mu_indices) := by
  unfold passes3rdLeptonSelection electronOverlapsMuon
  rw [if_neg (by omega)]
  simp only
  repeat' first
    | exact failsOnlyOutOfRange_ok _
    | exact failsOnlyOutOfRange_vatInt _ _
    | exact passes3rdMuonSelection_faults K ev L _ _ h
    | exact passes3rdElectronSelectionNoOverlapRemoval_faults K ev L _ _ _ h
    | exact electronOverlapsMuonLoop_faults K ev L _ _ _ _
    | apply failsOnlyOutOfRange_ite
    | apply failsOnlyOutOfRange_bind
    | intro _

end leptonFaults

/-- C18. The functions `passes3rdMuonSelection`,
`passes3rdElectronSelectionNoOverlapRemoval` and `passes3rdLeptonSelection` end
in `std::domain_error` for every negative lepton index, whatever the event and
the identification helpers are, so before anything of the event is read; for
an index that is not negative they return or end in `std::out_of_range`, never
in `std::domain_error`. -/
theorem C18_negative_index_is_domain_error {V : Type} (K : LorentzOps V) (ev : Event V)
    (L : LeptonCollab) (lep_id lep_idx : Int) (min_lep_pt : ℚ) (use_el_eta : Bool)
    (mu_indices : List Nat) :
    (lep_idx < 0 →
      passes3rdMuonSelection K ev L lep_idx min_lep_pt = .error .domain_error ∧
      passes3rdElectronSelectionNoOverlapRemoval K ev L lep_idx min_lep_pt use_el_eta
        = .error .domain_error ∧
      passes3rdLeptonSelection K ev L lep_id lep_idx min_lep_pt mu_indices
        = .error .domain_error) ∧
    (0 ≤ lep_idx →
      passes3rdMuonSelection K ev L lep_idx min_lep_pt ≠ .error .domain_error ∧
      passes3rdElectronSelectionNoOverlapRemoval K ev L lep_idx min_lep_pt use_el_eta
        ≠ .error .domain_error ∧
      passes3rdLeptonSelection K ev L lep_id lep_idx min_lep_pt mu_indices
        ≠ .error .domain_error) := by
  constructor
  · intro h
    simp [passes3rdMuonSelection, passes3rdElectronSelectionNoOverlapRemoval,
      passes3rdLeptonSelection, h]
  · intro h
    refine ⟨?_, ?_, ?_⟩
    · intro he
      have := passes3rdMuonSelection_faults K ev L lep_idx min_lep_pt h _ he
      cases this
    · intro he
      have := passes3rdElectronSelectionNoOverlapRemoval_faults K ev L lep_idx min_lep_pt
        use_el_eta h _ he
      cases this
    · intro he
      have := passes3rdLeptonSelection_faults K ev L lep_id lep_idx min_lep_pt mu_indices h _ he
      cases this

/-! ## Additional leptons: the selected list -/

section additional

variable {V : Type} (K : LorentzOps V) (ev : Event V) (L : LeptonCollab)

/-- The keyed list built for the sort pairs every lepton with its momentum. -/
theorem keyed_spec : ∀ (leps : List (Int × Int)) (k : Nat) (keyed : List (V × (Int × Int))),
    forIndexed (fun _ lep => keyLepton ev lep) k leps = .ok keyed →
    keyed.map Prod.snd = leps ∧ ∀ p ∈ keyed, leptonP4 ev p.2 = .ok p.1
  | [], _, keyed, h => by
    simp only [forIndexed, Except.ok.injEq] at h
    subst h
    simp
  | lep :: rest, k, keyed, h => by
    simp only [forIndexed] at h
    cases hp : keyLepton ev lep with
    | error e => rw [hp] at h; cases h
    | ok kp =>
      rw [hp] at h
      cases hr : forIndexed (fun _ lep => keyLepton ev lep) (k + 1) rest with
      | error e => rw [hr] at h; cases h
      | ok ks =>
        rw [hr] at h
        simp only [Except.ok.injEq] at h
        subst h
        obtain ⟨h1, h2⟩ := keyed_spec rest (k + 1) ks hr
        have hkp : kp.2 = lep ∧ leptonP4 ev kp.2 = .ok kp.1 := by
          unfold keyLepton at hp
          cases hq : leptonP4 ev lep with
          | error e => rw [hq] at hp; cases hp
          | ok p4 =>
            rw [hq] at hp
            simp only [Except.bind, Except.ok.injEq] at hp
            rw [← hp]
            exact ⟨rfl, hq⟩
        refine ⟨by simp [h1, hkp.1], ?_⟩
        intro p hmem
        rcases List.mem_cons.mp hmem with h3 | h3
        · rw [h3]; exact hkp.2
        · exact h2 p h3

/-- What `sortLeptons` returns: a rearrangement of its input; the first entry
has the largest pt among the entries whose momentum it can be compared with;
for two or more entries every momentum was read. -/
theorem sortLeptons_spec (leps l : List (Int × Int)) (h : sortLeptons K ev leps = .ok l) :
    l.Perm leps ∧
    (∀ (r : Int × Int) (tl : List (Int × Int)), l = r :: tl →
      ∀ m ∈ l, ∀ pr pm : V, leptonP4 ev r = .ok pr → leptonP4 ev m = .ok pm →
        K.pt pm ≤ K.pt pr) ∧
    (2 ≤ l.length → ∀ m ∈ l, ∃ pm : V, leptonP4 ev m = .ok pm) := by
  unfold sortLeptons at h
  split at h
  · rename_i hlt
    simp only [Except.ok.injEq] at h
    subst h
    refine ⟨List.Perm.refl _, ?_, fun h2 => by omega⟩
    intro r tl hl m hm pr pm hr hpm
    have htl : tl = [] := by
      rw [hl] at hlt
      simp only [List.length_cons] at hlt
      exact List.eq_nil_of_length_eq_zero (by omega)
    rw [hl, htl] at hm
    simp only [List.mem_singleton] at hm
    subst hm
    rw [hr] at hpm
    simp only [Except.ok.injEq] at hpm
    rw [hpm]
  · cases hk : forIndexed (fun _ lep => keyLepton ev lep) 0 leps with
    | error e => rw [hk] at h; cases h
    | ok keyed =>
      rw [hk] at h
      simp only [Except.bind, Except.ok.injEq] at h
      obtain ⟨hk1, hk2⟩ := keyed_spec ev leps 0 keyed hk
      have hperm := sort_perm (samesign.SortByPt_pair K) keyed
      have hsorted := sort_sorted (fun p : V × (Int × Int) => K.pt p.1) keyed
      have hmemP : ∀ p ∈ sort (samesign.SortByPt_pair K) keyed, leptonP4 ev p.2 = .ok p.1 :=
        fun p hp => hk2 p (hperm.mem_iff.mp hp)
      refine ⟨?_, ?_, ?_⟩
      · rw [← h, ← hk1]
        exact hperm.map _
      · intro r tl hl m hm pr pm hr hpm
        rw [← h] at hl hm
        obtain ⟨q, hq1, hq2⟩ := List.mem_map.mp hm
        cases hs : sort (samesign.SortByPt_pair K) keyed with
        | nil => rw [hs] at hl; simp at hl
        | cons a as =>
          have hs' : sort (fun a b : V × (Int × Int) => decide (K.pt a.1 > K.pt b.1)) keyed
              = a :: as := hs
          rw [hs'] at hsorted
          rw [hs] at hl hq1
          simp only [List.map_cons, List.cons.injEq] at hl
          have ha := hmemP a (by rw [hs]; exact List.mem_cons_self _ _)
          rw [hl.1, hr] at ha
          simp only [Except.ok.injEq] at ha
          have hqq := hmemP q (by rw [hs]; exact hq1)
          rw [hq2, hpm] at hqq
          simp only [Except.ok.injEq] at hqq
          rw [ha, hqq]
          rcases List.mem_cons.mp hq1 with h3 | h3
          · rw [h3]
          · exact (List.pairwise_cons.mp hsorted).1 q h3
      · intro _ m hm
        rw [← h] at hm
        obtain ⟨q, hq1, hq2⟩ := List.mem_map.mp hm
        exact ⟨q.1, hq2 ▸ hmemP q hq1⟩

theorem additionalElectron_index (min_lep_pt : ℚ) (el_indices mu_indices : List Nat) (eidx : Nat)
    (p4 : V) (lep : Int × Int)
    (h : samesign.additionalElectron K ev L min_lep_pt el_indices mu_indices eidx p4
      = .ok (some lep)) : 0 ≤ lep.2 := by
  unfold samesign.additionalElectron at h
  split at h
  · cases h
  · cases hp : passes3rdLeptonSelection K ev L 11 (eidx : Int) min_lep_pt mu_indices with
    | error e => rw [hp] at h; cases h
    | ok pass =>
      rw [hp] at h
      simp only [Except.bind] at h
      split at h
      · cases hq : vat ev.els_charge eidx with
        | error e => rw [hq] at h; cases h
        | ok q =>
          rw [hq] at h
          simp only [Except.ok.injEq, Option.some.injEq] at h
          rw [← h]
          exact Int.natCast_nonneg _
      · cases h

theorem additionalMuon_index (min_lep_pt : ℚ) (mu_indices : List Nat) (midx : Nat)
    (p4 : V) (lep : Int × Int)
    (h : samesign.additionalMuon K ev L min_lep_pt mu_indices midx p4 = .ok (some lep)) :
    0 ≤ lep.2 := by
  unfold samesign.additionalMuon at h
  split at h
  · cases h
  · cases hp : passes3rdLeptonSelection K ev L 13 (midx : Int) min_lep_pt mu_indices with
    | error e => rw [hp] at h; cases h
    | ok pass =>
      rw [hp] at h
      simp only [Except.bind] at h
      split at h
      · cases hq : vat ev.mus_charge midx with
        | error e => rw [hq] at h; cases h
        | ok q =>
          rw [hq] at h
          simp only [Except.ok.injEq, Option.some.injEq] at h
          rw [← h]
          exact Int.natCast_nonneg _
      · cases h

/-- Every pair kept by a loop whose body pushes pairs with a non-negative
index has a non-negative index. -/
theorem pushed_index {α : Type} (body : Nat → α → Result (Option (Int × Int)))
    (hbody : ∀ i x lep, body i x = .ok (some lep) → 0 ≤ lep.2) (xs : List α) (k : Nat)
    (pushed : List (Option (Int × Int))) (h : forIndexed body k xs = .ok pushed) :
    ∀ lep ∈ pushed.reduceOption, 0 ≤ lep.2 := by
  intro lep hmem
  have hsome : some lep ∈ pushed := List.reduceOption_mem_iff.mp hmem
  obtain ⟨i, hi⟩ := List.getElem?_of_mem hsome
  have hlen := forIndexed_length xs k pushed h
  have hi2 : i < xs.length := hlen ▸ (List.getElem?_eq_some_iff.mp hi).1
  obtain ⟨r, hr1, hr2⟩ := forIndexed_getElem? xs k pushed h i xs[i] (List.getElem?_eq_getElem hi2)
  rw [hi] at hr1
  simp only [Option.some.injEq] at hr1
  subst hr1
  exact hbody _ _ _ hr2

theorem vatInt_natCast {α : Type} (l : List α) (i : Nat) : vatInt l (i : Int) = vat l i := by
  simp [vatInt]

theorem additionalElectron_pair (min_lep_pt : ℚ) (el_indices mu_indices : List Nat) (eidx : Nat)
    (p4 : V) (lep : Int × Int)
    (h : samesign.additionalElectron K ev L min_lep_pt el_indices mu_indices eidx p4
      = .ok (some lep)) :
    ∃ q : Int, ev.els_charge[eidx]? = some q ∧ lep = (-11 * q, (eidx : Int)) ∧
      (q.natAbs = 1 → leptonP4 ev lep = vat ev.els_p4 eidx) := by
  unfold samesign.additionalElectron at h
  split at h
  · cases h
  · cases hp : passes3rdLeptonSelection K ev L 11 (eidx : Int) min_lep_pt mu_indices with
    | error e => rw [hp] at h; cases h
    | ok pass =>
      rw [hp] at h
      simp only [Except.bind] at h
      split at h
      · cases hq : vat ev.els_charge eidx with
        | error e => rw [hq] at h; cases h
        | ok q =>
          rw [hq] at h
          simp only [Except.ok.injEq, Option.some.injEq] at h
          refine ⟨q, (vat_eq_ok _ _ _).mp hq, h.symm, ?_⟩
          intro hq1
          rw [← h]
          have h11 : (-11 * q).natAbs = 11 := by
            rw [Int.natAbs_mul, hq1]
            rfl
          simp only [leptonP4, h11, if_true, vatInt_natCast]
      · cases h

theorem additionalMuon_pair (min_lep_pt : ℚ) (mu_indices : List Nat) (midx : Nat)
    (p4 : V) (lep : Int × Int)
    (h : samesign.additionalMuon K ev L min_lep_pt mu_indices midx p4 = .ok (some lep)) :
    ∃ q : Int, ev.mus_charge[midx]? = some q ∧ lep = (-13 * q, (midx : Int)) ∧
      leptonP4 ev lep = vat ev.mus_p4 midx := by
  unfold samesign.additionalMuon at h
  split at h
  · cases h
  · cases hp : passes3rdLeptonSelection K ev L 13 (midx : Int) min_lep_pt mu_indices with
    | error e => rw [hp] at h; cases h
    | ok pass =>
      rw [hp] at h
      simp only [Except.bind] at h
      split at h
      · cases hq : vat ev.mus_charge midx with
        | error e => rw [hq] at h; cases h
        | ok q =>
          rw [hq] at h
          simp only [Except.ok.injEq, Option.some.injEq] at h
          refine ⟨q, (vat_eq_ok _ _ _).mp hq, h.symm, ?_⟩
          rw [← h]
          have h11 : (-13 * q).natAbs ≠ 11 := by
            rw [Int.natAbs_mul]
            intro hc
            have h13 : (13 : Nat) ∣ 11 := ⟨q.natAbs, by simpa using hc.symm⟩
            omega
          simp only [leptonP4, h11, if_false, vatInt_natCast]
      · cases h

/-- Every pair kept by a loop was pushed by its body at some position. -/
theorem pushed_origin {α : Type} (body : Nat → α → Result (Option (Int × Int))) (xs : List α)
    (k : Nat) (pushed : List (Option (Int × Int))) (h : forIndexed body k xs = .ok pushed) :
    ∀ lep ∈ pushed.reduceOption, ∃ (i : Nat) (x : α), body (k + i) x = .ok (some lep) := by
  intro lep hmem
  have hsome : some lep ∈ pushed := List.reduceOption_mem_iff.mp hmem
  obtain ⟨i, hi⟩ := List.getElem?_of_mem hsome
  have hlen := forIndexed_length xs k pushed h
  have hi2 : i < xs.length := hlen ▸ (List.getElem?_eq_some_iff.mp hi).1
  obtain ⟨r, hr1, hr2⟩ := forIndexed_getElem? xs k pushed h i xs[i] (List.getElem?_eq_getElem hi2)
  rw [hi] at hr1
  simp only [Option.some.injEq] at hr1
  subst hr1
  exact ⟨i, _, hr2⟩

theorem selectedLeptons_spec (min_lep_pt : ℚ) (el_indices mu_indices : List Nat)
    (l : List (Int × Int))
    (h : samesign.selectedLeptons K ev L min_lep_pt el_indices mu_indices = .ok l) :
    (∃ leps, sortLeptons K ev leps = .ok l) ∧ ∀ lep ∈ l, 0 ≤ lep.2 ∧ namesLepton ev lep := by
  unfold samesign.selectedLeptons at h
  cases h5 : forIndexed (samesign.additionalElectron K ev L min_lep_pt el_indices mu_indices) 0
      ev.els_p4 with
  | error e => rw [h5] at h; cases h
  | ok els =>
    rw [h5] at h
    cases h6 : forIndexed (samesign.additionalMuon K ev L min_lep_pt mu_indices) 0
        ev.mus_p4 with
    | error e => rw [h6] at h; cases h
    | ok mus =>
      rw [h6] at h
      simp only [Except.bind] at h
      refine ⟨⟨_, h⟩, ?_⟩
      intro lep hmem
      have hperm := (sortLeptons_spec K ev _ l h).1
      rcases List.mem_append.mp (hperm.mem_iff.mp hmem) with h7 | h7
      · refine ⟨pushed_index _
          (fun i x lep hb => additionalElectron_index K ev L _ _ _ i x lep hb) _ _ _ h5 lep h7, ?_⟩
        obtain ⟨i, x, hb⟩ := pushed_origin _ _ _ _ h5 lep h7
        obtain ⟨q, h8, h9, h10⟩ := additionalElectron_pair K ev L _ _ _ _ _ _ hb
        exact Or.inl ⟨0 + i, q, h8, h9, h10⟩
      · refine ⟨pushed_index _
          (fun i x lep hb => additionalMuon_index K ev L _ _ i x lep hb) _ _ _ h6 lep h7, ?_⟩
        obtain ⟨i, x, hb⟩ := pushed_origin _ _ _ _ h6 lep h7
        obtain ⟨q, h8, h9, h10⟩ := additionalMuon_pair K ev L _ _ _ _ _ hb
        exact Or.inr ⟨0 + i, q, h8, h9, h10⟩

/-- The list of `samesign::additionalLeptons` went through `sortLeptons`, and
the second component of each of its pairs is an index, not negative. -/
theorem additionalLeptons_spec (hyp_idx : Int) (min_lep_pt : ℚ) (l : List (Int × Int))
    (h : samesign.additionalLeptons K ev L hyp_idx min_lep_pt = .ok l) :
    (∃ leps, sortLeptons K ev leps = .ok l) ∧ ∀ lep ∈ l, 0 ≤ lep.2 ∧ namesLepton ev lep := by
  unfold samesign.additionalLeptons at h
  cases h1 : vatInt ev.hyp_lt_id hyp_idx with
  | error e => rw [h1] at h; cases h
  | ok lt_id =>
    cases h2 : vatInt ev.hyp_ll_id hyp_idx with
    | error e => rw [h1, h2] at h; cases h
    | ok ll_id =>
      cases h3 : vatInt ev.hyp_lt_index hyp_idx with
      | error e => rw [h1, h2, h3] at h; cases h
      | ok lt_index =>
        cases h4 : vatInt ev.hyp_ll_index hyp_idx with
        | error e => rw [h1, h2, h3, h4] at h; cases h
        | ok ll_index =>
          rw [h1, h2, h3, h4] at h
          simp only [Except.bind] at h
          split at h
          · cases h
          · exact selectedLeptons_spec K ev L _ _ _ l h

end additional

theorem trileptonEvent_muon :
    passes3rdMuonSelection P4.ops trileptonEvent looseLeptons 1 10 = .ok true ∧
    passes3rdMuonSelection P4.ops trileptonEvent looseLeptons 1 20 = .ok true := by
  constructor <;>
  · simp [passes3rdMuonSelection, vatInt, vat, trileptonEvent, Except.bind,
      samesign.leptonIsolation, samesign.leptonD0, looseLeptons, P4.ops, P4.etaOf]
    norm_num [abs_of_pos]

theorem trileptonEvent_electron :
    passes3rdElectronSelectionNoOverlapRemoval P4.ops trileptonEvent looseLeptons 1 20 false
      = .ok true := by
  simp [passes3rdElectronSelectionNoOverlapRemoval, vatInt, vat, trileptonEvent, Except.bind,
    samesign.leptonIsolation, samesign.electronIsolationPF2012, samesign.EffectiveArea03,
    looseLeptons, P4.ops, P4.etaOf]
  norm_num [abs_of_pos]

theorem trileptonEvent_overlap :
    electronOverlapsMuon P4.ops trileptonEvent looseLeptons ⟨25, 1, 1⟩ [0] = .ok false := by
  have h1 : electronOverlapsMuonLoop P4.ops trileptonEvent looseLeptons ⟨25, 1, 1⟩ [0] 1
      [⟨40, -1, -2⟩] = .ok false := by
    have hm : passes3rdMuonSelection P4.ops trileptonEvent looseLeptons ((1 : Nat) : Int) 10
        = .ok true := trileptonEvent_muon.1
    simp only [electronOverlapsMuonLoop, hm, Except.bind]
    simp [P4.ops, P4.etaOf]
    norm_num [abs_of_pos]
  unfold electronOverlapsMuon
  rw [show trileptonEvent.mus_p4 = [⟨35, 0, 2⟩, ⟨40, -1, -2⟩] from rfl]
  unfold electronOverlapsMuonLoop
  simp only [List.mem_singleton, if_true]
  exact h1

theorem trileptonEvent_additional :
    samesign.additionalLeptons P4.ops trileptonEvent looseLeptons 0 20
      = .ok [(13, 1), (-11, 1)] := by
  have he0 : samesign.additionalElectron P4.ops trileptonEvent looseLeptons 20 [0] [0] 0
      ⟨30, 0, 0⟩ = .ok none := by
    simp [samesign.additionalElectron]
  have he1 : samesign.additionalElectron P4.ops trileptonEvent looseLeptons 20 [0] [0] 1
      ⟨25, 1, 1⟩ = .ok (some (-11, 1)) := by
    have hp : passes3rdLeptonSelection P4.ops trileptonEvent looseLeptons 11 ((1 : Nat) : Int) 20
        [0] = .ok true := by
      have h1 : passes3rdElectronSelectionNoOverlapRemoval P4.ops trileptonEvent looseLeptons
          ((1 : Nat) : Int) 20 false = .ok true := trileptonEvent_electron
      have h2 : vatInt trileptonEvent.els_p4 ((1 : Nat) : Int) = .ok ⟨25, 1, 1⟩ := rfl
      simp only [passes3rdLeptonSelection, h1, h2, trileptonEvent_overlap, Except.bind]
      simp
    simp only [samesign.additionalElectron, hp, Except.bind]
    simp [vat, trileptonEvent]
  have hm0 : samesign.additionalMuon P4.ops trileptonEvent looseLeptons 20 [0] 0
      ⟨35, 0, 2⟩ = .ok none := by
    simp [samesign.additionalMuon]
  have hm1 : samesign.additionalMuon P4.ops trileptonEvent looseLeptons 20 [0] 1
      ⟨40, -1, -2⟩ = .ok (some (13, 1)) := by
    have hp : passes3rdLeptonSelection P4.ops trileptonEvent looseLeptons 13 ((1 : Nat) : Int) 20
        [0] = .ok true := by
      have h1 : passes3rdMuonSelection P4.ops trileptonEvent looseLeptons ((1 : Nat) : Int) 20
          = .ok true := trileptonEvent_muon.2
      simp only [passes3rdLeptonSelection, h1, Except.bind]
      simp
    simp only [samesign.additionalMuon, hp, Except.bind]
    simp [vat, trileptonEvent]
  have hels : forIndexed (samesign.additionalElectron P4.ops trileptonEvent looseLeptons 20 [0]
      [0]) 0 trileptonEvent.els_p4 = .ok [none, some (-11, 1)] :=
    forIndexed_cons_ok _ _ _ _ _ _ he0 (forIndexed_cons_ok _ _ _ [] _ [] he1 rfl)
  have hmus : forIndexed (samesign.additionalMuon P4.ops trileptonEvent looseLeptons 20 [0]) 0
      trileptonEvent.mus_p4 = .ok [none, some (13, 1)] :=
    forIndexed_cons_ok _ _ _ _ _ _ hm0 (forIndexed_cons_ok _ _ _ [] _ [] hm1 rfl)
  have hsort : sortLeptons P4.ops trileptonEvent [(-11, 1), (13, 1)] = .ok [(13, 1), (-11, 1)] := by
    simp [sortLeptons, forIndexed, keyLepton, leptonP4, vatInt, vat, trileptonEvent, Except.bind,
      sort, sortInsert, samesign.SortByPt_pair, P4.ops]
    norm_num [abs_of_pos]
  have hsel : samesign.selectedLeptons P4.ops trileptonEvent looseLeptons 20 [0] [0]
      = .ok [(13, 1), (-11, 1)] := by
    unfold samesign.selectedLeptons
    rw [hels, hmus]
    simpa [Except.bind, List.reduceOption] using hsort
  simp only [samesign.additionalLeptons, vatInt, vat, trileptonEvent, Except.bind,
    samesign.hypElectrons, samesign.hypMuons, toUnsigned] at hsel ⊢
  simpa using hsel

/-- C19. The function `samesign::highestPtAdditionalLepton` returns the pair
(-999999, -999999) exactly when `samesign::additionalLeptons` returns the empty
list for the same arguments. When that list is not empty it returns its first
entry: a member of the list, different from (-999999, -999999), whose pt is at
least the pt of every member, the momenta being those the sort compared (all of
them are read when the list has two entries or more); every member names an
electron or a muon of the event, and for a muon, or an electron of charge 1 or
-1, the momentum compared is that of the lepton. The function
`samesign::has3rdLepton` returns true exactly when the pair returned is not
(-999999, -999999), and the three calls end in the same fault when one does.
On `trileptonEvent` the list is the muon of pt 40 before the electron of
pt 25, the highest is the muon, and there is a 3rd lepton. -/
theorem C19_highest_pt_additional_lepton {V : Type} (K : LorentzOps V) (ev : Event V)
    (L : LeptonCollab) (idx : Int) (min_lep_pt : ℚ) :
    (samesign.highestPtAdditionalLepton K ev L idx min_lep_pt = .ok (-999999, -999999) ↔
      samesign.additionalLeptons K ev L idx min_lep_pt = .ok []) ∧
    (∀ l, samesign.additionalLeptons K ev L idx min_lep_pt = .ok l → l ≠ [] →
      ∃ r, samesign.highestPtAdditionalLepton K ev L idx min_lep_pt = .ok r ∧ r ∈ l ∧
        r ≠ (-999999, -999999) ∧
        (∀ m ∈ l, ∀ pr pm : V, leptonP4 ev r = .ok pr → leptonP4 ev m = .ok pm →
          K.pt pm ≤ K.pt pr) ∧
        (2 ≤ l.length → ∀ m ∈ l, ∃ pm : V, leptonP4 ev m = .ok pm)) ∧
    (∀ l, samesign.additionalLeptons K ev L idx min_lep_pt = .ok l →
      ∀ lep ∈ l, namesLepton ev lep) ∧
    (∀ r, samesign.highestPtAdditionalLepton K ev L idx min_lep_pt = .ok r →
      samesign.has3rdLepton K ev L idx min_lep_pt = .ok (decide (r ≠ (-999999, -999999)))) ∧
    (∀ e, samesign.additionalLeptons K ev L idx min_lep_pt = .error e →
      samesign.highestPtAdditionalLepton K ev L idx min_lep_pt = .error e ∧
      samesign.has3rdLepton K ev L idx min_lep_pt = .error e) ∧
    (samesign.additionalLeptons P4.ops trileptonEvent looseLeptons 0 20
        = .ok [(13, 1), (-11, 1)] ∧
      samesign.highestPtAdditionalLepton P4.ops trileptonEvent looseLeptons 0 20 = .ok (13, 1) ∧
      samesign.has3rdLepton P4.ops trileptonEvent looseLeptons 0 20 = .ok true) := by
  have hhead : ∀ (r : Int × Int) (tl : List (Int × Int)),
      samesign.additionalLeptons K ev L idx min_lep_pt = .ok (r :: tl) →
      r ≠ (-999999, -999999) := by
    intro r tl h hr
    have h0 := ((additionalLeptons_spec K ev L idx min_lep_pt _ h).2 r
      (List.mem_cons_self _ _)).1
    rw [hr] at h0
    norm_num at h0
  refine ⟨?_, ?_, ?_, ?_, ?_, ?_⟩
  · constructor
    · intro h
      unfold samesign.highestPtAdditionalLepton at h
      cases hl : samesign.additionalLeptons K ev L idx min_lep_pt with
      | error e => rw [hl] at h; cases h
      | ok l =>
        cases l with
        | nil => rfl
        | cons r tl =>
          rw [hl] at h
          simp only [Except.bind, Except.ok.injEq] at h
          exact absurd h (hhead r tl hl)
    · intro h
      simp only [samesign.highestPtAdditionalLepton, h, Except.bind]
  · intro l hl hne
    cases l with
    | nil => exact absurd rfl hne
    | cons r tl =>
      obtain ⟨⟨leps, hs⟩, _⟩ := additionalLeptons_spec K ev L idx min_lep_pt _ hl
      obtain ⟨_, h2, h3⟩ := sortLeptons_spec K ev leps _ hs
      refine ⟨r, ?_, List.mem_cons_self _ _, hhead r tl hl, h2 r tl rfl, h3⟩
      simp only [samesign.highestPtAdditionalLepton, hl, Except.bind]
  · intro l hl lep hmem
    exact ((additionalLeptons_spec K ev L idx min_lep_pt l hl).2 lep hmem).2
  · intro r h
    unfold samesign.highestPtAdditionalLepton at h
    unfold samesign.has3rdLepton
    cases hl : samesign.additionalLeptons K ev L idx min_lep_pt with
    | error e => rw [hl] at h; cases h
    | ok l =>
      rw [hl] at h
      cases l with
      | nil =>
        simp only [Except.bind, Except.ok.injEq] at h
        subst h
        simp [Except.bind]
      | cons r2 tl =>
        simp only [Except.bind, Except.ok.injEq] at h
        subst h
        simp [Except.bind, hhead r2 tl hl]
  · intro e h
    simp only [samesign.highestPtAdditionalLepton, samesign.has3rdLepton, h, Except.bind,
      and_self]
  · refine ⟨trileptonEvent_additional, ?_, ?_⟩
    · simp only [samesign.highestPtAdditionalLepton, trileptonEvent_additional, Except.bind]
    · simp only [samesign.has3rdLepton, trileptonEvent_additional, Except.bind]
      rfl

/-- C19, witness: on `trileptonEvent` the highest-pt additional lepton is the
muon (13, 1), a member of the list of two. -/
theorem C19_highest_pt_additional_lepton_witness :
    ∃ r, samesign.highestPtAdditionalLepton P4.ops trileptonEvent looseLeptons 0 20 = .ok r ∧
      r ∈ [((13 : Int), (1 : Int)), (-11, 1)] ∧ r ≠ (-999999, -999999) ∧
      (∀ m ∈ [((13 : Int), (1 : Int)), (-11, 1)], ∀ pr pm : P4,
        leptonP4 trileptonEvent r = .ok pr → leptonP4 trileptonEvent m = .ok pm →
        P4.ops.pt pm ≤ P4.ops.pt pr) ∧
      (2 ≤ [((13 : Int), (1 : Int)), (-11, 1)].length →
        ∀ m ∈ [((13 : Int), (1 : Int)), (-11, 1)], ∃ pm : P4,
          leptonP4 trileptonEvent m = .ok pm) :=
  (C19_highest_pt_additional_lepton P4.ops trileptonEvent looseLeptons 0 20).2.1 _
    trileptonEvent_additional (by simp)

/-- C18, witness: on `trileptonEvent` index -1 ends in the domain error and
index 1 does not; for index 1 the muon selection returns true. -/
theorem C18_negative_index_is_domain_error_witness :
    (passes3rdMuonSelection P4.ops trileptonEvent looseLeptons (-1) 20 = .error .domain_error ∧
      passes3rdElectronSelectionNoOverlapRemoval P4.ops trileptonEvent looseLeptons (-1) 20 false
        = .error .domain_error ∧
      passes3rdLeptonSelection P4.ops trileptonEvent looseLeptons 11 (-1) 20 [0]
        = .error .domain_error) ∧
    (passes3rdMuonSelection P4.ops trileptonEvent looseLeptons 1 20 ≠ .error .domain_error ∧
      passes3rdElectronSelectionNoOverlapRemoval P4.ops trileptonEvent looseLeptons 1 20 false
        ≠ .error .domain_error ∧
      passes3rdLeptonSelection P4.ops trileptonEvent looseLeptons 11 1 20 [0]
        ≠ .error .domain_error) ∧
    passes3rdMuonSelection P4.ops trileptonEvent looseLeptons 1 20 = .ok true :=
  ⟨(C18_negative_index_is_domain_error P4.ops trileptonEvent looseLeptons 11 (-1) 20 false
      [0]).1 (by decide),
    (C18_negative_index_is_domain_error P4.ops trileptonEvent looseLeptons 11 1 20 false
      [0]).2 (by decide),
    trileptonEvent_muon.2⟩

/-! ## Single-precision arithmetic: the cut on the neutral EM fraction -/

/-- Rounding to nearest with ties to even stays at or below an even integer
exactly up to half a unit above it. -/
theorem roundHalfEven_le_iff (q : ℚ) (n : Int) (hn : n % 2 = 0) :
    roundHalfEven q ≤ n ↔ q ≤ n + 1 / 2 := by
  have hf1 : ((⌊q⌋ : Int) : ℚ) ≤ q := Int.floor_le q
  have hf2 : q < ((⌊q⌋ : Int) : ℚ) + 1 := Int.lt_floor_add_one q
  unfold roundHalfEven
  split_ifs with h1 h2 h3
  · constructor
    · intro h
      have : ((⌊q⌋ : Int) : ℚ) ≤ n := by exact_mod_cast h
      linarith
    · intro h
      have : ((⌊q⌋ : Int) : ℚ) < (n : ℚ) + 1 := by linarith
      have : (⌊q⌋ : Int) < n + 1 := by exact_mod_cast this
      omega
  · constructor
    · intro h
      have : ((⌊q⌋ : Int) : ℚ) + 1 ≤ n := by exact_mod_cast h
      linarith
    · intro h
      have : ((⌊q⌋ : Int) : ℚ) < (n : ℚ) := by linarith
      have : (⌊q⌋ : Int) < n := by exact_mod_cast this
      omega
  · have hq : q = ((⌊q⌋ : Int) : ℚ) + 1 / 2 := by linarith
    constructor
    · intro h
      have : ((⌊q⌋ : Int) : ℚ) ≤ n := by exact_mod_cast h
      linarith
    · intro h
      have : ((⌊q⌋ : Int) : ℚ) ≤ (n : ℚ) := by linarith
      exact_mod_cast this
  · have hq : q = ((⌊q⌋ : Int) : ℚ) + 1 / 2 := by linarith
    constructor
    · intro h
      have : ((⌊q⌋ : Int) : ℚ) + 1 ≤ n := by exact_mod_cast h
      linarith
    · intro h
      have : ((⌊q⌋ : Int) : ℚ) ≤ (n : ℚ) := by linarith
      have : (⌊q⌋ : Int) ≤ n := by exact_mod_cast this
      omega

/-- Rounding moves a number by half a unit at most. -/
theorem roundHalfEven_near (q : ℚ) :
    q - 1 / 2 ≤ (roundHalfEven q : ℚ) ∧ (roundHalfEven q : ℚ) ≤ q + 1 / 2 := by
  have hf1 : ((⌊q⌋ : Int) : ℚ) ≤ q := Int.floor_le q
  have hf2 : q < ((⌊q⌋ : Int) : ℚ) + 1 := Int.lt_floor_add_one q
  unfold roundHalfEven
  split_ifs with h1 h2 h3
  · constructor <;> linarith
  · push_cast
    constructor <;> linarith
  · constructor <;> linarith
  · push_cast
    constructor <;> linarith

/-- What the search of `binadeFrom` returns: `p` doubled `j` times, at most `q`
unless it is `p` itself, and more than half of `q` unless the fuel ran out. -/
theorem binadeFrom_spec (q : ℚ) :
    ∀ (fuel : Nat) (p : ℚ), ∃ j : Nat, j ≤ fuel ∧ binadeFrom q fuel p = 2 ^ j * p ∧
      (binadeFrom q fuel p ≤ q ∨ j = 0) ∧ (q < 2 * binadeFrom q fuel p ∨ j = fuel)
  | 0, p => ⟨0, le_refl _, by simp [binadeFrom], Or.inr rfl, Or.inr rfl⟩
  | fuel + 1, p => by
    by_cases h : 2 * p ≤ q
    · obtain ⟨j, hj, h1, h2, h3⟩ := binadeFrom_spec q fuel (2 * p)
      have he : binadeFrom q (fuel + 1) p = binadeFrom q fuel (2 * p) := by
        simp [binadeFrom, h]
      refine ⟨j + 1, by omega, ?_, ?_, ?_⟩
      · rw [he, h1]
        ring
      · left
        rw [he]
        rcases h2 with h2 | h2
        · exact h2
        · rw [h1, h2]
          simpa using h
      · rw [he]
        rcases h3 with h3 | h3
        · exact Or.inl h3
        · exact Or.inr (by omega)
    · have he : binadeFrom q (fuel + 1) p = p := by simp [binadeFrom, h]
      refine ⟨0, by omega, by simp [he], Or.inr rfl, Or.inl ?_⟩
      rw [he]
      exact not_le.mp h

theorem ulp32_pos (q : ℚ) : 0 < ulp32 q := by
  unfold ulp32
  obtain ⟨j, _, h1, _, _⟩ := binadeFrom_spec |q| 253 ((1 / 2) ^ 126)
  rw [h1]
  positivity

/-- Between 1/2 and 1 the single-precision numbers are `2 ^ -24` apart. -/
theorem ulp32_half_to_one (q : ℚ) (h1 : 1 / 2 ≤ q) (h2 : q < 1) : ulp32 q = 1 / 2 ^ 24 := by
  unfold ulp32
  have habs : |q| = q := abs_of_nonneg (by linarith)
  rw [habs]
  obtain ⟨j, hj, he, hle, hlt⟩ := binadeFrom_spec q 253 ((1 / 2) ^ 126)
  rw [he] at hle hlt ⊢
  have hj0 : j ≠ 0 := by
    intro h0
    rcases hlt with hlt | hlt
    · rw [h0] at hlt
      norm_num at hlt
      linarith
    · omega
  have hle' : (2 : ℚ) ^ j * (1 / 2) ^ 126 ≤ q := by
    rcases hle with h | h
    · exact h
    · exact absurd h hj0
  have hup : (2 : ℚ) ^ j < 2 ^ 126 := by
    have : (2 : ℚ) ^ j * (1 / 2) ^ 126 < 1 := lt_of_le_of_lt hle' h2
    have h126 : (2 : ℚ) ^ 126 * (1 / 2) ^ 126 = 1 := by norm_num
    nlinarith [pow_pos (show (0 : ℚ) < 1 / 2 by norm_num) 126]
  have hj126 : j < 126 := (pow_lt_pow_iff_right₀ (by norm_num : (1 : ℚ) < 2)).mp hup
  have hlt' : q < 2 * ((2 : ℚ) ^ j * (1 / 2) ^ 126) := by
    rcases hlt with h | h
    · exact h
    · omega
  have hlow : (2 : ℚ) ^ 124 < 2 ^ j := by
    have : (1 : ℚ) / 4 < (2 : ℚ) ^ j * (1 / 2) ^ 126 := by linarith
    have h124 : (2 : ℚ) ^ 124 * (1 / 2) ^ 126 = 1 / 4 := by norm_num
    nlinarith [pow_pos (show (0 : ℚ) < 1 / 2 by norm_num) 126]
  have hj124 : 124 < j := (pow_lt_pow_iff_right₀ (by norm_num : (1 : ℚ) < 2)).mp hlow
  have hj125 : j = 125 := by omega
  rw [hj125]
  norm_num

/-- Below 1/2 the single-precision numbers are `2 ^ -25` apart at most. -/
theorem ulp32_below_half (q : ℚ) (h1 : 0 < q) (h2 : q < 1 / 2) : ulp32 q ≤ 1 / 2 ^ 25 := by
  unfold ulp32
  have habs : |q| = q := abs_of_nonneg (by linarith)
  rw [habs]
  obtain ⟨j, hj, he, hle, _⟩ := binadeFrom_spec q 253 ((1 / 2) ^ 126)
  rw [he] at hle ⊢
  have hj124 : j ≤ 124 := by
    rcases hle with h | h
    · have hup : (2 : ℚ) ^ j < 2 ^ 125 := by
        have : (2 : ℚ) ^ j * (1 / 2) ^ 126 < 1 / 2 := lt_of_le_of_lt h h2
        have h125 : (2 : ℚ) ^ 125 * (1 / 2) ^ 126 = 1 / 2 := by norm_num
        nlinarith [pow_pos (show (0 : ℚ) < 1 / 2 by norm_num) 126]
      have := (pow_lt_pow_iff_right₀ (by norm_num : (1 : ℚ) < 2)).mp hup
      omega
    · omega
  have hpow : (2 : ℚ) ^ j ≤ 2 ^ 124 := pow_le_pow_right₀ (by norm_num) hj124
  have h124 : (2 : ℚ) ^ 124 * (1 / 2) ^ 126 / 2 ^ 23 = 1 / 2 ^ 25 := by norm_num
  rw [← h124]
  apply div_le_div_of_nonneg_right _ (by positivity)
  exact mul_le_mul_of_nonneg_right hpow (by positivity)

/-- From 1 on the spacing of the single-precision numbers is `2 ^ -23` of the
number at most. -/
theorem ulp32_from_one (q : ℚ) (h1 : 1 ≤ q) : ulp32 q ≤ q / 2 ^ 23 := by
  unfold ulp32
  have habs : |q| = q := abs_of_nonneg (by linarith)
  rw [habs]
  obtain ⟨j, hj, he, hle, _⟩ := binadeFrom_spec q 253 ((1 / 2) ^ 126)
  apply div_le_div_of_nonneg_right _ (by positivity)
  rcases hle with h | h
  · exact h
  · rw [he, h]
    have : (2 : ℚ) ^ 0 * (1 / 2) ^ 126 ≤ 1 := by norm_num
    linarith

theorem float32_zero : float32 0 = 0 := by decide!

theorem neutralemfcut_eq : neutralemfcut = 11744051 / 16777216 := by
  unfold neutralemfcut
  decide!

/-- The cut of `isGoodEMObject` on the neutral EM fraction in exact terms: the
single-precision quotient is below the single-precision value of 0.7 exactly
when the exact quotient is at most `23488101 / 2 ^ 25` (0.69999995827...), the
number half way between that value and the single-precision number before
it. -/
theorem round_lt_neutralemfcut (q : ℚ) :
    (CFloat.round q).lt (.finite neutralemfcut) = true ↔ q ≤ 23488101 / 33554432 := by
  rw [neutralemfcut_eq]
  have hu := ulp32_pos q
  have hnear := roundHalfEven_near (q / ulp32 q)
  have hlow : q - ulp32 q / 2 ≤ float32 q := by
    unfold float32
    have := mul_le_mul_of_nonneg_right hnear.1 (le_of_lt hu)
    rw [sub_mul, div_mul_cancel₀ _ (ne_of_gt hu)] at this
    linarith
  have hhigh : float32 q ≤ q + ulp32 q / 2 := by
    unfold float32
    have := mul_le_mul_of_nonneg_right hnear.2 (le_of_lt hu)
    rw [add_mul, div_mul_cancel₀ _ (ne_of_gt hu)] at this
    linarith
  rcases le_or_lt q 0 with hq0 | hq0
  · -- nothing above zero is reached
    have hle : float32 q ≤ 0 := by
      unfold float32
      have h0 : roundHalfEven (q / ulp32 q) ≤ 0 :=
        (roundHalfEven_le_iff _ 0 (by decide)).mpr (by
          have : q / ulp32 q ≤ 0 := div_nonpos_of_nonpos_of_nonneg hq0 (le_of_lt hu)
          push_cast
          linarith)
      have h0' : (roundHalfEven (q / ulp32 q) : ℚ) ≤ 0 := by exact_mod_cast h0
      exact mul_nonpos_of_nonpos_of_nonneg h0' (le_of_lt hu)
    have hq : q ≤ 23488101 / 33554432 := by linarith
    simp only [hq, iff_true]
    unfold CFloat.round
    split_ifs with hov
    · have hneg : q < 0 := by
        rcases hq0.lt_or_eq with h | h
        · exact h
        · exfalso
          rw [h, float32_zero] at hov
          norm_num at hov
      simp [CFloat.lt, hneg]
    · simp only [CFloat.lt, decide_eq_true_eq]
      linarith
  · rcases lt_or_le q (1 / 2) with hhalf | hhalf
    · have hul := ulp32_below_half q hq0 hhalf
      have hq : q ≤ 23488101 / 33554432 := by linarith
      simp only [hq, iff_true]
      have hfl : float32 q < 11744051 / 16777216 := by
        have : (1 : ℚ) / 2 ^ 25 = 1 / 33554432 := by norm_num
        linarith
      have hfl0 : -1 ≤ float32 q := by
        have : (1 : ℚ) / 2 ^ 25 = 1 / 33554432 := by norm_num
        linarith
      unfold CFloat.round
      rw [if_neg (by
        rw [not_le, abs_lt]
        constructor <;> norm_num <;> linarith)]
      simp only [CFloat.lt, decide_eq_true_eq]
      exact hfl
    · rcases lt_or_le q 1 with hone | hone
      · have hul : ulp32 q = 1 / 16777216 := by
          rw [ulp32_half_to_one q hhalf hone]
          norm_num
        have hfl : float32 q = roundHalfEven (q * 16777216) / 16777216 := by
          unfold float32
          rw [hul]
          field_simp
        have hr1 : roundHalfEven (q * 16777216) ≤ 16777216 :=
          (roundHalfEven_le_iff _ _ (by decide)).mpr (by
            push_cast
            linarith)
        have hr0 : 0 ≤ (roundHalfEven (q * 16777216) : ℚ) := by
          have := (roundHalfEven_near (q * 16777216)).1
          linarith
        have key : roundHalfEven (q * 16777216) ≤ 11744050 ↔
            q * 16777216 ≤ ((11744050 : Int) : ℚ) + 1 / 2 :=
          roundHalfEven_le_iff _ _ (by decide)
        generalize roundHalfEven (q * 16777216) = r at hfl hr1 hr0 key
        have hr1' : (r : ℚ) ≤ 16777216 := by exact_mod_cast hr1
        push_cast at key
        unfold CFloat.round
        rw [if_neg (by
          rw [not_le, hfl, abs_of_nonneg (by positivity)]
          calc (r : ℚ) / 16777216 ≤ 16777216 / 16777216 :=
                div_le_div_of_nonneg_right hr1' (by norm_num)
            _ < 2 ^ 128 := by norm_num)]
        simp only [CFloat.lt, decide_eq_true_eq, hfl]
        rw [div_lt_div_iff_of_pos_right (by norm_num)]
        constructor
        · intro h
          have h' : r < 11744051 := by exact_mod_cast h
          have := key.mp (by omega)
          linarith
        · intro h
          have := key.mpr (by linarith)
          have h' : (r : ℚ) ≤ 11744050 := by exact_mod_cast this
          linarith
      · have hul := ulp32_from_one q hone
        have hq : ¬ q ≤ 23488101 / 33554432 := by
          rw [not_le]
          linarith
        simp only [hq, iff_false, Bool.not_eq_true]
        have hfl : (11744051 : ℚ) / 16777216 ≤ float32 q := by
          have : q / 2 ^ 23 = q / 8388608 := by norm_num
          linarith
        unfold CFloat.round
        split_ifs with hov
        · simp [CFloat.lt, not_lt.mpr (le_trans zero_le_one hone)]
        · simp only [CFloat.lt, decide_eq_false_iff_not, not_lt]
          exact hfl

/-- The cut of `isGoodEMObject` on the neutral EM fraction in exact terms: for an
energy that is not zero the quotient is cut at `23488101 / 2 ^ 25`; for an energy
of zero the quotient is an infinity or not a number, and is below the cut only
for a negative neutral EM energy. -/
theorem emfracBelowCut_iff (neutralEmE energy : ℚ) :
    (energy ≠ 0 → (emfracBelowCut neutralEmE energy ↔
      neutralEmE / energy ≤ 23488101 / 33554432)) ∧
    (energy = 0 → (emfracBelowCut neutralEmE energy ↔ neutralEmE < 0)) := by
  constructor
  · intro h
    unfold emfracBelowCut
    simp only [CFloat.div, if_neg h]
    exact round_lt_neutralemfcut _
  · intro h
    unfold emfracBelowCut
    simp only [CFloat.div, h, if_true]
    by_cases h0 : neutralEmE = 0
    · simp [h0, CFloat.lt]
    · simp [h0, CFloat.lt]

/-! ## The matching loop of isGoodEMObject -/

section matching

variable {V : Type} (K : LorentzOps V)

/-- The matching loop either keeps the pair it started from, no candidate being
nearer than its distance, or ends on the first nearest candidate, which is
nearer. -/
theorem matchedJetLoop_spec (vg : V) :
    ∀ (jets : List V) (ijet : Nat) (best : Int × ℚ),
      (matchedJetLoop K vg ijet jets best = best ∧
        ∀ (k : Nat) (vk : V), jets[k]? = some vk → emCandidate K vk → best.2 ≤ K.DeltaR vk vg) ∨
      (∃ (k : Nat) (d : ℚ), matchedJetLoop K vg ijet jets best = (((ijet + k : Nat) : Int), d) ∧
        d < best.2 ∧ nearestCandidate K jets vg k d) := by
  intro jets
  induction jets with
  | nil =>
    intro ijet best
    exact Or.inl ⟨rfl, fun k vk h => by simp at h⟩
  | cons vjet rest ih =>
    intro ijet best
    have skip : ¬ emCandidate K vjet →
        matchedJetLoop K vg ijet (vjet :: rest) best = matchedJetLoop K vg (ijet + 1) rest best →
        ((matchedJetLoop K vg ijet (vjet :: rest) best = best ∧
          ∀ (k : Nat) (vk : V), (vjet :: rest)[k]? = some vk → emCandidate K vk →
            best.2 ≤ K.DeltaR vk vg) ∨
        (∃ (k : Nat) (d : ℚ),
          matchedJetLoop K vg ijet (vjet :: rest) best = (((ijet + k : Nat) : Int), d) ∧
          d < best.2 ∧ nearestCandidate K (vjet :: rest) vg k d)) := by
      intro hnc heq
      rcases ih (ijet + 1) best with ⟨h1, h2⟩ | ⟨k, d, h1, h2, v, h3, h4, h5, h6, h7⟩
      · left
        refine ⟨by rw [heq, h1], ?_⟩
        intro k vk hk hc
        cases k with
        | zero =>
          simp only [List.getElem?_cons_zero, Option.some.injEq] at hk
          subst hk
          exact absurd hc hnc
        | succ j => exact h2 j vk (by simpa using hk) hc
      · right
        refine ⟨k + 1, d, ?_, h2, v, by simpa using h3, h4, h5, ?_, ?_⟩
        · rw [heq, h1]
          congr 2
          omega
        · intro k' vk hk hc
          cases k' with
          | zero =>
            simp only [List.getElem?_cons_zero, Option.some.injEq] at hk
            subst hk
            exact absurd hc hnc
          | succ j => exact h6 j vk (by simpa using hk) hc
        · intro k' vk hlt hk hc
          cases k' with
          | zero =>
            simp only [List.getElem?_cons_zero, Option.some.injEq] at hk
            subst hk
            exact absurd hc hnc
          | succ j => exact h7 j vk (by omega) (by simpa using hk) hc
    by_cases hpt : K.pt vjet < 10
    · exact skip (fun hc => absurd hc.1 (not_le.mpr hpt)) (by simp [matchedJetLoop, hpt])
    · by_cases heta : |K.eta vjet| > 3
      · exact skip (fun hc => absurd hc.2 (not_le.mpr heta))
          (by simp only [matchedJetLoop, if_neg hpt, if_pos heta])
      · have hcand : emCandidate K vjet := ⟨not_lt.mp hpt, not_lt.mp heta⟩
        by_cases hdr : K.DeltaR vjet vg < best.2
        · have heq : matchedJetLoop K vg ijet (vjet :: rest) best =
              matchedJetLoop K vg (ijet + 1) rest ((ijet : Int), K.DeltaR vjet vg) := by
            simp only [matchedJetLoop, if_neg hpt, if_neg heta, if_pos hdr]
          right
          rcases ih (ijet + 1) ((ijet : Int), K.DeltaR vjet vg) with
            ⟨h1, h2⟩ | ⟨k, d, h1, h2, v, h3, h4, h5, h6, h7⟩
          · refine ⟨0, K.DeltaR vjet vg, by rw [heq, h1]; rfl, hdr, vjet, by simp, hcand, rfl,
              ?_, ?_⟩
            · intro k' vk hk hc
              cases k' with
              | zero =>
                simp only [List.getElem?_cons_zero, Option.some.injEq] at hk
                subst hk
                exact le_refl _
              | succ j => exact h2 j vk (by simpa using hk) hc
            · intro k' vk hlt
              omega
          · simp only at h2
            refine ⟨k + 1, d, ?_, lt_trans h2 hdr, v, by simpa using h3, h4, h5, ?_, ?_⟩
            · rw [heq, h1]
              congr 2
              omega
            · intro k' vk hk hc
              cases k' with
              | zero =>
                simp only [List.getElem?_cons_zero, Option.some.injEq] at hk
                subst hk
                exact le_of_lt h2
              | succ j => exact h6 j vk (by simpa using hk) hc
            · intro k' vk hlt hk hc
              cases k' with
              | zero =>
                simp only [List.getElem?_cons_zero, Option.some.injEq] at hk
                subst hk
                exact h2
              | succ j => exact h7 j vk (by omega) (by simpa using hk) hc
        · have heq : matchedJetLoop K vg ijet (vjet :: rest) best =
              matchedJetLoop K vg (ijet + 1) rest best := by
            simp only [matchedJetLoop, if_neg hpt, if_neg heta, if_neg hdr]
          rcases ih (ijet + 1) best with ⟨h1, h2⟩ | ⟨k, d, h1, h2, v, h3, h4, h5, h6, h7⟩
          · left
            refine ⟨by rw [heq, h1], ?_⟩
            intro k vk hk hc
            cases k with
            | zero =>
              simp only [List.getElem?_cons_zero, Option.some.injEq] at hk
              subst hk
              exact not_lt.mp hdr
            | succ j => exact h2 j vk (by simpa using hk) hc
          · right
            have hlt : d < K.DeltaR vjet vg := lt_of_lt_of_le h2 (not_lt.mp hdr)
            refine ⟨k + 1, d, ?_, h2, v, by simpa using h3, h4, h5, ?_, ?_⟩
            · rw [heq, h1]
              congr 2
              omega
            · intro k' vk hk hc
              cases k' with
              | zero =>
                simp only [List.getElem?_cons_zero, Option.some.injEq] at hk
                subst hk
                exact le_of_lt hlt
              | succ j => exact h6 j vk (by simpa using hk) hc
            · intro k' vk hlt2 hk hc
              cases k' with
              | zero =>
                simp only [List.getElem?_cons_zero, Option.some.injEq] at hk
                subst hk
                exact hlt
              | succ j => exact h7 j vk (by omega) (by simpa using hk) hc

theorem nearestCandidate_unique (jets : List V) (vg : V) (j j2 : Nat) (d d2 : ℚ)
    (h1 : nearestCandidate K jets vg j d) (h2 : nearestCandidate K jets vg j2 d2) :
    j = j2 ∧ d = d2 := by
  obtain ⟨v, hv1, hv2, hv3, hv4, hv5⟩ := h1
  obtain ⟨w, hw1, hw2, hw3, hw4, hw5⟩ := h2
  have hle1 : d ≤ d2 := hw3 ▸ hv4 j2 w hw1 hw2
  have hle2 : d2 ≤ d := hv3 ▸ hw4 j v hv1 hv2
  have hd : d = d2 := le_antisymm hle1 hle2
  refine ⟨?_, hd⟩
  rcases Nat.lt_trichotomy j j2 with h | h | h
  · have := hw5 j v h hv1 hv2
    rw [← hv3] at this
    linarith
  · exact h
  · have := hv5 j2 w h hw1 hw2
    rw [← hw3] at this
    linarith

/-- The decision tree of `isGoodEMObject` on what it returns. -/
theorem isGoodEMObject_tree (ev : Event V) (energy : V → ℚ) (index : Nat)
    (hdr : ∀ vjet vg : V, vjet ∈ ev.pfjets_p4 → ev.photons_p4[index]? = some vg →
      emCandidate K vjet → K.DeltaR vjet vg < 100)
    (r : Int) (h : isGoodEMObject K ev energy index = .ok r) :
    ∃ vg, ev.photons_p4[index]? = some vg ∧
      ((photonRejected K ev index vg ∧ r = -1) ∨
       (¬ photonRejected K ev index vg ∧ (∀ vjet ∈ ev.pfjets_p4, ¬ emCandidate K vjet) ∧
          r = -2) ∨
       (¬ photonRejected K ev index vg ∧
          ∃ (j : Nat) (d : ℚ), nearestCandidate K ev.pfjets_p4 vg j d ∧
            ((d > 3 / 10 ∧ r = -3) ∨
             (d ≤ 3 / 10 ∧ ∃ (vjet : V) (neutralEmE : ℚ), ev.pfjets_p4[j]? = some vjet ∧
                ev.pfjets_neutralEmE[j]? = some neutralEmE ∧
                ((emfracBelowCut neutralEmE (energy vjet) ∧ r = -4) ∨
                 (¬ emfracBelowCut neutralEmE (energy vjet) ∧ r = (j : Int) ∧
                    j < ev.pfjets_p4.length)))))) := by
  unfold isGoodEMObject at h
  cases hvg : vat ev.photons_p4 index with
  | error e => rw [hvg] at h; cases h
  | ok vg =>
    rw [hvg] at h
    simp only [Except.bind] at h
    have hvg' := (vat_eq_ok _ _ _).mp hvg
    refine ⟨vg, hvg', ?_⟩
    by_cases hpt : K.pt vg < 22
    · rw [if_pos hpt] at h
      simp only [Except.ok.injEq] at h
      exact Or.inl ⟨Or.inl hpt, h.symm⟩
    · rw [if_neg hpt] at h
      cases hh : vat ev.photons_hOverE index with
      | error e => rw [hh] at h; cases h
      | ok hoe =>
        rw [hh] at h
        simp only at h
        have hh' := (vat_eq_ok _ _ _).mp hh
        by_cases hhoe : hoe > 1 / 10
        · rw [if_pos hhoe] at h
          simp only [Except.ok.injEq] at h
          exact Or.inl ⟨Or.inr (Or.inl ⟨hoe, hh', hhoe⟩), h.symm⟩
        · rw [if_neg hhoe] at h
          cases hs : isSpikePhoton ev index with
          | error e => rw [hs] at h; cases h
          | ok spike =>
            rw [hs] at h
            simp only at h
            cases spike with
            | true =>
              simp only [if_true, Except.ok.injEq] at h
              exact Or.inl ⟨Or.inr (Or.inr hs), h.symm⟩
            | false =>
              simp only [Bool.false_eq_true, if_false] at h
              have hnr : ¬ photonRejected K ev index vg := by
                rintro (h1 | ⟨hoe2, h2, h3⟩ | h4)
                · exact hpt h1
                · rw [hh'] at h2
                  simp only [Option.some.injEq] at h2
                  rw [← h2] at h3
                  exact hhoe h3
                · rw [hs] at h4
                  simp at h4
              right
              rcases matchedJetLoop_spec K vg ev.pfjets_p4 0 (-1, 100) with
                ⟨h1, h2⟩ | ⟨k, d, h1, h2, h3⟩
              · rw [h1] at h
                simp only [Int.reduceNeg, Int.reduceLT, if_true, Except.ok.injEq] at h
                refine Or.inl ⟨hnr, ?_, h.symm⟩
                intro vjet hmem hc
                obtain ⟨i, hi⟩ := List.getElem?_of_mem hmem
                have := h2 i vjet hi hc
                have := hdr vjet vg hmem hvg' hc
                simp only at *
                linarith
              · rw [h1] at h
                have hk0 : ¬ (((0 + k : Nat) : Int) < 0) := by omega
                simp only [if_neg hk0] at h
                refine Or.inr ⟨hnr, k, d, h3, ?_⟩
                by_cases hd : d > 3 / 10
                · rw [if_pos hd] at h
                  simp only [Except.ok.injEq] at h
                  exact Or.inl ⟨hd, h.symm⟩
                · rw [if_neg hd] at h
                  right
                  refine ⟨not_lt.mp hd, ?_⟩
                  rw [Nat.zero_add, vatInt_natCast, vatInt_natCast] at h
                  cases hn : vat ev.pfjets_neutralEmE k with
                  | error e => rw [hn] at h; cases h
                  | ok nem =>
                    rw [hn] at h
                    cases hp : vat ev.pfjets_p4 k with
                    | error e => rw [hp] at h; cases h
                    | ok pj =>
                      rw [hp] at h
                      simp only at h
                      have hp' := (vat_eq_ok _ _ _).mp hp
                      refine ⟨pj, nem, hp', (vat_eq_ok _ _ _).mp hn, ?_⟩
                      by_cases hf : emfracBelowCut nem (energy pj)
                      · unfold emfracBelowCut at hf
                        rw [if_pos hf] at h
                        simp only [Except.ok.injEq] at h
                        exact Or.inl ⟨hf, h.symm⟩
                      · unfold emfracBelowCut at hf
                        rw [if_neg hf] at h
                        simp only [Except.ok.injEq] at h
                        exact Or.inr ⟨hf, h.symm,
                          (List.getElem?_eq_some_iff.mp hp').1⟩

theorem nearestCandidate_mem (jets : List V) (vg : V) (j : Nat) (d : ℚ)
    (h : nearestCandidate K jets vg j d) : ∃ vjet ∈ jets, emCandidate K vjet := by
  obtain ⟨v, hv1, hv2, _⟩ := h
  exact ⟨v, List.getElem?_mem hv1, hv2⟩

/-- When the photon and its H/E can be read, the spike test returns and every
particle-flow jet has a neutral EM energy, `isGoodEMObject` returns. -/
theorem isGoodEMObject_returns (ev : Event V) (energy : V → ℚ) (index : Nat)
    (hvg : ∃ vg, ev.photons_p4[index]? = some vg)
    (hhoe : ∃ hOverE, ev.photons_hOverE[index]? = some hOverE)
    (hspike : ∃ b, isSpikePhoton ev index = .ok b)
    (hlen : ev.pfjets_p4.length ≤ ev.pfjets_neutralEmE.length) :
    ∃ r, isGoodEMObject K ev energy index = .ok r := by
  obtain ⟨vg, hvg⟩ := hvg
  obtain ⟨hoe, hhoe⟩ := hhoe
  obtain ⟨b, hb⟩ := hspike
  unfold isGoodEMObject
  rw [(vat_eq_ok _ _ _).mpr hvg, (vat_eq_ok _ _ _).mpr hhoe, hb]
  simp only [Except.bind]
  split
  · exact ⟨_, rfl⟩
  · split
    · exact ⟨_, rfl⟩
    · split
      · exact ⟨_, rfl⟩
      · rcases matchedJetLoop_spec K vg ev.pfjets_p4 0 (-1, 100) with
          ⟨h1, _⟩ | ⟨k, d, h1, _, v, h3, _⟩
        · rw [h1]
          exact ⟨_, rfl⟩
        · rw [h1]
          have hk0 : ¬ (((0 + k : Nat) : Int) < 0) := by omega
          have hk : k < ev.pfjets_p4.length := (List.getElem?_eq_some_iff.mp h3).1
          simp only [if_neg hk0]
          split
          · exact ⟨_, rfl⟩
          · rw [Nat.zero_add, vatInt_natCast, vatInt_natCast, vat_of_lt _ _ hk,
              vat_of_lt _ _ (by omega : k < ev.pfjets_neutralEmE.length)]
            simp only
            split
            · exact ⟨_, rfl⟩
            · exact ⟨_, rfl⟩

end matching
theorem photonEvent_distance (vjet vg : P4) (hm : vjet ∈ photonEvent.pfjets_p4)
    (hg : photonEvent.photons_p4[0]? = some vg) (_hc : emCandidate P4.ops vjet) :
    P4.ops.DeltaR vjet vg < 100 := by
  have hvg : vg = ⟨40, 0, 0⟩ := by
    simp only [photonEvent, List.getElem?_cons_zero, Option.some.injEq] at hg
    exact hg.symm
  subst hvg
  simp only [photonEvent, List.mem_cons, List.mem_singleton, List.not_mem_nil, or_false] at hm
  rcases hm with h | h | h <;> subst h <;> simp [P4.ops, P4.etaOf] <;> norm_num [abs_of_pos]

theorem photonEvent_isGoodEMObject :
    isGoodEMObject P4.ops photonEvent P4.energyOf 0 = .ok 1 := by
  have hl : matchedJetLoop P4.ops ⟨40, 0, 0⟩ 0 photonEvent.pfjets_p4 (-1, 100) = (1, 1 / 5) := by
    simp [matchedJetLoop, photonEvent, P4.ops, P4.etaOf]
    norm_num [abs_of_pos]
  have hs : isSpikePhoton photonEvent 0 = .ok false := by
    simp [isSpikePhoton, vidx, photonEvent, Except.bind]
  unfold isGoodEMObject
  rw [show vat photonEvent.photons_p4 0 = .ok ⟨40, 0, 0⟩ from rfl,
    show vat photonEvent.photons_hOverE 0 = .ok (1 / 20) from rfl, hs]
  have hfrac : ((CFloat.finite 45).div (.finite 50)).lt (.finite neutralemfcut) = false := by
    decide!
  simp only [Except.bind, hl]
  simp [vatInt, vat, photonEvent, P4.energyOf, P4.ops]
  norm_num [abs_of_pos, hfrac]

/-- C20. The function `isGoodEMObject` returns one code per failure point and a
jet index otherwise, for every event in which the candidate jets lie within
DeltaR 100 of the photon (the start value of `drmin`). Whatever it returns is
given by the decision tree: -1 when the photon has `pt < 22`, `H/E > 0.1` or is
a spike; -2 when no particle-flow jet has `pt >= 10` and `|eta| <= 3`; -3 when
the nearest such jet (the first one among equally near ones) is farther than
0.3; -4 when the neutral EM energy fraction of that jet, the single-precision
quotient of its neutral EM energy by its energy, is below the single-precision
value of 0.7; otherwise the index of that jet, which is at least 0 and below
the number of particle-flow jets. Each code is returned exactly under its condition, and the
result is negative exactly when the photon is not selected. The call returns
when the photon, its H/E and the neutral EM energies can be read and the spike
test returns. In exact terms the fraction is below the cut when the quotient
of the neutral EM energy by a non-zero energy is at most `23488101 / 2 ^ 25`
(0.69999995827...), and for an energy of zero when the neutral EM energy is
negative. -/
theorem C20_good_em_object_codes {V : Type} (K : LorentzOps V) (ev : Event V) (energy : V → ℚ)
    (index : Nat)
    (hdr : ∀ vjet vg : V, vjet ∈ ev.pfjets_p4 → ev.photons_p4[index]? = some vg →
      emCandidate K vjet → K.DeltaR vjet vg < 100) :
    (∀ r, isGoodEMObject K ev energy index = .ok r →
      ∃ vg, ev.photons_p4[index]? = some vg ∧
        (r = -1 ↔ photonRejected K ev index vg) ∧
        (r = -2 ↔ (¬ photonRejected K ev index vg ∧
          ∀ vjet ∈ ev.pfjets_p4, ¬ emCandidate K vjet)) ∧
        (r = -3 ↔ (¬ photonRejected K ev index vg ∧
          ∃ (j : Nat) (d : ℚ), nearestCandidate K ev.pfjets_p4 vg j d ∧ d > 3 / 10)) ∧
        (r = -4 ↔ (¬ photonRejected K ev index vg ∧
          ∃ (j : Nat) (d : ℚ) (vjet : V) (neutralEmE : ℚ),
            nearestCandidate K ev.pfjets_p4 vg j d ∧ d ≤ 3 / 10 ∧
            ev.pfjets_p4[j]? = some vjet ∧ ev.pfjets_neutralEmE[j]? = some neutralEmE ∧
            emfracBelowCut neutralEmE (energy vjet))) ∧
        (∀ j : Nat, r = (j : Int) ↔ emObjectSelected K ev energy index vg j) ∧
        (r < 0 ↔ ¬ ∃ j : Nat, emObjectSelected K ev energy index vg j) ∧
        (r < 0 → (r = -1 ∨ r = -2 ∨ r = -3 ∨ r = -4)) ∧
        (0 ≤ r → r < (ev.pfjets_p4.length : Int))) ∧
    ((∃ vg, ev.photons_p4[index]? = some vg) →
      (∃ hOverE, ev.photons_hOverE[index]? = some hOverE) →
      (∃ b, isSpikePhoton ev index = .ok b) →
      ev.pfjets_p4.length ≤ ev.pfjets_neutralEmE.length →
      ∃ r, isGoodEMObject K ev energy index = .ok r) ∧
    (∀ neutralEmE e : ℚ,
      (e ≠ 0 → (emfracBelowCut neutralEmE e ↔ neutralEmE / e ≤ 23488101 / 33554432)) ∧
      (e = 0 → (emfracBelowCut neutralEmE e ↔ neutralEmE < 0))) := by
  refine ⟨?_, isGoodEMObject_returns K ev energy index, emfracBelowCut_iff⟩
  intro r h
  obtain ⟨vg, hvg, htree⟩ := isGoodEMObject_tree K ev energy index hdr r h
  refine ⟨vg, hvg, ?_⟩
  have hnoNearest : (∀ vjet ∈ ev.pfjets_p4, ¬ emCandidate K vjet) →
      ∀ (j : Nat) (d : ℚ), ¬ nearestCandidate K ev.pfjets_p4 vg j d := by
    intro hnc j d hn
    obtain ⟨v, hv1, hv2⟩ := nearestCandidate_mem K _ _ _ _ hn
    exact hnc v hv1 hv2
  rcases htree with ⟨hrej, hr⟩ | ⟨hnr, hnc, hr⟩ | ⟨hnr, j0, d0, hn0, hleaf⟩
  · subst hr
    refine ⟨⟨fun _ => hrej, fun _ => rfl⟩, ⟨fun h' => by omega, fun h' => absurd hrej h'.1⟩,
      ⟨fun h' => by omega, fun h' => absurd hrej h'.1⟩,
      ⟨fun h' => by omega, fun h' => absurd hrej h'.1⟩,
      fun j => ⟨fun h' => by omega, fun h' => absurd hrej h'.1⟩,
      ⟨fun _ => fun ⟨j, hj⟩ => hj.1 hrej, fun _ => by omega⟩, fun _ => Or.inl rfl,
      fun h' => by omega⟩
  · subst hr
    refine ⟨⟨fun h' => by omega, fun h' => absurd h' hnr⟩, ⟨fun _ => ⟨hnr, hnc⟩, fun _ => rfl⟩,
      ⟨fun h' => by omega, fun ⟨_, j, d, hn, _⟩ => absurd hn (hnoNearest hnc j d)⟩,
      ⟨fun h' => by omega, fun ⟨_, j, d, _, _, hn, _⟩ => absurd hn (hnoNearest hnc j d)⟩,
      fun j => ⟨fun h' => by omega, fun ⟨_, d, _, _, hn, _⟩ => absurd hn (hnoNearest hnc j d)⟩,
      ⟨fun _ => fun ⟨j, _, d, _, _, hn, _⟩ => hnoNearest hnc j d hn, fun _ => by omega⟩,
      fun _ => Or.inr (Or.inl rfl), fun h' => by omega⟩
  · have hcand : ¬ ∀ vjet ∈ ev.pfjets_p4, ¬ emCandidate K vjet :=
      fun hnc => hnoNearest hnc j0 d0 hn0
    rcases hleaf with ⟨hd, hr⟩ | ⟨hd, vjet0, nem0, hp0, hne0, hlast⟩
    · subst hr
      have hfar : ∀ (j : Nat) (d : ℚ), nearestCandidate K ev.pfjets_p4 vg j d → ¬ d ≤ 3 / 10 := by
        intro j d hn hle
        have := (nearestCandidate_unique K _ _ _ _ _ _ hn hn0).2
        rw [this] at hle
        exact absurd hd (not_lt.mpr hle)
      refine ⟨⟨fun h' => by omega, fun h' => absurd h' hnr⟩,
        ⟨fun h' => by omega, fun h' => absurd h'.2 hcand⟩,
        ⟨fun _ => ⟨hnr, j0, d0, hn0, hd⟩, fun _ => rfl⟩,
        ⟨fun h' => by omega, fun ⟨_, j, d, _, _, hn, hle, _⟩ => absurd hle (hfar j d hn)⟩,
        fun j => ⟨fun h' => by omega, fun ⟨_, d, _, _, hn, hle, _⟩ => absurd hle (hfar j d hn)⟩,
        ⟨fun _ => fun ⟨j, _, d, _, _, hn, hle, _⟩ => hfar j d hn hle, fun _ => by omega⟩,
        fun _ => Or.inr (Or.inr (Or.inl rfl)), fun h' => by omega⟩
    · have hnear : ∀ (j : Nat) (d : ℚ), nearestCandidate K ev.pfjets_p4 vg j d → ¬ d > 3 / 10 := by
        intro j d hn hgt
        have := (nearestCandidate_unique K _ _ _ _ _ _ hn hn0).2
        rw [this] at hgt
        exact absurd hgt (not_lt.mpr hd)
      have hfrac : ∀ (j : Nat) (d : ℚ) (vjet : V) (nem : ℚ),
          nearestCandidate K ev.pfjets_p4 vg j d → ev.pfjets_p4[j]? = some vjet →
          ev.pfjets_neutralEmE[j]? = some nem →
          j = j0 ∧ (emfracBelowCut nem (energy vjet) ↔ emfracBelowCut nem0 (energy vjet0)) := by
        intro j d vjet nem hn hp hne
        have hj := (nearestCandidate_unique K _ _ _ _ _ _ hn hn0).1
        subst hj
        rw [hp0] at hp
        rw [hne0] at hne
        simp only [Option.some.injEq] at hp hne
        rw [hp, hne]
        exact ⟨rfl, Iff.rfl⟩
      rcases hlast with ⟨hf, hr⟩ | ⟨hf, hr, hj0⟩
      · subst hr
        have hnsel : ∀ j : Nat, ¬ emObjectSelected K ev energy index vg j := by
          rintro j ⟨_, d, vjet, nem, hn, _, hp, hne, hge⟩
          exact hge ((hfrac j d vjet nem hn hp hne).2.mpr hf)
        refine ⟨⟨fun h' => by omega, fun h' => absurd h' hnr⟩,
          ⟨fun h' => by omega, fun h' => absurd h'.2 hcand⟩,
          ⟨fun h' => by omega, fun ⟨_, j, d, hn, hgt⟩ => absurd hgt (hnear j d hn)⟩,
          ⟨fun _ => ⟨hnr, j0, d0, vjet0, nem0, hn0, hd, hp0, hne0, hf⟩, fun _ => rfl⟩,
          fun j => ⟨fun h' => by omega, fun h' => absurd h' (hnsel j)⟩,
          ⟨fun _ => fun ⟨j, hj⟩ => hnsel j hj, fun _ => by omega⟩,
          fun _ => Or.inr (Or.inr (Or.inr rfl)), fun h' => by omega⟩
      · subst hr
        have hsel : emObjectSelected K ev energy index vg j0 :=
          ⟨hnr, d0, vjet0, nem0, hn0, hd, hp0, hne0, hf⟩
        refine ⟨⟨fun h' => by omega, fun h' => absurd h' hnr⟩,
          ⟨fun h' => by omega, fun h' => absurd h'.2 hcand⟩,
          ⟨fun h' => by omega, fun ⟨_, j, d, hn, hgt⟩ => absurd hgt (hnear j d hn)⟩,
          ⟨fun h' => by omega, ?_⟩, fun j => ⟨?_, ?_⟩,
          ⟨fun h' => by omega, fun h' => absurd ⟨j0, hsel⟩ h'⟩, fun h' => by omega,
          fun _ => by omega⟩
        · rintro ⟨_, j, d, vjet, nem, hn, _, hp, hne, hlt⟩
          exact absurd ((hfrac j d vjet nem hn hp hne).2.mp hlt) hf
        · intro h'
          have : j = j0 := by omega
          rw [this]
          exact hsel
        · rintro ⟨_, d, vjet, nem, hn, _, hp, hne, _⟩
          rw [(hfrac j d vjet nem hn hp hne).1]

/-- C20, witness: on `photonEvent` the photon (pt 40, H/E 1/20, no spike) is
matched to jet 1, the nearest jet with `pt >= 10` (DeltaR 1/5, neutral EM
fraction 9/10): the function returns 1, and jet 1 is the selected one. -/
theorem C20_good_em_object_codes_witness :
    isGoodEMObject P4.ops photonEvent P4.energyOf 0 = .ok 1 ∧
    ∃ vg, photonEvent.photons_p4[0]? = some vg ∧
      emObjectSelected P4.ops photonEvent P4.energyOf 0 vg 1 := by
  refine ⟨photonEvent_isGoodEMObject, ?_⟩
  obtain ⟨vg, hvg, _, _, _, _, h5, _⟩ :=
    (C20_good_em_object_codes P4.ops photonEvent P4.energyOf 0 photonEvent_distance).1 1
      photonEvent_isGoodEMObject
  exact ⟨vg, hvg, (h5 1).mp rfl⟩

theorem cutFractionEvent_distance (vjet vg : P4) (hm : vjet ∈ cutFractionEvent.pfjets_p4)
    (hg : cutFractionEvent.photons_p4[0]? = some vg) (_hc : emCandidate P4.ops vjet) :
    P4.ops.DeltaR vjet vg < 100 := by
  have hvg : vg = ⟨40, 0, 0⟩ := by
    simp only [cutFractionEvent, List.getElem?_cons_zero, Option.some.injEq] at hg
    exact hg.symm
  subst hvg
  simp only [cutFractionEvent, List.mem_cons, List.mem_singleton, List.not_mem_nil, or_false]
    at hm
  rcases hm with h | h | h <;> subst h <;> simp [P4.ops, P4.etaOf] <;> norm_num [abs_of_pos]

theorem cutFractionEvent_isGoodEMObject :
    isGoodEMObject P4.ops cutFractionEvent P4.energyOf 0 = .ok 1 := by
  have hl : matchedJetLoop P4.ops ⟨40, 0, 0⟩ 0 cutFractionEvent.pfjets_p4 (-1, 100)
      = (1, 1 / 5) := by
    simp [matchedJetLoop, cutFractionEvent, P4.ops, P4.etaOf]
    norm_num [abs_of_pos]
  have hs : isSpikePhoton cutFractionEvent 0 = .ok false := by
    simp [isSpikePhoton, vidx, cutFractionEvent, Except.bind]
  have hfrac : ((CFloat.finite (11744051 / 1048576)).div (.finite 16)).lt
      (.finite neutralemfcut) = false := by
    decide!
  unfold isGoodEMObject
  rw [show vat cutFractionEvent.photons_p4 0 = .ok ⟨40, 0, 0⟩ from rfl,
    show vat cutFractionEvent.photons_hOverE 0 = .ok (1 / 20) from rfl, hs]
  simp only [Except.bind, hl]
  simp [vatInt, vat, cutFractionEvent, P4.energyOf, P4.ops]
  norm_num [abs_of_pos, hfrac]

/-- C20, counterexample: on `cutFractionEvent` the photon passes the quality
cuts and jet 1 is the nearest candidate, at DeltaR 1/5. The neutral EM energy
fraction of that jet is `11744051 / 2 ^ 24` (0.69999998807...), which is below
0.7, and the function returns the index 1, not -4. -/
theorem C20_fraction_just_below_the_cut :
    isGoodEMObject P4.ops cutFractionEvent P4.energyOf 0 = .ok 1 ∧
    cutFractionEvent.photons_p4[0]? = some ⟨40, 0, 0⟩ ∧
    ¬ photonRejected P4.ops cutFractionEvent 0 ⟨40, 0, 0⟩ ∧
    nearestCandidate P4.ops cutFractionEvent.pfjets_p4 ⟨40, 0, 0⟩ 1 (1 / 5) ∧
    cutFractionEvent.pfjets_p4[1]? = some ⟨16, 0, 1 / 5⟩ ∧
    cutFractionEvent.pfjets_neutralEmE[1]? = some (11744051 / 1048576) ∧
    (11744051 / 1048576 : ℚ) / P4.energyOf ⟨16, 0, 1 / 5⟩ = 11744051 / 16777216 ∧
    (11744051 / 1048576 : ℚ) / P4.energyOf ⟨16, 0, 1 / 5⟩ < 7 / 10 := by
  have hr := cutFractionEvent_isGoodEMObject
  obtain ⟨vg, hvg, htree⟩ := isGoodEMObject_tree P4.ops cutFractionEvent P4.energyOf 0
    cutFractionEvent_distance 1 hr
  have hvg' : vg = ⟨40, 0, 0⟩ := by
    simp only [cutFractionEvent, List.getElem?_cons_zero, Option.some.injEq] at hvg
    exact hvg.symm
  subst hvg'
  have he : P4.energyOf ⟨16, 0, 1 / 5⟩ = 16 := by norm_num [P4.energyOf]
  refine ⟨hr, rfl, ?_, ?_, rfl, rfl, ?_, ?_⟩
  · rcases htree with ⟨_, h⟩ | ⟨_, _, h⟩ | ⟨hnr, _⟩
    · omega
    · omega
    · exact hnr
  · rcases htree with ⟨_, h⟩ | ⟨_, _, h⟩ | ⟨_, j, d, hn, hleaf⟩
    · omega
    · omega
    · rcases hleaf with ⟨_, h⟩ | ⟨_, _, _, _, _, (⟨_, h⟩ | ⟨_, h, _⟩)⟩
      · omega
      · omega
      · have hj : j = 1 := by omega
        subst hj
        have hn2 := hn
        obtain ⟨vjet, hv1, _, hv3, _⟩ := hn2
        have hv : vjet = ⟨16, 0, 1 / 5⟩ := by
          simp only [cutFractionEvent, List.getElem?_cons_succ, List.getElem?_cons_zero,
            Option.some.injEq] at hv1
          exact hv1.symm
        subst hv
        have hd : d = 1 / 5 := by
          rw [hv3]
          simp [P4.ops, P4.etaOf]
        subst hd
        exact hn
  · rw [he]
    norm_num
  · rw [he]
    norm_num

/-- The value of `isSpikePhoton` for a photon with a supercluster whose three
energies can be read. -/
theorem isSpikePhoton_eq {V : Type} (ev : Event V) (index : Nat) (scidx : Int)
    (e1x3 e3x1 eMax : ℚ) (h0 : vidx ev.photons_scindex index = .ok scidx) (hs : scidx ≠ -1)
    (h1 : vidxInt ev.scs_e1x3 scidx = .ok e1x3) (h2 : vidxInt ev.scs_e3x1 scidx = .ok e3x1)
    (h3 : vidxInt ev.scs_eMax scidx = .ok eMax) :
    isSpikePhoton ev index =
      .ok (((((CFloat.finite e1x3).add (.finite e3x1)).sub
        ((CFloat.finite 2).mul (.finite eMax))).div (.finite eMax)).lt
          (.finite (3602879701896397 / 72057594037927936))) := by
  simp only [isSpikePhoton, h0, Except.bind, if_pos hs, h1, h2, h3]

/-- With `eMax = 0` the quantity `r4` of `isSpikePhoton` is the quotient of 2 by
zero, an infinity, and the photon is no spike. -/
theorem zeroMaxEvent_isSpikePhoton : isSpikePhoton zeroMaxEvent 0 = .ok false := by
  have h : ((((CFloat.finite 1).add (.finite 1)).sub ((CFloat.finite 2).mul (.finite 0))).div
      (.finite 0)).lt (.finite (3602879701896397 / 72057594037927936)) = false := by decide!
  rw [isSpikePhoton_eq zeroMaxEvent 0 0 1 1 0 rfl (by decide) rfl rfl rfl, h]

/-! ## The dilepton trigger -/

/-- C30. On real data `samesign::passesTrigger` returns `false` for every
`analysis_type` other than 0, 1 and 2, for every `hyp_type` and every trigger
record; on a simulated event it returns `true` whatever the `analysis_type`. -/
theorem C30_unknown_analysis_type_on_data {V : Type} (ev : Event V)
    (passUnprescaledHLTTriggerPattern : String → Bool) (hyp_type analysis_type : Int) :
    (ev.evt_isRealData = true → analysis_type ≠ 0 → analysis_type ≠ 1 → analysis_type ≠ 2 →
      samesign.passesTrigger ev passUnprescaledHLTTriggerPattern hyp_type analysis_type
        = false) ∧
    (ev.evt_isRealData = false →
      samesign.passesTrigger ev passUnprescaledHLTTriggerPattern hyp_type analysis_type
        = true) := by
  constructor
  · intro hd h0 h1 h2
    simp [samesign.passesTrigger, hd, h0, h1, h2]
  · intro hd
    simp [samesign.passesTrigger, hd]

/-- C30, witness: the dijet event taken as real data, with `analysis_type` 3
and every trigger fired. -/
theorem C30_unknown_analysis_type_on_data_witness :
    samesign.passesTrigger { dijetEvent with evt_isRealData := true } (fun _ => true) 0 3
      = false :=
  (C30_unknown_analysis_type_on_data { dijetEvent with evt_isRealData := true }
    (fun _ => true) 0 3).1 rfl (by decide) (by decide) (by decide)

/-- C30, counterexample: the dijet event is simulated (`evt_isRealData` is
false); with `analysis_type` 3 and no trigger fired the function returns
`true`. -/
theorem C30_simulated_event_passes :
    dijetEvent.evt_isRealData = false ∧
    samesign.passesTrigger dijetEvent (fun _ => false) 0 3 = true ∧
    ¬ (samesign.passesTrigger dijetEvent (fun _ => false) 0 3 = false) := by
  have h : samesign.passesTrigger dijetEvent (fun _ => false) 0 3 = true := by
    simp [samesign.passesTrigger, dijetEvent]
  refine ⟨rfl, h, ?_⟩
  rw [h]
  decide

/-! ## Jet energy resolution: the tables -/

/-- C25. The function `getJERScale` takes the values 1.052, 1.057, 1.096, 1.134
and 1.288 on the five bins of `|eta|` with edges 0.5, 1.1, 1.7 and 2.3; it is
even in eta and exceeds 1 everywhere, so that `scale^2 - 1` is positive. -/
theorem C25_jer_scale_is_a_step_function (eta : ℚ) :
    (|eta| < 1 / 2 → getJERScale eta = 1052 / 1000) ∧
    (1 / 2 ≤ |eta| → |eta| < 11 / 10 → getJERScale eta = 1057 / 1000) ∧
    (11 / 10 ≤ |eta| → |eta| < 17 / 10 → getJERScale eta = 1096 / 1000) ∧
    (17 / 10 ≤ |eta| → |eta| < 23 / 10 → getJERScale eta = 1134 / 1000) ∧
    (23 / 10 ≤ |eta| → getJERScale eta = 1288 / 1000) ∧
    getJERScale (-eta) = getJERScale eta ∧
    1 < getJERScale eta ∧
    0 < getJERScale eta ^ 2 - 1 := by
  have hgt : 1 < getJERScale eta := by
    unfold getJERScale
    simp only []
    split_ifs <;> norm_num
  refine ⟨?_, ?_, ?_, ?_, ?_, ?_, hgt, ?_⟩
  · intro h
    unfold getJERScale
    simp only []
    rw [if_pos h]
  · intro h1 h2
    unfold getJERScale
    simp only []
    split_ifs <;> first | rfl | (exfalso; linarith)
  · intro h1 h2
    unfold getJERScale
    simp only []
    split_ifs <;> first | rfl | (exfalso; linarith)
  · intro h1 h2
    unfold getJERScale
    simp only []
    split_ifs <;> first | rfl | (exfalso; linarith)
  · intro h1
    unfold getJERScale
    simp only []
    split_ifs <;> first | rfl | (exfalso; linarith)
  · unfold getJERScale
    simp only [abs_neg]
  · nlinarith

/-- C25, witness: the values at eta -3/4, in the second bin, and at eta 3, in
the last. -/
theorem C25_jer_scale_is_a_step_function_witness :
    getJERScale (-(3 / 4)) = 1057 / 1000 ∧ getJERScale 3 = 1288 / 1000 :=
  ⟨(C25_jer_scale_is_a_step_function (-(3 / 4))).2.1
      (by rw [abs_neg, abs_of_pos] <;> norm_num) (by rw [abs_neg, abs_of_pos] <;> norm_num),
    (C25_jer_scale_is_a_step_function 3).2.2.2.2.1 (by rw [abs_of_pos] <;> norm_num)⟩

theorem getErrPt_eq (M : Libm) (pt eta N S C m : ℚ)
    (h : getErrPt_parameters eta = (N, S, C, m)) :
    getErrPt M pt eta = resolutionFormula M N S C m pt := by
  unfold getErrPt resolutionFormula
  simp only [h]
  congr 1
  ring

/-- C26. The function `getErrPt` is `sqrt(N * |N| + S^2 * pt^(m + 1) + C^2 * pt^2)`
with `(N, S, C, m)` read from seven bins of `|eta|`, closed below and open
above, with upper edges 0.5, 1.0, 1.5, 2.0, 2.5, 3.0 and 5.0; from 5.0 on the
four parameters are 0 and the result is `sqrt(0)`, which is 0 for every pt. -/
theorem C26_resolution_by_eta_bin (M : Libm) (pt eta : ℚ) :
    (|eta| < 1 / 2 → getErrPt M pt eta =
      resolutionFormula M (396859 / 100000) (18348 / 100000) 0 (62627 / 100000) pt) ∧
    (1 / 2 ≤ |eta| → |eta| < 1 → getErrPt M pt eta =
      resolutionFormula M (355226 / 100000) (24026 / 100000) 0 (52571 / 100000) pt) ∧
    (1 ≤ |eta| → |eta| < 3 / 2 → getErrPt M pt eta =
      resolutionFormula M (454826 / 100000) (22652 / 100000) 0 (58963 / 100000) pt) ∧
    (3 / 2 ≤ |eta| → |eta| < 2 → getErrPt M pt eta =
      resolutionFormula M (462622 / 100000) (23664 / 100000) 0 (48738 / 100000) pt) ∧
    (2 ≤ |eta| → |eta| < 5 / 2 → getErrPt M pt eta =
      resolutionFormula M (253324 / 100000) (34306 / 100000) 0 (28662 / 100000) pt) ∧
    (5 / 2 ≤ |eta| → |eta| < 3 → getErrPt M pt eta =
      resolutionFormula M (-(333814 / 100000)) (73360 / 100000) 0 (8264 / 100000) pt) ∧
    (3 ≤ |eta| → |eta| < 5 → getErrPt M pt eta =
      resolutionFormula M (295397 / 100000) (11619 / 100000) 0 (96086 / 100000) pt) ∧
    (5 ≤ |eta| → getErrPt_parameters eta = (0, 0, 0, 0) ∧
      getErrPt M pt eta = resolutionFormula M 0 0 0 0 pt ∧
      (M.sqrt 0 = 0 → getErrPt M pt eta = 0)) := by
  refine ⟨?_, ?_, ?_, ?_, ?_, ?_, ?_, ?_⟩
  · intro h
    apply getErrPt_eq
    unfold getErrPt_parameters
    rw [if_pos h]
  · intro h1 h2
    apply getErrPt_eq
    unfold getErrPt_parameters
    split_ifs <;> first | rfl | (exfalso; linarith)
  · intro h1 h2
    apply getErrPt_eq
    unfold getErrPt_parameters
    split_ifs <;> first | rfl | (exfalso; linarith)
  · intro h1 h2
    apply getErrPt_eq
    unfold getErrPt_parameters
    split_ifs <;> first | rfl | (exfalso; linarith)
  · intro h1 h2
    apply getErrPt_eq
    unfold getErrPt_parameters
    split_ifs <;> first | rfl | (exfalso; linarith)
  · intro h1 h2
    apply getErrPt_eq
    unfold getErrPt_parameters
    split_ifs <;> first | rfl | (exfalso; linarith)
  · intro h1 h2
    apply getErrPt_eq
    unfold getErrPt_parameters
    split_ifs <;> first | rfl | (exfalso; linarith)
  · intro h1
    have hp : getErrPt_parameters eta = (0, 0, 0, 0) := by
      unfold getErrPt_parameters
      split_ifs <;> first | rfl | (exfalso; linarith)
    refine ⟨hp, getErrPt_eq M pt eta 0 0 0 0 hp, ?_⟩
    intro hs
    rw [getErrPt_eq M pt eta 0 0 0 0 hp]
    unfold resolutionFormula
    simp [hs]

/-- C26, witness: with the library functions of `axisMath`, for which
`sqrt(0) = 0`, a jet of pt 30 at eta -11/2 has resolution 0, and at eta 1/4
the parameters are those of the first bin. -/
theorem C26_resolution_by_eta_bin_witness :
    getErrPt axisMath 30 (-(11 / 2)) = 0 ∧
    getErrPt axisMath 30 (1 / 4) =
      resolutionFormula axisMath (396859 / 100000) (18348 / 100000) 0 (62627 / 100000) 30 :=
  ⟨((C26_resolution_by_eta_bin axisMath 30 (-(11 / 2))).2.2.2.2.2.2.2
      (by rw [abs_neg, abs_of_pos] <;> norm_num)).2.2 (by simp [axisMath, Rat.sqrt]),
    (C26_resolution_by_eta_bin axisMath 30 (1 / 4)).1 (by rw [abs_of_pos] <;> norm_num)⟩

/-! ## Fake-rate lookups -/

section fakerateFacts

variable {V : Type} (K : LorentzOps V)

theorem fakeProb_eq (theFakeRate theFakeRateErr : TH2F) (p4 : V) :
    fakeProb K theFakeRate theFakeRateErr p4 =
      theFakeRate.cappedContent (K.eta p4) (K.pt p4) := by
  unfold fakeProb TH2F.cappedContent TH2F.lastPt
  simp only []
  congr 2
  split_ifs with h
  · exact (min_eq_right (le_of_lt h)).symm
  · exact (min_eq_left (not_lt.mp h)).symm

theorem fakeProb_above (theFakeRate theFakeRateErr : TH2F) (p4 : V)
    (h : theFakeRate.lastPt < K.pt p4) :
    fakeProb K theFakeRate theFakeRateErr p4 =
      theFakeRate.GetBinContent (theFakeRate.FindBin |K.eta p4| theFakeRate.lastPt) := by
  rw [fakeProb_eq]
  unfold TH2F.cappedContent
  rw [min_eq_right (le_of_lt h)]

theorem vidxInt_natCast {α : Type} (v : List α) (i : Nat) (x : α) (h : v[i]? = some x) :
    vidxInt v (i : Int) = .ok x := by
  unfold vidxInt vidx
  rw [if_neg (by omega)]
  simp [h]

/-- C28. For a lepton index inside the collection, `muFakeProb_v1` and
`elFakeProb_v1`, `_v2`, `_v3` return the content of their fake-rate histogram
at `(|eta|, min(pt, E))`, with `E` the upper edge of the last pt bin less
0.001, as it is; hence two muons (or two electrons) with the same `|eta|` and
pt above `E` get the same value, the content at `(|eta|, E)`. -/
theorem C28_fake_rate_read_at_capped_pt (ev : Event V) (theFakeRate theFakeRateErr : TH2F) :
    (∀ (i : Nat) (p4 : V), ev.mus_p4[i]? = some p4 →
      muFakeProb_v1 K ev theFakeRate theFakeRateErr i =
        .ok (theFakeRate.cappedContent (K.eta p4) (K.pt p4))) ∧
    (∀ (i : Nat) (p4 : V), ev.els_p4[i]? = some p4 →
      elFakeProb_v1 K ev theFakeRate theFakeRateErr i =
          .ok (theFakeRate.cappedContent (K.eta p4) (K.pt p4)) ∧
      elFakeProb_v2 K ev theFakeRate theFakeRateErr i =
          .ok (theFakeRate.cappedContent (K.eta p4) (K.pt p4)) ∧
      elFakeProb_v3 K ev theFakeRate theFakeRateErr i =
          .ok (theFakeRate.cappedContent (K.eta p4) (K.pt p4))) ∧
    (∀ (i j : Nat) (p4 q4 : V), ev.mus_p4[i]? = some p4 → ev.mus_p4[j]? = some q4 →
      |K.eta p4| = |K.eta q4| → theFakeRate.lastPt < K.pt p4 → theFakeRate.lastPt < K.pt q4 →
      muFakeProb_v1 K ev theFakeRate theFakeRateErr i =
          muFakeProb_v1 K ev theFakeRate theFakeRateErr j ∧
        muFakeProb_v1 K ev theFakeRate theFakeRateErr i =
          .ok (theFakeRate.GetBinContent (theFakeRate.FindBin |K.eta p4| theFakeRate.lastPt))) ∧
    (∀ (i j : Nat) (p4 q4 : V), ev.els_p4[i]? = some p4 → ev.els_p4[j]? = some q4 →
      |K.eta p4| = |K.eta q4| → theFakeRate.lastPt < K.pt p4 → theFakeRate.lastPt < K.pt q4 →
      elFakeProb_v1 K ev theFakeRate theFakeRateErr i =
          elFakeProb_v1 K ev theFakeRate theFakeRateErr j ∧
        elFakeProb_v1 K ev theFakeRate theFakeRateErr i =
          .ok (theFakeRate.GetBinContent
            (theFakeRate.FindBin |K.eta p4| theFakeRate.lastPt))) := by
  have hmu : ∀ (i : Nat) (p4 : V), ev.mus_p4[i]? = some p4 →
      muFakeProb_v1 K ev theFakeRate theFakeRateErr i =
        .ok (fakeProb K theFakeRate theFakeRateErr p4) := by
    intro i p4 h
    unfold muFakeProb_v1
    rw [vidxInt_natCast _ _ _ h]
    rfl
  have hel : ∀ (i : Nat) (p4 : V), ev.els_p4[i]? = some p4 →
      elFakeProb_v1 K ev theFakeRate theFakeRateErr i =
        .ok (fakeProb K theFakeRate theFakeRateErr p4) := by
    intro i p4 h
    unfold elFakeProb_v1
    rw [vidxInt_natCast _ _ _ h]
    rfl
  refine ⟨?_, ?_, ?_, ?_⟩
  · intro i p4 h
    rw [hmu i p4 h, fakeProb_eq]
  · intro i p4 h
    refine ⟨?_, ?_, ?_⟩
    · rw [hel i p4 h, fakeProb_eq]
    · unfold elFakeProb_v2
      rw [vidxInt_natCast _ _ _ h]
      exact congrArg Except.ok (fakeProb_eq K _ _ _)
    · unfold elFakeProb_v3
      rw [vidxInt_natCast _ _ _ h]
      exact congrArg Except.ok (fakeProb_eq K _ _ _)
  · intro i j p4 q4 hi hj he hp hq
    rw [hmu i p4 hi, hmu j q4 hj, fakeProb_above K _ _ _ hp, fakeProb_above K _ _ _ hq, he]
    exact ⟨rfl, rfl⟩
  · intro i j p4 q4 hi hj he hp hq
    rw [hel i p4 hi, hel j q4 hj, fakeProb_above K _ _ _ hp, fakeProb_above K _ _ _ hq, he]
    exact ⟨rfl, rfl⟩

end fakerateFacts

theorem stepHistogram_lastPt : stepHistogram.lastPt = 149999 / 1000 := by
  simp only [TH2F.lastPt, stepHistogram]
  norm_num

/-- C28, witness: in `stepHistogram` the last pt bin ends at 150; the muons of
pt 200 and 300 at `|eta|` 1/2 are both read at pt 149.999 and get 3/10, the
content of the bin `(1, 3)`. -/
theorem C28_fake_rate_read_at_capped_pt_witness :
    muFakeProb_v1 P4.ops highPtLeptons stepHistogram stepHistogram 0 =
        muFakeProb_v1 P4.ops highPtLeptons stepHistogram stepHistogram 1 ∧
    muFakeProb_v1 P4.ops highPtLeptons stepHistogram stepHistogram 0 =
      .ok (stepHistogram.GetBinContent (stepHistogram.FindBin (1 / 2) (149999 / 1000))) ∧
    stepHistogram.GetBinContent (stepHistogram.FindBin (1 / 2) (149999 / 1000)) = 3 / 10 := by
  have h := (C28_fake_rate_read_at_capped_pt P4.ops highPtLeptons stepHistogram
    stepHistogram).2.2.1 0 1 ⟨200, 1 / 2, 0⟩ ⟨300, -(1 / 2), 1⟩ rfl rfl
    (by simp only [P4.ops, P4.etaOf]; norm_num [abs_of_pos])
    (by rw [stepHistogram_lastPt]; simp only [P4.ops]; norm_num [abs_of_pos])
    (by rw [stepHistogram_lastPt]; simp only [P4.ops]; norm_num [abs_of_pos])
  rw [stepHistogram_lastPt] at h
  have he : |P4.ops.eta ⟨200, 1 / 2, 0⟩| = 1 / 2 := by
    simp only [P4.ops, P4.etaOf]
    norm_num [abs_of_pos]
  rw [he] at h
  refine ⟨h.1, h.2, ?_⟩
  simp only [stepHistogram]
  norm_num

/-! ## Smearing: facts about the loops -/

section smearFacts

variable {V G : Type} (K : LorentzOps V) (T : TransverseOps V) (M : Libm) (R : TRandom3 G)

theorem indexedFrom_getElem? {α β : Type} (f : Nat → α → β) :
    ∀ (xs : List α) (i k : Nat), (indexedFrom f i xs)[k]? = (xs[k]?).map (f (i + k))
  | [], _, _ => by simp [indexedFrom]
  | x :: xs, i, 0 => by simp [indexedFrom]
  | x :: xs, i, k + 1 => by
    simp only [indexedFrom, List.getElem?_cons_succ]
    rw [indexedFrom_getElem? f xs (i + 1) k, show i + 1 + k = i + (k + 1) by omega]

theorem indexedFrom_length {α β : Type} (f : Nat → α → β) :
    ∀ (xs : List α) (i : Nat), (indexedFrom f i xs).length = xs.length
  | [], _ => rfl
  | x :: xs, i => by simp [indexedFrom, indexedFrom_length f xs (i + 1)]

theorem smearedJets_length (seed : Nat) :
    ∀ (js : List V) (i : Nat) (g : G), (smearedJets K M R seed i js g).length = js.length
  | [], _, _ => rfl
  | j :: js, i, g => by simp [smearedJets, smearedJets_length seed js]

/-- With a generator whose state after `SetSeed` is set by the seed alone, the
momentum a turn produces does not depend on the generator it finds. -/
theorem smearJet_eq (hR : ∀ (g g' : G) (s : Nat), R.SetSeed g s = R.SetSeed g' s)
    (seed : Nat) (g g₀ : G) (k : Nat) (v : V) :
    (smearJet K M R seed g k v).1 = perturbedJet K M R g₀ seed k v := by
  unfold smearJet perturbedJet
  simp only []
  rw [hR g g₀, sq]

theorem smearedJets_eq (hR : ∀ (g g' : G) (s : Nat), R.SetSeed g s = R.SetSeed g' s)
    (seed : Nat) (g₀ : G) :
    ∀ (js : List V) (i : Nat) (g : G),
      smearedJets K M R seed i js g =
        indexedFrom (perturbedJet K M R g₀ seed) i js
  | [], _, _ => rfl
  | j :: js, i, g => by
    simp only [smearedJets, indexedFrom]
    rw [smearedJets_eq hR seed g₀ js, smearJet_eq K M R hR seed g g₀]

theorem smearJetOrNaN_snd (seed : Nat) (g : G) (k : Nat) (v : V) :
    (smearJetOrNaN K M R seed g k v).2 = (smearJet K M R seed g k v).2 := by
  unfold smearJetOrNaN
  split <;> rfl

theorem smearJETScaleJets_loop_fst (seed : Nat) (min_pt : ℚ) :
    ∀ (js : List V) (i : Nat) (g : G) (acc : List (Option V)),
      (samesign.smearJETScaleJets_loop K M R seed min_pt i js g acc).1 =
        acc ++ (smearedOrNaN K M R seed i js g).filter (fun j => !ptBelow K j min_pt)
  | [], _, _, acc => by simp [samesign.smearJETScaleJets_loop, smearedOrNaN]
  | j :: js, i, g, acc => by
    unfold samesign.smearJETScaleJets_loop
    by_cases h : ptBelow K (smearJetOrNaN K M R seed g i j).1 min_pt = true
    · rw [if_pos h, smearJETScaleJets_loop_fst seed min_pt js]
      simp [smearedOrNaN, List.filter_cons, h]
    · rw [if_neg h, smearJETScaleJets_loop_fst seed min_pt js]
      simp [smearedOrNaN, List.filter_cons, h]

/-- The momenta of `smearedOrNaN` are those of `smearedJets`, with `none` in the
place of those that are not finite. -/
theorem smearedOrNaN_eq (seed : Nat) :
    ∀ (js : List V) (i : Nat) (g : G),
      smearedOrNaN K M R seed i js g =
        List.zipWith (fun jet s => if smearedIsNaN K M jet then none else some s) js
          (smearedJets K M R seed i js g)
  | [], _, _ => rfl
  | j :: js, i, g => by
    simp only [smearedOrNaN, smearedJets, List.zipWith_cons_cons, smearJetOrNaN_snd]
    rw [smearedOrNaN_eq seed js]
    congr 1
    unfold smearJetOrNaN
    split <;> rfl

/-- With a generator whose state after `SetSeed` is set by a seed that is not a
multiple of `2 ^ 32`, the momentum a turn produces under such a seed does not
depend on the generator it finds. -/
theorem smearJet_eq_of_seed
    (hR : ∀ (g g' : G) (s : Nat), s % 2 ^ 32 ≠ 0 → R.SetSeed g s = R.SetSeed g' s)
    (seed : Nat) (g g₀ : G) (k : Nat) (v : V) (hs : seed * (k + 1) % 2 ^ 32 ≠ 0) :
    (smearJet K M R seed g k v).1 = perturbedJet K M R g₀ seed k v := by
  have h64 : seed * (k + 1) % 2 ^ 64 % 2 ^ 32 ≠ 0 := by
    rw [Nat.mod_mod_of_dvd _ (by norm_num : 2 ^ 32 ∣ 2 ^ 64)]
    exact hs
  unfold smearJet perturbedJet
  simp only []
  rw [hR g g₀ _ h64, sq]

theorem smearedJets_getElem? (seed : Nat) :
    ∀ (js : List V) (i : Nat) (g : G) (k : Nat) (v : V), js[k]? = some v →
      ∃ g' : G, (smearedJets K M R seed i js g)[k]? = some (smearJet K M R seed g' (i + k) v).1
  | [], _, _, _, _, h => by simp at h
  | j :: js, i, g, 0, v, h => by
    simp only [List.getElem?_cons_zero, Option.some.injEq] at h
    subst h
    exact ⟨g, by simp [smearedJets]⟩
  | j :: js, i, g, k + 1, v, h => by
    simp only [List.getElem?_cons_succ] at h
    obtain ⟨g', hg'⟩ := smearedJets_getElem? seed js (i + 1) (smearJet K M R seed g i j).2 k v h
    refine ⟨g', ?_⟩
    simp only [smearedJets, List.getElem?_cons_succ]
    rw [hg']
    congr 3
    omega

theorem smearedJets_eq_of_seed
    (hR : ∀ (g g' : G) (s : Nat), s % 2 ^ 32 ≠ 0 → R.SetSeed g s = R.SetSeed g' s)
    (seed : Nat) (g₀ : G) :
    ∀ (js : List V) (i : Nat) (g : G),
      (∀ k : Nat, k < js.length → seed * (i + k + 1) % 2 ^ 32 ≠ 0) →
      smearedJets K M R seed i js g = indexedFrom (perturbedJet K M R g₀ seed) i js
  | [], _, _, _ => rfl
  | j :: js, i, g, h => by
    simp only [smearedJets, indexedFrom]
    rw [smearedJets_eq_of_seed hR seed g₀ js (i + 1) _
        (fun k hk => by
          have := h (k + 1) (by simp; omega)
          rwa [show i + (k + 1) + 1 = i + 1 + k + 1 by omega] at this),
      smearJet_eq_of_seed K M R hR seed g g₀ i j (by simpa using h 0 (by simp))]

theorem odd_seed_product (seed k : Nat) (hodd : seed % 2 = 1) (hk : k + 1 < 2 ^ 32) :
    seed * (k + 1) % 2 ^ 32 ≠ 0 := by
  intro h
  have hdvd : 2 ^ 32 ∣ seed * (k + 1) := Nat.dvd_of_mod_eq_zero h
  have hcop : Nat.Coprime (2 ^ 32) seed :=
    Nat.Coprime.pow_left 32 ((Nat.Prime.coprime_iff_not_dvd Nat.prime_two).mpr (by omega))
  have := Nat.le_of_dvd (by omega) (hcop.dvd_of_dvd_mul_left hdvd)
  omega

theorem smearMetHt_loop_spec (dropped : V → Bool) (seed : Nat) :
    ∀ (js : List V) (i : Nat) (st : SmearState V G),
      (samesign.smearJETScaleJetsMetHt_loop K T M R dropped seed i js st).new_vjets_p4 =
        st.new_vjets_p4 ++
          (smearedJets K M R seed i js st.random).filter (fun j => !dropped j) ∧
      (samesign.smearJETScaleJetsMetHt_loop K T M R dropped seed i js st).new_ht =
        st.new_ht +
          (((smearedJets K M R seed i js st.random).filter (fun j => !dropped j)).map K.pt).sum ∧
      (samesign.smearJETScaleJetsMetHt_loop K T M R dropped seed i js st).cmet =
        recoilAfterSmearing T st.cmet js (smearedJets K M R seed i js st.random)
  | [], _, st => by
    simp [samesign.smearJETScaleJetsMetHt_loop, smearedJets, recoilAfterSmearing, XYVector.sum,
      XYVector.add, XYVector.sub]
  | j :: js, i, st => by
    unfold samesign.smearJETScaleJetsMetHt_loop
    simp only []
    by_cases h : dropped (smearJet K M R seed st.random i j).1 = true
    · rw [if_pos h]
      obtain ⟨h1, h2, h3⟩ := smearMetHt_loop_spec dropped seed js (i + 1)
        { st with
          cmet := (st.cmet.sub ⟨T.px (smearJet K M R seed st.random i j).1,
            T.py (smearJet K M R seed st.random i j).1⟩).add ⟨T.px j, T.py j⟩
          random := (smearJet K M R seed st.random i j).2 }
      rw [h1, h2, h3]
      refine ⟨?_, ?_, ?_⟩
      · simp [smearedJets, List.filter_cons, h]
      · simp [smearedJets, List.filter_cons, h]
      · simp only [recoilAfterSmearing, smearedJets, XYVector.sum, XYVector.add, XYVector.sub,
          TransverseOps.xy, List.map_cons, List.sum_cons, XYVector.mk.injEq]
        constructor <;> ring
    · rw [if_neg h]
      obtain ⟨h1, h2, h3⟩ := smearMetHt_loop_spec dropped seed js (i + 1)
        { cmet := (st.cmet.sub ⟨T.px (smearJet K M R seed st.random i j).1,
            T.py (smearJet K M R seed st.random i j).1⟩).add ⟨T.px j, T.py j⟩
          new_ht := st.new_ht + K.pt (smearJet K M R seed st.random i j).1
          new_vjets_p4 := st.new_vjets_p4 ++ [(smearJet K M R seed st.random i j).1]
          random := (smearJet K M R seed st.random i j).2 }
      rw [h1, h2, h3]
      refine ⟨?_, ?_, ?_⟩
      · simp [smearedJets, List.filter_cons, h]
      · simp [smearedJets, List.filter_cons, h]
        ring
      · simp only [recoilAfterSmearing, smearedJets, XYVector.sum, XYVector.add, XYVector.sub,
          TransverseOps.xy, List.map_cons, List.sum_cons, XYVector.mk.injEq]
        constructor <;> ring

end smearFacts

/-! ## Claims on the smearing -/

section smearClaims

variable {V G : Type} (K : LorentzOps V) (T : TransverseOps V) (M : Libm) (R : TRandom3 G)

theorem smearMetHt_spec (dropped : V → Bool) (jets : List V) (met met_phi : ℚ) (seed : Nat)
    (random : G) :
    (samesign.smearMetHt K T M R dropped jets met met_phi seed random).vjets_p4 =
        (smearedJets K M R seed 0 jets random).filter (fun j => !dropped j) ∧
    (samesign.smearMetHt K T M R dropped jets met met_phi seed random).ht =
        ((samesign.smearMetHt K T M R dropped jets met met_phi seed random).vjets_p4.map
          K.pt).sum ∧
    (samesign.smearMetHt K T M R dropped jets met met_phi seed random).met =
        (recoilAfterSmearing T (XYVector.ofPolar M met met_phi) jets
          (smearedJets K M R seed 0 jets random)).r M ∧
    (samesign.smearMetHt K T M R dropped jets met met_phi seed random).met_phi =
        (recoilAfterSmearing T (XYVector.ofPolar M met met_phi) jets
          (smearedJets K M R seed 0 jets random)).phi M := by
  obtain ⟨h1, h2, h3⟩ := smearMetHt_loop_spec K T M R dropped seed jets 0
    { cmet := ⟨met * M.cos met_phi, met * M.sin met_phi⟩
      new_ht := 0
      new_vjets_p4 := []
      random := random }
  unfold samesign.smearMetHt
  simp only []
  rw [h1, h2, h3]
  simp [XYVector.ofPolar]

/-- C21. For a generator whose state after `SetSeed` is set by the seed alone
when the seed, an `unsigned int`, is not zero: every turn of the smearing loops
re-seeds with `seed * (k + 1)` and, when that product is not a multiple of
`2 ^ 32`, multiplies jet `k` by a draw of mean 1 and width
`sqrt(jer(eta_k)^2 - 1) * getErrPt(pt_k, eta_k) / pt_k`, whatever generator it
finds. The product is exact for a 32-bit `seed` and `k < 2^32`, and for an odd
`seed` it is no multiple of `2 ^ 32` while `k + 1 < 2 ^ 32`. The perturbed
momentum at such an index `k` is the same in two collections that hold the same
jet at index `k`, whatever their sizes, their other jets and the generators the
two loops start from. -/
theorem C21_smearing_is_seeded_per_jet
    (hR : ∀ (g g' : G) (s : Nat), s % 2 ^ 32 ≠ 0 → R.SetSeed g s = R.SetSeed g' s)
    (seed : Nat) (g₀ : G) :
    (∀ (g : G) (k : Nat) (v : V), seed * (k + 1) % 2 ^ 32 ≠ 0 →
      (smearJet K M R seed g k v).1 =
        K.scale v (R.Gaus (R.SetSeed g₀ (seed * (k + 1) % 2 ^ 64)) 1
          (M.sqrt (getJERScale (K.eta v) ^ 2 - 1) *
            (getErrPt M (K.pt v) (K.eta v) / K.pt v))).1) ∧
    (seed < 2 ^ 32 → ∀ k : Nat, k < 2 ^ 32 → seed * (k + 1) % 2 ^ 64 = seed * (k + 1)) ∧
    (seed % 2 = 1 → ∀ k : Nat, k + 1 < 2 ^ 32 → seed * (k + 1) % 2 ^ 32 ≠ 0) ∧
    (∀ (js : List V) (g : G), (∀ k : Nat, k < js.length → seed * (k + 1) % 2 ^ 32 ≠ 0) →
      smearedJets K M R seed 0 js g = indexedFrom (perturbedJet K M R g₀ seed) 0 js) ∧
    (∀ (js js' : List V) (g g' : G) (k : Nat) (v : V), js[k]? = some v → js'[k]? = some v →
      seed * (k + 1) % 2 ^ 32 ≠ 0 →
      (smearedJets K M R seed 0 js g)[k]? = some (perturbedJet K M R g₀ seed k v) ∧
        (smearedJets K M R seed 0 js' g')[k]? = some (perturbedJet K M R g₀ seed k v)) := by
  refine ⟨?_, ?_, ?_, ?_, ?_⟩
  · intro g k v hs
    exact smearJet_eq_of_seed K M R hR seed g g₀ k v hs
  · intro hs k hk
    apply Nat.mod_eq_of_lt
    calc seed * (k + 1) < 2 ^ 32 * (k + 1) := Nat.mul_lt_mul_of_pos_right hs (by omega)
      _ ≤ 2 ^ 32 * 2 ^ 32 := Nat.mul_le_mul_left _ (by omega)
      _ = 2 ^ 64 := by norm_num
  · intro hodd k hk
    exact odd_seed_product seed k hodd hk
  · intro js g h
    exact smearedJets_eq_of_seed K M R hR seed g₀ js 0 g (fun k hk => by simpa using h k hk)
  · intro js js' g g' k v h h' hs
    obtain ⟨g1, h1⟩ := smearedJets_getElem? K M R seed js 0 g k v h
    obtain ⟨g2, h2⟩ := smearedJets_getElem? K M R seed js' 0 g' k v h'
    rw [Nat.zero_add] at h1 h2
    rw [h1, h2, smearJet_eq_of_seed K M R hR seed g1 g₀ k v hs,
      smearJet_eq_of_seed K M R hR seed g2 g₀ k v hs]
    exact ⟨rfl, rfl⟩

/-- C24. After either `smearJETScaleJetsMetHt`, `ht` is the sum of `pt()` over
the jets left in `vjets_p4`, whatever `ht` (and, in the event-based function,
`vjets_p4`) held on entry; it is 0 when no jet is left. The event-based
function returns whenever `samesign::getJets` does. -/
theorem C24_ht_is_sum_of_retained_pt (ev : Event V) (X : Collab V) :
    (∀ (js : List V) (met met_phi ht : ℚ) (seed : Nat) (g : G),
      (samesign.smearJETScaleJetsMetHt K T M R js met met_phi ht seed g).ht =
        ((samesign.smearJETScaleJetsMetHt K T M R js met met_phi ht seed g).vjets_p4.map
          K.pt).sum) ∧
    (∀ (js : List V) (met met_phi ht ht' : ℚ) (seed : Nat) (g : G),
      samesign.smearJETScaleJetsMetHt K T M R js met met_phi ht seed g =
        samesign.smearJETScaleJetsMetHt K T M R js met met_phi ht' seed g) ∧
    (∀ (js : List V) (met met_phi ht : ℚ) (seed : Nat) (g : G),
      (samesign.smearJETScaleJetsMetHt K T M R js met met_phi ht seed g).vjets_p4 = [] →
      (samesign.smearJETScaleJetsMetHt K T M R js met met_phi ht seed g).ht = 0) ∧
    (∀ (vjets vjets' : List V) (met met_phi ht ht' : ℚ) (idx : Int) (type : JetType)
        (seed : Nat) (deltaR min_pt max_eta mu_minpt ele_minpt : ℚ) (g : G),
      samesign.smearJETScaleJetsMetHt_event K T M R ev X vjets met met_phi ht idx type seed
          deltaR min_pt max_eta mu_minpt ele_minpt g =
        samesign.smearJETScaleJetsMetHt_event K T M R ev X vjets' met met_phi ht' idx type seed
          deltaR min_pt max_eta mu_minpt ele_minpt g) ∧
    (∀ (vjets : List V) (met met_phi ht : ℚ) (idx : Int) (type : JetType)
        (seed : Nat) (deltaR min_pt max_eta mu_minpt ele_minpt : ℚ) (g : G) (out : Smeared V G),
      samesign.smearJETScaleJetsMetHt_event K T M R ev X vjets met met_phi ht idx type seed
          deltaR min_pt max_eta mu_minpt ele_minpt g = .ok out →
      out.ht = (out.vjets_p4.map K.pt).sum ∧ (out.vjets_p4 = [] → out.ht = 0)) ∧
    (∀ (vjets : List V) (met met_phi ht : ℚ) (idx : Int) (type : JetType)
        (seed : Nat) (deltaR min_pt max_eta mu_minpt ele_minpt : ℚ) (g : G) (js : List V),
      samesign.getJets K ev X idx type deltaR 15 (24 / 10) mu_minpt ele_minpt X.default_rescale
          X.default_systFlag X.default_sort_by_pt = .ok js →
      ∃ out, samesign.smearJETScaleJetsMetHt_event K T M R ev X vjets met met_phi ht idx type
          seed deltaR min_pt max_eta mu_minpt ele_minpt g = .ok out) := by
  refine ⟨?_, ?_, ?_, ?_, ?_, ?_⟩
  · intro js met met_phi ht seed g
    exact (smearMetHt_spec K T M R _ js met met_phi seed g).2.1
  · intro js met met_phi ht ht' seed g
    rfl
  · intro js met met_phi ht seed g h
    have := (smearMetHt_spec K T M R (fun new_jet_p4 => decide (K.pt new_jet_p4 < 40)) js met
      met_phi seed g).2.1
    unfold samesign.smearJETScaleJetsMetHt at h ⊢
    rw [this, h]
    rfl
  · intros
    rfl
  · intro vjets met met_phi ht idx type seed deltaR min_pt max_eta mu_minpt ele_minpt g out h
    unfold samesign.smearJETScaleJetsMetHt_event at h
    cases hj : samesign.getJets K ev X idx type deltaR 15 (24 / 10) mu_minpt ele_minpt
        X.default_rescale X.default_systFlag X.default_sort_by_pt with
    | error e =>
      rw [hj] at h
      cases h
    | ok js =>
      rw [hj] at h
      simp only [Except.bind, Except.ok.injEq] at h
      subst h
      have := (smearMetHt_spec K T M R
        (fun new_jet_p4 =>
          !(decide (K.pt new_jet_p4 > min_pt) && decide (|K.eta new_jet_p4| < max_eta)))
        js met met_phi seed g).2.1
      refine ⟨this, fun h0 => ?_⟩
      rw [this, h0]
      rfl
  · intro vjets met met_phi ht idx type seed deltaR min_pt max_eta mu_minpt ele_minpt g js h
    unfold samesign.smearJETScaleJetsMetHt_event
    rw [h]
    exact ⟨_, rfl⟩

end smearClaims

/-! ## Smearing on given jets -/

theorem seedGenerator_smearJet (M : Libm) (seed g k : Nat) (v : P4) :
    smearJet P4.ops M seedGenerator seed g k v =
      (⟨v.pt * (1 + (((seed * (k + 1) % 2 ^ 64 % 5 : Nat) : ℚ) - 2) / 10), v.eta, v.phi⟩,
        seed * (k + 1) % 2 ^ 64 + 1) := rfl

theorem seedGenerator_reseeds (g g' s : Nat) :
    seedGenerator.SetSeed g s = seedGenerator.SetSeed g' s := rfl

theorem smearEvent_getJets_fast :
    getJets_fast P4.ops smearEvent 0 .JETS_TYPE_PF_CORR .JETS_CLEAN_HYP_E_MU (2 / 5) 0 (24 / 10) =
      .ok [(some ⟨50, 11 / 5, 0⟩, 1), (some ⟨60, 0, 1⟩, 1)] := by
  simp [getJets_fast, jetCollection, forIndexed, getJets_fast_body, jetCorr, vat, smearEvent,
    passesKinematics, cleaningVeto, passesCaloJetID, nearestCaloJet, vidx, P4.ops, P4.etaOf,
    Except.bind]
  norm_num [abs_of_pos]

theorem smearEvent_getJets :
    samesign.getJets P4.ops smearEvent (plainCollab P4.ops smearEvent) 0 .JETS_TYPE_PF_CORR
      (2 / 5) 15 (24 / 10) 20 20 1 0 false = .ok [⟨50, 11 / 5, 0⟩, ⟨60, 0, 1⟩] := by
  have hb : (plainCollab P4.ops smearEvent).base_getJets (toUnsigned 0) false .JETS_TYPE_PF_CORR
      .JETS_CLEAN_HYP_E_MU (2 / 5) 0 (24 / 10) 1 (some 0) =
        .ok [⟨50, 11 / 5, 0⟩, ⟨60, 0, 1⟩] := by
    show getJets P4.ops smearEvent 0 false .JETS_TYPE_PF_CORR .JETS_CLEAN_HYP_E_MU (2 / 5) 0
      (24 / 10) = _
    unfold getJets
    rw [smearEvent_getJets_fast]
    simp [Except.bind, correctedJets, P4.ops]
  unfold samesign.getJets
  rw [hb]
  simp only [Except.bind, samesign.jetIsLep, smearEvent, samesign.leptonLoop,
    List.filter, P4.ops]
  norm_num

theorem smearEvent_smeared (g : Nat) :
    smearedJets P4.ops axisMath seedGenerator 7 0 [⟨50, 11 / 5, 0⟩, ⟨60, 0, 1⟩] g =
      [⟨50, 11 / 5, 0⟩, ⟨72, 0, 1⟩] := by
  simp only [smearedJets, seedGenerator_smearJet]
  norm_num

section smearCut

variable {V G : Type} (K : LorentzOps V) (T : TransverseOps V) (M : Libm) (R : TRandom3 G)

/-- C22. The function `smearJETScaleJets` drops a smeared jet exactly when the
test `pt() < min_pt` holds: it leaves, in input order, the smeared jets with
`pt >= min_pt` and those whose `pt()` is not a finite number, for which the
test is false. The event-based `smearJETScaleJetsMetHt`, when
`samesign::getJets` returns, leaves a sub-sequence of the smeared jets in input
order that holds every smeared jet with `pt > min_pt` and `|eta| < max_eta` and
no smeared jet with `pt < min_pt` or `|eta| >= max_eta`. -/
theorem C22_smeared_jets_below_cut_are_dropped (ev : Event V) (X : Collab V) :
    (∀ (js : List V) (seed : Nat) (min_pt : ℚ) (g : G),
      (samesign.smearJETScaleJets K M R js seed min_pt g).1 =
        (smearedOrNaN K M R seed 0 js g).filter (fun j => !ptBelow K j min_pt) ∧
      smearedOrNaN K M R seed 0 js g =
        List.zipWith (fun jet s => if smearedIsNaN K M jet then none else some s) js
          (smearedJets K M R seed 0 js g) ∧
      (!ptBelow K none min_pt) = true ∧
      ∀ v : V, (!ptBelow K (some v) min_pt) = decide (min_pt ≤ K.pt v)) ∧
    (∀ (vjets : List V) (met met_phi ht : ℚ) (idx : Int) (type : JetType)
        (seed : Nat) (deltaR min_pt max_eta mu_minpt ele_minpt : ℚ) (g : G) (js : List V),
      samesign.getJets K ev X idx type deltaR 15 (24 / 10) mu_minpt ele_minpt X.default_rescale
          X.default_systFlag X.default_sort_by_pt = .ok js →
      ∃ (out : Smeared V G) (keep : V → Bool),
        samesign.smearJETScaleJetsMetHt_event K T M R ev X vjets met met_phi ht idx type
          seed deltaR min_pt max_eta mu_minpt ele_minpt g = .ok out ∧
        out.vjets_p4 = (smearedJets K M R seed 0 js g).filter keep ∧
        (∀ j, min_pt < K.pt j → |K.eta j| < max_eta → keep j = true) ∧
        (∀ j, keep j = true → min_pt ≤ K.pt j ∧ |K.eta j| < max_eta)) := by
  constructor
  · intro js seed min_pt g
    refine ⟨?_, smearedOrNaN_eq K M R seed js 0 g, rfl, ?_⟩
    · unfold samesign.smearJETScaleJets
      rw [smearJETScaleJets_loop_fst]
      rfl
    · intro v
      by_cases h : K.pt v < min_pt
      · simp [ptBelow, h, not_le.mpr h]
      · simp [ptBelow, h, not_lt.mp h]
  · intro vjets met met_phi ht idx type seed deltaR min_pt max_eta mu_minpt ele_minpt g js h
    refine ⟨samesign.smearMetHt K T M R
        (fun new_jet_p4 =>
          !(decide (K.pt new_jet_p4 > min_pt) && decide (|K.eta new_jet_p4| < max_eta)))
        js met met_phi seed g,
      fun j => decide (K.pt j > min_pt) && decide (|K.eta j| < max_eta), ?_, ?_, ?_, ?_⟩
    · unfold samesign.smearJETScaleJetsMetHt_event
      rw [h]
      rfl
    · rw [(smearMetHt_spec K T M R _ js met met_phi seed g).1]
      apply List.filter_congr
      intro j _
      simp
    · intro j h1 h2
      simp [h1, h2]
    · intro j hk
      simp only [Bool.and_eq_true, decide_eq_true_eq] at hk
      exact ⟨le_of_lt hk.1, hk.2⟩

/-- C23. After `smearJETScaleJetsMetHt(vjets_p4, met, met_phi, ht, seed)` the
values of `met` and `met_phi` are the length and the azimuth of the input MET
vector plus the transverse momentum of every original jet less the transverse
momentum of every smeared jet, kept or dropped by the pt cut. -/
theorem C23_met_follows_every_smeared_jet (js : List V) (met met_phi ht : ℚ) (seed : Nat)
    (g : G) :
    (samesign.smearJETScaleJetsMetHt K T M R js met met_phi ht seed g).met =
      (recoilAfterSmearing T (XYVector.ofPolar M met met_phi) js
        (smearedJets K M R seed 0 js g)).r M ∧
    (samesign.smearJETScaleJetsMetHt K T M R js met met_phi ht seed g).met_phi =
      (recoilAfterSmearing T (XYVector.ofPolar M met met_phi) js
        (smearedJets K M R seed 0 js g)).phi M ∧
    (samesign.smearJETScaleJetsMetHt K T M R js met met_phi ht seed g).vjets_p4 =
      (smearedJets K M R seed 0 js g).filter (fun j => decide (40 ≤ K.pt j)) := by
  refine ⟨(smearMetHt_spec K T M R _ js met met_phi seed g).2.2.1,
    (smearMetHt_spec K T M R _ js met met_phi seed g).2.2.2, ?_⟩
  unfold samesign.smearJETScaleJetsMetHt
  rw [(smearMetHt_spec K T M R _ js met met_phi seed g).1]
  apply List.filter_congr
  intro j _
  by_cases h : K.pt j < 40
  · simp [h, not_le.mpr h]
  · simp [h, not_lt.mp h]

end smearCut

theorem smearEvent_smearMetHt_event :
    samesign.smearJETScaleJetsMetHt_event P4.ops (P4.transverse axisMath) axisMath seedGenerator
      smearEvent (plainCollab P4.ops smearEvent) [] 10 0 0 0 .JETS_TYPE_PF_CORR 7 (2 / 5) 30 2 20
      20 0 =
    .ok (samesign.smearMetHt P4.ops (P4.transverse axisMath) axisMath seedGenerator
      (fun new_jet_p4 =>
        !(decide (P4.ops.pt new_jet_p4 > 30) && decide (|P4.ops.eta new_jet_p4| < 2)))
      [⟨50, 11 / 5, 0⟩, ⟨60, 0, 1⟩] 10 0 7 0) := by
  have h : samesign.getJets P4.ops smearEvent (plainCollab P4.ops smearEvent) 0
      .JETS_TYPE_PF_CORR (2 / 5) 15 (24 / 10) 20 20 (plainCollab P4.ops smearEvent).default_rescale
      (plainCollab P4.ops smearEvent).default_systFlag
      (plainCollab P4.ops smearEvent).default_sort_by_pt = .ok [⟨50, 11 / 5, 0⟩, ⟨60, 0, 1⟩] :=
    smearEvent_getJets
  unfold samesign.smearJETScaleJetsMetHt_event
  rw [h]
  rfl

theorem smearEvent_retained :
    (samesign.smearMetHt P4.ops (P4.transverse axisMath) axisMath seedGenerator
      (fun new_jet_p4 =>
        !(decide (P4.ops.pt new_jet_p4 > 30) && decide (|P4.ops.eta new_jet_p4| < 2)))
      [⟨50, 11 / 5, 0⟩, ⟨60, 0, 1⟩] 10 0 7 0).vjets_p4 = [⟨72, 0, 1⟩] := by
  rw [(smearMetHt_spec P4.ops (P4.transverse axisMath) axisMath seedGenerator _ _ 10 0 7 0).1,
    smearEvent_smeared]
  simp only [List.filter, P4.ops, P4.etaOf]
  norm_num [abs_of_pos]

/-- C22, counterexample: the event-based `smearJETScaleJetsMetHt` on
`smearEvent` with the seed 7, a minimum pt of 30 and a maximum eta of 2. The
jets are smeared to pt 50 (eta 11/5) and pt 72 (eta 0); both have
`pt >= min_pt`, and the output holds the second only. -/
theorem C22_jet_beyond_max_eta_is_dropped :
    ∃ out, samesign.smearJETScaleJetsMetHt_event P4.ops (P4.transverse axisMath) axisMath
        seedGenerator smearEvent (plainCollab P4.ops smearEvent) [] 10 0 0 0 .JETS_TYPE_PF_CORR 7
        (2 / 5) 30 2 20 20 0 = .ok out ∧
      out.vjets_p4 = [⟨72, 0, 1⟩] ∧
      (smearedJets P4.ops axisMath seedGenerator 7 0 [⟨50, 11 / 5, 0⟩, ⟨60, 0, 1⟩] 0).filter
        (fun j => decide (30 ≤ P4.ops.pt j)) = [⟨50, 11 / 5, 0⟩, ⟨72, 0, 1⟩] ∧
      out.vjets_p4 ≠
        (smearedJets P4.ops axisMath seedGenerator 7 0 [⟨50, 11 / 5, 0⟩, ⟨60, 0, 1⟩] 0).filter
          (fun j => decide (30 ≤ P4.ops.pt j)) := by
  have h1 := smearEvent_retained
  have h2 : (smearedJets P4.ops axisMath seedGenerator 7 0 [⟨50, 11 / 5, 0⟩, ⟨60, 0, 1⟩]
      0).filter (fun j => decide (30 ≤ P4.ops.pt j)) = [⟨50, 11 / 5, 0⟩, ⟨72, 0, 1⟩] := by
    rw [smearEvent_smeared]
    simp only [List.filter, P4.ops]
    norm_num [abs_of_pos]
  refine ⟨_, smearEvent_smearMetHt_event, h1, h2, ?_⟩
  rw [h1, h2]
  decide

/-- C24, witness: the event-based `smearJETScaleJetsMetHt` on `smearEvent` with
the seed 7, a minimum pt of 30 and a maximum eta of 2 leaves the jet smeared to
pt 72, and `ht` is 72. -/
theorem C24_ht_is_sum_of_retained_pt_witness :
    ∃ out, samesign.smearJETScaleJetsMetHt_event P4.ops (P4.transverse axisMath) axisMath
        seedGenerator smearEvent (plainCollab P4.ops smearEvent) [] 10 0 0 0 .JETS_TYPE_PF_CORR 7
        (2 / 5) 30 2 20 20 0 = .ok out ∧
      out.vjets_p4 = [⟨72, 0, 1⟩] ∧ out.ht = 72 := by
  refine ⟨_, smearEvent_smearMetHt_event, smearEvent_retained, ?_⟩
  rw [((C24_ht_is_sum_of_retained_pt P4.ops (P4.transverse axisMath) axisMath seedGenerator
    smearEvent (plainCollab P4.ops smearEvent)).2.2.2.2.1 [] 10 0 0 0 .JETS_TYPE_PF_CORR 7 (2 / 5)
    30 2 20 20 0 _ smearEvent_smearMetHt_event).1, smearEvent_retained]
  simp only [List.map, List.sum_cons, List.sum_nil, P4.ops]
  norm_num [abs_of_pos]

theorem axisMath_sqrt_sq (q : ℚ) (h : 0 ≤ q) : axisMath.sqrt (q * q) = q := by
  show Rat.sqrt (q * q) = q
  rw [Rat.sqrt_eq, abs_of_nonneg h]

theorem softJet_smeared (g : Nat) :
    smearedJets P4.ops axisMath seedGenerator 5 0 [⟨45, 0, 0⟩] g = [⟨36, 0, 0⟩] := by
  simp only [smearedJets, seedGenerator_smearJet]
  norm_num

theorem softJet_recoil :
    recoilAfterSmearing (P4.transverse axisMath) (XYVector.ofPolar axisMath 10 0) [⟨45, 0, 0⟩]
      [⟨36, 0, 0⟩] = ⟨19, 0⟩ := by
  simp only [recoilAfterSmearing, XYVector.ofPolar, XYVector.sum, XYVector.add, XYVector.sub,
    TransverseOps.xy, P4.transverse, axisMath, List.map, List.sum_cons, List.sum_nil]
  norm_num

theorem softJet_recoil_spec :
    recoilAfterSmearing_spec (P4.transverse axisMath) (XYVector.ofPolar axisMath 10 0)
      [⟨45, 0, 0⟩] [] = ⟨-35, 0⟩ := by
  simp only [recoilAfterSmearing_spec, XYVector.ofPolar, XYVector.sum, XYVector.add,
    XYVector.sub, TransverseOps.xy, P4.transverse, axisMath, List.map, List.sum_cons,
    List.sum_nil]
  norm_num

theorem softJet_out :
    (samesign.smearJETScaleJetsMetHt P4.ops (P4.transverse axisMath) axisMath seedGenerator
      [⟨45, 0, 0⟩] 10 0 0 5 0).vjets_p4 = [] ∧
    (samesign.smearJETScaleJetsMetHt P4.ops (P4.transverse axisMath) axisMath seedGenerator
      [⟨45, 0, 0⟩] 10 0 0 5 0).met = 19 ∧
    (samesign.smearJETScaleJetsMetHt P4.ops (P4.transverse axisMath) axisMath seedGenerator
      [⟨45, 0, 0⟩] 10 0 0 5 0).met_phi = 0 := by
  obtain ⟨h1, _, h3, h4⟩ := smearMetHt_spec P4.ops (P4.transverse axisMath) axisMath seedGenerator
    (fun new_jet_p4 => decide (P4.ops.pt new_jet_p4 < 40)) [⟨45, 0, 0⟩] 10 0 5 0
  unfold samesign.smearJETScaleJetsMetHt
  rw [h1, h3, h4, softJet_smeared, softJet_recoil]
  refine ⟨?_, ?_, ?_⟩
  · simp only [List.filter, P4.ops]
    norm_num [abs_of_pos]
  · have := axisMath_sqrt_sq 19 (by norm_num)
    simp only [XYVector.r]
    norm_num at this ⊢
    exact this
  · simp [XYVector.phi, axisMath]

/-- C23, counterexample: one jet of pt 45 along the x axis, a MET of 10 along
the x axis and the seed 5, for which `seedGenerator` draws 4/5. The jet is
smeared to pt 36 and dropped. The function leaves `met = 19`, the length of
`10 + 45 - 36` along x; the input vector less the original jet, with no smeared
term for the dropped jet, is `10 - 45` along x, of length 35. -/
theorem C23_dropped_jet_moves_the_met :
    (samesign.smearJETScaleJetsMetHt P4.ops (P4.transverse axisMath) axisMath seedGenerator
      [⟨45, 0, 0⟩] 10 0 0 5 0).vjets_p4 = [] ∧
    (samesign.smearJETScaleJetsMetHt P4.ops (P4.transverse axisMath) axisMath seedGenerator
      [⟨45, 0, 0⟩] 10 0 0 5 0).met = 19 ∧
    (recoilAfterSmearing_spec (P4.transverse axisMath) (XYVector.ofPolar axisMath 10 0)
      [⟨45, 0, 0⟩]
      (samesign.smearJETScaleJetsMetHt P4.ops (P4.transverse axisMath) axisMath seedGenerator
        [⟨45, 0, 0⟩] 10 0 0 5 0).vjets_p4).r axisMath = 35 ∧
    (samesign.smearJETScaleJetsMetHt P4.ops (P4.transverse axisMath) axisMath seedGenerator
      [⟨45, 0, 0⟩] 10 0 0 5 0).met ≠
    (recoilAfterSmearing_spec (P4.transverse axisMath) (XYVector.ofPolar axisMath 10 0)
      [⟨45, 0, 0⟩]
      (samesign.smearJETScaleJetsMetHt P4.ops (P4.transverse axisMath) axisMath seedGenerator
        [⟨45, 0, 0⟩] 10 0 0 5 0).vjets_p4).r axisMath := by
  obtain ⟨h1, h2, _⟩ := softJet_out
  have h3 : (recoilAfterSmearing_spec (P4.transverse axisMath) (XYVector.ofPolar axisMath 10 0)
      [⟨45, 0, 0⟩] []).r axisMath = 35 := by
    rw [softJet_recoil_spec]
    have := axisMath_sqrt_sq 35 (by norm_num)
    simp only [XYVector.r]
    norm_num at this ⊢
    exact this
  rw [h1, h2, h3]
  refine ⟨rfl, rfl, rfl, ?_⟩
  norm_num

/-! ## The MET rescaling on an event with one jet -/

theorem plainCollab_isNumeratorLepton {V : Type} (K : LorentzOps V) (ev : Event V) (id : Int)
    (idx : Nat) (b : Bool) :
    samesign.isNumeratorLepton (plainCollab K ev) id idx b = false := rfl

theorem boundaryEvent_getJets_fast :
    getJets_fast P4.ops boundaryEvent 0 .JETS_TYPE_PF_CORR .JETS_CLEAN_HYP_E_MU (2 / 5) 0 (5 / 2) =
      .ok [(some ⟨50, 1, 0⟩, 1)] := by
  simp [getJets_fast, jetCollection, forIndexed, getJets_fast_body, jetCorr, vat, boundaryEvent,
    passesKinematics, cleaningVeto, passesCaloJetID, nearestCaloJet, vidx, P4.ops, P4.etaOf,
    Except.bind]
  norm_num [abs_of_pos]

theorem boundaryEvent_plain_jetIsLep (vjet : P4) :
    samesign.jetIsLep P4.ops boundaryEvent (plainCollab P4.ops boundaryEvent) vjet (2 / 5) 20 20
      = false := by
  simp only [samesign.jetIsLep, boundaryEvent, samesign.leptonLoop,
    plainCollab_isNumeratorLepton]
  simp

theorem boundaryEvent_plain_getJets :
    samesign.getJets P4.ops boundaryEvent (plainCollab P4.ops boundaryEvent) 0 .JETS_TYPE_PF_CORR
      (2 / 5) 30 (5 / 2) 20 20 (plainCollab P4.ops boundaryEvent).default_rescale
      (plainCollab P4.ops boundaryEvent).default_systFlag
      (plainCollab P4.ops boundaryEvent).default_sort_by_pt = .ok [⟨50, 1, 0⟩] := by
  have hb : (plainCollab P4.ops boundaryEvent).base_getJets (toUnsigned 0) false
      .JETS_TYPE_PF_CORR .JETS_CLEAN_HYP_E_MU (2 / 5) 0 (5 / 2) 1 (some 0) =
        .ok [⟨50, 1, 0⟩] := by
    show getJets P4.ops boundaryEvent 0 false .JETS_TYPE_PF_CORR .JETS_CLEAN_HYP_E_MU (2 / 5) 0
      (5 / 2) = _
    unfold getJets
    rw [boundaryEvent_getJets_fast]
    simp [Except.bind, correctedJets, P4.ops]
  show samesign.getJets P4.ops boundaryEvent (plainCollab P4.ops boundaryEvent) 0
      .JETS_TYPE_PF_CORR (2 / 5) 30 (5 / 2) 20 20 1 0 false = .ok [⟨50, 1, 0⟩]
  unfold samesign.getJets
  rw [hb]
  simp only [Except.bind, boundaryEvent_plain_jetIsLep, List.filter]
  simp only [P4.ops]
  norm_num


theorem scaleMET_leptons_skip {V P : Type} (K : LorentzOps V) (T : TransverseOps V)
    (D : Polar2DOps P) (isNumerator : Nat → Bool) (h : ∀ i, isNumerator i = false) (minpt : ℚ) :
    ∀ (ls : List V) (i : Nat) (leps : P),
      samesign.scaleMET_leptons K T D isNumerator minpt i ls leps = leps
  | [], _, _ => rfl
  | l :: ls, i, leps => by
    unfold samesign.scaleMET_leptons
    rw [h i]
    simp only [Bool.not_false, if_true, ite_self]
    exact scaleMET_leptons_skip K T D isNumerator h minpt ls (i + 1) leps

theorem boundaryEvent_scaleMET (D : Polar2DOps Polar2D) (scale_type : Int) (scale : ℚ) :
    samesign.scaleMET P4.ops (P4.transverse axisMath) D boundaryEvent
      (plainCollab P4.ops boundaryEvent) 10 0 0 .JETS_TYPE_PF_CORR (2 / 5) 30 (5 / 2) 20 20
      scale_type scale =
    .ok (D.r (D.sub (D.sub
      (D.SetR (D.add (D.add (D.polar 10 0) D.init) (D.add D.init (D.polar 50 0)))
        (D.r (D.add (D.add (D.polar 10 0) D.init) (D.add D.init (D.polar 50 0))) *
          (1 + (scale_type : ℚ) * scale)))
      (D.add D.init (D.polar 50 0))) D.init)) := by
  have he := scaleMET_leptons_skip P4.ops (P4.transverse axisMath) D
    (fun eidx => samesign.isNumeratorLepton (plainCollab P4.ops boundaryEvent) 11 eidx
      (plainCollab P4.ops boundaryEvent).default_use_el_eta) (fun _ => rfl) 20
  have hm := scaleMET_leptons_skip P4.ops (P4.transverse axisMath) D
    (fun midx => samesign.isNumeratorLepton (plainCollab P4.ops boundaryEvent) 13 midx
      (plainCollab P4.ops boundaryEvent).default_use_el_eta) (fun _ => rfl) 20
  have hpt : P4.ops.pt ⟨50, 1, 0⟩ = 50 := by
    simp only [P4.ops]
    norm_num [abs_of_pos]
  unfold samesign.scaleMET
  rw [boundaryEvent_plain_getJets]
  simp only [Except.bind]
  rw [he, hm]
  simp only [samesign.scaleMET_jets]
  rw [hpt]
  rfl

theorem axisPolar_add (init : Polar2D) (a b : ℚ) (h : 0 < a + b) :
    (Polar2D.opsFrom axisMath init).add ⟨a, 0⟩ ⟨b, 0⟩ = ⟨a + b, 0⟩ := by
  show Polar2D.ofXY axisMath _ _ = _
  simp only [Polar2D.ofXY, axisMath]
  have h1 : (a * (1 - 0 ^ 2 / 2) + b * (1 - 0 ^ 2 / 2)) *
      (a * (1 - 0 ^ 2 / 2) + b * (1 - 0 ^ 2 / 2))
      + (a * 0 + b * 0) * (a * 0 + b * 0) = (a + b) * (a + b) := by ring
  rw [h1, Rat.sqrt_eq, abs_of_pos h]
  have h2 : a * (1 - 0 ^ 2 / 2) + b * (1 - 0 ^ 2 / 2) = a + b := by ring
  rw [h2, if_pos h]
  simp

theorem axisPolar_sub (init : Polar2D) (a b : ℚ) (h : 0 < a - b) :
    (Polar2D.opsFrom axisMath init).sub ⟨a, 0⟩ ⟨b, 0⟩ = ⟨a - b, 0⟩ := by
  show Polar2D.ofXY axisMath _ _ = _
  simp only [Polar2D.ofXY, axisMath]
  have h1 : (a * (1 - 0 ^ 2 / 2) - b * (1 - 0 ^ 2 / 2)) *
      (a * (1 - 0 ^ 2 / 2) - b * (1 - 0 ^ 2 / 2))
      + (a * 0 - b * 0) * (a * 0 - b * 0) = (a - b) * (a - b) := by ring
  rw [h1, Rat.sqrt_eq, abs_of_pos h]
  have h2 : a * (1 - 0 ^ 2 / 2) - b * (1 - 0 ^ 2 / 2) = a - b := by ring
  rw [h2, if_pos h]
  simp

theorem axisPolar_scaleMET (init : ℚ) (h : 0 ≤ init) :
    samesign.scaleMET P4.ops (P4.transverse axisMath) (Polar2D.opsFrom axisMath ⟨init, 0⟩)
      boundaryEvent (plainCollab P4.ops boundaryEvent) 10 0 0 .JETS_TYPE_PF_CORR (2 / 5) 30
      (5 / 2) 20 20 1 (1 / 2) = .ok (40 + init) := by
  rw [boundaryEvent_scaleMET]
  have e1 : ∀ r phi : ℚ, (Polar2D.opsFrom axisMath ⟨init, 0⟩).polar r phi = ⟨r, phi⟩ :=
    fun _ _ => rfl
  have e3 : (Polar2D.opsFrom axisMath ⟨init, 0⟩).init = ⟨init, 0⟩ := rfl
  have e4 : ∀ (v : Polar2D) (r : ℚ), (Polar2D.opsFrom axisMath ⟨init, 0⟩).SetR v r
      = ⟨r, v.fPhi⟩ := fun _ _ => rfl
  have e5 : ∀ v : Polar2D, (Polar2D.opsFrom axisMath ⟨init, 0⟩).r v = v.fR := fun _ => rfl
  simp only [e1, e3, e4, e5]
  rw [axisPolar_add _ 10 init (by linarith), axisPolar_add _ init 50 (by linarith),
    axisPolar_add _ (10 + init) (init + 50) (by linarith)]
  simp only []
  rw [axisPolar_sub _ _ (init + 50) (by push_cast; linarith), axisPolar_sub _ _ init
    (by push_cast; linarith)]
  simp only []
  push_cast
  ring_nf

/-- C27, at the failing input: `boundaryEvent` with no numerator lepton, whose
one selected jet has pt 50 along the x axis, a MET of 10 along the x axis,
`scale_type = 1` and `scale = 1/2`. The formula of the claim gives
`1.5 * (10 + 50) - 50 = 40`. With ROOT's default-constructed `Polar2D` (length
1, azimuth 0) `jets` and `leps` start as unit vectors: `umet` has length
`10 + 1 + 51 = 62`, is stretched to 93, and the function returns
`93 - 51 - 1 = 41`. With sums that start from the vector of length 0 the
function returns 40. -/
theorem C27_default_constructed_sums_shift_the_met :
    samesign.scaleMET P4.ops (P4.transverse axisMath) (Polar2D.ops axisMath) boundaryEvent
      (plainCollab P4.ops boundaryEvent) 10 0 0 .JETS_TYPE_PF_CORR (2 / 5) 30 (5 / 2) 20 20 1
      (1 / 2) = .ok 41 ∧
    samesign.scaleMET_spec (P4.transverse axisMath) axisMath 10 0 [⟨50, 1, 0⟩] [] 1 (1 / 2)
      = 40 ∧
    samesign.scaleMET P4.ops (P4.transverse axisMath) (Polar2D.opsFromZero axisMath)
      boundaryEvent (plainCollab P4.ops boundaryEvent) 10 0 0 .JETS_TYPE_PF_CORR (2 / 5) 30
      (5 / 2) 20 20 1 (1 / 2) = .ok 40 := by
  refine ⟨?_, ?_, ?_⟩
  · have h := axisPolar_scaleMET 1 (by norm_num)
    norm_num at h
    exact h
  · simp only [samesign.scaleMET_spec, XYVector.ofPolar, XYVector.sum, XYVector.add,
      XYVector.sub, XYVector.r, TransverseOps.xy, P4.transverse, List.map, List.sum_cons,
      List.sum_nil]
    norm_num [axisMath]
  · have h := axisPolar_scaleMET 0 (by norm_num)
    norm_num at h
    exact h

/-! ## The corrector across the turns of a query -/

section correctorState

variable {V : Type} (K : LorentzOps V) (ev : Event V) (X : Collab V)

/-- A loop that threads an object gives the results of the loop without the
object, when every turn from an object that satisfies `Inv` answers as the
body without the object does and leaves an object that satisfies `Inv`. -/
theorem forIndexedState_spec {α β σ : Type} (Inv : σ → Prop)
    (turn : Nat → α → σ → Result (β × σ)) (body : Nat → α → Result β)
    (h : ∀ (i : Nat) (x : α) (s : σ), Inv s →
      (∃ r s1, turn i x s = .ok (r, s1) ∧ body i x = .ok r ∧ Inv s1) ∨
      (∃ e, turn i x s = .error e ∧ body i x = .error e)) :
    ∀ (xs : List α) (i : Nat) (s : σ), Inv s →
      (∃ rs s1, forIndexedState turn i xs s = .ok (rs, s1) ∧ forIndexed body i xs = .ok rs ∧
        Inv s1) ∨
      (∃ e, forIndexedState turn i xs s = .error e ∧ forIndexed body i xs = .error e)
  | [], _, s, hs => Or.inl ⟨[], s, rfl, rfl, hs⟩
  | x :: xs, i, s, hs => by
    rcases h i x s hs with ⟨r, s1, ht, hb, hs1⟩ | ⟨e, ht, hb⟩
    · rcases forIndexedState_spec Inv turn body h xs (i + 1) s1 hs1 with
        ⟨rs, s2, ht2, hb2, hs2⟩ | ⟨e, ht2, hb2⟩
      · exact Or.inl ⟨r :: rs, s2, by simp only [forIndexedState, ht, ht2],
          by simp only [forIndexed, hb, hb2], hs2⟩
      · exact Or.inr ⟨e, by simp only [forIndexedState, ht, ht2],
          by simp only [forIndexed, hb, hb2]⟩
    · exact Or.inr ⟨e, by simp only [forIndexedState, ht], by simp only [forIndexed, hb]⟩

/-- The four setters leave the parameterisation alone, and the correction read
after them is the one `otfJEC` computes from any corrector with the same
parameterisation. -/
theorem otfSet_spec (jc jc0 : FactorizedJetCorrector) (h : jc.correction = jc0.correction)
    (jidx : Nat) :
    (∃ jc1, samesign.otfSet K ev jc jidx = .ok jc1 ∧
      samesign.otfJEC K ev jc0 jidx = .ok jc1.getCorrection ∧
      jc1.correction = jc0.correction) ∨
    (∃ e, samesign.otfSet K ev jc jidx = .error e ∧ samesign.otfJEC K ev jc0 jidx = .error e) := by
  unfold samesign.otfSet samesign.otfJEC
  cases ha : vat ev.pfjets_area jidx with
  | error e => exact Or.inr ⟨e, rfl, rfl⟩
  | ok area =>
    cases hp : vat ev.pfjets_p4 jidx with
    | error e => exact Or.inr ⟨e, rfl, rfl⟩
    | ok p4 =>
      refine Or.inl ⟨_, rfl, ?_, h⟩
      simp only [Except.bind, FactorizedJetCorrector.getCorrection,
        FactorizedJetCorrector.setRho, FactorizedJetCorrector.setJetA,
        FactorizedJetCorrector.setJetPt, FactorizedJetCorrector.setJetEta, h]

theorem getJets_otf_turn_spec (jc0 : FactorizedJetCorrector) (min_pt rescale : ℚ)
    (systFlag : Int) (i : Nat) (flag : Bool) (jc : FactorizedJetCorrector)
    (h : jc.correction = jc0.correction) :
    (∃ r jc1, samesign.getJets_otf_turn K ev X min_pt rescale systFlag i flag jc = .ok (r, jc1) ∧
      samesign.getJets_otf_body K ev X jc0 min_pt rescale systFlag i flag = .ok r ∧
      jc1.correction = jc0.correction) ∨
    (∃ e, samesign.getJets_otf_turn K ev X min_pt rescale systFlag i flag jc = .error e ∧
      samesign.getJets_otf_body K ev X jc0 min_pt rescale systFlag i flag = .error e) := by
  unfold samesign.getJets_otf_turn samesign.getJets_otf_body
  cases flag with
  | false => exact Or.inl ⟨none, jc, rfl, rfl, h⟩
  | true =>
    simp only [Bool.not_true, Bool.false_eq_true, if_false]
    cases hp : vat ev.pfjets_p4 i with
    | error e => exact Or.inr ⟨e, rfl, rfl⟩
    | ok p4 =>
      rcases otfSet_spec K ev jc jc0 h i with ⟨jc1, h1, h2, h3⟩ | ⟨e, h1, h2⟩
      · simp only [Except.bind, h1, h2]
        split_ifs
        · exact Or.inl ⟨_, _, rfl, rfl, h3⟩
        · exact Or.inl ⟨_, _, rfl, rfl, h3⟩
      · simp only [Except.bind, h1, h2]
        exact Or.inr ⟨e, rfl, rfl⟩

theorem getJetFlags_otf_turn_spec (jc0 : FactorizedJetCorrector) (min_pt rescale : ℚ)
    (systFlag : Int) (i : Nat) (flag : Bool) (jc : FactorizedJetCorrector)
    (h : jc.correction = jc0.correction) :
    (∃ r jc1, samesign.getJetFlags_otf_turn K ev X min_pt rescale systFlag i flag jc
        = .ok (r, jc1) ∧
      samesign.getJetFlags_otf_body K ev X jc0 min_pt rescale systFlag i flag = .ok r ∧
      jc1.correction = jc0.correction) ∨
    (∃ e, samesign.getJetFlags_otf_turn K ev X min_pt rescale systFlag i flag jc = .error e ∧
      samesign.getJetFlags_otf_body K ev X jc0 min_pt rescale systFlag i flag = .error e) := by
  unfold samesign.getJetFlags_otf_turn samesign.getJetFlags_otf_body
  cases flag with
  | false => exact Or.inl ⟨false, jc, rfl, rfl, h⟩
  | true =>
    simp only [Bool.not_true, Bool.false_eq_true, if_false]
    rcases otfSet_spec K ev jc jc0 h i with ⟨jc1, h1, h2, h3⟩ | ⟨e, h1, h2⟩
    · simp only [Except.bind, h1, h2]
      cases hp : vat ev.pfjets_p4 i with
      | error e => exact Or.inr ⟨e, rfl, rfl⟩
      | ok p4 =>
        simp only []
        split_ifs
        · exact Or.inl ⟨_, _, rfl, rfl, h3⟩
        · exact Or.inl ⟨_, _, rfl, rfl, h3⟩
    · simp only [Except.bind, h1, h2]
      exact Or.inr ⟨e, rfl, rfl⟩

theorem getAllCorrectedJets_otf_turn_spec (jc0 : FactorizedJetCorrector) (systFlag : Int)
    (i : Nat) (p4 : V) (jc : FactorizedJetCorrector) (h : jc.correction = jc0.correction) :
    (∃ r jc1, samesign.getAllCorrectedJets_otf_turn K ev X systFlag i p4 jc = .ok (r, jc1) ∧
      samesign.getAllCorrectedJets_otf_body K ev X jc0 systFlag i p4 = .ok r ∧
      jc1.correction = jc0.correction) ∨
    (∃ e, samesign.getAllCorrectedJets_otf_turn K ev X systFlag i p4 jc = .error e ∧
      samesign.getAllCorrectedJets_otf_body K ev X jc0 systFlag i p4 = .error e) := by
  unfold samesign.getAllCorrectedJets_otf_turn samesign.getAllCorrectedJets_otf_body
  rcases otfSet_spec K ev jc jc0 h i with ⟨jc1, h1, h2, h3⟩ | ⟨e, h1, h2⟩
  · simp only [Except.bind, h1, h2]
    exact Or.inl ⟨_, _, rfl, rfl, h3⟩
  · simp only [Except.bind, h1, h2]
    exact Or.inr ⟨e, rfl, rfl⟩

end correctorState

section correctorQueries

variable {V : Type} (K : LorentzOps V) (ev : Event V) (X : Collab V)

theorem tracks_fst {β : Type} {a : Result (β × FactorizedJetCorrector)} {p : Result β}
    {law : ℚ → ℚ → ℚ → ℚ → ℚ} (h : tracks a p law) : a.map Prod.fst = p := by
  rcases h with ⟨r, jc1, ha, hp, _⟩ | ⟨e, ha, hp⟩
  · rw [ha, hp]
    rfl
  · rw [ha, hp]
    rfl

theorem tracks_again {β : Type} {a b : Result (β × FactorizedJetCorrector)} {p : Result β}
    {law : ℚ → ℚ → ℚ → ℚ → ℚ} (r : β) (jc1 : FactorizedJetCorrector) (ha : a = .ok (r, jc1))
    (ta : tracks a p law) (tb : tracks b p law) : ∃ jc2, b = .ok (r, jc2) := by
  rcases ta with ⟨r1, s1, ha1, hp1, _⟩ | ⟨e, ha1, _⟩
  · rw [ha] at ha1
    cases ha1
    rcases tb with ⟨r2, s2, hb2, hp2, _⟩ | ⟨e, _, hp2⟩
    · rw [hp1] at hp2
      cases hp2
      exact ⟨s2, hb2⟩
    · rw [hp1] at hp2
      cases hp2
  · rw [ha] at ha1
    cases ha1

theorem tracks_law {β : Type} {a : Result (β × FactorizedJetCorrector)} {p : Result β}
    {law : ℚ → ℚ → ℚ → ℚ → ℚ} (r : β) (jc1 : FactorizedJetCorrector) (ha : a = .ok (r, jc1))
    (ta : tracks a p law) : jc1.correction = law := by
  rcases ta with ⟨r1, s1, ha1, _, hl⟩ | ⟨e, ha1, _⟩
  · rw [ha] at ha1
    cases ha1
    exact hl
  · rw [ha] at ha1
    cases ha1

theorem getJets_otf_run_tracks (jc jc0 : FactorizedJetCorrector)
    (h : jc.correction = jc0.correction) (idx : Int) (type : JetType)
    (deltaR min_pt max_eta mu_minpt ele_minpt rescale : ℚ) (systFlag : Int) (sort_by_pt : Bool) :
    tracks
      (samesign.getJets_otf_run K ev X idx jc type deltaR min_pt max_eta mu_minpt ele_minpt
        rescale systFlag sort_by_pt)
      (samesign.getJets_otf K ev X idx jc0 type deltaR min_pt max_eta mu_minpt ele_minpt rescale
        systFlag sort_by_pt) jc0.correction := by
  unfold samesign.getJets_otf_run samesign.getJets_otf
  by_cases hpf : (!samesign.isParticleFlow type) = true
  · rw [if_pos hpf, if_pos hpf]
    exact Or.inl ⟨[], jc, rfl, rfl, h⟩
  · rw [if_neg hpf, if_neg hpf]
    cases hf : samesign.getJetFlags K ev X idx type deltaR 0 max_eta mu_minpt ele_minpt rescale
        systFlag with
    | error e => exact Or.inr ⟨e, rfl, rfl⟩
    | ok flags =>
      simp only [Except.bind]
      rcases forIndexedState_spec (fun s => s.correction = jc0.correction)
          (samesign.getJets_otf_turn K ev X min_pt rescale systFlag)
          (samesign.getJets_otf_body K ev X jc0 min_pt rescale systFlag)
          (fun i x s hs => getJets_otf_turn_spec K ev X jc0 min_pt rescale systFlag i x s hs)
          flags 0 jc h with ⟨rs, s1, h1, h2, h3⟩ | ⟨e, h1, h2⟩
      · rw [h1, h2]
        simp only []
        cases sort_by_pt with
        | true => exact Or.inl ⟨_, _, rfl, rfl, h3⟩
        | false => exact Or.inl ⟨_, _, rfl, rfl, h3⟩
      · rw [h1, h2]
        exact Or.inr ⟨e, rfl, rfl⟩

theorem getJetFlags_otf_run_tracks (jc jc0 : FactorizedJetCorrector)
    (h : jc.correction = jc0.correction) (idx : Int) (type : JetType)
    (deltaR min_pt max_eta mu_minpt ele_minpt rescale : ℚ) (systFlag : Int) :
    tracks
      (samesign.getJetFlags_otf_run K ev X idx jc type deltaR min_pt max_eta mu_minpt ele_minpt
        rescale systFlag)
      (samesign.getJetFlags_otf K ev X idx jc0 type deltaR min_pt max_eta mu_minpt ele_minpt
        rescale systFlag) jc0.correction := by
  unfold samesign.getJetFlags_otf_run samesign.getJetFlags_otf
  cases hf : samesign.getJetFlags K ev X idx type deltaR 0 max_eta mu_minpt ele_minpt rescale
      systFlag with
  | error e => exact Or.inr ⟨e, rfl, rfl⟩
  | ok flags =>
    simp only [Except.bind]
    cases hc : cassert (flags.length == ev.pfjets_p4.length) with
    | error e => exact Or.inr ⟨e, rfl, rfl⟩
    | ok u =>
      simp only []
      rcases forIndexedState_spec (fun s => s.correction = jc0.correction)
          (samesign.getJetFlags_otf_turn K ev X min_pt rescale systFlag)
          (samesign.getJetFlags_otf_body K ev X jc0 min_pt rescale systFlag)
          (fun i x s hs => getJetFlags_otf_turn_spec K ev X jc0 min_pt rescale systFlag i x s hs)
          flags 0 jc h with ⟨rs, s1, h1, h2, h3⟩ | ⟨e, h1, h2⟩
      · exact Or.inl ⟨rs, s1, h1, h2, h3⟩
      · exact Or.inr ⟨e, h1, h2⟩

theorem getAllCorrectedJets_otf_run_tracks (jc jc0 : FactorizedJetCorrector)
    (h : jc.correction = jc0.correction) (type : JetType) (systFlag : Int) (sort_by_pt : Bool) :
    tracks (samesign.getAllCorrectedJets_otf_run K ev X type jc systFlag sort_by_pt)
      (samesign.getAllCorrectedJets_otf K ev X type jc0 systFlag sort_by_pt) jc0.correction := by
  unfold samesign.getAllCorrectedJets_otf_run samesign.getAllCorrectedJets_otf
  rcases forIndexedState_spec (fun s => s.correction = jc0.correction)
      (samesign.getAllCorrectedJets_otf_turn K ev X systFlag)
      (samesign.getAllCorrectedJets_otf_body K ev X jc0 systFlag)
      (fun i x s hs => getAllCorrectedJets_otf_turn_spec K ev X jc0 systFlag i x s hs)
      ev.pfjets_p4 0 jc h with ⟨rs, s1, h1, h2, h3⟩ | ⟨e, h1, h2⟩
  · exact Or.inl ⟨rs, s1, h1, h2, h3⟩
  · exact Or.inr ⟨e, h1, h2⟩

/-- C29. The samesign queries with an on-the-fly corrector (`getJets`,
`getJetFlags`, `getAllCorrectedJets`) write rho, area, pt and eta before every
read of the scale: from two correctors with the same parameterisation, whatever
their registers hold, a query gives the same result, and a second run from the
corrector the first run leaves gives the result of the first. The function
`jetCorrection` writes pt and eta only: its value is the same from two
correctors with the same parameterisation that hold the same rho and area, and
it leaves rho and area as they were. -/
theorem C29_samesign_queries_write_all_four_inputs (jc jc' : FactorizedJetCorrector)
    (hlaw : jc.correction = jc'.correction) :
    (∀ (idx : Int) (type : JetType) (deltaR min_pt max_eta mu_minpt ele_minpt rescale : ℚ)
        (systFlag : Int) (sort_by_pt : Bool),
      (samesign.getJets_otf_run K ev X idx jc type deltaR min_pt max_eta mu_minpt ele_minpt
          rescale systFlag sort_by_pt).map Prod.fst =
        (samesign.getJets_otf_run K ev X idx jc' type deltaR min_pt max_eta mu_minpt ele_minpt
          rescale systFlag sort_by_pt).map Prod.fst ∧
      ∀ r jc1, samesign.getJets_otf_run K ev X idx jc type deltaR min_pt max_eta mu_minpt
          ele_minpt rescale systFlag sort_by_pt = .ok (r, jc1) →
        ∃ jc2, samesign.getJets_otf_run K ev X idx jc1 type deltaR min_pt max_eta mu_minpt
          ele_minpt rescale systFlag sort_by_pt = .ok (r, jc2)) ∧
    (∀ (idx : Int) (type : JetType) (deltaR min_pt max_eta mu_minpt ele_minpt rescale : ℚ)
        (systFlag : Int),
      (samesign.getJetFlags_otf_run K ev X idx jc type deltaR min_pt max_eta mu_minpt ele_minpt
          rescale systFlag).map Prod.fst =
        (samesign.getJetFlags_otf_run K ev X idx jc' type deltaR min_pt max_eta mu_minpt
          ele_minpt rescale systFlag).map Prod.fst ∧
      ∀ r jc1, samesign.getJetFlags_otf_run K ev X idx jc type deltaR min_pt max_eta mu_minpt
          ele_minpt rescale systFlag = .ok (r, jc1) →
        ∃ jc2, samesign.getJetFlags_otf_run K ev X idx jc1 type deltaR min_pt max_eta mu_minpt
          ele_minpt rescale systFlag = .ok (r, jc2)) ∧
    (∀ (type : JetType) (systFlag : Int) (sort_by_pt : Bool),
      (samesign.getAllCorrectedJets_otf_run K ev X type jc systFlag sort_by_pt).map Prod.fst =
        (samesign.getAllCorrectedJets_otf_run K ev X type jc' systFlag sort_by_pt).map
          Prod.fst ∧
      ∀ r jc1, samesign.getAllCorrectedJets_otf_run K ev X type jc systFlag sort_by_pt
          = .ok (r, jc1) →
        ∃ jc2, samesign.getAllCorrectedJets_otf_run K ev X type jc1 systFlag sort_by_pt
          = .ok (r, jc2)) ∧
    (∀ jet : V, jc.rho = jc'.rho → jc.jetA = jc'.jetA →
      (jetCorrection_run K jet jc).1 = (jetCorrection_run K jet jc').1) ∧
    (∀ jet : V, (jetCorrection_run K jet jc).1 = jetCorrection K jet jc ∧
      (jetCorrection_run K jet jc).2.rho = jc.rho ∧
      (jetCorrection_run K jet jc).2.jetA = jc.jetA) := by
  refine ⟨?_, ?_, ?_, ?_, ?_⟩
  · intro idx type deltaR min_pt max_eta mu_minpt ele_minpt rescale systFlag sort_by_pt
    have t1 := getJets_otf_run_tracks K ev X jc jc' hlaw idx type deltaR min_pt max_eta mu_minpt
      ele_minpt rescale systFlag sort_by_pt
    have t2 := getJets_otf_run_tracks K ev X jc' jc' rfl idx type deltaR min_pt max_eta mu_minpt
      ele_minpt rescale systFlag sort_by_pt
    refine ⟨by rw [tracks_fst t1, tracks_fst t2], fun r jc1 h1 => ?_⟩
    exact tracks_again r jc1 h1 t1
      (getJets_otf_run_tracks K ev X jc1 jc' (tracks_law r jc1 h1 t1) idx type deltaR min_pt
        max_eta mu_minpt ele_minpt rescale systFlag sort_by_pt)
  · intro idx type deltaR min_pt max_eta mu_minpt ele_minpt rescale systFlag
    have t1 := getJetFlags_otf_run_tracks K ev X jc jc' hlaw idx type deltaR min_pt max_eta
      mu_minpt ele_minpt rescale systFlag
    have t2 := getJetFlags_otf_run_tracks K ev X jc' jc' rfl idx type deltaR min_pt max_eta
      mu_minpt ele_minpt rescale systFlag
    refine ⟨by rw [tracks_fst t1, tracks_fst t2], fun r jc1 h1 => ?_⟩
    exact tracks_again r jc1 h1 t1
      (getJetFlags_otf_run_tracks K ev X jc1 jc' (tracks_law r jc1 h1 t1) idx type deltaR min_pt
        max_eta mu_minpt ele_minpt rescale systFlag)
  · intro type systFlag sort_by_pt
    have t1 := getAllCorrectedJets_otf_run_tracks K ev X jc jc' hlaw type systFlag sort_by_pt
    have t2 := getAllCorrectedJets_otf_run_tracks K ev X jc' jc' rfl type systFlag sort_by_pt
    refine ⟨by rw [tracks_fst t1, tracks_fst t2], fun r jc1 h1 => ?_⟩
    exact tracks_again r jc1 h1 t1
      (getAllCorrectedJets_otf_run_tracks K ev X jc1 jc' (tracks_law r jc1 h1 t1) type systFlag
        sort_by_pt)
  · intro jet hr ha
    simp only [jetCorrection_run, FactorizedJetCorrector.getCorrection,
      FactorizedJetCorrector.setJetPt, FactorizedJetCorrector.setJetEta, hlaw, hr, ha]
  · intro jet
    exact ⟨rfl, rfl, rfl⟩

end correctorQueries

/-- C29, witness: on `dijetEvent`, `getAllCorrectedJets` with the corrector of
scale `1 + rho / 100` gives the same jets whether the corrector arrives with
rho 0 or with rho 10 in its register. -/
theorem C29_samesign_queries_write_all_four_inputs_witness :
    (samesign.getAllCorrectedJets_otf_run P4.ops dijetEvent (plainCollab P4.ops dijetEvent)
      .JETS_TYPE_PF_CORR (pileupCorrector 0) 0 false).map Prod.fst =
    (samesign.getAllCorrectedJets_otf_run P4.ops dijetEvent (plainCollab P4.ops dijetEvent)
      .JETS_TYPE_PF_CORR (pileupCorrector 10) 0 false).map Prod.fst :=
  ((C29_samesign_queries_write_all_four_inputs P4.ops dijetEvent (plainCollab P4.ops dijetEvent)
    (pileupCorrector 0) (pileupCorrector 10) rfl).2.2.1 .JETS_TYPE_PF_CORR 0 false).1

/-- C29, counterexample: `jetCorrection` on a jet of pt 50 with the corrector of
scale `1 + rho / 100`: the scale is 1 when the corrector arrives with rho 0 and
11/10 when it arrives with rho 10, as another event may have left it. -/
theorem C29_jetCorrection_reads_the_rho_left_behind :
    (pileupCorrector 0).correction = (pileupCorrector 10).correction ∧
    jetCorrection P4.ops ⟨50, 0, 0⟩ (pileupCorrector 0) = 1 ∧
    jetCorrection P4.ops ⟨50, 0, 0⟩ (pileupCorrector 10) = 11 / 10 ∧
    jetCorrection P4.ops ⟨50, 0, 0⟩ (pileupCorrector 0) ≠
      jetCorrection P4.ops ⟨50, 0, 0⟩ (pileupCorrector 10) := by
  have h0 : jetCorrection P4.ops ⟨50, 0, 0⟩ (pileupCorrector 0) = 1 := by
    simp [jetCorrection, pileupCorrector, FactorizedJetCorrector.getCorrection,
      FactorizedJetCorrector.setJetPt, FactorizedJetCorrector.setJetEta]
  have h1 : jetCorrection P4.ops ⟨50, 0, 0⟩ (pileupCorrector 10) = 11 / 10 := by
    simp [jetCorrection, pileupCorrector, FactorizedJetCorrector.getCorrection,
      FactorizedJetCorrector.setJetPt, FactorizedJetCorrector.setJetEta]
    norm_num
  refine ⟨rfl, h0, h1, ?_⟩
  rw [h0, h1]
  norm_num

/-! ## Results on the operands that can fault -/

theorem test_ok (a : Nat) (p : Nat → Bool) : test (.ok a) p = .ok (p a) := rfl

theorem andAlso_ok (x y : Bool) : andAlso (.ok x) (.ok y) = .ok (x && y) := by
  cases x <;> rfl

theorem orElse_ok (x y : Bool) : orElse (.ok x) (.ok y) = .ok (x || y) := by
  cases x <;> rfl

theorem andAlso_false (b : Result Bool) : andAlso (.ok false) b = .ok false := rfl

theorem orElse_true (b : Result Bool) : orElse (.ok true) b = .ok true := rfl

theorem map_ok {α β : Type} (f : α → β) (a : α) :
    (Except.ok a : Result α).map f = .ok (f a) := rfl

theorem bind_ok {α β : Type} (a : α) (f : α → Result β) :
    (Except.ok a : Result α).bind f = f a := rfl

/-! ## The good-lepton selection and the bogus impact parameters -/

section goodLeptonFacts

variable {V : Type} (K : LorentzOps V) (ev : Event V) (L : LeptonCollab) (I : GoodLeptonCollab)

/-- A lepton whose impact parameter is one of the two bogus values is not a
good lepton, whatever the identification helpers answer. -/
theorem isGoodLepton_of_sentinel (id idx : Int) (use_el_eta : Bool) (d0 : ℚ)
    (h : samesign.leptonD0 ev L id idx = .ok d0) (hd : |d0| = 999999) :
    samesign.isGoodLepton K ev L I id idx use_el_eta = .ok false := by
  unfold samesign.isGoodLepton
  rw [h, bind_ok]
  have h1 : |d0| > 1 / 100 := by rw [hd]; norm_num
  have h2 : |d0| > 5 / 1000 := by rw [hd]; norm_num
  by_cases h11 : id.natAbs = 11
  · rw [if_pos h11, if_pos h1]
  · rw [if_neg h11]
    by_cases h13 : id.natAbs = 13
    · rw [if_pos h13, if_pos h2]
    · rw [if_neg h13]

end goodLeptonFacts

/-- C31. Without a good vertex `samesign::leptonD0` returns 999999 for every
lepton; with a good vertex and a negative track index (the CTF track of a muon,
`|id| = 13`, the GSF track of an electron, `|id| = 11`) it returns -999999. In
both cases, and whenever `leptonD0` returns a value of magnitude 999999,
`samesign::isGoodLepton` returns false, whatever the identification helpers
answer and whatever the identification branches of the event hold. -/
theorem C31_sentinel_impact_parameter_is_rejected {V : Type} (K : LorentzOps V) (ev : Event V)
    (L : LeptonCollab) (I : GoodLeptonCollab) (id idx : Int) (use_el_eta : Bool) :
    (L.firstGoodVertex < 0 →
      samesign.leptonD0 ev L id idx = .ok 999999 ∧
      samesign.isGoodLepton K ev L I id idx use_el_eta = .ok false) ∧
    (0 ≤ L.firstGoodVertex → id.natAbs = 13 →
      ∀ trkidx : Int, vatInt ev.mus_trkidx idx = .ok trkidx → trkidx < 0 →
        samesign.leptonD0 ev L id idx = .ok (-999999) ∧
        samesign.isGoodLepton K ev L I id idx use_el_eta = .ok false) ∧
    (0 ≤ L.firstGoodVertex → id.natAbs = 11 →
      ∀ gsfidx : Int, vatInt ev.els_gsftrkidx idx = .ok gsfidx → gsfidx < 0 →
        samesign.leptonD0 ev L id idx = .ok (-999999) ∧
        samesign.isGoodLepton K ev L I id idx use_el_eta = .ok false) ∧
    (∀ d0 : ℚ, samesign.leptonD0 ev L id idx = .ok d0 → |d0| = 999999 →
      samesign.isGoodLepton K ev L I id idx use_el_eta = .ok false) := by
  refine ⟨?_, ?_, ?_, ?_⟩
  · intro hv
    have h : samesign.leptonD0 ev L id idx = .ok 999999 := by
      unfold samesign.leptonD0
      simp only []
      rw [if_pos hv]
    exact ⟨h, isGoodLepton_of_sentinel K ev L I id idx use_el_eta _ h (by norm_num)⟩
  · intro hv h13 trkidx ht hneg
    have h : samesign.leptonD0 ev L id idx = .ok (-999999) := by
      unfold samesign.leptonD0
      simp only []
      rw [if_neg (not_lt.mpr hv), if_pos h13, ht, bind_ok, if_neg (not_le.mpr hneg)]
    exact ⟨h, isGoodLepton_of_sentinel K ev L I id idx use_el_eta _ h (by norm_num)⟩
  · intro hv h11 gsfidx ht hneg
    have h13 : ¬ id.natAbs = 13 := by omega
    have h : samesign.leptonD0 ev L id idx = .ok (-999999) := by
      unfold samesign.leptonD0
      simp only []
      rw [if_neg (not_lt.mpr hv), if_neg h13, if_pos h11, ht, bind_ok, if_neg (not_le.mpr hneg)]
    exact ⟨h, isGoodLepton_of_sentinel K ev L I id idx use_el_eta _ h (by norm_num)⟩
  · intro d0 h hd
    exact isGoodLepton_of_sentinel K ev L I id idx use_el_eta d0 h hd

/-- C31, witness: on `untrackedEvent`, with identification helpers that accept
every lepton, muon 0 (no track) has the impact parameter -999999 and is not a
good lepton, muon 1 (tracked, impact parameter 0) is one; without a good vertex
the electron has the impact parameter 999999 and is not a good lepton. -/
theorem C31_sentinel_impact_parameter_is_rejected_witness :
    (samesign.leptonD0 untrackedEvent looseLeptons 13 0 = .ok (-999999) ∧
      samesign.isGoodLepton P4.ops untrackedEvent looseLeptons lenientId 13 0 false = .ok false) ∧
    samesign.isGoodLepton P4.ops untrackedEvent looseLeptons lenientId 13 1 false = .ok true ∧
    (samesign.leptonD0 untrackedEvent vertexlessLeptons (-11) 0 = .ok 999999 ∧
      samesign.isGoodLepton P4.ops untrackedEvent vertexlessLeptons lenientId (-11) 0 true
        = .ok false) := by
  refine ⟨?_, ?_, ?_⟩
  · exact (C31_sentinel_impact_parameter_is_rejected P4.ops untrackedEvent looseLeptons lenientId
      13 0 false).2.1 (by decide) (by decide) (-1) (by rfl) (by decide)
  · have h : samesign.leptonD0 untrackedEvent looseLeptons 13 1 = .ok 0 := by
      simp [samesign.leptonD0, looseLeptons, untrackedEvent, vatInt, vat, Except.bind]
    unfold samesign.isGoodLepton
    rw [h, bind_ok]
    simp only [lenientId]
    norm_num
  · exact (C31_sentinel_impact_parameter_is_rejected P4.ops untrackedEvent vertexlessLeptons
      lenientId (-11) 0 true).1 (by decide)

/-! ## The b-tag flags of the selected jets, by pt -/

section sortedBtagFacts

variable {V : Type} (K : LorentzOps V)

theorem passingPairs_length :
    ∀ (ps : List V) (fs bs : List Bool), ps.length = fs.length → fs.length = bs.length →
      (passingPairs ps fs bs).length = fs.count true
  | [], [], [], _, _ => rfl
  | [], [], _ :: _, _, h => by simp at h
  | [], _ :: _, _, h, _ => by simp at h
  | _ :: _, [], _, h, _ => by simp at h
  | _ :: _, _ :: _, [], _, h => by simp at h
  | p :: ps, f :: fs, b :: bs, h1, h2 => by
    have ih := passingPairs_length ps fs bs (by simpa using h1) (by simpa using h2)
    cases f with
    | false => simpa [passingPairs] using ih
    | true => simp [passingPairs, ih]

theorem passingPairs_count :
    ∀ (ps : List V) (fs bs : List Bool), ps.length = fs.length → fs.length = bs.length →
      ((passingPairs ps fs bs).map Prod.snd).count true = bothTrue fs bs
  | [], [], [], _, _ => rfl
  | [], [], _ :: _, _, h => by simp at h
  | [], _ :: _, _, h, _ => by simp at h
  | _ :: _, [], _, h, _ => by simp at h
  | _ :: _, _ :: _, [], _, h => by simp at h
  | p :: ps, f :: fs, b :: bs, h1, h2 => by
    have ih := passingPairs_count ps fs bs (by simpa using h1) (by simpa using h2)
    unfold bothTrue at ih ⊢
    cases f with
    | false => simpa [passingPairs] using ih
    | true =>
      cases b with
      | false => simpa [passingPairs] using ih
      | true => simp [passingPairs, ih]

/-- The first loop of `sortBtaggedFlags` from index `k` on, for lists of one
length: it returns, and the pairs it pushes are the passing pairs. -/
theorem sortBtaggedFlags_loop (all_p4s : List V) (all_b : List Bool) :
    ∀ (flags : List Bool) (k : Nat), k + flags.length = all_p4s.length →
      k + flags.length = all_b.length →
      ∃ pushed, forIndexed (sortBtaggedFlags_body all_p4s all_b) k flags = .ok pushed ∧
        pushed.reduceOption = passingPairs (all_p4s.drop k) flags (all_b.drop k)
  | [], k, _, _ => ⟨[], rfl, by
      cases all_p4s.drop k with
      | nil => rfl
      | cons _ _ => rfl⟩
  | f :: fs, k, h1, h2 => by
    have hk1 : k < all_p4s.length := by simp at h1; omega
    have hk2 : k < all_b.length := by simp at h2; omega
    obtain ⟨pushed, hp1, hp2⟩ := sortBtaggedFlags_loop all_p4s all_b fs (k + 1)
      (by simp at h1; omega) (by simp at h2; omega)
    rw [List.drop_eq_getElem_cons hk1, List.drop_eq_getElem_cons hk2]
    cases f with
    | false =>
      refine ⟨none :: pushed, forIndexed_cons_ok _ _ _ _ _ _ rfl hp1, ?_⟩
      rw [List.reduceOption_cons_of_none, hp2]
      simp [passingPairs]
    | true =>
      have hb : sortBtaggedFlags_body all_p4s all_b k true = .ok (some (all_p4s[k], all_b[k])) := by
        unfold sortBtaggedFlags_body
        rw [vat_of_lt _ _ hk1, vat_of_lt _ _ hk2]
        rfl
      refine ⟨some (all_p4s[k], all_b[k]) :: pushed, forIndexed_cons_ok _ _ _ _ _ _ hb hp1, ?_⟩
      rw [List.reduceOption_cons_of_some, hp2]
      simp [passingPairs]

theorem sortBtaggedFlags_spec (all_jet_p4s : List V) (all_jet_flags all_bjet_flags : List Bool)
    (h1 : all_jet_p4s.length = all_jet_flags.length)
    (h2 : all_jet_flags.length = all_bjet_flags.length) :
    sortBtaggedFlags K all_jet_p4s all_jet_flags all_bjet_flags =
      .ok ((sort (samesign.SortByPt_pair K)
        (passingPairs all_jet_p4s all_jet_flags all_bjet_flags)).map Prod.snd) := by
  obtain ⟨pushed, hp1, hp2⟩ := sortBtaggedFlags_loop all_jet_p4s all_bjet_flags all_jet_flags 0
    (by omega) (by omega)
  unfold sortBtaggedFlags
  rw [(cassert_eq_ok _).mpr (by simpa using h1), bind_ok, (cassert_eq_ok _).mpr (by simpa using h2),
    bind_ok, hp1, bind_ok]
  simp only [hp2, List.drop_zero]

end sortedBtagFacts

/-- C32. For three sequences of one length `sortBtaggedFlags` returns the
b-tag flags of a rearrangement of the passing pairs (the pairs of momentum and
b-tag flag at the indices whose jet flag is true) in which the pt does not
increase: one flag per true jet flag, as many true flags as there are indices
at which the jet flag and the b-tag flag are both true. The function
`samesign::getSortedBtaggedFlags` calls it on the unsorted
`samesign::getAllCorrectedJets`, on `samesign::getJetFlags` and on
`samesign::getBtaggedJetFlags` of the same arguments. -/
theorem C32_btag_flags_of_passing_jets_by_pt {V : Type} (K : LorentzOps V)
    (all_jet_p4s : List V) (all_jet_flags all_bjet_flags : List Bool)
    (h1 : all_jet_p4s.length = all_jet_flags.length)
    (h2 : all_jet_flags.length = all_bjet_flags.length) :
    (∃ pairs : List (V × Bool),
      sortBtaggedFlags K all_jet_p4s all_jet_flags all_bjet_flags = .ok (pairs.map Prod.snd) ∧
      pairs.Perm (passingPairs all_jet_p4s all_jet_flags all_bjet_flags) ∧
      pairs.Pairwise (fun a b => K.pt b.1 ≤ K.pt a.1) ∧
      (pairs.map Prod.snd).length = all_jet_flags.count true ∧
      (pairs.map Prod.snd).count true = bothTrue all_jet_flags all_bjet_flags) ∧
    (∀ (ev : Event V) (X : Collab V)
        (base_getBtaggedJetFlags : Nat → JetType → CleaningType → BtagType → ℚ → ℚ → ℚ → ℚ →
          Option Int → Result (List Bool))
        (idx : Int) (type : JetType) (btag_type : BtagType)
        (deltaR min_pt max_eta mu_minpt ele_minpt rescale : ℚ) (systFlag : Int),
      samesign.getAllCorrectedJets K ev X type systFlag false = .ok all_jet_p4s →
      samesign.getJetFlags K ev X idx type deltaR min_pt max_eta mu_minpt ele_minpt rescale
        systFlag = .ok all_jet_flags →
      samesign.getBtaggedJetFlags K ev X base_getBtaggedJetFlags idx type btag_type deltaR min_pt
        max_eta mu_minpt ele_minpt rescale systFlag = .ok all_bjet_flags →
      samesign.getSortedBtaggedFlags K ev X base_getBtaggedJetFlags idx type btag_type deltaR
          min_pt max_eta mu_minpt ele_minpt rescale systFlag =
        sortBtaggedFlags K all_jet_p4s all_jet_flags all_bjet_flags) := by
  have hperm := sort_perm (samesign.SortByPt_pair K)
    (passingPairs all_jet_p4s all_jet_flags all_bjet_flags)
  refine ⟨⟨_, sortBtaggedFlags_spec K all_jet_p4s all_jet_flags all_bjet_flags h1 h2, hperm,
    sort_sorted (fun p : V × Bool => K.pt p.1) _, ?_, ?_⟩, ?_⟩
  · rw [List.length_map, hperm.length_eq, passingPairs_length _ _ _ h1 h2]
  · rw [(hperm.map Prod.snd).count_eq, passingPairs_count _ _ _ h1 h2]
  · intro ev X base idx type btag_type deltaR min_pt max_eta mu_minpt ele_minpt rescale systFlag
      hp hf hb
    unfold samesign.getSortedBtaggedFlags
    rw [hp, bind_ok, hf, bind_ok, hb, bind_ok]

/-- C32, witness: three jets of pt 30, 40 and 60 with the jet flags true,
false, true and the b-tag flags true, true, false. The passing jets are the
first and the third; by pt the third comes first, so the result is false,
true: one true flag, for the one index at which both flags are true. -/
theorem C32_btag_flags_of_passing_jets_by_pt_witness :
    ([⟨30, 0, 0⟩, ⟨40, 1, 1⟩, ⟨60, 2, 2⟩] : List P4).length = [true, false, true].length ∧
    [true, false, true].length = [true, true, false].length ∧
    sortBtaggedFlags P4.ops [⟨30, 0, 0⟩, ⟨40, 1, 1⟩, ⟨60, 2, 2⟩] [true, false, true]
      [true, true, false] = .ok [false, true] ∧
    [false, true].count true = bothTrue [true, false, true] [true, true, false] := by
  obtain ⟨pairs, hp1, _, _, _, hp5⟩ := (C32_btag_flags_of_passing_jets_by_pt P4.ops
    [⟨30, 0, 0⟩, ⟨40, 1, 1⟩, ⟨60, 2, 2⟩] [true, false, true] [true, true, false] rfl rfl).1
  have hv : sortBtaggedFlags P4.ops [⟨30, 0, 0⟩, ⟨40, 1, 1⟩, ⟨60, 2, 2⟩] [true, false, true]
      [true, true, false] = .ok [false, true] := by
    rw [sortBtaggedFlags_spec P4.ops [⟨30, 0, 0⟩, ⟨40, 1, 1⟩, ⟨60, 2, 2⟩] [true, false, true]
      [true, true, false] rfl rfl]
    simp only [passingPairs, sort, sortInsert, samesign.SortByPt_pair, P4.ops]
    norm_num
  rw [hv] at hp1
  simp only [Except.ok.injEq] at hp1
  rw [← hp1] at hp5
  exact ⟨rfl, rfl, hv, hp5⟩

/-! ## The MC categories of fake leptons -/

section categories

variable {V : Type} (ev : Event V)

theorem muFakeMCCategory_eq (i_mu : Int) (id mother : Int)
    (hid : vidxInt ev.mus_mc_id i_mu = .ok id)
    (hm : vidxInt ev.mus_mc_motherid i_mu = .ok mother) :
    muFakeMCCategory ev i_mu = .ok
      (if id.natAbs ≠ 13 then 1
       else if mother.natAbs < 400 then 2
       else if (400 ≤ mother.natAbs ∧ mother.natAbs ≤ 600) ∨
          (4000 ≤ mother.natAbs ∧ mother.natAbs ≤ 6000) then 3
       else 4) := by
  unfold muFakeMCCategory
  simp only [hid, hm, map_ok, test_ok, andAlso_ok, orElse_ok, bind_ok]
  generalize id.natAbs = a
  generalize mother.natAbs = b
  simp only [Bool.or_eq_true, Bool.and_eq_true, decide_eq_true_eq, ge_iff_le]
  by_cases h1 : a ≠ 13
  · rw [if_pos h1, if_pos h1]
  · rw [if_neg h1, if_neg h1]
    have h13 : a = 13 := not_not.mp h1
    by_cases h2 : b < 400
    · rw [if_pos ⟨h13, h2⟩, if_pos h2]
    · rw [if_neg (fun h => h2 h.2), if_neg h2]
      by_cases h3 : (400 ≤ b ∧ b ≤ 600) ∨ (4000 ≤ b ∧ b ≤ 6000)
      · rw [if_pos h3, if_pos]
        rcases h3 with h | h
        · exact Or.inl ⟨⟨h13, h.1⟩, h.2⟩
        · exact Or.inr ⟨⟨h13, h.1⟩, h.2⟩
      · rw [if_neg h3, if_neg]
        rintro (h | h)
        · exact h3 (Or.inl ⟨h.1.2, h.2⟩)
        · exact h3 (Or.inr ⟨h.1.2, h.2⟩)

theorem elFakeMCCategory_eq (i_el : Int) (id mother : Int)
    (hid : vidxInt ev.els_mc_id i_el = .ok id)
    (hm : vidxInt ev.els_mc_motherid i_el = .ok mother) :
    elFakeMCCategory ev i_el = .ok
      (if (id.natAbs = 11 ∧ mother.natAbs = 22) ∨ id.natAbs = 22 ∨
          (100 < id.natAbs ∧ id.natAbs < 200) ∨ (id.natAbs = 11 ∧ mother.natAbs = 111) then 1
       else if (200 < id.natAbs ∧ id.natAbs < 400) ∨ (2000 < id.natAbs ∧ id.natAbs < 4000) ∨
          (id.natAbs = 11 ∧ 200 < mother.natAbs ∧ mother.natAbs < 400) ∨
          (id.natAbs = 11 ∧ 2000 < mother.natAbs ∧ mother.natAbs < 4000) then 2
       else if (id.natAbs = 11 ∧ 400 ≤ mother.natAbs ∧ mother.natAbs ≤ 600) ∨
          (id.natAbs = 11 ∧ 4000 ≤ mother.natAbs ∧ mother.natAbs ≤ 6000) then 3
       else 4) := by
  unfold elFakeMCCategory
  simp only [hid, hm, map_ok, test_ok, andAlso_ok, orElse_ok, bind_ok]
  generalize id.natAbs = a
  generalize mother.natAbs = b
  simp only [Bool.or_eq_true, Bool.and_eq_true, decide_eq_true_eq, ge_iff_le, gt_iff_lt,
    or_assoc, and_assoc]
  split_ifs <;> rfl

end categories

/-- C33. When the matched id and mother id of muon `i_mu` can be read,
`muFakeMCCategory` returns a category `c` among 1, 2, 3, 4, never the initial
value -1, with `c = 1` exactly when `|id| != 13`, `c = 2` exactly when
`|id| = 13` and `|mother| < 400`, `c = 3` exactly when `|id| = 13` and
`|mother|` is in [400, 600] or [4000, 6000], and `c = 4` exactly when none of
the three holds; a muon of any event with the same id and mother id gets the
same category. -/
theorem C33_muon_category_by_id_and_mother {V : Type} (ev : Event V) (i_mu : Int)
    (id mother : Int) (hid : vidxInt ev.mus_mc_id i_mu = .ok id)
    (hm : vidxInt ev.mus_mc_motherid i_mu = .ok mother) :
    ∃ c : Int, muFakeMCCategory ev i_mu = .ok c ∧
      (c = 1 ∨ c = 2 ∨ c = 3 ∨ c = 4) ∧ c ≠ -1 ∧
      (c = 1 ↔ id.natAbs ≠ 13) ∧
      (c = 2 ↔ id.natAbs = 13 ∧ mother.natAbs < 400) ∧
      (c = 3 ↔ id.natAbs = 13 ∧ ((400 ≤ mother.natAbs ∧ mother.natAbs ≤ 600) ∨
        (4000 ≤ mother.natAbs ∧ mother.natAbs ≤ 6000))) ∧
      (c = 4 ↔ ¬ id.natAbs ≠ 13 ∧ ¬ (id.natAbs = 13 ∧ mother.natAbs < 400) ∧
        ¬ (id.natAbs = 13 ∧ ((400 ≤ mother.natAbs ∧ mother.natAbs ≤ 600) ∨
          (4000 ≤ mother.natAbs ∧ mother.natAbs ≤ 6000)))) ∧
      (∀ (ev2 : Event V) (i2 : Int), vidxInt ev2.mus_mc_id i2 = .ok id →
        vidxInt ev2.mus_mc_motherid i2 = .ok mother →
        muFakeMCCategory ev2 i2 = .ok c) := by
  refine ⟨_, muFakeMCCategory_eq ev i_mu id mother hid hm, ?_, ?_, ?_, ?_, ?_, ?_, ?_⟩
  · split_ifs <;> simp
  · split_ifs <;> simp
  · split_ifs <;> simp_all
  · split_ifs <;> simp_all
  · split_ifs <;> simp_all
    omega
  · split_ifs <;> simp_all
  · intro ev2 i2 h1 h2
    exact muFakeMCCategory_eq ev2 i2 id mother h1 h2

/-- C33, witness: on `mcTruthEvent` the muon from a B meson (id -13, mother
521) is in category 3. -/
theorem C33_muon_category_by_id_and_mother_witness :
    vidxInt mcTruthEvent.mus_mc_id 2 = .ok (-13) ∧
    vidxInt mcTruthEvent.mus_mc_motherid 2 = .ok 521 ∧
    muFakeMCCategory mcTruthEvent 2 = .ok 3 := by
  refine ⟨rfl, rfl, ?_⟩
  obtain ⟨c, h1, _, _, _, _, h3, _⟩ :=
    C33_muon_category_by_id_and_mother mcTruthEvent 2 (-13) 521 (by rfl) (by rfl)
  have : c = 3 := h3.mpr (by decide)
  rw [h1, this]

/-- C34. When the matched id of electron `i_el` can be read and `|id|` is 22
or strictly between 100 and 200, `elFakeMCCategory` returns 1 without reading
the mother id. When the mother id can be read too, it returns a category `c`
among 1, 2, 3, 4, never the initial value -1: the first of the conditions of
categories 1, 2 and 3 that holds decides, and 4 is returned when none does; for
`|id| = 11`, `c = 1` exactly when `|mother|` is 22 or 111, `c = 2` exactly when
`|mother|` is strictly between 200 and 400 or strictly between 2000 and 4000,
`c = 3` exactly when `|mother|` is in [400, 600] or [4000, 6000], and `c = 4`
exactly when `|mother|` is none of these. -/
theorem C34_electron_category_first_match {V : Type} (ev : Event V) (i_el : Int) (id : Int)
    (hid : vidxInt ev.els_mc_id i_el = .ok id) :
    (id.natAbs = 22 ∨ (100 < id.natAbs ∧ id.natAbs < 200) → elFakeMCCategory ev i_el = .ok 1) ∧
    (∀ mother : Int, vidxInt ev.els_mc_motherid i_el = .ok mother →
      ∃ c : Int, elFakeMCCategory ev i_el = .ok c ∧
        (c = 1 ∨ c = 2 ∨ c = 3 ∨ c = 4) ∧ c ≠ -1 ∧
        c = (if (id.natAbs = 11 ∧ mother.natAbs = 22) ∨ id.natAbs = 22 ∨
                (100 < id.natAbs ∧ id.natAbs < 200) ∨
                (id.natAbs = 11 ∧ mother.natAbs = 111) then 1
             else if (200 < id.natAbs ∧ id.natAbs < 400) ∨
                (2000 < id.natAbs ∧ id.natAbs < 4000) ∨
                (id.natAbs = 11 ∧ 200 < mother.natAbs ∧ mother.natAbs < 400) ∨
                (id.natAbs = 11 ∧ 2000 < mother.natAbs ∧ mother.natAbs < 4000) then 2
             else if (id.natAbs = 11 ∧ 400 ≤ mother.natAbs ∧ mother.natAbs ≤ 600) ∨
                (id.natAbs = 11 ∧ 4000 ≤ mother.natAbs ∧ mother.natAbs ≤ 6000) then 3
             else 4) ∧
        (id.natAbs = 11 →
          (c = 1 ↔ mother.natAbs = 22 ∨ mother.natAbs = 111) ∧
          (c = 2 ↔ (200 < mother.natAbs ∧ mother.natAbs < 400) ∨
            (2000 < mother.natAbs ∧ mother.natAbs < 4000)) ∧
          (c = 3 ↔ (400 ≤ mother.natAbs ∧ mother.natAbs ≤ 600) ∨
            (4000 ≤ mother.natAbs ∧ mother.natAbs ≤ 6000)) ∧
          (c = 4 ↔ ¬ (mother.natAbs = 22 ∨ mother.natAbs = 111) ∧
            ¬ ((200 < mother.natAbs ∧ mother.natAbs < 400) ∨
              (2000 < mother.natAbs ∧ mother.natAbs < 4000)) ∧
            ¬ ((400 ≤ mother.natAbs ∧ mother.natAbs ≤ 600) ∨
              (4000 ≤ mother.natAbs ∧ mother.natAbs ≤ 6000))))) := by
  refine ⟨?_, ?_⟩
  · intro h
    unfold elFakeMCCategory
    simp only [hid, map_ok, test_ok]
    have e11 : decide (id.natAbs = 11) = false := by
      rcases h with h | h <;> simp <;> omega
    rw [e11]
    simp only [andAlso_false, orElse_ok, Bool.false_or]
    rcases h with h | ⟨h1, h2⟩
    · simp only [h, decide_True, orElse_true, bind_ok, if_true]
    · have e1 : decide (id.natAbs > 100) = true := by simpa using h1
      have e2 : decide (id.natAbs < 200) = true := by simpa using h2
      simp only [e1, e2, andAlso_ok, orElse_ok, Bool.and_self, Bool.or_true, orElse_true, bind_ok,
        Bool.or_false, if_true]
  · intro mother hm
    refine ⟨_, elFakeMCCategory_eq ev i_el id mother hid hm, ?_, ?_, rfl, ?_⟩
    · split_ifs <;> simp
    · split_ifs <;> simp
    · intro h11
      generalize mother.natAbs = b
      simp only [h11]
      refine ⟨?_, ?_, ?_, ?_⟩
      · split_ifs <;> simp_all
      · split_ifs <;> simp_all
        omega
      · split_ifs <;> simp_all
        · omega
        · omega
      · split_ifs <;> simp_all

/-- C34, witness: on `mcTruthEvent` the electron matched to a photon is in
category 1, and the electron from a D meson (id -11, mother -411) is in
category 3. -/
theorem C34_electron_category_first_match_witness :
    vidxInt mcTruthEvent.els_mc_id 1 = .ok 22 ∧
    elFakeMCCategory mcTruthEvent 1 = .ok 1 ∧
    vidxInt mcTruthEvent.els_mc_id 2 = .ok (-11) ∧
    vidxInt mcTruthEvent.els_mc_motherid 2 = .ok (-411) ∧
    elFakeMCCategory mcTruthEvent 2 = .ok 3 := by
  refine ⟨rfl, ?_, rfl, rfl, ?_⟩
  · exact (C34_electron_category_first_match mcTruthEvent 1 22 (by rfl)).1 (Or.inl (by decide))
  · obtain ⟨c, h1, _, _, _, h5⟩ :=
      (C34_electron_category_first_match mcTruthEvent 2 (-11) (by rfl)).2 (-411) (by rfl)
    have : c = 3 := (h5 (by decide)).2.2.1.mpr (by decide)
    rw [h1, this]

/-! ## The calorimeter jet ID in the base selection -/

section caloJetID

variable {V : Type} (K : LorentzOps V)

/-- The loop of `passesCaloJetID` either keeps the pair it started from, no
calorimeter jet being nearer than its distance, or ends on the first nearest
calorimeter jet, which is nearer. -/
theorem nearestCaloJet_spec (jetp4 : V) :
    ∀ (jets : List V) (i : Nat) (best : Int × ℚ),
      (nearestCaloJet K jetp4 i jets best = best ∧
        ∀ (k : Nat) (vk : V), jets[k]? = some vk → best.2 ≤ K.DeltaR jetp4 vk) ∨
      (∃ (k : Nat) (d : ℚ), nearestCaloJet K jetp4 i jets best = (((i + k : Nat) : Int), d) ∧
        d < best.2 ∧ nearestCalo K jets jetp4 k d) := by
  intro jets
  induction jets with
  | nil =>
    intro i best
    exact Or.inl ⟨rfl, fun k vk h => by simp at h⟩
  | cons c rest ih =>
    intro i best
    by_cases hdr : K.DeltaR jetp4 c < best.2
    · have heq : nearestCaloJet K jetp4 i (c :: rest) best =
          nearestCaloJet K jetp4 (i + 1) rest ((i : Int), K.DeltaR jetp4 c) := by
        simp only [nearestCaloJet, if_pos hdr]
      right
      rcases ih (i + 1) ((i : Int), K.DeltaR jetp4 c) with
        ⟨h1, h2⟩ | ⟨k, d, h1, h2, v, h3, h5, h6, h7⟩
      · refine ⟨0, K.DeltaR jetp4 c, by rw [heq, h1]; rfl, hdr, c, by simp, rfl, ?_, ?_⟩
        · intro k' vk hk
          cases k' with
          | zero =>
            simp only [List.getElem?_cons_zero, Option.some.injEq] at hk
            subst hk
            exact le_refl _
          | succ j => exact h2 j vk (by simpa using hk)
        · intro k' vk hlt
          omega
      · simp only at h2
        refine ⟨k + 1, d, ?_, lt_trans h2 hdr, v, by simpa using h3, h5, ?_, ?_⟩
        · rw [heq, h1]
          congr 2
          omega
        · intro k' vk hk
          cases k' with
          | zero =>
            simp only [List.getElem?_cons_zero, Option.some.injEq] at hk
            subst hk
            exact le_of_lt h2
          | succ j => exact h6 j vk (by simpa using hk)
        · intro k' vk hlt hk
          cases k' with
          | zero =>
            simp only [List.getElem?_cons_zero, Option.some.injEq] at hk
            subst hk
            exact h2
          | succ j => exact h7 j vk (by omega) (by simpa using hk)
    · have heq : nearestCaloJet K jetp4 i (c :: rest) best =
          nearestCaloJet K jetp4 (i + 1) rest best := by
        simp only [nearestCaloJet, if_neg hdr]
      rcases ih (i + 1) best with ⟨h1, h2⟩ | ⟨k, d, h1, h2, v, h3, h5, h6, h7⟩
      · left
        refine ⟨by rw [heq, h1], ?_⟩
        intro k vk hk
        cases k with
        | zero =>
          simp only [List.getElem?_cons_zero, Option.some.injEq] at hk
          subst hk
          exact not_lt.mp hdr
        | succ j => exact h2 j vk (by simpa using hk)
      · right
        have hlt : d < K.DeltaR jetp4 c := lt_of_lt_of_le h2 (not_lt.mp hdr)
        refine ⟨k + 1, d, ?_, h2, v, by simpa using h3, h5, ?_, ?_⟩
        · rw [heq, h1]
          congr 2
          omega
        · intro k' vk hk
          cases k' with
          | zero =>
            simp only [List.getElem?_cons_zero, Option.some.injEq] at hk
            subst hk
            exact le_of_lt hlt
          | succ j => exact h6 j vk (by simpa using hk)
        · intro k' vk hlt2 hk
          cases k' with
          | zero =>
            simp only [List.getElem?_cons_zero, Option.some.injEq] at hk
            subst hk
            exact hlt
          | succ j => exact h7 j vk (by omega) (by simpa using hk)

theorem vidx_eq_ok {α : Type} (l : List α) (i : Nat) (x : α) :
    vidx l i = .ok x ↔ l[i]? = some x := by
  unfold vidx
  cases l[i]? with
  | none => simp
  | some y => simp

/-- A jet that `passesCaloJetID` accepts: the calorimeter jet nearest to it,
the first one in case of ties, is nearer than 999 and has good jet-ID
quantities. -/
theorem passesCaloJetID_true (ev : Event V) (jetp4 : V)
    (h : passesCaloJetID K ev jetp4 = .ok true) :
    ∃ (j : Nat) (d : ℚ), nearestCalo K ev.jets_p4 jetp4 j d ∧ d < 999 ∧ goodCaloJetID ev j := by
  unfold passesCaloJetID at h
  simp only [] at h
  rcases nearestCaloJet_spec K jetp4 ev.jets_p4 0 (-1, 999) with
    ⟨h1, _⟩ | ⟨k, d, h1, h2, h3⟩
  · rw [h1] at h
    simp at h
  · rw [h1] at h
    simp only [Nat.zero_add] at h
    have hk : ¬ ((k : Int) < 0) := by omega
    rw [if_neg hk] at h
    simp only [Int.toNat_ofNat] at h
    refine ⟨k, d, h3, h2, ?_⟩
    cases he : vidx ev.jets_emFrac k with
    | error e => rw [he] at h; cases h
    | ok emFrac =>
      rw [he, bind_ok] at h
      by_cases c1 : emFrac < 1 / 100
      · rw [if_pos c1] at h
        cases h
      · rw [if_neg c1] at h
        cases hf : vidx ev.jets_fHPD k with
        | error e => rw [hf] at h; cases h
        | ok fHPD =>
          rw [hf, bind_ok] at h
          by_cases c2 : fHPD > 98 / 100
          · rw [if_pos c2] at h
            cases h
          · rw [if_neg c2] at h
            cases hn : vidx ev.jets_n90Hits k with
            | error e => rw [hn] at h; cases h
            | ok n90Hits =>
              rw [hn, bind_ok] at h
              by_cases c3 : n90Hits < 2
              · rw [if_pos c3] at h
                cases h
              · exact ⟨emFrac, fHPD, n90Hits, (vidx_eq_ok _ _ _).mp he, (vidx_eq_ok _ _ _).mp hf,
                  (vidx_eq_ok _ _ _).mp hn, not_lt.mp c1, not_lt.mp c2, not_lt.mp c3⟩

theorem passesCaloJetID_no_calo (ev : Event V) (jetp4 : V) (h : ev.jets_p4 = []) :
    passesCaloJetID K ev jetp4 = .ok false := by
  unfold passesCaloJetID
  rw [h]
  rfl

/-- In an event without calorimeter jets every pair that `getJets_fast` pushes
holds the null pointer. -/
theorem getJets_fast_all_none (ev : Event V) (h : ev.jets_p4 = []) (i_hyp : Nat)
    (type : JetType) (cleaning : CleaningType) (deltaR min_pt max_eta : ℚ)
    (l : List (Option V × ℚ))
    (hl : getJets_fast K ev i_hyp type cleaning deltaR min_pt max_eta = .ok l) :
    ∀ p ∈ l, p.1 = none := by
  intro p hm
  unfold getJets_fast at hl
  cases hj : jetCollection ev type with
  | error e => rw [hj] at hl; cases hl
  | ok jets =>
    rw [hj] at hl
    simp only [Except.bind] at hl
    obtain ⟨i, hi⟩ := List.getElem?_of_mem hm
    have hlen := forIndexed_length _ _ _ hl
    have hi2 : i < jets.length := by
      rw [← hlen]
      exact (List.getElem?_eq_some_iff.mp hi).1
    obtain ⟨r, hr1, hr2⟩ := forIndexed_getElem? _ _ _ hl i jets[i] (List.getElem?_eq_getElem hi2)
    rw [hi] at hr1
    simp only [Option.some.injEq] at hr1
    subst hr1
    simp only [Nat.zero_add] at hr2
    obtain ⟨o, c⟩ := p
    cases o with
    | none => rfl
    | some j =>
      obtain ⟨_, _, _, _, h5⟩ := getJets_fast_body_some K ev _ _ _ _ _ _ _ _ _ _ hr2
      rw [passesCaloJetID_no_calo K ev _ h] at h5
      cases h5

theorem allNone_flags : ∀ (l : List (Option V × ℚ)), (∀ p ∈ l, p.1 = none) →
    (l.map fun p => p.1.isSome) = List.replicate l.length false ∧ correctedJets K l = [] ∧
      countJets l = 0
  | [], _ => ⟨rfl, rfl, rfl⟩
  | (o, c) :: rest, h => by
    have ho : o = none := h (o, c) (List.mem_cons_self _ _)
    subst ho
    obtain ⟨h1, h2, h3⟩ := allNone_flags rest (fun p hp => h p (List.mem_cons_of_mem _ hp))
    refine ⟨?_, ?_, ?_⟩
    · simp [List.replicate_succ, h1]
    · simp [correctedJets, h2]
    · simp [countJets, h3]

end caloJetID

/-- C35. For every jet type and every cleaning mode, a jet that `getJets_fast`
pushes with a non-null pointer, and so every true entry of `getJetFlags`, has a
nearest calorimeter jet (the first one in case of ties), at a DeltaR below the
initial 999, with `emFrac >= 0.01`, `fHPD <= 0.98` and `n90Hits >= 2`. In an event without calorimeter jets, when
`getJets_fast` returns, `getJetFlags` is false at every position, `getJets` is
empty and `nJets` is 0. -/
theorem C35_calo_jet_id_for_every_type {V : Type} (K : LorentzOps V) (ev : Event V)
    (i_hyp : Nat) (type : JetType) (cleaning : CleaningType) (deltaR min_pt max_eta : ℚ) :
    (∀ (i : Nat) (jet j : V) (c : ℚ),
      getJets_fast_body K ev i_hyp type cleaning deltaR min_pt max_eta i jet = .ok (some j, c) →
      ∃ (k : Nat) (d : ℚ), nearestCalo K ev.jets_p4 jet k d ∧ d < 999 ∧ goodCaloJetID ev k) ∧
    (∀ (fl : List Bool) (i : Nat),
      getJetFlags K ev i_hyp type cleaning deltaR min_pt max_eta = .ok fl → fl[i]? = some true →
      ∃ (jets : List V) (jet : V), jetCollection ev type = .ok jets ∧ jets[i]? = some jet ∧
        ∃ (k : Nat) (d : ℚ), nearestCalo K ev.jets_p4 jet k d ∧ d < 999 ∧ goodCaloJetID ev k) ∧
    (ev.jets_p4 = [] → ∀ (l : List (Option V × ℚ)) (sort_ : Bool),
      getJets_fast K ev i_hyp type cleaning deltaR min_pt max_eta = .ok l →
      getJetFlags K ev i_hyp type cleaning deltaR min_pt max_eta
        = .ok (List.replicate l.length false) ∧
      getJets K ev i_hyp sort_ type cleaning deltaR min_pt max_eta = .ok [] ∧
      nJets K ev i_hyp type cleaning deltaR min_pt max_eta = .ok 0) := by
  refine ⟨?_, ?_, ?_⟩
  · intro i jet j c h
    obtain ⟨_, _, _, _, h5⟩ := getJets_fast_body_some K ev _ _ _ _ _ _ _ _ _ _ h
    exact passesCaloJetID_true K ev jet h5
  · intro fl i h hi
    obtain ⟨jets, jet, corr, h1, h2, h3⟩ := getJetFlags_true K ev i_hyp type cleaning deltaR
      min_pt max_eta fl h i hi
    obtain ⟨_, _, _, _, h5⟩ := getJets_fast_body_some K ev _ _ _ _ _ _ _ _ _ _ h3
    exact ⟨jets, jet, h1, h2, passesCaloJetID_true K ev jet h5⟩
  · intro h0 l sort_ hl
    obtain ⟨h1, h2, h3⟩ := allNone_flags K l
      (getJets_fast_all_none K ev h0 i_hyp type cleaning deltaR min_pt max_eta l hl)
    refine ⟨?_, ?_, ?_⟩
    · unfold getJetFlags
      rw [hl, bind_ok, h1]
    · unfold getJets
      rw [hl, bind_ok]
      simp only [h2]
      cases sort_ <;> rfl
    · unfold nJets
      rw [hl, bind_ok, h3]

theorem pfOnlyEvent_getJets_fast :
    getJets_fast P4.ops pfOnlyEvent 0 .JETS_TYPE_PF_CORR .JETS_CLEAN_NONE (2 / 5) 30 (5 / 2) =
      .ok [(none, 1), (none, 1)] := by
  simp [getJets_fast, jetCollection, forIndexed, getJets_fast_body, jetCorr, vat, pfOnlyEvent,
    passesKinematics, cleaningVeto, passesCaloJetID, nearestCaloJet, P4.ops, P4.etaOf,
    Except.bind]

/-- C35, witness: `pfOnlyEvent` has two central particle-flow jets of pt 50
and 60 and no calorimeter jet; for particle-flow jets with a minimum pt of 30
the flags are false, false, the jet list is empty and the count is 0. -/
theorem C35_calo_jet_id_for_every_type_witness :
    pfOnlyEvent.jets_p4 = [] ∧
    getJetFlags P4.ops pfOnlyEvent 0 .JETS_TYPE_PF_CORR .JETS_CLEAN_NONE (2 / 5) 30 (5 / 2)
      = .ok [false, false] ∧
    getJets P4.ops pfOnlyEvent 0 true .JETS_TYPE_PF_CORR .JETS_CLEAN_NONE (2 / 5) 30 (5 / 2)
      = .ok [] ∧
    nJets P4.ops pfOnlyEvent 0 .JETS_TYPE_PF_CORR .JETS_CLEAN_NONE (2 / 5) 30 (5 / 2) = .ok 0 :=
  ⟨rfl, (C35_calo_jet_id_for_every_type P4.ops pfOnlyEvent 0 .JETS_TYPE_PF_CORR .JETS_CLEAN_NONE
    (2 / 5) 30 (5 / 2)).2.2 rfl _ true pfOnlyEvent_getJets_fast⟩

/-! ## The base flags under tighter criteria -/

section monotone

variable {V : Type} (K : LorentzOps V) (ev : Event V)

theorem getJets_fast_body_of (i_hyp : Nat) (type : JetType) (cleaning : CleaningType)
    (deltaR min_pt max_eta : ℚ) (i : Nat) (jet : V) (c : ℚ)
    (h1 : jetCorr ev type i = .ok c) (h2 : passesKinematics K jet c min_pt max_eta = true)
    (h3 : cleaningVeto K ev i_hyp cleaning deltaR jet = .ok false)
    (h4 : passesCaloJetID K ev jet = .ok true) :
    getJets_fast_body K ev i_hyp type cleaning deltaR min_pt max_eta i jet = .ok (some jet, c) := by
  unfold getJets_fast_body
  rw [h1, bind_ok, if_pos h2, h3, bind_ok]
  simp only [Bool.false_eq_true, if_false]
  rw [h4, bind_ok]
  simp

theorem passesKinematics_mono (jet : V) (c min_pt min_pt' max_eta max_eta' : ℚ)
    (hp : min_pt ≤ min_pt') (he : max_eta' ≤ max_eta)
    (h : passesKinematics K jet c min_pt' max_eta' = true) :
    passesKinematics K jet c min_pt max_eta = true := by
  rw [passesKinematics_iff] at h ⊢
  exact ⟨le_trans hp h.1, le_trans h.2 he⟩

theorem cleaningVeto_mono (i_hyp : Nat) (cleaning : CleaningType) (deltaR deltaR' : ℚ) (jet : V)
    (hd : deltaR ≤ deltaR') (h : cleaningVeto K ev i_hyp cleaning deltaR' jet = .ok false) :
    cleaningVeto K ev i_hyp cleaning deltaR jet = .ok false := by
  cases cleaning with
  | JETS_CLEAN_NONE => rfl
  | JETS_CLEAN_UNHANDLED => exact h
  | JETS_CLEAN_SINGLE_E =>
    unfold cleaningVeto at h ⊢
    simp only [] at h ⊢
    cases he : vat ev.els_p4 i_hyp with
    | error e => rw [he] at h; cases h
    | ok e =>
      rw [he, bind_ok] at h
      rw [bind_ok]
      by_cases c1 : K.DeltaR jet e < deltaR'
      · rw [if_pos c1] at h
        cases h
      · rw [if_neg (by linarith)]
  | JETS_CLEAN_HYP_E_MU =>
    unfold cleaningVeto at h ⊢
    simp only [] at h ⊢
    cases hlt : vat ev.hyp_lt_p4 i_hyp with
    | error e => rw [hlt] at h; cases h
    | ok lt =>
      rw [hlt, bind_ok] at h
      rw [bind_ok]
      by_cases c1 : K.DeltaR jet lt < deltaR'
      · rw [if_pos c1] at h
        cases h
      · rw [if_neg c1] at h
        rw [if_neg (by linarith)]
        cases hll : vat ev.hyp_ll_p4 i_hyp with
        | error e => rw [hll] at h; cases h
        | ok ll =>
          rw [hll, bind_ok] at h
          rw [bind_ok]
          by_cases c2 : K.DeltaR jet ll < deltaR'
          · rw [if_pos c2] at h
            cases h
          · rw [if_neg (by linarith)]
  | JETS_CLEAN_HYP_E =>
    unfold cleaningVeto at h ⊢
    simp only [] at h ⊢
    cases hlt : vat ev.hyp_lt_p4 i_hyp with
    | error e => rw [hlt] at h; cases h
    | ok lt =>
      rw [hlt, bind_ok] at h
      rw [bind_ok]
      cases hid : vat ev.hyp_lt_id i_hyp with
      | error e => rw [hid] at h; cases h
      | ok lt_id =>
        rw [hid, bind_ok] at h
        rw [bind_ok]
        by_cases c1 : lt_id.natAbs = 11 ∧ K.DeltaR jet lt < deltaR'
        · rw [if_pos c1] at h
          cases h
        · rw [if_neg c1] at h
          rw [if_neg (fun hh => c1 ⟨hh.1, lt_of_lt_of_le hh.2 hd⟩)]
          cases hll : vat ev.hyp_ll_p4 i_hyp with
          | error e => rw [hll] at h; cases h
          | ok ll =>
            rw [hll, bind_ok] at h
            rw [bind_ok]
            cases hid2 : vat ev.hyp_ll_id i_hyp with
            | error e => rw [hid2] at h; cases h
            | ok ll_id =>
              rw [hid2, bind_ok] at h
              rw [bind_ok]
              by_cases c2 : ll_id.natAbs = 11 ∧ K.DeltaR jet ll < deltaR'
              · rw [if_pos c2] at h
                cases h
              · rw [if_neg (fun hh => c2 ⟨hh.1, lt_of_lt_of_le hh.2 hd⟩)]

/-- A jet that passes at the tighter criteria passes at the looser ones. -/
theorem getJets_fast_body_mono (i_hyp : Nat) (type : JetType) (cleaning : CleaningType)
    (deltaR deltaR' min_pt min_pt' max_eta max_eta' : ℚ) (hd : deltaR ≤ deltaR')
    (hp : min_pt ≤ min_pt') (he : max_eta' ≤ max_eta) (i : Nat) (jet j : V) (c : ℚ)
    (h : getJets_fast_body K ev i_hyp type cleaning deltaR' min_pt' max_eta' i jet
      = .ok (some j, c)) :
    getJets_fast_body K ev i_hyp type cleaning deltaR min_pt max_eta i jet = .ok (some j, c) := by
  obtain ⟨h0, h1, h2, h3, h4⟩ := getJets_fast_body_some K ev _ _ _ _ _ _ _ _ _ _ h
  subst h0
  exact getJets_fast_body_of K ev _ _ _ _ _ _ _ _ _ h1
    (passesKinematics_mono K _ _ _ _ _ _ hp he h2) (cleaningVeto_mono K ev _ _ _ _ _ hd h3) h4

/-- A jet that the cleaning against both hypothesis leptons keeps is kept by
the cleaning against the hypothesis electrons, when that returns. -/
theorem cleaningVeto_hyp_e (i_hyp : Nat) (deltaR : ℚ) (jet : V)
    (h : cleaningVeto K ev i_hyp .JETS_CLEAN_HYP_E_MU deltaR jet = .ok false) (v : Bool)
    (hv : cleaningVeto K ev i_hyp .JETS_CLEAN_HYP_E deltaR jet = .ok v) : v = false := by
  unfold cleaningVeto at h hv
  simp only [] at h hv
  cases hlt : vat ev.hyp_lt_p4 i_hyp with
  | error e => rw [hlt] at h; cases h
  | ok lt =>
    rw [hlt, bind_ok] at h hv
    by_cases c1 : K.DeltaR jet lt < deltaR
    · rw [if_pos c1] at h
      cases h
    · rw [if_neg c1] at h
      cases hll : vat ev.hyp_ll_p4 i_hyp with
      | error e => rw [hll] at h; cases h
      | ok ll =>
        rw [hll, bind_ok] at h hv
        by_cases c2 : K.DeltaR jet ll < deltaR
        · rw [if_pos c2] at h
          cases h
        · cases hid : vat ev.hyp_lt_id i_hyp with
          | error e => rw [hid] at hv; cases hv
          | ok lt_id =>
            rw [hid, bind_ok, if_neg (fun hh => c1 hh.2)] at hv
            cases hid2 : vat ev.hyp_ll_id i_hyp with
            | error e => rw [hid2] at hv; cases hv
            | ok ll_id =>
              rw [hid2, bind_ok, if_neg (fun hh => c2 hh.2)] at hv
              simp only [Except.ok.injEq] at hv
              exact hv.symm

/-- A jet that passes with the cleaning against both hypothesis leptons passes
with the cleaning against the hypothesis electrons, when that turn returns. -/
theorem getJets_fast_body_hyp_e (i_hyp : Nat) (type : JetType) (deltaR min_pt max_eta : ℚ)
    (i : Nat) (jet j : V) (c : ℚ)
    (h : getJets_fast_body K ev i_hyp type .JETS_CLEAN_HYP_E_MU deltaR min_pt max_eta i jet
      = .ok (some j, c))
    (r : Option V × ℚ)
    (hr : getJets_fast_body K ev i_hyp type .JETS_CLEAN_HYP_E deltaR min_pt max_eta i jet = .ok r) :
    r = (some j, c) := by
  obtain ⟨h0, h1, h2, h3, h4⟩ := getJets_fast_body_some K ev _ _ _ _ _ _ _ _ _ _ h
  subst h0
  unfold getJets_fast_body at hr
  rw [h1, bind_ok, if_pos h2] at hr
  cases hv : cleaningVeto K ev i_hyp .JETS_CLEAN_HYP_E deltaR j with
  | error e => rw [hv] at hr; cases hr
  | ok v =>
    have := cleaningVeto_hyp_e K ev i_hyp deltaR j h3 v hv
    subst this
    rw [hv, bind_ok] at hr
    simp only [Bool.false_eq_true, if_false] at hr
    rw [h4, bind_ok] at hr
    simp only [if_true, Except.ok.injEq] at hr
    exact hr.symm

/-- A jet that passes with a cleaning mode passes without cleaning. -/
theorem getJets_fast_body_none (i_hyp : Nat) (type : JetType) (cleaning : CleaningType)
    (deltaR min_pt max_eta : ℚ) (i : Nat) (jet j : V) (c : ℚ)
    (h : getJets_fast_body K ev i_hyp type cleaning deltaR min_pt max_eta i jet
      = .ok (some j, c)) :
    getJets_fast_body K ev i_hyp type .JETS_CLEAN_NONE deltaR min_pt max_eta i jet
      = .ok (some j, c) := by
  obtain ⟨h0, h1, h2, _, h4⟩ := getJets_fast_body_some K ev _ _ _ _ _ _ _ _ _ _ h
  subst h0
  exact getJets_fast_body_of K ev _ _ _ _ _ _ _ _ _ h1 h2 rfl h4

/-- Two calls of `getJetFlags` on one collection such that a jet passing in the
first passes in the second whenever the turn of the second returns: the flag
lists have one length and a true entry of the first is true in the second. -/
theorem getJetFlags_imp (i_hyp : Nat) (type : JetType) (cleaning cleaning' : CleaningType)
    (deltaR deltaR' min_pt min_pt' max_eta max_eta' : ℚ)
    (hb : ∀ (i : Nat) (jet j : V) (c : ℚ) (r : Option V × ℚ),
      getJets_fast_body K ev i_hyp type cleaning' deltaR' min_pt' max_eta' i jet
        = .ok (some j, c) →
      getJets_fast_body K ev i_hyp type cleaning deltaR min_pt max_eta i jet = .ok r →
      r = (some j, c))
    (fl fl' : List Bool)
    (h : getJetFlags K ev i_hyp type cleaning deltaR min_pt max_eta = .ok fl)
    (h' : getJetFlags K ev i_hyp type cleaning' deltaR' min_pt' max_eta' = .ok fl') :
    fl'.length = fl.length ∧ ∀ i : Nat, fl'[i]? = some true → fl[i]? = some true := by
  unfold getJetFlags getJets_fast at h h'
  cases hj : jetCollection ev type with
  | error e => rw [hj] at h; cases h
  | ok jets =>
    rw [hj, bind_ok] at h h'
    cases hl : forIndexed (getJets_fast_body K ev i_hyp type cleaning deltaR min_pt max_eta) 0
        jets with
    | error e => rw [hl] at h; cases h
    | ok l =>
      cases hl' : forIndexed
          (getJets_fast_body K ev i_hyp type cleaning' deltaR' min_pt' max_eta') 0 jets with
      | error e => rw [hl'] at h'; cases h'
      | ok l' =>
        rw [hl, bind_ok] at h
        rw [hl', bind_ok] at h'
        simp only [Except.ok.injEq] at h h'
        subst h
        subst h'
        have hlen := forIndexed_length jets 0 l hl
        have hlen' := forIndexed_length jets 0 l' hl'
        refine ⟨by simp [hlen, hlen'], ?_⟩
        intro i hi
        have hi1 : i < jets.length := by
          have := (List.getElem?_eq_some_iff.mp hi).1
          simp only [List.length_map] at this
          omega
        obtain ⟨r', hr1', hr2'⟩ := forIndexed_getElem? jets 0 l' hl' i jets[i]
          (List.getElem?_eq_getElem hi1)
        obtain ⟨r, hr1, hr2⟩ := forIndexed_getElem? jets 0 l hl i jets[i]
          (List.getElem?_eq_getElem hi1)
        simp only [Nat.zero_add] at hr2 hr2'
        rw [List.getElem?_map, hr1'] at hi
        simp only [Option.map_some', Option.some.injEq] at hi
        obtain ⟨o, c⟩ := r'
        cases o with
        | none => simp at hi
        | some j =>
          have := hb i jets[i] j c r hr2' hr2
          subst this
          rw [List.getElem?_map, hr1]
          rfl

theorem count_true_le : ∀ (fl' fl : List Bool), fl'.length = fl.length →
    (∀ i : Nat, fl'[i]? = some true → fl[i]? = some true) → fl'.count true ≤ fl.count true
  | [], [], _, _ => le_refl _
  | [], _ :: _, h, _ => by simp at h
  | _ :: _, [], h, _ => by simp at h
  | a :: as, b :: bs, hlen, h => by
    have ih := count_true_le as bs (by simpa using hlen)
      (fun i hi => by simpa using h (i + 1) (by simpa using hi))
    have h0 := h 0
    simp only [List.getElem?_cons_zero, Option.some.injEq] at h0
    cases a with
    | false =>
      cases b with
      | false => simpa using ih
      | true =>
        simp only [List.count_cons_of_ne (by decide : (true : Bool) ≠ false), List.count_cons_self]
        omega
    | true =>
      have hb : b = true := h0 rfl
      subst hb
      simpa using ih

theorem false_stays_false (fl' fl : List Bool) (hlen : fl'.length = fl.length)
    (h : ∀ i : Nat, fl'[i]? = some true → fl[i]? = some true) :
    ∀ i : Nat, fl[i]? = some false → fl'[i]? = some false := by
  intro i hi
  have hi1 : i < fl'.length := by
    rw [hlen]
    exact (List.getElem?_eq_some_iff.mp hi).1
  cases hb : fl'[i] with
  | false => rw [List.getElem?_eq_getElem hi1, hb]
  | true =>
    have := h i (by rw [List.getElem?_eq_getElem hi1, hb])
    rw [hi] at this
    cases this

theorem nJets_eq_count (i_hyp : Nat) (type : JetType) (cleaning : CleaningType)
    (deltaR min_pt max_eta : ℚ) :
    nJets K ev i_hyp type cleaning deltaR min_pt max_eta =
      (getJetFlags K ev i_hyp type cleaning deltaR min_pt max_eta).map
        (fun flags => ((flags.count true : Nat) : Int)) := by
  unfold nJets getJetFlags
  cases getJets_fast K ev i_hyp type cleaning deltaR min_pt max_eta with
  | error e => rfl
  | ok l =>
    simp only [Except.bind, Except.map]
    rw [countJets_eq_count]

/-- The cleaning at a larger `deltaR` returns whenever the cleaning at a
smaller one does, and vetoes the jets that one vetoes. -/
theorem cleaningVeto_returns (i_hyp : Nat) (cleaning : CleaningType) (deltaR deltaR' : ℚ)
    (jet : V) (hd : deltaR ≤ deltaR') (v : Bool)
    (h : cleaningVeto K ev i_hyp cleaning deltaR jet = .ok v) :
    ∃ v', cleaningVeto K ev i_hyp cleaning deltaR' jet = .ok v' ∧ (v = true → v' = true) := by
  cases cleaning with
  | JETS_CLEAN_NONE => exact ⟨false, rfl, fun hv => by cases h; cases hv⟩
  | JETS_CLEAN_UNHANDLED => cases h
  | JETS_CLEAN_SINGLE_E =>
    unfold cleaningVeto at h ⊢
    simp only [] at h ⊢
    cases he : vat ev.els_p4 i_hyp with
    | error e => rw [he] at h; cases h
    | ok e =>
      rw [he, bind_ok] at h
      rw [bind_ok]
      by_cases c1 : K.DeltaR jet e < deltaR'
      · exact ⟨true, by rw [if_pos c1], fun _ => rfl⟩
      · refine ⟨false, by rw [if_neg c1], ?_⟩
        rw [if_neg (by linarith)] at h
        cases h
        intro hv
        cases hv
  | JETS_CLEAN_HYP_E_MU =>
    unfold cleaningVeto at h ⊢
    simp only [] at h ⊢
    cases hlt : vat ev.hyp_lt_p4 i_hyp with
    | error e => rw [hlt] at h; cases h
    | ok lt =>
      rw [hlt, bind_ok] at h
      rw [bind_ok]
      by_cases c1 : K.DeltaR jet lt < deltaR'
      · exact ⟨true, by rw [if_pos c1], fun _ => rfl⟩
      · rw [if_neg c1]
        rw [if_neg (by linarith)] at h
        cases hll : vat ev.hyp_ll_p4 i_hyp with
        | error e => rw [hll] at h; cases h
        | ok ll =>
          rw [hll, bind_ok] at h
          rw [bind_ok]
          by_cases c2 : K.DeltaR jet ll < deltaR'
          · exact ⟨true, by rw [if_pos c2], fun _ => rfl⟩
          · refine ⟨false, by rw [if_neg c2], ?_⟩
            rw [if_neg (by linarith)] at h
            cases h
            intro hv
            cases hv
  | JETS_CLEAN_HYP_E =>
    unfold cleaningVeto at h ⊢
    simp only [] at h ⊢
    cases hlt : vat ev.hyp_lt_p4 i_hyp with
    | error e => rw [hlt] at h; cases h
    | ok lt =>
      rw [hlt, bind_ok] at h
      rw [bind_ok]
      cases hid : vat ev.hyp_lt_id i_hyp with
      | error e => rw [hid] at h; cases h
      | ok lt_id =>
        rw [hid, bind_ok] at h
        rw [bind_ok]
        by_cases c1 : lt_id.natAbs = 11 ∧ K.DeltaR jet lt < deltaR'
        · exact ⟨true, by rw [if_pos c1], fun _ => rfl⟩
        · rw [if_neg c1]
          rw [if_neg (fun hh => c1 ⟨hh.1, lt_of_lt_of_le hh.2 hd⟩)] at h
          cases hll : vat ev.hyp_ll_p4 i_hyp with
          | error e => rw [hll] at h; cases h
          | ok ll =>
            rw [hll, bind_ok] at h
            rw [bind_ok]
            cases hid2 : vat ev.hyp_ll_id i_hyp with
            | error e => rw [hid2] at h; cases h
            | ok ll_id =>
              rw [hid2, bind_ok] at h
              rw [bind_ok]
              by_cases c2 : ll_id.natAbs = 11 ∧ K.DeltaR jet ll < deltaR'
              · exact ⟨true, by rw [if_pos c2], fun _ => rfl⟩
              · refine ⟨false, by rw [if_neg c2], ?_⟩
                rw [if_neg (fun hh => c2 ⟨hh.1, lt_of_lt_of_le hh.2 hd⟩)] at h
                cases h
                intro hv
                cases hv

/-- A turn of `getJets_fast` at the tighter criteria returns whenever the turn
at the looser ones does. -/
theorem getJets_fast_body_tighter_returns (i_hyp : Nat) (type : JetType) (cleaning : CleaningType)
    (deltaR deltaR' min_pt min_pt' max_eta max_eta' : ℚ) (hd : deltaR ≤ deltaR')
    (hp : min_pt ≤ min_pt') (he : max_eta' ≤ max_eta) (i : Nat) (jet : V) (r : Option V × ℚ)
    (h : getJets_fast_body K ev i_hyp type cleaning deltaR min_pt max_eta i jet = .ok r) :
    ∃ r', getJets_fast_body K ev i_hyp type cleaning deltaR' min_pt' max_eta' i jet = .ok r' := by
  unfold getJets_fast_body at h ⊢
  cases hc : jetCorr ev type i with
  | error e => rw [hc] at h; cases h
  | ok c =>
    rw [hc, bind_ok] at h
    rw [bind_ok]
    by_cases hk' : passesKinematics K jet c min_pt' max_eta' = true
    · rw [if_pos hk']
      rw [if_pos (passesKinematics_mono K _ _ _ _ _ _ hp he hk')] at h
      cases hv : cleaningVeto K ev i_hyp cleaning deltaR jet with
      | error e => rw [hv] at h; cases h
      | ok v =>
        obtain ⟨v', hv1, hv2⟩ := cleaningVeto_returns K ev i_hyp cleaning deltaR deltaR' jet hd v hv
        rw [hv1, bind_ok]
        rw [hv, bind_ok] at h
        cases v' with
        | true => exact ⟨_, rfl⟩
        | false =>
          have hvf : v = false := by
            cases v with
            | false => rfl
            | true => exact absurd (hv2 rfl) (by decide)
          subst hvf
          simp only [Bool.false_eq_true, if_false] at h ⊢
          cases hg : passesCaloJetID K ev jet with
          | error e => rw [hg] at h; cases h
          | ok good =>
            rw [bind_ok]
            cases good <;> exact ⟨_, rfl⟩
    · rw [if_neg hk']
      exact ⟨_, rfl⟩

/-- The flag query at the tighter criteria returns whenever the one at the
looser criteria does. -/
theorem getJetFlags_tighter_returns (i_hyp : Nat) (type : JetType) (cleaning : CleaningType)
    (deltaR deltaR' min_pt min_pt' max_eta max_eta' : ℚ) (hd : deltaR ≤ deltaR')
    (hp : min_pt ≤ min_pt') (he : max_eta' ≤ max_eta) (fl : List Bool)
    (h : getJetFlags K ev i_hyp type cleaning deltaR min_pt max_eta = .ok fl) :
    ∃ fl', getJetFlags K ev i_hyp type cleaning deltaR' min_pt' max_eta' = .ok fl' := by
  unfold getJetFlags getJets_fast at h ⊢
  cases hj : jetCollection ev type with
  | error e => rw [hj] at h; cases h
  | ok jets =>
    rw [hj, bind_ok] at h
    rw [bind_ok]
    cases hl : forIndexed (getJets_fast_body K ev i_hyp type cleaning deltaR min_pt max_eta) 0
        jets with
    | error e => rw [hl] at h; cases h
    | ok l =>
      obtain ⟨l', hl'⟩ := @forIndexed_total V (Option V × ℚ)
        (getJets_fast_body K ev i_hyp type cleaning deltaR' min_pt' max_eta') jets 0
        (fun i x hx => by
          obtain ⟨r, _, hr⟩ := forIndexed_getElem? jets 0 l hl i x hx
          exact getJets_fast_body_tighter_returns K ev i_hyp type cleaning deltaR deltaR' min_pt min_pt'
            max_eta max_eta' hd hp he (0 + i) x r hr)
      rw [hl', bind_ok]
      exact ⟨_, rfl⟩

end monotone

/-- C36. For one event, hypothesis, jet type and cleaning mode, and criteria
with `deltaR <= deltaR'`, `min_pt <= min_pt'` and `max_eta' <= max_eta`: when
`getJetFlags` returns at `(deltaR, min_pt, max_eta)` it returns at
`(deltaR', min_pt', max_eta')` too, with a list of the same length in which
every entry that was false is false, and `nJets`, the number of true entries,
does not increase. For fixed criteria, when the calls return, a true flag under
`JETS_CLEAN_HYP_E_MU` is true under `JETS_CLEAN_HYP_E`, and a true flag under
any cleaning mode is true under `JETS_CLEAN_NONE`. -/
theorem C36_flags_monotone_in_criteria {V : Type} (K : LorentzOps V) (ev : Event V)
    (i_hyp : Nat) (type : JetType) :
    (∀ (cleaning : CleaningType) (deltaR deltaR' min_pt min_pt' max_eta max_eta' : ℚ)
        (fl : List Bool),
      deltaR ≤ deltaR' → min_pt ≤ min_pt' → max_eta' ≤ max_eta →
      getJetFlags K ev i_hyp type cleaning deltaR min_pt max_eta = .ok fl →
      ∃ fl', getJetFlags K ev i_hyp type cleaning deltaR' min_pt' max_eta' = .ok fl' ∧
        fl'.length = fl.length ∧
        (∀ i : Nat, fl[i]? = some false → fl'[i]? = some false) ∧
        nJets K ev i_hyp type cleaning deltaR min_pt max_eta
          = .ok ((fl.count true : Nat) : Int) ∧
        nJets K ev i_hyp type cleaning deltaR' min_pt' max_eta'
          = .ok ((fl'.count true : Nat) : Int) ∧
        fl'.count true ≤ fl.count true) ∧
    (∀ (deltaR min_pt max_eta : ℚ) (fl_e_mu fl_e : List Bool),
      getJetFlags K ev i_hyp type .JETS_CLEAN_HYP_E_MU deltaR min_pt max_eta = .ok fl_e_mu →
      getJetFlags K ev i_hyp type .JETS_CLEAN_HYP_E deltaR min_pt max_eta = .ok fl_e →
      fl_e_mu.length = fl_e.length ∧
        ∀ i : Nat, fl_e_mu[i]? = some true → fl_e[i]? = some true) ∧
    (∀ (cleaning : CleaningType) (deltaR min_pt max_eta : ℚ) (fl fl_none : List Bool),
      getJetFlags K ev i_hyp type cleaning deltaR min_pt max_eta = .ok fl →
      getJetFlags K ev i_hyp type .JETS_CLEAN_NONE deltaR min_pt max_eta = .ok fl_none →
      fl.length = fl_none.length ∧
        ∀ i : Nat, fl[i]? = some true → fl_none[i]? = some true) := by
  refine ⟨?_, ?_, ?_⟩
  · intro cleaning deltaR deltaR' min_pt min_pt' max_eta max_eta' fl hd hp he h
    obtain ⟨fl', h'⟩ := getJetFlags_tighter_returns K ev i_hyp type cleaning deltaR deltaR' min_pt
      min_pt' max_eta max_eta' hd hp he fl h
    obtain ⟨hlen, himp⟩ := getJetFlags_imp K ev i_hyp type cleaning cleaning deltaR deltaR' min_pt
      min_pt' max_eta max_eta'
      (fun i jet j c r h1 h2 => by
        rw [getJets_fast_body_mono K ev i_hyp type cleaning deltaR deltaR' min_pt min_pt' max_eta
          max_eta' hd hp he i jet j c h1] at h2
        simp only [Except.ok.injEq] at h2
        exact h2.symm)
      fl fl' h h'
    refine ⟨fl', h', hlen, false_stays_false fl' fl hlen himp, ?_, ?_,
      count_true_le fl' fl hlen himp⟩
    · rw [nJets_eq_count, h]
      rfl
    · rw [nJets_eq_count, h']
      rfl
  · intro deltaR min_pt max_eta fl_e_mu fl_e h h'
    exact getJetFlags_imp K ev i_hyp type .JETS_CLEAN_HYP_E .JETS_CLEAN_HYP_E_MU deltaR deltaR
      min_pt min_pt max_eta max_eta
      (fun i jet j c r h1 h2 =>
        getJets_fast_body_hyp_e K ev i_hyp type deltaR min_pt max_eta i jet j c h1 r h2)
      fl_e fl_e_mu h' h
  · intro cleaning deltaR min_pt max_eta fl fl_none h h'
    exact getJetFlags_imp K ev i_hyp type .JETS_CLEAN_NONE cleaning deltaR deltaR min_pt min_pt
      max_eta max_eta
      (fun i jet j c r h1 h2 => by
        rw [getJets_fast_body_none K ev i_hyp type cleaning deltaR min_pt max_eta i jet j c h1]
          at h2
        simp only [Except.ok.injEq] at h2
        exact h2.symm)
      fl_none fl h' h

theorem muonOverlapEvent_flags_e_mu :
    getJetFlags P4.ops muonOverlapEvent 0 .JETS_TYPE_PF_CORR .JETS_CLEAN_HYP_E_MU (2 / 5) 30
      (5 / 2) = .ok [false, true] := by
  simp [getJetFlags, getJets_fast, jetCollection, forIndexed, getJets_fast_body, jetCorr, vat,
    muonOverlapEvent, passesKinematics, cleaningVeto, passesCaloJetID, nearestCaloJet, vidx,
    P4.ops, P4.etaOf, Except.bind]
  norm_num [abs_of_pos]

theorem muonOverlapEvent_flags_e :
    getJetFlags P4.ops muonOverlapEvent 0 .JETS_TYPE_PF_CORR .JETS_CLEAN_HYP_E (2 / 5) 30
      (5 / 2) = .ok [true, true] := by
  simp [getJetFlags, getJets_fast, jetCollection, forIndexed, getJets_fast_body, jetCorr, vat,
    muonOverlapEvent, passesKinematics, cleaningVeto, passesCaloJetID, nearestCaloJet, vidx,
    P4.ops, P4.etaOf, Except.bind]
  norm_num [abs_of_pos]

theorem muonOverlapEvent_flags_tight :
    getJetFlags P4.ops muonOverlapEvent 0 .JETS_TYPE_PF_CORR .JETS_CLEAN_HYP_E (1 / 2) 55
      2 = .ok [false, true] := by
  simp [getJetFlags, getJets_fast, jetCollection, forIndexed, getJets_fast_body, jetCorr, vat,
    muonOverlapEvent, passesKinematics, cleaningVeto, passesCaloJetID, nearestCaloJet, vidx,
    P4.ops, P4.etaOf, Except.bind]
  norm_num [abs_of_pos]

/-- C36, witness: on `muonOverlapEvent`, with the cleaning against the
hypothesis electrons, the flags are true, true at `deltaR` 0.4, a minimum pt of
30 and a maximum eta of 2.5, and false, true at `deltaR` 0.5, a minimum pt of
55 and a maximum eta of 2; with the cleaning against both hypothesis leptons at
the first criteria they are false, true, the first jet being next to the
hypothesis muon. -/
theorem C36_flags_monotone_in_criteria_witness :
    getJetFlags P4.ops muonOverlapEvent 0 .JETS_TYPE_PF_CORR .JETS_CLEAN_HYP_E (2 / 5) 30 (5 / 2)
      = .ok [true, true] ∧
    getJetFlags P4.ops muonOverlapEvent 0 .JETS_TYPE_PF_CORR .JETS_CLEAN_HYP_E (1 / 2) 55 2
      = .ok [false, true] ∧
    nJets P4.ops muonOverlapEvent 0 .JETS_TYPE_PF_CORR .JETS_CLEAN_HYP_E (2 / 5) 30 (5 / 2)
      = .ok 2 ∧
    nJets P4.ops muonOverlapEvent 0 .JETS_TYPE_PF_CORR .JETS_CLEAN_HYP_E (1 / 2) 55 2 = .ok 1 ∧
    getJetFlags P4.ops muonOverlapEvent 0 .JETS_TYPE_PF_CORR .JETS_CLEAN_HYP_E_MU (2 / 5) 30
      (5 / 2) = .ok [false, true] ∧
    (∀ i : Nat, [false, true][i]? = some true → [true, true][i]? = some true) := by
  obtain ⟨fl', h1, _, _, h4, h5, _⟩ := (C36_flags_monotone_in_criteria P4.ops muonOverlapEvent 0
    .JETS_TYPE_PF_CORR).1 .JETS_CLEAN_HYP_E (2 / 5) (1 / 2) 30 55 (5 / 2) 2 [true, true]
    (by norm_num) (by norm_num) (by norm_num) muonOverlapEvent_flags_e
  rw [muonOverlapEvent_flags_tight] at h1
  simp only [Except.ok.injEq] at h1
  subst h1
  exact ⟨muonOverlapEvent_flags_e, muonOverlapEvent_flags_tight, h4, h5,
    muonOverlapEvent_flags_e_mu,
    ((C36_flags_monotone_in_criteria P4.ops muonOverlapEvent 0 .JETS_TYPE_PF_CORR).2.1 (2 / 5) 30
      (5 / 2) [false, true] [true, true] muonOverlapEvent_flags_e_mu
      muonOverlapEvent_flags_e).2⟩

/-! ## The quantity under the square root of getErrPt -/

theorem getErrPt_eq_sqrt (M : Libm) (pt eta : ℚ) :
    getErrPt M pt eta = M.sqrt (getErrPt_InvPerr2 M pt eta) := rfl

theorem resolution_radicand_nonneg (M : Libm) (hpow : ∀ x y : ℚ, 0 ≤ x → 0 ≤ M.pow x y)
    (pt : ℚ) (hpt : 0 ≤ pt) (N S C m : ℚ) (hN : 0 ≤ N) :
    0 ≤ (N * |N|) + (S * S) * M.pow pt (m + 1) + (C * C) * pt * pt := by
  have h1 : 0 ≤ N * |N| := mul_nonneg hN (abs_nonneg N)
  have h2 : 0 ≤ (S * S) * M.pow pt (m + 1) := mul_nonneg (mul_self_nonneg S) (hpow pt _ hpt)
  have h3 : 0 ≤ (C * C) * pt * pt := by
    rw [mul_assoc]
    exact mul_nonneg (mul_self_nonneg C) (mul_self_nonneg pt)
  linarith

theorem getErrPt_InvPerr2_nonneg (M : Libm) (hpow : ∀ x y : ℚ, 0 ≤ x → 0 ≤ M.pow x y)
    (pt eta : ℚ) (hpt : 0 ≤ pt) (heta : |eta| < 5 / 2 ∨ 3 ≤ |eta|) :
    0 ≤ getErrPt_InvPerr2 M pt eta := by
  unfold getErrPt_InvPerr2
  by_cases hbin : 5 / 2 ≤ |eta| ∧ |eta| < 3
  · exfalso
    rcases heta with h | h <;> linarith [hbin.1, hbin.2]
  · apply resolution_radicand_nonneg M hpow pt hpt
    unfold getErrPt_parameters
    split_ifs with h1 h2 h3 h4 h5 h6 h7
    all_goals first
      | (exfalso; exact hbin ⟨by linarith, by linarith⟩)
      | norm_num

theorem getErrPt_InvPerr2_forward (M : Libm) (pt eta : ℚ) (h1 : 5 / 2 ≤ |eta|) (h2 : |eta| < 3) :
    getErrPt_InvPerr2 M pt eta =
      (73360 / 100000) ^ 2 * M.pow pt (108264 / 100000) - (333814 / 100000) ^ 2 := by
  unfold getErrPt_InvPerr2 getErrPt_parameters
  rw [if_neg (by linarith), if_neg (by linarith), if_neg (by linarith), if_neg (by linarith),
    if_neg (by linarith), if_pos h2]
  simp only []
  rw [abs_of_neg (by norm_num)]
  norm_num
  ring

theorem axisMath_pow_nonneg (x y : ℚ) (hx : 0 ≤ x) : 0 ≤ axisMath.pow x y := by
  show 0 ≤ x ^ (Rat.floor y).toNat
  exact pow_nonneg hx _

theorem axisMath_pow_forward (x : ℚ) : axisMath.pow x (108264 / 100000) = x := by
  show x ^ (Rat.floor (108264 / 100000)).toNat = x
  have : Rat.floor (108264 / 100000) = 1 := by
    rw [Rat.floor_def']
    norm_num
  rw [this]
  simp

/-- C37, as amended. The function `getErrPt` returns the square root of
`InvPerr2 = N*|N| + S^2 * pt^(m+1) + C^2 * pt^2`. For a `pow` that is
non-negative on a non-negative base and for `pt >= 0`, `InvPerr2` is
non-negative for every eta with `|eta| < 2.5` or `|eta| >= 3`; for
`2.5 <= |eta| < 3`, where `N = -3.33814`, it is non-negative exactly when
`0.7336^2 * pt^1.08264 >= 3.33814^2`. -/
theorem C37_radicand_nonneg_outside_forward_bin (M : Libm)
    (hpow : ∀ x y : ℚ, 0 ≤ x → 0 ≤ M.pow x y) (pt eta : ℚ) (hpt : 0 ≤ pt) :
    getErrPt M pt eta = M.sqrt (getErrPt_InvPerr2 M pt eta) ∧
    (|eta| < 5 / 2 ∨ 3 ≤ |eta| → 0 ≤ getErrPt_InvPerr2 M pt eta) ∧
    (5 / 2 ≤ |eta| ∧ |eta| < 3 →
      (0 ≤ getErrPt_InvPerr2 M pt eta ↔
        (333814 / 100000) ^ 2 ≤ (73360 / 100000) ^ 2 * M.pow pt (108264 / 100000))) := by
  refine ⟨rfl, getErrPt_InvPerr2_nonneg M hpow pt eta hpt, ?_⟩
  rintro ⟨h1, h2⟩
  rw [getErrPt_InvPerr2_forward M pt eta h1 h2]
  constructor <;> intro h <;> linarith

/-- C37, witness: with `axisMath`, `InvPerr2` is non-negative for a jet of pt
50 at eta 0.25 and, in the bin `2.5 <= |eta| < 3`, for a jet of pt 100 at eta
2.7. -/
theorem C37_radicand_nonneg_outside_forward_bin_witness :
    (∀ x y : ℚ, 0 ≤ x → 0 ≤ axisMath.pow x y) ∧ (0 : ℚ) ≤ 50 ∧
    0 ≤ getErrPt_InvPerr2 axisMath 50 (1 / 4) ∧
    0 ≤ getErrPt_InvPerr2 axisMath 100 (27 / 10) := by
  refine ⟨axisMath_pow_nonneg, by norm_num, ?_, ?_⟩
  · exact (C37_radicand_nonneg_outside_forward_bin axisMath axisMath_pow_nonneg 50 (1 / 4)
      (by norm_num)).2.1 (Or.inl (by norm_num [abs_of_pos]))
  · refine ((C37_radicand_nonneg_outside_forward_bin axisMath axisMath_pow_nonneg 100 (27 / 10)
      (by norm_num)).2.2 ⟨by norm_num [abs_of_pos], by norm_num [abs_of_pos]⟩).mpr ?_
    rw [axisMath_pow_forward]
    norm_num

/-- C37, counterexample: for a jet of pt 1 at eta 2.7 the parameters are
`N = -3.33814`, `S = 0.7336`, `C = 0`, `m = 0.08264`; with `pow(1, 1.08264) = 1`
the quantity under the square root is `0.7336^2 - 3.33814^2`, about -10.6. It
is negative at pt 0 as well. -/
theorem C37_radicand_negative_at_low_pt :
    (0 : ℚ) ≤ 1 ∧ axisMath.pow 1 (108264 / 100000) = 1 ∧
    getErrPt_InvPerr2 axisMath 1 (27 / 10) = -(26512524249 / 2500000000) ∧
    ¬ 0 ≤ getErrPt_InvPerr2 axisMath 1 (27 / 10) ∧
    ¬ 0 ≤ getErrPt_InvPerr2 axisMath 0 (27 / 10) := by
  have h1 : getErrPt_InvPerr2 axisMath 1 (27 / 10) = -(26512524249 / 2500000000) := by
    rw [getErrPt_InvPerr2_forward axisMath 1 (27 / 10) (by norm_num [abs_of_pos])
      (by norm_num [abs_of_pos]), axisMath_pow_forward]
    norm_num
  have h0 : getErrPt_InvPerr2 axisMath 0 (27 / 10) = -(27857946649 / 2500000000) := by
    rw [getErrPt_InvPerr2_forward axisMath 0 (27 / 10) (by norm_num [abs_of_pos])
      (by norm_num [abs_of_pos]), axisMath_pow_forward]
    norm_num
  refine ⟨by norm_num, axisMath_pow_forward 1, h1, ?_, ?_⟩
  · rw [h1]
    norm_num
  · rw [h0]
    norm_num

/-! ## The event-based smearing and the incoming jets -/

section smearIndependence

variable {V G : Type} (K : LorentzOps V) (T : TransverseOps V) (M : Libm) (R : TRandom3 G)

/-- C38. Two calls of the event-based `smearJETScaleJetsMetHt` that differ in
the incoming `vjets_p4` only end in the same way, with the same `vjets_p4`,
`met`, `met_phi` and `ht`. The call faults exactly as `samesign::getJets` at a
minimum pt of 15 and a maximum eta of 2.4 does; when that call returns the jets
`js`, the outputs are those of smearing `js`: `vjets_p4` holds the smeared jets
with `pt > min_pt` and `|eta| < max_eta` for the caller's `min_pt` and
`max_eta`, `ht` is the sum of their pt, and `met`, `met_phi` are the length and
azimuth of the recoil of `js` and all its smeared jets. For a generator whose
state after `SetSeed` is set by the seed alone, the four outputs are also the
same whatever state the two calls find the static generator in. -/
theorem C38_event_smear_ignores_incoming_jets (ev : Event V) (X : Collab V)
    (met met_phi ht : ℚ) (idx : Int) (type : JetType) (seed : Nat)
    (deltaR min_pt max_eta mu_minpt ele_minpt : ℚ) (g : G) :
    (∀ vjets vjets' : List V,
      samesign.smearJETScaleJetsMetHt_event K T M R ev X vjets met met_phi ht idx type seed
          deltaR min_pt max_eta mu_minpt ele_minpt g =
        samesign.smearJETScaleJetsMetHt_event K T M R ev X vjets' met met_phi ht idx type seed
          deltaR min_pt max_eta mu_minpt ele_minpt g) ∧
    (∀ (vjets js : List V),
      samesign.getJets K ev X idx type deltaR 15 (24 / 10) mu_minpt ele_minpt X.default_rescale
          X.default_systFlag X.default_sort_by_pt = .ok js →
      ∃ out, samesign.smearJETScaleJetsMetHt_event K T M R ev X vjets met met_phi ht idx type
          seed deltaR min_pt max_eta mu_minpt ele_minpt g = .ok out ∧
        out.vjets_p4 = (smearedJets K M R seed 0 js g).filter
          (fun j => decide (K.pt j > min_pt) && decide (|K.eta j| < max_eta)) ∧
        out.ht = (out.vjets_p4.map K.pt).sum ∧
        out.met = (recoilAfterSmearing T (XYVector.ofPolar M met met_phi) js
          (smearedJets K M R seed 0 js g)).r M ∧
        out.met_phi = (recoilAfterSmearing T (XYVector.ofPolar M met met_phi) js
          (smearedJets K M R seed 0 js g)).phi M) ∧
    (∀ (vjets : List V) (e : Fault),
      samesign.getJets K ev X idx type deltaR 15 (24 / 10) mu_minpt ele_minpt X.default_rescale
          X.default_systFlag X.default_sort_by_pt = .error e →
      samesign.smearJETScaleJetsMetHt_event K T M R ev X vjets met met_phi ht idx type seed
          deltaR min_pt max_eta mu_minpt ele_minpt g = .error e) ∧
    ((∀ (g1 g2 : G) (s : Nat), R.SetSeed g1 s = R.SetSeed g2 s) →
      ∀ (vjets vjets' : List V) (g' : G) (out out' : Smeared V G),
        samesign.smearJETScaleJetsMetHt_event K T M R ev X vjets met met_phi ht idx type seed
          deltaR min_pt max_eta mu_minpt ele_minpt g = .ok out →
        samesign.smearJETScaleJetsMetHt_event K T M R ev X vjets' met met_phi ht idx type seed
          deltaR min_pt max_eta mu_minpt ele_minpt g' = .ok out' →
        out.vjets_p4 = out'.vjets_p4 ∧ out.met = out'.met ∧ out.met_phi = out'.met_phi ∧
          out.ht = out'.ht) := by
  have key : ∀ (vjets js : List V) (g0 : G),
      samesign.getJets K ev X idx type deltaR 15 (24 / 10) mu_minpt ele_minpt X.default_rescale
          X.default_systFlag X.default_sort_by_pt = .ok js →
      ∃ out, samesign.smearJETScaleJetsMetHt_event K T M R ev X vjets met met_phi ht idx type
          seed deltaR min_pt max_eta mu_minpt ele_minpt g0 = .ok out ∧
        out.vjets_p4 = (smearedJets K M R seed 0 js g0).filter
          (fun j => decide (K.pt j > min_pt) && decide (|K.eta j| < max_eta)) ∧
        out.ht = (out.vjets_p4.map K.pt).sum ∧
        out.met = (recoilAfterSmearing T (XYVector.ofPolar M met met_phi) js
          (smearedJets K M R seed 0 js g0)).r M ∧
        out.met_phi = (recoilAfterSmearing T (XYVector.ofPolar M met met_phi) js
          (smearedJets K M R seed 0 js g0)).phi M := by
    intro vjets js g0 h
    unfold samesign.smearJETScaleJetsMetHt_event
    rw [h]
    obtain ⟨h1, h2, h3, h4⟩ := smearMetHt_spec K T M R
      (fun new_jet_p4 =>
        !(decide (K.pt new_jet_p4 > min_pt) && decide (|K.eta new_jet_p4| < max_eta)))
      js met met_phi seed g0
    refine ⟨_, rfl, ?_, h2, h3, h4⟩
    rw [h1]
    congr 1
    funext j
    simp
  refine ⟨fun _ _ => rfl, fun vjets js => key vjets js g, ?_, ?_⟩
  · intro vjets e h
    unfold samesign.smearJETScaleJetsMetHt_event
    rw [h]
    rfl
  · intro hR vjets vjets' g' out out' h h'
    cases hj : samesign.getJets K ev X idx type deltaR 15 (24 / 10) mu_minpt ele_minpt
        X.default_rescale X.default_systFlag X.default_sort_by_pt with
    | error e =>
      unfold samesign.smearJETScaleJetsMetHt_event at h
      rw [hj] at h
      cases h
    | ok js =>
      obtain ⟨o, ho, h1, h2, h3, h4⟩ := key vjets js g hj
      obtain ⟨o', ho', h1', h2', h3', h4'⟩ := key vjets' js g' hj
      rw [h] at ho
      rw [h'] at ho'
      simp only [Except.ok.injEq] at ho ho'
      subst ho
      subst ho'
      have hs : smearedJets K M R seed 0 js g' = smearedJets K M R seed 0 js g := by
        rw [smearedJets_eq K M R hR seed g js 0 g', smearedJets_eq K M R hR seed g js 0 g]
      rw [hs] at h1' h3' h4'
      refine ⟨by rw [h1, h1'], by rw [h3, h3'], by rw [h4, h4'], ?_⟩
      rw [h2, h2', h1, h1']

end smearIndependence

/-- C38, witness: on `smearEvent` with the seed 7, a minimum pt of 30 and a
maximum eta of 2, `samesign::getJets` at 15 and 2.4 returns the jets of pt 50
and 60; the call that is handed a jet of pt 999 leaves the jet smeared to pt
72, as the call that is handed no jet does. -/
theorem C38_event_smear_ignores_incoming_jets_witness :
    samesign.getJets P4.ops smearEvent (plainCollab P4.ops smearEvent) 0 .JETS_TYPE_PF_CORR
      (2 / 5) 15 (24 / 10) 20 20 (plainCollab P4.ops smearEvent).default_rescale
      (plainCollab P4.ops smearEvent).default_systFlag
      (plainCollab P4.ops smearEvent).default_sort_by_pt = .ok [⟨50, 11 / 5, 0⟩, ⟨60, 0, 1⟩] ∧
    ∃ out, samesign.smearJETScaleJetsMetHt_event P4.ops (P4.transverse axisMath) axisMath
        seedGenerator smearEvent (plainCollab P4.ops smearEvent) [⟨999, 0, 0⟩] 10 0 0 0
        .JETS_TYPE_PF_CORR 7 (2 / 5) 30 2 20 20 0 = .ok out ∧
      out.vjets_p4 = [⟨72, 0, 1⟩] := by
  have hj : samesign.getJets P4.ops smearEvent (plainCollab P4.ops smearEvent) 0
      .JETS_TYPE_PF_CORR (2 / 5) 15 (24 / 10) 20 20 (plainCollab P4.ops smearEvent).default_rescale
      (plainCollab P4.ops smearEvent).default_systFlag
      (plainCollab P4.ops smearEvent).default_sort_by_pt = .ok [⟨50, 11 / 5, 0⟩, ⟨60, 0, 1⟩] :=
    smearEvent_getJets
  obtain ⟨out, h1, h2, _⟩ := (C38_event_smear_ignores_incoming_jets P4.ops
    (P4.transverse axisMath) axisMath seedGenerator smearEvent (plainCollab P4.ops smearEvent)
    10 0 0 0 .JETS_TYPE_PF_CORR 7 (2 / 5) 30 2 20 20 0).2.1 [⟨999, 0, 0⟩] _ hj
  refine ⟨hj, out, h1, ?_⟩
  rw [h2, smearEvent_smeared]
  simp only [List.filter, P4.ops, P4.etaOf]
  norm_num [abs_of_pos]

/-! ## The hypothesis leptons of the vetoes -/

theorem hypLeptons_length (lt_id ll_id : Int) (lt_idx ll_idx : Nat) :
    (samesign.hypElectrons lt_id ll_id lt_idx ll_idx).length +
      (samesign.hypMuons lt_id ll_id lt_idx ll_idx).length = 2 := by
  unfold samesign.hypElectrons samesign.hypMuons
  by_cases h1 : lt_id.natAbs = 11 <;> by_cases h2 : ll_id.natAbs = 11 <;> simp [h1, h2]

/-- C39. The two conditional `push_back` calls on the hypothesis leptons leave
an electron index list and a muon index list whose sizes sum to 2, whatever the
ids and indices are. So for a hypothesis index at which the four hypothesis
branches can be read, `samesign::makesExtraZ`, `samesign::makesExtraGammaStar`
and `samesign2011::makesExtraZ` go on to their lepton loops and
`samesign::additionalLeptons` to its selection loops: none takes the branch
"don't have 2 leptons in hypothesis". -/
theorem C39_hypothesis_leptons_split_in_two {V : Type} (K : LorentzOps V) (ev : Event V)
    (L : LeptonCollab) (idx lt_id ll_id lt_index ll_index : Int)
    (h1 : vatInt ev.hyp_lt_id idx = .ok lt_id) (h2 : vatInt ev.hyp_ll_id idx = .ok ll_id)
    (h3 : vatInt ev.hyp_lt_index idx = .ok lt_index)
    (h4 : vatInt ev.hyp_ll_index idx = .ok ll_index) :
    (∀ (a b : Int) (i j : Nat),
      (samesign.hypElectrons a b i j).length + (samesign.hypMuons a b i j).length = 2) ∧
    (∀ (A : MassOps V) (M : Libm) (W : VetoCollab) (apply_id_iso : Bool),
      samesign.makesExtraZ K A M ev L W idx apply_id_iso =
        samesign.makesExtraZ_loops K A M ev L W apply_id_iso
          (samesign.hypElectrons lt_id ll_id (toUnsigned lt_index) (toUnsigned ll_index))
          (samesign.hypMuons lt_id ll_id (toUnsigned lt_index) (toUnsigned ll_index))) ∧
    (∀ (A : MassOps V) (M : Libm) (W : VetoCollab) (apply_id_iso : Bool),
      samesign.makesExtraGammaStar K A M ev L W idx apply_id_iso =
        samesign.makesExtraGammaStar_loops K A M ev L W apply_id_iso
          (samesign.hypElectrons lt_id ll_id (toUnsigned lt_index) (toUnsigned ll_index))
          (samesign.hypMuons lt_id ll_id (toUnsigned lt_index) (toUnsigned ll_index))) ∧
    (∀ (A : MassOps V) (M : Libm) (W : VetoCollab) (iso_type : IsolationType)
        (apply_id_iso : Bool),
      samesign2011.makesExtraZ K A M ev W idx iso_type apply_id_iso =
        samesign2011.makesExtraZ_loops K A M ev W iso_type apply_id_iso
          (samesign.hypElectrons lt_id ll_id (toUnsigned lt_index) (toUnsigned ll_index))
          (samesign.hypMuons lt_id ll_id (toUnsigned lt_index) (toUnsigned ll_index))) ∧
    (∀ min_lep_pt : ℚ,
      samesign.additionalLeptons K ev L idx min_lep_pt =
        samesign.selectedLeptons K ev L min_lep_pt
          (samesign.hypElectrons lt_id ll_id (toUnsigned lt_index) (toUnsigned ll_index))
          (samesign.hypMuons lt_id ll_id (toUnsigned lt_index) (toUnsigned ll_index))) := by
  have hlen := hypLeptons_length lt_id ll_id (toUnsigned lt_index) (toUnsigned ll_index)
  refine ⟨hypLeptons_length, ?_, ?_, ?_, ?_⟩
  · intro A M W apply_id_iso
    unfold samesign.makesExtraZ
    rw [h1, h2, h3, h4]
    simp only [bind_ok]
    rw [if_neg (not_not.mpr hlen)]
  · intro A M W apply_id_iso
    unfold samesign.makesExtraGammaStar
    rw [h1, h2, h3, h4]
    simp only [bind_ok]
    rw [if_neg (not_not.mpr hlen)]
  · intro A M W iso_type apply_id_iso
    unfold samesign2011.makesExtraZ
    rw [h1, h2, h3, h4]
    simp only [bind_ok]
    rw [if_neg (not_not.mpr hlen)]
  · intro min_lep_pt
    unfold samesign.additionalLeptons
    rw [h1, h2, h3, h4]
    simp only [bind_ok]
    rw [if_neg (not_not.mpr hlen)]

/-- C39, witness: on `trileptonEvent` the hypothesis 0 is electron 0 with muon
0; the index lists are `[0]` and `[0]`, and `samesign::additionalLeptons` runs
its selection loops on them. -/
theorem C39_hypothesis_leptons_split_in_two_witness :
    vatInt trileptonEvent.hyp_lt_id 0 = .ok 11 ∧ vatInt trileptonEvent.hyp_ll_id 0 = .ok (-13) ∧
    vatInt trileptonEvent.hyp_lt_index 0 = .ok 0 ∧ vatInt trileptonEvent.hyp_ll_index 0 = .ok 0 ∧
    samesign.hypElectrons 11 (-13) (toUnsigned 0) (toUnsigned 0) = [0] ∧
    samesign.hypMuons 11 (-13) (toUnsigned 0) (toUnsigned 0) = [0] ∧
    samesign.additionalLeptons P4.ops trileptonEvent looseLeptons 0 20 =
      samesign.selectedLeptons P4.ops trileptonEvent looseLeptons 20 [0] [0] := by
  have e1 : samesign.hypElectrons 11 (-13) (toUnsigned 0) (toUnsigned 0) = [0] := by decide
  have e2 : samesign.hypMuons 11 (-13) (toUnsigned 0) (toUnsigned 0) = [0] := by decide
  have h := (C39_hypothesis_leptons_split_in_two P4.ops trileptonEvent looseLeptons 0 11 (-13) 0 0
    (by rfl) (by rfl) (by rfl) (by rfl)).2.2.2.2 20
  rw [e1, e2] at h
  exact ⟨by rfl, by rfl, by rfl, by rfl, e1, e2, h⟩

/-! ## The fake-rate denominators and the ECAL-driven bit -/

theorem logicalNot_succ_and (word k : Nat) : logicalNot (word + 1) &&& (1 <<< k) = 0 := by
  simp [logicalNot]

theorem logicalNot_and_succ (word k : Nat) : logicalNot word &&& (1 <<< (k + 1)) = 0 := by
  unfold logicalNot
  split_ifs
  · rw [Nat.shiftLeft_eq, Nat.one_mul, Nat.and_comm]
    exact Nat.and_one_is_mod _ ▸ by simp [Nat.pow_succ, Nat.mul_mod_left]
  · simp

theorem typedElectron_kinematics (type k : Nat) (h : logicalNot type &&& (1 <<< k) = 0) :
    isFakeDenominatorElectron_v1 P4.ops (typedElectron type) (lenientDenominator k) 0 = .ok true ∧
    isFakeDenominatorElectron_v2 P4.ops (typedElectron type) (lenientDenominator k) 0 = .ok true ∧
    isFakeDenominatorElectron_v3 P4.ops (typedElectron type) (lenientDenominator k) 0 = .ok true := by
  have ht : vidxInt (typedElectron type).els_type 0 = .ok type := rfl
  have hp : vidxInt (typedElectron type).els_p4 0 = .ok (⟨30, 1, 0⟩ : P4) := rfl
  have he : ¬ |P4.ops.eta (⟨30, 1, 0⟩ : P4)| > 25 / 10 := by
    simp only [P4.ops, P4.etaOf]
    norm_num [abs_of_pos]
  have hk : (lenientDenominator k).ISECALDRIVEN = k := rfl
  refine ⟨?_, ?_, ?_⟩
  · unfold isFakeDenominatorElectron_v1
    rw [ht, bind_ok, hk, if_neg (not_not.mpr h), hp, bind_ok, if_neg he]
    simp only [lenientDenominator, Bool.not_true, Bool.false_eq_true, if_false]
    norm_num
  · unfold isFakeDenominatorElectron_v2
    rw [ht, bind_ok, hk, if_neg (not_not.mpr h), hp, bind_ok, if_neg he]
    simp only [lenientDenominator, Bool.not_true, Bool.false_eq_true, if_false]
    norm_num
  · unfold isFakeDenominatorElectron_v3
    rw [ht, bind_ok, hk, if_neg (not_not.mpr h), hp, bind_ok, if_neg he]
    simp only [lenientDenominator, Bool.not_true, Bool.false_eq_true, if_false]
    norm_num

/-- C40, at the failing input: with the ECAL-driven bit at position 2, an
electron whose type word is 8 (bit 2 not set) and that passes the other cuts is
accepted by `isFakeDenominatorElectron_v1`, `_v2` and `_v3`, like the electron
whose type word is 12 (bit 2 set). The first test of the three functions is
`!type & (1 << ISECALDRIVEN)`, which is 0 for every non-zero type word and for
every bit position but 0. -/
theorem C40_electron_without_the_bit_is_accepted :
    Nat.testBit 8 2 = false ∧
    isFakeDenominatorElectron_v1 P4.ops (typedElectron 8) (lenientDenominator 2) 0 = .ok true ∧
    isFakeDenominatorElectron_v2 P4.ops (typedElectron 8) (lenientDenominator 2) 0 = .ok true ∧
    isFakeDenominatorElectron_v3 P4.ops (typedElectron 8) (lenientDenominator 2) 0 = .ok true ∧
    Nat.testBit 12 2 = true ∧
    isFakeDenominatorElectron_v1 P4.ops (typedElectron 12) (lenientDenominator 2) 0 = .ok true ∧
    (∀ word k : Nat, logicalNot (word + 1) &&& (1 <<< k) = 0) ∧
    (∀ word k : Nat, logicalNot word &&& (1 <<< (k + 1)) = 0) := by
  obtain ⟨h1, h2, h3⟩ := typedElectron_kinematics 8 2 (logicalNot_succ_and 7 2)
  exact ⟨by decide, h1, h2, h3, by decide,
    (typedElectron_kinematics 12 2 (logicalNot_succ_and 11 2)).1, logicalNot_succ_and,
    logicalNot_and_succ⟩

/-! ## Smearing: the seed 0 and momenta that are not finite -/

theorem smearedIsNaN_eq_false {V : Type} (K : LorentzOps V) (M : Libm)
    (hpow : ∀ x y : ℚ, 0 ≤ x → 0 ≤ M.pow x y) (v : V) (hpt : 0 < K.pt v)
    (heta : |K.eta v| < 5 / 2 ∨ 3 ≤ |K.eta v|) : smearedIsNaN K M v = false := by
  unfold smearedIsNaN
  rw [Bool.or_eq_false_iff, decide_eq_false_iff_not, decide_eq_false_iff_not]
  exact ⟨ne_of_gt hpt, not_lt.mpr (getErrPt_InvPerr2_nonneg M hpow _ _ (le_of_lt hpt) heta)⟩

theorem uuidGenerator_reseeds (g g' s : Nat) (hs : s % 2 ^ 32 ≠ 0) :
    uuidGenerator.SetSeed g s = uuidGenerator.SetSeed g' s := by
  show (if s % 2 ^ 32 = 0 then g + 1 else s % 2 ^ 32) =
    (if s % 2 ^ 32 = 0 then g' + 1 else s % 2 ^ 32)
  rw [if_neg hs, if_neg hs]

theorem uuidGenerator_smearJet (M : Libm) (seed g k : Nat) (v : P4)
    (hs : seed * (k + 1) % 2 ^ 64 % 2 ^ 32 ≠ 0) :
    smearJet P4.ops M uuidGenerator seed g k v =
      (⟨v.pt * (1 + (((seed * (k + 1) % 2 ^ 64 % 2 ^ 32 % 5 : Nat) : ℚ) - 2) / 10), v.eta, v.phi⟩,
        seed * (k + 1) % 2 ^ 64 % 2 ^ 32 + 1) := by
  have h : uuidGenerator.SetSeed g (seed * (k + 1) % 2 ^ 64) =
      seed * (k + 1) % 2 ^ 64 % 2 ^ 32 := if_neg hs
  unfold smearJet
  simp only [h]
  rfl

theorem uuidGenerator_smearJet_zero (M : Libm) (g k : Nat) (v : P4) :
    smearJet P4.ops M uuidGenerator 0 g k v =
      (⟨v.pt * (1 + ((((g + 1) % 5 : Nat) : ℚ) - 2) / 10), v.eta, v.phi⟩, g + 1 + 1) := by
  have h : uuidGenerator.SetSeed g (0 * (k + 1) % 2 ^ 64) = g + 1 := by
    rw [Nat.zero_mul]
    rfl
  unfold smearJet
  simp only [h]
  rfl

/-- C21, witness: with `uuidGenerator`, which seeds itself on the seed 0, and
the seed 7, the jet of pt 60 at index 1 is perturbed to pt 72 in a collection
of two jets smeared from the generator state 0 and in a collection of three
jets smeared from the state 5. -/
theorem C21_smearing_is_seeded_per_jet_witness :
    (smearedJets P4.ops axisMath uuidGenerator 7 0 [⟨50, 11 / 5, 0⟩, ⟨60, 0, 1⟩] 0)[1]? =
        some (perturbedJet P4.ops axisMath uuidGenerator 0 7 1 ⟨60, 0, 1⟩) ∧
    (smearedJets P4.ops axisMath uuidGenerator 7 0 [⟨20, 1, 0⟩, ⟨60, 0, 1⟩, ⟨90, 1, 2⟩] 5)[1]? =
        some (perturbedJet P4.ops axisMath uuidGenerator 0 7 1 ⟨60, 0, 1⟩) ∧
    perturbedJet P4.ops axisMath uuidGenerator 0 7 1 ⟨60, 0, 1⟩ = ⟨72, 0, 1⟩ := by
  obtain ⟨h1, h2⟩ := (C21_smearing_is_seeded_per_jet P4.ops axisMath uuidGenerator
    uuidGenerator_reseeds 7 0).2.2.2.2 [⟨50, 11 / 5, 0⟩, ⟨60, 0, 1⟩]
    [⟨20, 1, 0⟩, ⟨60, 0, 1⟩, ⟨90, 1, 2⟩] 0 5 1 ⟨60, 0, 1⟩ rfl rfl (by decide)
  refine ⟨h1, h2, ?_⟩
  have h3 := (C21_smearing_is_seeded_per_jet P4.ops axisMath uuidGenerator
    uuidGenerator_reseeds 7 0).1 0 1 ⟨60, 0, 1⟩ (by decide)
  have h4 : perturbedJet P4.ops axisMath uuidGenerator 0 7 1 ⟨60, 0, 1⟩ =
      (smearJet P4.ops axisMath uuidGenerator 7 0 1 ⟨60, 0, 1⟩).1 := h3.symm
  rw [h4, uuidGenerator_smearJet _ _ _ _ _ (by decide)]
  norm_num

/-- C21, counterexample: with the seed 0 every turn re-seeds with 0, on which
`uuidGenerator`, like `TRandom3`, seeds itself. The same jet at index 0 of the
same collection is perturbed to pt 54 by a call that finds the generator in
the state 0 and to pt 66 by the next call, which finds it in the state 2 that
the first one left: the perturbed momentum is not a function of the seed, the
index and the momentum of the jet. -/
theorem C21_seed_zero_is_not_reproducible :
    samesign.smearJETScaleJets P4.ops axisMath uuidGenerator [⟨60, 0, 1⟩] 0 0 0 =
      ([some ⟨54, 0, 1⟩], 2) ∧
    samesign.smearJETScaleJets P4.ops axisMath uuidGenerator [⟨60, 0, 1⟩] 0 0 2 =
      ([some ⟨66, 0, 1⟩], 4) ∧
    (smearJet P4.ops axisMath uuidGenerator 0 0 0 ⟨60, 0, 1⟩).1 ≠
      (smearJet P4.ops axisMath uuidGenerator 0 2 0 ⟨60, 0, 1⟩).1 := by
  have hn : smearedIsNaN P4.ops axisMath ⟨60, 0, 1⟩ = false :=
    smearedIsNaN_eq_false P4.ops axisMath axisMath_pow_nonneg _
      (by norm_num [P4.ops]) (Or.inl (by norm_num [P4.ops, P4.etaOf]))
  have hj : ∀ g : Nat, smearJetOrNaN P4.ops axisMath uuidGenerator 0 g 0 ⟨60, 0, 1⟩ =
      (some ⟨60 * (1 + ((((g + 1) % 5 : Nat) : ℚ) - 2) / 10), 0, 1⟩, g + 1 + 1) := by
    intro g
    unfold smearJetOrNaN
    rw [hn, uuidGenerator_smearJet_zero]
    rfl
  have hpt : ∀ x : ℚ, 0 ≤ x → ptBelow P4.ops (some (⟨x, 0, 1⟩ : P4)) 0 = false := by
    intro x hx
    simp [ptBelow, P4.ops]
  refine ⟨?_, ?_, ?_⟩
  · simp only [samesign.smearJETScaleJets, samesign.smearJETScaleJets_loop, hj]
    rw [hpt _ (by norm_num)]
    norm_num
  · simp only [samesign.smearJETScaleJets, samesign.smearJETScaleJets_loop, hj]
    rw [hpt _ (by norm_num)]
    norm_num
  · rw [uuidGenerator_smearJet_zero, uuidGenerator_smearJet_zero]
    norm_num

theorem smearEvent_smearedOrNaN (g : Nat) :
    smearedOrNaN P4.ops axisMath seedGenerator 7 0
      [⟨50, 11 / 5, 0⟩, ⟨60, 0, 1⟩, ⟨10, 27 / 10, 0⟩] g =
      [some ⟨50, 11 / 5, 0⟩, some ⟨72, 0, 1⟩, none] := by
  have h1 : smearedIsNaN P4.ops axisMath ⟨50, 11 / 5, 0⟩ = false :=
    smearedIsNaN_eq_false P4.ops axisMath axisMath_pow_nonneg _
      (by norm_num [P4.ops]) (Or.inl (by norm_num [P4.ops, P4.etaOf, abs_of_pos]))
  have h2 : smearedIsNaN P4.ops axisMath ⟨60, 0, 1⟩ = false :=
    smearedIsNaN_eq_false P4.ops axisMath axisMath_pow_nonneg _
      (by norm_num [P4.ops]) (Or.inl (by norm_num [P4.ops, P4.etaOf]))
  have h3 : smearedIsNaN P4.ops axisMath ⟨10, 27 / 10, 0⟩ = true := by
    have hpt : P4.ops.pt ⟨10, 27 / 10, 0⟩ = 10 := by norm_num [P4.ops]
    have heta : P4.ops.eta ⟨10, 27 / 10, 0⟩ = 27 / 10 := by norm_num [P4.ops, P4.etaOf]
    unfold smearedIsNaN
    rw [hpt, heta, getErrPt_InvPerr2_forward axisMath 10 (27 / 10) (by norm_num [abs_of_pos])
      (by norm_num [abs_of_pos]), axisMath_pow_forward]
    norm_num
  simp only [smearedOrNaN, smearJetOrNaN, h1, h2, h3, seedGenerator_smearJet]
  norm_num

/-- C22, witness: `smearJETScaleJets` with the seed 7 and a minimum pt of 50 on
the jets of `smearEvent` and a third jet of pt 10 at eta 27/10. The first jet is
smeared to pt 50, exactly the minimum, and is kept; the third has a negative
`InvPerr2` in `getErrPt`, its smeared `pt()` is not a number, and it is kept. -/
theorem C22_smeared_jets_below_cut_are_dropped_witness :
    (samesign.smearJETScaleJets P4.ops axisMath seedGenerator
      [⟨50, 11 / 5, 0⟩, ⟨60, 0, 1⟩, ⟨10, 27 / 10, 0⟩] 7 50 0).1 =
      [some ⟨50, 11 / 5, 0⟩, some ⟨72, 0, 1⟩, none] := by
  rw [((C22_smeared_jets_below_cut_are_dropped P4.ops (P4.transverse axisMath) axisMath
    seedGenerator smearEvent (plainCollab P4.ops smearEvent)).1 _ _ _ _).1,
    smearEvent_smearedOrNaN]
  simp only [List.filter, ptBelow, P4.ops]
  norm_num [abs_of_pos]

end CORE
